import Mathlib

/-!
# Level Zero command-list execution engine

A shallow embedding of the command-list / command-queue protocol exercised by
`level_zero/core/test/unit_tests/sources/cmdlist/test_cmdlist_6.cpp`.

The implementation files of the command list, the command container and the
command-stream receiver are not part of the source tree at hand; only the unit
tests that drive them are.  Every definition that stands for such a missing
function carries a doc comment starting with `Modelled from the spec:` and is
written from the design document, cross-checked against the expectations of
the unit tests.

Conventions: the tri-state stream properties keep the sentinel `-1` for
"unset" (for the `size_t` properties `-1` stands for `static_cast<size_t>(-1)`);
command streams are lists of decoded hardware commands; heaps are linear
allocators described by their `used` offset.

The second part embeds the Linux power domain of Sysman,
`level_zero/sysman/source/api/power/linux/sysman_os_power_imp.cpp` and
`level_zero/tools/source/sysman/power/linux/os_power_imp_prelim.cpp`.  These
functions are translated statement by statement: a member function becomes a
function of the handle that returns the result code, the out-parameters and the
handle after the call; a null pointer is `none`; the fixed-width integers are
`Nat` and `Int` with the conversions `toUInt32`, `toUInt64` and `toInt32` and
an explicit reduction where a product could wrap.  The sysfs accessor and the
telemetry reader behind the handle are not part of the source tree and are
modelled as stores that count their accesses; the accessor answers each access
with the result scheduled for that access, the way the unit tests queue one
result per call.

The third part embeds functions of the kernel interface,
`shared/source/os_interface/linux/ioctl_helper_prelim.cpp`, and the stepping
functions of DG1, `shared/source/gen12lp/dg1/os_agnostic_hw_info_config_dg1.inl`.
An ioctl and the other calls that leave the source tree are parameters of the
function that makes them; a stop in `UNRECOVERABLE_IF` is the result `none`.
-/

namespace NEO

/-- Modelled from the spec: `SubmissionStatus`, the status a flush of the
command-stream receiver reports (`success`, `outOfHostMemory`, `outOfMemory`,
and `failed` for every other failure). -/
inductive SubmissionStatus
  | success
  | failed
  | outOfMemory
  | outOfHostMemory
  deriving DecidableEq, Repr

/-- Modelled from the spec: `EngineGroupType`, the engine-group affinity of a
command list. -/
inductive EngineGroupType
  | compute
  | renderCompute
  | copy
  deriving DecidableEq, Repr

/-- Modelled from the spec: `HeapAddressModel`, private per-list heaps or the
global-stateless heap owned by the command-stream receiver. -/
inductive HeapAddressModel
  | privateHeaps
  | globalStateless
  deriving DecidableEq, Repr

/-- Modelled from the spec: `StateBaseAddressProperties`, the tracked
state-base-address fields of `StreamProperties`.  Each value is `-1` when
unset. -/
structure StateBaseAddressProperties where
  surfaceStateBaseAddress : Int
  surfaceStateSize : Int
  dynamicStateBaseAddress : Int
  dynamicStateSize : Int
  indirectObjectBaseAddress : Int
  indirectObjectSize : Int
  bindingTablePoolBaseAddress : Int
  bindingTablePoolSize : Int
  globalAtomics : Int
  statelessMocs : Int
  deriving DecidableEq, Repr

/-- Modelled from the spec: the initial value of every stream property, the
unset sentinel. -/
def initValue : Int := -1

/-- Modelled from the spec: the state of a freshly created command-stream
receiver, every field unset (test `GivenImmediateCommandListWhenCommandListIsCreatedThenCsrStateIsNotSet`). -/
def StateBaseAddressProperties.initial : StateBaseAddressProperties :=
  { surfaceStateBaseAddress := initValue
    surfaceStateSize := initValue
    dynamicStateBaseAddress := initValue
    dynamicStateSize := initValue
    indirectObjectBaseAddress := initValue
    indirectObjectSize := initValue
    bindingTablePoolBaseAddress := initValue
    bindingTablePoolSize := initValue
    globalAtomics := initValue
    statelessMocs := initValue }

/-- Modelled from the spec: a tracked field needs programming when the required
value is set and differs from the value currently programmed.  An unset
required value is no requirement: the tests expect the receiver to keep the
dynamic-state and binding-table-pool values of an earlier list when a later
list leaves them unset. -/
def propertyDirty (current required : Int) : Bool :=
  decide (required ≠ initValue) && decide (required ≠ current)

/-- Modelled from the spec: the value tracked for a field after the delta has
been applied. -/
def propertySet (current required : Int) : Int :=
  if propertyDirty current required then required else current

/-- Modelled from the spec: the SBA reconciler's comparison, true when any
tracked field must be programmed. -/
def StateBaseAddressProperties.isDirty
    (current required : StateBaseAddressProperties) : Bool :=
  propertyDirty current.surfaceStateBaseAddress required.surfaceStateBaseAddress
    || propertyDirty current.surfaceStateSize required.surfaceStateSize
    || propertyDirty current.dynamicStateBaseAddress required.dynamicStateBaseAddress
    || propertyDirty current.dynamicStateSize required.dynamicStateSize
    || propertyDirty current.indirectObjectBaseAddress required.indirectObjectBaseAddress
    || propertyDirty current.indirectObjectSize required.indirectObjectSize
    || propertyDirty current.bindingTablePoolBaseAddress required.bindingTablePoolBaseAddress
    || propertyDirty current.bindingTablePoolSize required.bindingTablePoolSize
    || propertyDirty current.globalAtomics required.globalAtomics
    || propertyDirty current.statelessMocs required.statelessMocs

/-- Modelled from the spec: the state tracked by the receiver after the delta
of a submission has been applied field by field. -/
def StateBaseAddressProperties.apply
    (current required : StateBaseAddressProperties) : StateBaseAddressProperties :=
  { surfaceStateBaseAddress :=
      propertySet current.surfaceStateBaseAddress required.surfaceStateBaseAddress
    surfaceStateSize := propertySet current.surfaceStateSize required.surfaceStateSize
    dynamicStateBaseAddress :=
      propertySet current.dynamicStateBaseAddress required.dynamicStateBaseAddress
    dynamicStateSize := propertySet current.dynamicStateSize required.dynamicStateSize
    indirectObjectBaseAddress :=
      propertySet current.indirectObjectBaseAddress required.indirectObjectBaseAddress
    indirectObjectSize := propertySet current.indirectObjectSize required.indirectObjectSize
    bindingTablePoolBaseAddress :=
      propertySet current.bindingTablePoolBaseAddress required.bindingTablePoolBaseAddress
    bindingTablePoolSize :=
      propertySet current.bindingTablePoolSize required.bindingTablePoolSize
    globalAtomics := propertySet current.globalAtomics required.globalAtomics
    statelessMocs := propertySet current.statelessMocs required.statelessMocs }

/-- Modelled from the spec: the hardware commands the tests look for in a
parsed command buffer. -/
inductive GenCmd
  | stateBaseAddress (programmed : StateBaseAddressProperties)
  | pipeControl (dcFlushEnable : Bool)
  | walker
  | xyCopyBlt
  | batchBufferStart
  deriving DecidableEq, Repr

/-- Modelled from the spec: the number of STATE_BASE_ADDRESS commands in a
command buffer (the tests' `findAll<STATE_BASE_ADDRESS *>(...).size()`). -/
def countSba : List GenCmd → Nat
  | [] => 0
  | GenCmd.stateBaseAddress _ :: rest => countSba rest + 1
  | _ :: rest => countSba rest

/-- Modelled from the spec: the SBA reconciler.  It diffs the required state
against the state currently programmed and returns the state to track together
with the delta commands: one STATE_BASE_ADDRESS when a field is dirty, nothing
otherwise. -/
def reconcileStateBaseAddress (current required : StateBaseAddressProperties) :
    StateBaseAddressProperties × List GenCmd :=
  if current.isDirty required then
    (current.apply required, [GenCmd.stateBaseAddress (current.apply required)])
  else
    (current, [])

/-- Modelled from the spec: `IndirectHeap`, a linear allocator over a graphics
allocation, described by its GPU base address, its size in pages and the
offset used so far. -/
structure IndirectHeap where
  heapGpuBase : Int
  heapSizeInPages : Int
  used : Nat
  deriving DecidableEq, Repr

/-- Modelled from the spec: `alignUp`, the smallest multiple of `alignment`
that is not below `value`. -/
def alignUp (value alignment : Nat) : Nat :=
  (value + alignment - 1) / alignment * alignment

/-- Modelled from the spec: `IndirectHeap::getSpace`, the monotonic allocation
of `size` bytes. -/
def IndirectHeap.getSpace (heap : IndirectHeap) (size : Nat) : IndirectHeap :=
  { heap with used := heap.used + size }

/-- Modelled from the spec: the reservation a command list takes from a shared
heap of the receiver: the padding that aligns the current offset followed by
`size` bytes (the tests compute it as
`size + ptrDiff(alignUp(ptr, alignment), ptr)`). -/
def IndirectHeap.reserve (heap : IndirectHeap) (size alignment : Nat) : IndirectHeap :=
  heap.getSpace (size + (alignUp heap.used alignment - heap.used))

/-- Modelled from the spec: the command-stream receiver, the submission channel
shared by the command lists of one engine.  It tracks the state-base-address
properties that every submission is diffed against, owns the global-stateless
heap and the heaps shared by immediate command lists, and counts barriers and
prefetch requests. -/
structure CommandStreamReceiver where
  stateBaseAddress : StateBaseAddressProperties
  commandStream : List GenCmd
  flushReturnValue : SubmissionStatus
  barrierCount : Nat
  globalStatelessHeap : IndirectHeap
  dynamicStateHeap : IndirectHeap
  surfaceStateHeap : IndirectHeap
  prefetchCalledTimes : Nat
  chunkingPrefetch : Bool
  deriving DecidableEq, Repr

/-- Modelled from the spec: `ArgDescPointer`, the offsets of a pointer
argument; `none` stands for `undefined<T>`. -/
structure ArgDescPointer where
  bindful : Option Nat
  bindless : Option Nat
  deriving DecidableEq, Repr

/-- Modelled from the spec: `ArgDescriptor`, one explicit kernel argument. -/
inductive ArgDescriptor
  | argTUnknown
  | argTPointer (pointer : ArgDescPointer)
  | argTImage
  | argTSampler
  | argTValue
  deriving DecidableEq, Repr

/-- Modelled from the spec: `KernelDescriptor`, reduced to the explicit
arguments of `payloadMappings`. -/
structure KernelDescriptor where
  explicitArgs : List ArgDescriptor
  deriving DecidableEq, Repr

/-- Modelled from the spec: an explicit argument needs stateful access when it
is a pointer with a defined bindless or a defined bindful offset. -/
def ArgDescriptor.isStatefulAccess : ArgDescriptor → Bool
  | ArgDescriptor.argTPointer pointer => pointer.bindless.isSome || pointer.bindful.isSome
  | _ => false

/-- Modelled from the spec: a kernel requires bindful/stateful argument access
when one of its explicit arguments does. -/
def containsStatefulAccess (kernelDescriptor : KernelDescriptor) : Bool :=
  kernelDescriptor.explicitArgs.any ArgDescriptor.isStatefulAccess

/-- Modelled from the spec: the capability table resolved once per device:
whether a pipe control can flush the data cache, the heap alignments, and the
generation-specific per-dispatch heap estimates
(`EncodeDispatchKernel<Family>::getSizeRequiredDsh/Ssh`). -/
structure HardwareCapabilities where
  dcFlushSupported : Bool
  dshAlignment : Nat
  sshAlignment : Nat
  getSizeRequiredDsh : KernelDescriptor → Nat
  getSizeRequiredSsh : KernelDescriptor → Nat

/-- Modelled from the spec: the two debug-manager overrides the execute tests
toggle; they steer memory prefetch. -/
structure DebugFlags where
  ForceMemoryPrefetchForKmdMigratedSharedAllocations : Bool
  EnableBOChunkingPrefetch : Bool
  deriving DecidableEq, Repr

/-- Modelled from the spec: `InternalMemoryType` of a USM allocation, host or
device. -/
inductive InternalMemoryType
  | hostUnifiedMemory
  | deviceUnifiedMemory
  deriving DecidableEq, Repr

/-- Modelled from the spec: `SvmAllocationData`, one USM allocation known to
the driver. -/
structure SvmAllocationData where
  gpuAddress : Nat
  size : Nat
  memoryType : InternalMemoryType
  deriving DecidableEq, Repr

end NEO

namespace L0

/-- Modelled from the spec: `ze_result_t`, the status codes returned across
the API. -/
inductive ze_result_t
  | ZE_RESULT_SUCCESS
  | ZE_RESULT_ERROR_UNINITIALIZED
  | ZE_RESULT_ERROR_OUT_OF_HOST_MEMORY
  | ZE_RESULT_ERROR_OUT_OF_DEVICE_MEMORY
  | ZE_RESULT_ERROR_INSUFFICIENT_PERMISSIONS
  | ZE_RESULT_ERROR_NOT_AVAILABLE
  | ZE_RESULT_ERROR_UNSUPPORTED_FEATURE
  | ZE_RESULT_ERROR_INVALID_ARGUMENT
  | ZE_RESULT_ERROR_INVALID_NULL_POINTER
  | ZE_RESULT_ERROR_UNKNOWN
  deriving DecidableEq, Repr

/-- Modelled from the spec: `CommandList::CommandListType`. -/
inductive CommandListType
  | typeRegular
  | typeImmediate
  deriving DecidableEq, Repr

/-- Modelled from the spec: `CmdListKernelLaunchParams`, the per-dispatch flag
record. -/
structure CmdListKernelLaunchParams where
  isBuiltInKernel : Bool
  isDestinationAllocationInSystemMemory : Bool
  isKernelSplitOperation : Bool
  numKernelsInSplitLaunch : Nat
  numKernelsExecutedInSplitLaunch : Nat
  deriving DecidableEq, Repr

/-- Modelled from the spec: the value-initialised launch parameters
(`CmdListKernelLaunchParams launchParams = {}`). -/
def CmdListKernelLaunchParams.default : CmdListKernelLaunchParams :=
  { isBuiltInKernel := false
    isDestinationAllocationInSystemMemory := false
    isKernelSplitOperation := false
    numKernelsInSplitLaunch := 0
    numKernelsExecutedInSplitLaunch := 0 }

/-- Modelled from the spec: a kernel handle, reduced to its descriptor. -/
structure Kernel where
  kernelDescriptor : NEO.KernelDescriptor
  deriving DecidableEq, Repr

/-- Modelled from the spec: the host bit of `ze_event_scope_flags_t`
(`ZE_EVENT_SCOPE_FLAG_HOST`). -/
def ZE_EVENT_SCOPE_FLAG_HOST : Nat := 4

/-- Modelled from the spec: an event, reduced to the signal scope of its
descriptor. -/
structure Event where
  signalScope : Nat
  deriving DecidableEq, Repr

/-- Modelled from the spec: the event carries a host-visible signal scope. -/
def Event.isHostSignalScope (event : Event) : Bool :=
  decide (event.signalScope &&& ZE_EVENT_SCOPE_FLAG_HOST ≠ 0)

/-- Modelled from the spec: the command queue, with its own command stream for
the state deltas of regular lists, together with the call counter that
`MockCommandQueueIndirectAccess` adds to it in the unit tests. -/
structure CommandQueue where
  commandStream : List NEO.GenCmd
  handleIndirectAllocationResidencyCalledTimes : Nat
  deriving DecidableEq, Repr

/-- Modelled from the spec: the command list, with the command stream of its
container and the flags the tests observe. -/
structure CommandList where
  cmdListType : CommandListType
  engineGroupType : NEO.EngineGroupType
  cmdListHeapAddressModel : NEO.HeapAddressModel
  isFlushTaskSubmissionEnabled : Bool
  immediateCmdListHeapSharing : Bool
  commandStream : List NEO.GenCmd
  requiredStreamState : NEO.StateBaseAddressProperties
  usedKernelLaunchParams : CmdListKernelLaunchParams
  containsAnyKernel : Bool
  indirectAllocationsAllowed : Bool
  deriving DecidableEq, Repr

/-- Modelled from the spec: `CommandList::isCopyOnly`, the list targets the
copy engine group. -/
def CommandList.isCopyOnly (commandList : CommandList) : Bool :=
  decide (commandList.engineGroupType = NEO.EngineGroupType.copy)

/-- Modelled from the spec: the container binds to the heaps of the receiver
when flush-task submission and the heap-sharing flag are both enabled. -/
def CommandList.immediateCmdListSharedHeap (commandList : CommandList) : Bool :=
  commandList.isFlushTaskSubmissionEnabled && commandList.immediateCmdListHeapSharing

/-- Modelled from the spec: the objects one append or execute call of a
command list touches: the list itself, the command-stream receiver it submits
to and the command queue that owns the submission. -/
structure CmdListContext where
  commandList : CommandList
  csr : NEO.CommandStreamReceiver
  cmdQ : CommandQueue
  deriving DecidableEq, Repr

/-- The override `MockCommandQueueIndirectAccess::handleIndirectAllocationResidency`
of the unit tests: it counts its calls and does nothing else.  The counter is
the number of calls made; the mock keeps it in a `uint32_t`. -/
def CommandQueue.handleIndirectAllocationResidency (cmdQ : CommandQueue) : CommandQueue :=
  { cmdQ with
    handleIndirectAllocationResidencyCalledTimes :=
      cmdQ.handleIndirectAllocationResidencyCalledTimes + 1 }

/-- Modelled from the spec: the state-base-address fields a submission of the
list requires.  Under global-stateless addressing the surface state is pinned
to the global-stateless heap of the receiver; otherwise the required state of
the list is taken as recorded.  The binding-table pool is not pinned: the
tests expect the receiver to report it unset (`-1`) after a global-stateless
list has been executed on a fresh receiver. -/
def stateBaseAddressForSubmission (commandList : CommandList)
    (csr : NEO.CommandStreamReceiver) : NEO.StateBaseAddressProperties :=
  match commandList.cmdListHeapAddressModel with
  | NEO.HeapAddressModel.globalStateless =>
      { commandList.requiredStreamState with
        surfaceStateBaseAddress := csr.globalStatelessHeap.heapGpuBase
        surfaceStateSize := csr.globalStatelessHeap.heapSizeInPages }
  | NEO.HeapAddressModel.privateHeaps => commandList.requiredStreamState

/-- Modelled from the spec: the flush status of the receiver mapped to a
`ze_result_t`. -/
def flushStatusToResult : NEO.SubmissionStatus → ze_result_t
  | NEO.SubmissionStatus.success => ze_result_t.ZE_RESULT_SUCCESS
  | NEO.SubmissionStatus.outOfHostMemory => ze_result_t.ZE_RESULT_ERROR_OUT_OF_HOST_MEMORY
  | NEO.SubmissionStatus.outOfMemory => ze_result_t.ZE_RESULT_ERROR_OUT_OF_DEVICE_MEMORY
  | NEO.SubmissionStatus.failed => ze_result_t.ZE_RESULT_ERROR_UNKNOWN

/-- Modelled from the spec: the memory prefetch steered by the debug-manager
overrides; it touches the prefetch bookkeeping of the receiver only. -/
def prefetchKmdMigratedSharedAllocations (flags : NEO.DebugFlags)
    (csr : NEO.CommandStreamReceiver) : NEO.CommandStreamReceiver :=
  if flags.ForceMemoryPrefetchForKmdMigratedSharedAllocations then
    { csr with
      prefetchCalledTimes := csr.prefetchCalledTimes + 1
      chunkingPrefetch := flags.EnableBOChunkingPrefetch }
  else
    csr

/-- Modelled from the spec: the SBA delta of one list written ahead of its
batch-buffer start, with the receiver state the diff leaves behind. -/
def programStateBaseAddress (commandList : CommandList)
    (csr : NEO.CommandStreamReceiver) : NEO.StateBaseAddressProperties × List NEO.GenCmd :=
  let delta := NEO.reconcileStateBaseAddress csr.stateBaseAddress
    (stateBaseAddressForSubmission commandList csr)
  (delta.1, delta.2 ++ [NEO.GenCmd.batchBufferStart])

/-- Modelled from the spec: `executeCommandListImmediateWithFlushTask`, the
submission folded into every append of an immediate list.  It handles
indirect-allocation residency once when the list allows indirect allocations,
writes the SBA delta against the live state of the receiver into the stream of
the receiver, flushes, and maps the flush status to the result; after a
successful flush the per-dispatch flag `containsAnyKernel` is reset. -/
def executeCommandListImmediateWithFlushTask (flags : NEO.DebugFlags)
    (ctx : CmdListContext) : ze_result_t × CmdListContext :=
  let cmdQ :=
    if ctx.commandList.indirectAllocationsAllowed then
      ctx.cmdQ.handleIndirectAllocationResidency
    else
      ctx.cmdQ
  let prefetched := prefetchKmdMigratedSharedAllocations flags ctx.csr
  let delta := programStateBaseAddress ctx.commandList ctx.csr
  let csr :=
    { prefetched with
      stateBaseAddress := delta.1
      commandStream := ctx.csr.commandStream ++ delta.2 }
  match ctx.csr.flushReturnValue with
  | NEO.SubmissionStatus.success =>
      (ze_result_t.ZE_RESULT_SUCCESS,
        { commandList := { ctx.commandList with containsAnyKernel := false }
          csr := csr
          cmdQ := cmdQ })
  | status =>
      (flushStatusToResult status,
        { commandList := ctx.commandList
          csr := csr
          cmdQ := cmdQ })

/-- Modelled from the spec: the per-list step of `executeCommandLists`: the SBA
delta of the list against the live state of the receiver goes into the stream
of the queue. -/
def executeCommandListsStep (state : NEO.CommandStreamReceiver × CommandQueue)
    (commandList : CommandList) : NEO.CommandStreamReceiver × CommandQueue :=
  let delta := programStateBaseAddress commandList state.1
  ({ state.1 with stateBaseAddress := delta.1 },
    { state.2 with commandStream := state.2.commandStream ++ delta.2 })

/-- Modelled from the spec: `CommandQueue::executeCommandLists` for a batch of
closed regular lists: residency handling once per flush when a list uses
indirect allocations, the SBA delta of every list in order, then the flush of
the receiver mapped to the result. -/
def executeCommandLists (csr : NEO.CommandStreamReceiver) (cmdQ : CommandQueue)
    (commandLists : List CommandList) :
    ze_result_t × NEO.CommandStreamReceiver × CommandQueue :=
  let resident :=
    if commandLists.any (fun commandList => commandList.indirectAllocationsAllowed) then
      cmdQ.handleIndirectAllocationResidency
    else
      cmdQ
  let state := commandLists.foldl executeCommandListsStep (csr, resident)
  (flushStatusToResult csr.flushReturnValue, state.1, state.2)

/-- Modelled from the spec: one submission to a command-stream receiver, either
a batch of regular lists through `executeCommandLists` or the flush an append
of an immediate list performs. -/
inductive Submission
  | regular (commandLists : List CommandList)
  | immediate (flags : NEO.DebugFlags) (commandList : CommandList)
  deriving DecidableEq, Repr

/-- Modelled from the spec: the command lists a submission carries. -/
def Submission.commandLists : Submission → List CommandList
  | Submission.regular commandLists => commandLists
  | Submission.immediate _ commandList => [commandList]

/-- Modelled from the spec: the engine state shared by all submissions, the
receiver and the queue on top of it. -/
structure EngineState where
  csr : NEO.CommandStreamReceiver
  cmdQ : CommandQueue
  deriving DecidableEq, Repr

/-- Modelled from the spec: the effect of one submission on the engine state. -/
def submit (state : EngineState) : Submission → EngineState
  | Submission.regular commandLists =>
      let result := executeCommandLists state.csr state.cmdQ commandLists
      { csr := result.2.1, cmdQ := result.2.2 }
  | Submission.immediate flags commandList =>
      let result := executeCommandListImmediateWithFlushTask flags
        { commandList := commandList, csr := state.csr, cmdQ := state.cmdQ }
      { csr := result.2.csr, cmdQ := result.2.cmdQ }

/-- Modelled from the spec: a sequence of submissions, applied in submission
order. -/
def submitAll (state : EngineState) (submissions : List Submission) : EngineState :=
  submissions.foldl submit state

/-- Modelled from the spec: the number of STATE_BASE_ADDRESS commands present
in the stream of the receiver and in the stream of the queue. -/
def EngineState.sbaCommands (state : EngineState) : Nat :=
  NEO.countSba state.csr.commandStream + NEO.countSba state.cmdQ.commandStream

/-- Modelled from the spec: every list of the submission requires exactly the
state-base-address fields the receiver has programmed. -/
def Submission.requiresProgrammedState (submission : Submission)
    (csr : NEO.CommandStreamReceiver) : Prop :=
  ∀ commandList ∈ submission.commandLists,
    stateBaseAddressForSubmission commandList csr = csr.stateBaseAddress

/-- Modelled from the spec: the heap space a dispatch reserves in the heaps
shared with the receiver.  A list with private heaps or under global-stateless
addressing takes nothing from them.  For a split operation the first dispatch
reserves the estimate of its kernel times the number of kernels of the split
and the later dispatches reserve nothing (the tests compute the expected
consumption from `firstKernelInSplitOperation` alone). -/
def reserveSpaceForDispatch (caps : NEO.HardwareCapabilities) (commandList : CommandList)
    (csr : NEO.CommandStreamReceiver) (kernel : Kernel)
    (launchParams : CmdListKernelLaunchParams) : NEO.CommandStreamReceiver :=
  if commandList.immediateCmdListSharedHeap
      && decide (commandList.cmdListHeapAddressModel = NEO.HeapAddressModel.privateHeaps) then
    let dshSize := caps.getSizeRequiredDsh kernel.kernelDescriptor
    let sshSize := caps.getSizeRequiredSsh kernel.kernelDescriptor
    if launchParams.isKernelSplitOperation then
      if launchParams.numKernelsExecutedInSplitLaunch = 0 then
        { csr with
          dynamicStateHeap := csr.dynamicStateHeap.reserve
            (launchParams.numKernelsInSplitLaunch * dshSize) caps.dshAlignment
          surfaceStateHeap := csr.surfaceStateHeap.reserve
            (launchParams.numKernelsInSplitLaunch * sshSize) caps.sshAlignment }
      else
        csr
    else
      { csr with
        dynamicStateHeap := csr.dynamicStateHeap.reserve dshSize caps.dshAlignment
        surfaceStateHeap := csr.surfaceStateHeap.reserve sshSize caps.sshAlignment }
  else
    csr

/-- Modelled from the spec: `appendLaunchKernelWithParams`, the encoding of one
physical dispatch.  The launch parameters in use are stored in
`usedKernelLaunchParams` before the dispatch is encoded. -/
def appendLaunchKernelWithParams (caps : NEO.HardwareCapabilities) (ctx : CmdListContext)
    (kernel : Kernel) (launchParams : CmdListKernelLaunchParams) : CmdListContext :=
  { ctx with
    commandList :=
      { ctx.commandList with
        usedKernelLaunchParams := launchParams
        containsAnyKernel := true
        commandStream := ctx.commandList.commandStream ++ [NEO.GenCmd.walker] }
    csr := reserveSpaceForDispatch caps ctx.commandList ctx.csr kernel launchParams }

/-- Modelled from the spec: `executeCommandListImmediate`, the execute of an
immediate list without flush-task submission: the list goes through
`executeCommandLists` of its own queue. -/
def executeCommandListImmediate (ctx : CmdListContext) : ze_result_t × CmdListContext :=
  let result := executeCommandLists ctx.csr ctx.cmdQ [ctx.commandList]
  (result.1, { ctx with csr := result.2.1, cmdQ := result.2.2 })

/-- Modelled from the spec: `flushImmediate`, the auto-execute that follows
every successful append of an immediate list, through the flush task when
flush-task submission is enabled (the tests count one call of
`executeCommandListImmediateWithFlushTask` then, and one call of
`executeCommandListImmediate` otherwise); a regular list keeps what was
appended until it is closed and executed through the queue. -/
def flushImmediate (flags : NEO.DebugFlags) (inputRet : ze_result_t)
    (ctx : CmdListContext) : ze_result_t × CmdListContext :=
  if ctx.commandList.cmdListType = CommandListType.typeImmediate
      ∧ inputRet = ze_result_t.ZE_RESULT_SUCCESS then
    if ctx.commandList.isFlushTaskSubmissionEnabled then
      executeCommandListImmediateWithFlushTask flags ctx
    else
      executeCommandListImmediate ctx
  else
    (inputRet, ctx)

/-- Modelled from the spec: `appendLaunchKernel`.  Under global-stateless
addressing a kernel that requires bindful/stateful argument access is rejected
with an invalid-argument error and nothing is encoded. -/
def appendLaunchKernel (caps : NEO.HardwareCapabilities) (flags : NEO.DebugFlags)
    (ctx : CmdListContext) (kernel : Kernel) (launchParams : CmdListKernelLaunchParams) :
    ze_result_t × CmdListContext :=
  if decide (ctx.commandList.cmdListHeapAddressModel = NEO.HeapAddressModel.globalStateless)
      && NEO.containsStatefulAccess kernel.kernelDescriptor then
    (ze_result_t.ZE_RESULT_ERROR_INVALID_ARGUMENT, ctx)
  else
    flushImmediate flags ze_result_t.ZE_RESULT_SUCCESS
      (appendLaunchKernelWithParams caps ctx kernel launchParams)

/-- Modelled from the spec: the physical dispatches one builtin operation is
lowered to, computed up front: the first kernel and the kernels that follow it
when the operation is split. -/
structure BuiltinSplit where
  firstKernelInSplitOperation : Kernel
  remainingKernels : List Kernel
  deriving DecidableEq, Repr

/-- Modelled from the spec: the kernels of a split in dispatch order. -/
def BuiltinSplit.kernels (split : BuiltinSplit) : List Kernel :=
  split.firstKernelInSplitOperation :: split.remainingKernels

/-- Modelled from the spec: the number of dispatches of a split. -/
def BuiltinSplit.numKernels (split : BuiltinSplit) : Nat :=
  split.kernels.length

/-- Modelled from the spec: `ze_copy_region_t`. -/
structure ze_copy_region_t where
  originX : Nat
  originY : Nat
  originZ : Nat
  width : Nat
  height : Nat
  depth : Nat
  deriving DecidableEq, Repr

/-- Modelled from the spec: the builtin-kernel library of the device together
with the split policy of copy and fill, both generation-specific code this
core consumes. -/
structure BuiltinFunctionsLib where
  memoryCopy : (dstptr srcptr size : Nat) → BuiltinSplit
  memoryFill : (ptr patternSize size : Nat) → BuiltinSplit
  memoryCopyRegion : (dstRegion srcRegion : ze_copy_region_t) → Kernel
  imageCopyToMemory : Kernel

/-- Modelled from the spec: the USM allocation a pointer falls into, if any
(`findAllocationDataForRange`). -/
def findAllocationDataForRange (allocations : List NEO.SvmAllocationData) (ptr : Nat) :
    Option NEO.SvmAllocationData :=
  allocations.find? (fun allocation =>
    decide (allocation.gpuAddress ≤ ptr) && decide (ptr < allocation.gpuAddress + allocation.size))

/-- Modelled from the spec: the destination resolves to system memory when it
is a USM host allocation or no USM allocation at all (an external host
pointer), and to device memory when it is a USM device allocation. -/
def isDestinationAllocationInSystemMemory (allocations : List NEO.SvmAllocationData)
    (dstptr : Nat) : Bool :=
  match findAllocationDataForRange allocations dstptr with
  | some allocation => decide (allocation.memoryType = NEO.InternalMemoryType.hostUnifiedMemory)
  | none => true

/-- Modelled from the spec: dependency tracking for the wait events of an
append.  A list that waits on events enters the producer-consumer event graph
of the engine, which takes the next barrier count of the receiver. -/
def trackDependencies (numWaitEvents : Nat) (csr : NEO.CommandStreamReceiver) :
    NEO.CommandStreamReceiver :=
  if numWaitEvents = 0 then
    csr
  else
    { csr with barrierCount := csr.barrierCount + 1 }

/-- Modelled from the spec: the split-dispatch loop.  Each kernel of the split
is encoded with the current launch parameters and the executed counter is
incremented after the dispatch (the tests note that the counter is
incremented after the split kernel launch while `usedKernelLaunchParams` is
stored before it). -/
def launchSplitKernels (caps : NEO.HardwareCapabilities) :
    List Kernel → CmdListContext → CmdListKernelLaunchParams →
      CmdListContext × CmdListKernelLaunchParams
  | [], ctx, launchParams => (ctx, launchParams)
  | kernel :: remaining, ctx, launchParams =>
      launchSplitKernels caps remaining
        (appendLaunchKernelWithParams caps ctx kernel launchParams)
        { launchParams with
          numKernelsExecutedInSplitLaunch := launchParams.numKernelsExecutedInSplitLaunch + 1 }

/-- Modelled from the spec: the launch parameters a builtin operation starts
its dispatches with: the builtin flag set, the destination-locality flag as
resolved, the split flag and the split count computed up front. -/
def builtinLaunchParams (allocations : List NEO.SvmAllocationData) (dstptr : Nat)
    (split : BuiltinSplit) : CmdListKernelLaunchParams :=
  { isBuiltInKernel := true
    isDestinationAllocationInSystemMemory :=
      isDestinationAllocationInSystemMemory allocations dstptr
    isKernelSplitOperation := decide (1 < split.numKernels)
    numKernelsInSplitLaunch := split.numKernels
    numKernelsExecutedInSplitLaunch := 0 }

/-- Modelled from the spec: the common body of the builtin memory operations.
A copy-only list skips dependency tracking and encodes a blit; a compute list
tracks the wait events and runs the split-dispatch loop.  An immediate list
is flushed afterwards. -/
def appendBuiltinOperation (caps : NEO.HardwareCapabilities) (flags : NEO.DebugFlags)
    (allocations : List NEO.SvmAllocationData) (ctx : CmdListContext) (dstptr : Nat)
    (numWaitEvents : Nat) (split : BuiltinSplit) : ze_result_t × CmdListContext :=
  if ctx.commandList.isCopyOnly then
    flushImmediate flags ze_result_t.ZE_RESULT_SUCCESS
      { ctx with
        commandList :=
          { ctx.commandList with
            commandStream := ctx.commandList.commandStream ++ [NEO.GenCmd.xyCopyBlt] } }
  else
    flushImmediate flags ze_result_t.ZE_RESULT_SUCCESS
      (launchSplitKernels caps split.kernels
        { ctx with csr := trackDependencies numWaitEvents ctx.csr }
        (builtinLaunchParams allocations dstptr split)).1

/-- Modelled from the spec: `appendMemoryCopy`. -/
def appendMemoryCopy (caps : NEO.HardwareCapabilities) (flags : NEO.DebugFlags)
    (lib : BuiltinFunctionsLib) (allocations : List NEO.SvmAllocationData)
    (ctx : CmdListContext) (dstptr srcptr size numWaitEvents : Nat) :
    ze_result_t × CmdListContext :=
  appendBuiltinOperation caps flags allocations ctx dstptr numWaitEvents
    (lib.memoryCopy dstptr srcptr size)

/-- Modelled from the spec: `appendMemoryCopyRegion`; the dimensionality of the
regions only selects the builtin kernel. -/
def appendMemoryCopyRegion (caps : NEO.HardwareCapabilities) (flags : NEO.DebugFlags)
    (lib : BuiltinFunctionsLib) (allocations : List NEO.SvmAllocationData)
    (ctx : CmdListContext) (dstptr : Nat) (dstRegion : ze_copy_region_t) (_srcptr : Nat)
    (srcRegion : ze_copy_region_t) (numWaitEvents : Nat) : ze_result_t × CmdListContext :=
  appendBuiltinOperation caps flags allocations ctx dstptr numWaitEvents
    { firstKernelInSplitOperation := lib.memoryCopyRegion dstRegion srcRegion
      remainingKernels := [] }

/-- Modelled from the spec: `appendMemoryFill`. -/
def appendMemoryFill (caps : NEO.HardwareCapabilities) (flags : NEO.DebugFlags)
    (lib : BuiltinFunctionsLib) (allocations : List NEO.SvmAllocationData)
    (ctx : CmdListContext) (ptr patternSize size numWaitEvents : Nat) :
    ze_result_t × CmdListContext :=
  appendBuiltinOperation caps flags allocations ctx ptr numWaitEvents
    (lib.memoryFill ptr patternSize size)

/-- Modelled from the spec: `appendImageCopyToMemory`. -/
def appendImageCopyToMemory (caps : NEO.HardwareCapabilities) (flags : NEO.DebugFlags)
    (lib : BuiltinFunctionsLib) (allocations : List NEO.SvmAllocationData)
    (ctx : CmdListContext) (dstptr numWaitEvents : Nat) : ze_result_t × CmdListContext :=
  appendBuiltinOperation caps flags allocations ctx dstptr numWaitEvents
    { firstKernelInSplitOperation := lib.imageCopyToMemory
      remainingKernels := [] }

/-- Modelled from the spec: `addFlushRequiredCommand`.  A copy-only list has no
pipe control to emit.  Otherwise the required flush is dropped when the
signalling event carries a host signal scope, and what remains required is
emitted as one PIPE_CONTROL with DC flush on hardware that supports it. -/
def addFlushRequiredCommand (caps : NEO.HardwareCapabilities) (commandList : CommandList)
    (flushOperationRequired : Bool) (signalEvent : Option Event) : CommandList :=
  if commandList.isCopyOnly then
    commandList
  else
    let required :=
      match signalEvent with
      | some event => flushOperationRequired && !event.isHostSignalScope
      | none => flushOperationRequired
    if caps.dcFlushSupported && required then
      { commandList with
        commandStream := commandList.commandStream ++ [NEO.GenCmd.pipeControl true] }
    else
      commandList

/-! ## Concrete objects

Small concrete configurations in the shape of the unit-test fixtures; the
theorems below are instantiated at them. -/

/-- A capability table with DC flush on pipe control, 64-byte heap alignments
and 64-byte per-dispatch estimates. -/
def fixtureCaps : NEO.HardwareCapabilities :=
  { dcFlushSupported := true
    dshAlignment := 64
    sshAlignment := 64
    getSizeRequiredDsh := fun _ => 64
    getSizeRequiredSsh := fun _ => 64 }

/-- Both debug-manager overrides off. -/
def fixtureFlags : NEO.DebugFlags :=
  { ForceMemoryPrefetchForKmdMigratedSharedAllocations := false
    EnableBOChunkingPrefetch := false }

/-- A fresh heap at GPU base `base`. -/
def fixtureHeap (base : Int) : NEO.IndirectHeap :=
  { heapGpuBase := base, heapSizeInPages := 16, used := 0 }

/-- A freshly created receiver: nothing programmed, empty stream, flush
reporting success, no barrier taken. -/
def fixtureCsr : NEO.CommandStreamReceiver :=
  { stateBaseAddress := NEO.StateBaseAddressProperties.initial
    commandStream := []
    flushReturnValue := NEO.SubmissionStatus.success
    barrierCount := 0
    globalStatelessHeap := fixtureHeap 0x10000
    dynamicStateHeap := fixtureHeap 0x20000
    surfaceStateHeap := fixtureHeap 0x30000
    prefetchCalledTimes := 0
    chunkingPrefetch := false }

/-- A queue with an empty stream. -/
def fixtureCmdQ : CommandQueue :=
  { commandStream := [], handleIndirectAllocationResidencyCalledTimes := 0 }

/-- The required state of a list with private heaps: surface state and binding
table pool at the private surface heap, indirect object heap set, dynamic
state unset. -/
def fixtureRequiredState : NEO.StateBaseAddressProperties :=
  { surfaceStateBaseAddress := 0x40000
    surfaceStateSize := 16
    dynamicStateBaseAddress := -1
    dynamicStateSize := -1
    indirectObjectBaseAddress := 0x50000
    indirectObjectSize := 16
    bindingTablePoolBaseAddress := 0x40000
    bindingTablePoolSize := 16
    globalAtomics := 0
    statelessMocs := 2 }

/-- A regular compute list with private heaps. -/
def fixtureCommandList : CommandList :=
  { cmdListType := CommandListType.typeRegular
    engineGroupType := NEO.EngineGroupType.renderCompute
    cmdListHeapAddressModel := NEO.HeapAddressModel.privateHeaps
    isFlushTaskSubmissionEnabled := false
    immediateCmdListHeapSharing := false
    commandStream := []
    requiredStreamState := fixtureRequiredState
    usedKernelLaunchParams := CmdListKernelLaunchParams.default
    containsAnyKernel := false
    indirectAllocationsAllowed := false }

/-- An immediate compute list with the same requirements. -/
def fixtureCommandListImmediate : CommandList :=
  { fixtureCommandList with
    cmdListType := CommandListType.typeImmediate
    isFlushTaskSubmissionEnabled := true
    immediateCmdListHeapSharing := true }

/-- A regular compute list that shares the heaps of the receiver, as the
split-launch tests configure it. -/
def fixtureCommandListSharedHeaps : CommandList :=
  { fixtureCommandList with
    isFlushTaskSubmissionEnabled := true
    immediateCmdListHeapSharing := true }

/-- An immediate copy-only list. -/
def fixtureCommandListCopy : CommandList :=
  { fixtureCommandList with
    cmdListType := CommandListType.typeImmediate
    engineGroupType := NEO.EngineGroupType.copy }

/-- A regular list under global-stateless addressing. -/
def fixtureCommandListGlobalStateless : CommandList :=
  { fixtureCommandList with
    cmdListHeapAddressModel := NEO.HeapAddressModel.globalStateless }

/-- A kernel without explicit arguments. -/
def fixtureKernel : Kernel :=
  { kernelDescriptor := { explicitArgs := [] } }

/-- A kernel whose only explicit argument is a pointer with bindless offset
`0x40`. -/
def fixtureKernelBindless : Kernel :=
  { kernelDescriptor :=
      { explicitArgs :=
          [NEO.ArgDescriptor.argTPointer { bindful := none, bindless := some 0x40 }] } }

/-- A builtin library that splits every copy and fill into two dispatches. -/
def fixtureLib : BuiltinFunctionsLib :=
  { memoryCopy := fun _ _ _ =>
      { firstKernelInSplitOperation := fixtureKernel, remainingKernels := [fixtureKernel] }
    memoryFill := fun _ _ _ =>
      { firstKernelInSplitOperation := fixtureKernel, remainingKernels := [fixtureKernel] }
    memoryCopyRegion := fun _ _ => fixtureKernel
    imageCopyToMemory := fixtureKernel }

/-- One USM host allocation at `0x1000` and one USM device allocation at
`0x2000`, 4096 bytes each. -/
def fixtureAllocations : List NEO.SvmAllocationData :=
  [ { gpuAddress := 0x1000, size := 4096,
      memoryType := NEO.InternalMemoryType.hostUnifiedMemory },
    { gpuAddress := 0x2000, size := 4096,
      memoryType := NEO.InternalMemoryType.deviceUnifiedMemory } ]

/-- The fresh engine state of the fixtures. -/
def fixtureEngineState : EngineState :=
  { csr := fixtureCsr, cmdQ := fixtureCmdQ }

/-- The context of `commandList` on the fresh receiver and queue. -/
def fixtureContext (commandList : CommandList) : CmdListContext :=
  { commandList := commandList, csr := fixtureCsr, cmdQ := fixtureCmdQ }

end L0

namespace L0

/-- The growth of the shared heaps over a split operation is the per-dispatch
estimate of the first kernel of the split times the number of dispatches, for
the dynamic-state heap and for the surface-state heap. -/
def ExactSplitHeapGrowth (caps : NEO.HardwareCapabilities) (split : BuiltinSplit)
    (before after : NEO.CommandStreamReceiver) : Prop :=
  after.dynamicStateHeap.used
      = before.dynamicStateHeap.used
        + split.numKernels
          * caps.getSizeRequiredDsh split.firstKernelInSplitOperation.kernelDescriptor
    ∧ after.surfaceStateHeap.used
      = before.surfaceStateHeap.used
        + split.numKernels
          * caps.getSizeRequiredSsh split.firstKernelInSplitOperation.kernelDescriptor

/-- The shared heaps after a split operation are the heaps before it with one
reservation each: the per-dispatch estimate of the first kernel of the split
times the number of dispatches, placed at the next aligned offset. -/
def PaddedSplitHeapGrowth (caps : NEO.HardwareCapabilities) (split : BuiltinSplit)
    (before after : NEO.CommandStreamReceiver) : Prop :=
  after.dynamicStateHeap
      = before.dynamicStateHeap.reserve
        (split.numKernels
          * caps.getSizeRequiredDsh split.firstKernelInSplitOperation.kernelDescriptor)
        caps.dshAlignment
    ∧ after.surfaceStateHeap
      = before.surfaceStateHeap.reserve
        (split.numKernels
          * caps.getSizeRequiredSsh split.firstKernelInSplitOperation.kernelDescriptor)
        caps.sshAlignment

/-- A receiver whose shared heaps stand at offset 32, half way to the next
64-byte boundary. -/
def fixtureCsrUnaligned : NEO.CommandStreamReceiver :=
  { fixtureCsr with
    dynamicStateHeap := { fixtureCsr.dynamicStateHeap with used := 32 }
    surfaceStateHeap := { fixtureCsr.surfaceStateHeap with used := 32 } }

end L0

/-! ## Partition count, command encoding and global-stateless dispatch -/

namespace NEO

/-- Modelled from the spec: the fields of the hardware command
`STATE_BASE_ADDRESS` the tests read back from a parsed command buffer.  The
general-state fields carry the indirect-object heap of the container. -/
structure STATE_BASE_ADDRESS where
  generalStateBaseAddressModifyEnable : Bool
  generalStateBufferSizeModifyEnable : Bool
  generalStateBaseAddress : Int
  generalStateBufferSize : Int
  dynamicStateBaseAddressModifyEnable : Bool
  dynamicStateBufferSizeModifyEnable : Bool
  dynamicStateBaseAddress : Int
  dynamicStateBufferSize : Int
  surfaceStateBaseAddressModifyEnable : Bool
  surfaceStateBaseAddress : Int
  statelessDataPortAccessMemoryObjectControlState : Int
  deriving DecidableEq, Repr

/-- Modelled from the spec: a heap is programmed when its tracked base address
is set. -/
def isProgrammed (baseAddress : Int) : Bool :=
  decide (baseAddress ≠ initValue)

/-- Modelled from the spec: the value written into an address or size field of
the command, `0` when the heap is not programmed. -/
def programmedValue (baseAddress value : Int) : Int :=
  if isProgrammed baseAddress then value else 0

/-- Modelled from the spec: the encoding of the tracked properties into a
`STATE_BASE_ADDRESS` command.  A heap whose base address is set has its
modify-enable bits raised and its address and size written; a heap whose base
address is unset keeps them cleared.  The memory-object control state is the
tracked index shifted left by one.  Addresses are taken as already
decanonized. -/
def encodeStateBaseAddress (properties : StateBaseAddressProperties) : STATE_BASE_ADDRESS :=
  { generalStateBaseAddressModifyEnable := isProgrammed properties.indirectObjectBaseAddress
    generalStateBufferSizeModifyEnable := isProgrammed properties.indirectObjectBaseAddress
    generalStateBaseAddress :=
      programmedValue properties.indirectObjectBaseAddress properties.indirectObjectBaseAddress
    generalStateBufferSize :=
      programmedValue properties.indirectObjectBaseAddress properties.indirectObjectSize
    dynamicStateBaseAddressModifyEnable := isProgrammed properties.dynamicStateBaseAddress
    dynamicStateBufferSizeModifyEnable := isProgrammed properties.dynamicStateBaseAddress
    dynamicStateBaseAddress :=
      programmedValue properties.dynamicStateBaseAddress properties.dynamicStateBaseAddress
    dynamicStateBufferSize :=
      programmedValue properties.dynamicStateBaseAddress properties.dynamicStateSize
    surfaceStateBaseAddressModifyEnable := isProgrammed properties.surfaceStateBaseAddress
    surfaceStateBaseAddress :=
      programmedValue properties.surfaceStateBaseAddress properties.surfaceStateBaseAddress
    statelessDataPortAccessMemoryObjectControlState :=
      programmedValue properties.statelessMocs (properties.statelessMocs * 2) }

/-- Modelled from the spec: `genCmdCast<STATE_BASE_ADDRESS *>`, the command
read back as a `STATE_BASE_ADDRESS` when it is one. -/
def genCmdCast : GenCmd → Option STATE_BASE_ADDRESS
  | GenCmd.stateBaseAddress programmed => some (encodeStateBaseAddress programmed)
  | _ => none

/-- Modelled from the spec: the heaps of a command container that the
state-base-address tracking reads: the indirect-object heap, the private
surface-state heap and, where the hardware has one, the private dynamic-state
heap. -/
structure CommandContainer where
  indirectObjectHeap : IndirectHeap
  surfaceStateHeap : IndirectHeap
  dynamicStateHeap : Option IndirectHeap
  deriving DecidableEq, Repr

end NEO

namespace L0

/-- Modelled from the spec: the device a command list is created on, reduced
to the number of tiles in its device bitfield. -/
structure Device where
  tileCount : Nat
  deriving DecidableEq, Repr

/-- Modelled from the spec: a command list together with the fields the
multi-tile tests observe: whether it was created for internal use and its
`partitionCount`. -/
structure CommandListImp extends CommandList where
  internalUsage : Bool
  partitionCount : Nat
  deriving DecidableEq, Repr

/-- Modelled from the spec: the tile-replication factor of a list: the number
of tiles of the device for a list that replicates its work across tiles, `1`
for a list created for internal use and for a copy-only list. -/
def tileReplicationFactor (device : Device) (internalUsage : Bool)
    (engineGroupType : NEO.EngineGroupType) : Nat :=
  if internalUsage || decide (engineGroupType = NEO.EngineGroupType.copy) then
    1
  else
    device.tileCount

/-- Modelled from the spec: `CommandListImp::initialize` behind the factories
`create` and `createImmediate`: an empty list with private heaps, nothing
required yet, and `partitionCount` at the tile-replication factor. -/
def CommandListImp.create (device : Device) (cmdListType : CommandListType)
    (internalUsage : Bool) (engineGroupType : NEO.EngineGroupType) : CommandListImp :=
  { cmdListType := cmdListType
    engineGroupType := engineGroupType
    cmdListHeapAddressModel := NEO.HeapAddressModel.privateHeaps
    isFlushTaskSubmissionEnabled := decide (cmdListType = CommandListType.typeImmediate)
    immediateCmdListHeapSharing := false
    commandStream := []
    requiredStreamState := NEO.StateBaseAddressProperties.initial
    usedKernelLaunchParams := CmdListKernelLaunchParams.default
    containsAnyKernel := false
    indirectAllocationsAllowed := false
    internalUsage := internalUsage
    partitionCount := tileReplicationFactor device internalUsage engineGroupType }

/-- Modelled from the spec: `CommandListImp::reset`: the list goes back to
appending with an empty stream, nothing required, its flags cleared and
`partitionCount` set to the tile-replication factor again. -/
def CommandListImp.reset (device : Device) (commandList : CommandListImp) :
    ze_result_t × CommandListImp :=
  (ze_result_t.ZE_RESULT_SUCCESS,
    { commandList with
      commandStream := []
      requiredStreamState := NEO.StateBaseAddressProperties.initial
      usedKernelLaunchParams := CmdListKernelLaunchParams.default
      containsAnyKernel := false
      indirectAllocationsAllowed := false
      partitionCount :=
        tileReplicationFactor device commandList.internalUsage commandList.engineGroupType })

/-- Modelled from the spec: the state-base-address requirement a list records
when it dispatches a kernel.  The indirect-object fields come from the
indirect-object heap of the container of the list.  With private heaps the
surface state and the binding-table pool come from the private surface-state
heap and the dynamic state from the private dynamic-state heap when the
container has one.  Under global-stateless addressing the surface state and
the binding-table pool are left unset, and so is the dynamic state unless the
kernel requires it (the tests read `-1` for all of them from
`requiredStreamState` after such a dispatch). -/
def requiredStateForDispatch (heapAddressModel : NEO.HeapAddressModel)
    (container : NEO.CommandContainer) (kernelRequiresDynamicState : Bool)
    (globalAtomics statelessMocs : Int) : NEO.StateBaseAddressProperties :=
  let privateHeaps := decide (heapAddressModel = NEO.HeapAddressModel.privateHeaps)
  let dynamicState :=
    if privateHeaps || kernelRequiresDynamicState then container.dynamicStateHeap else none
  { surfaceStateBaseAddress :=
      if privateHeaps then container.surfaceStateHeap.heapGpuBase else NEO.initValue
    surfaceStateSize :=
      if privateHeaps then container.surfaceStateHeap.heapSizeInPages else NEO.initValue
    dynamicStateBaseAddress :=
      match dynamicState with
      | some heap => heap.heapGpuBase
      | none => NEO.initValue
    dynamicStateSize :=
      match dynamicState with
      | some heap => heap.heapSizeInPages
      | none => NEO.initValue
    indirectObjectBaseAddress := container.indirectObjectHeap.heapGpuBase
    indirectObjectSize := container.indirectObjectHeap.heapSizeInPages
    bindingTablePoolBaseAddress :=
      if privateHeaps then container.surfaceStateHeap.heapGpuBase else NEO.initValue
    bindingTablePoolSize :=
      if privateHeaps then container.surfaceStateHeap.heapSizeInPages else NEO.initValue
    globalAtomics := globalAtomics
    statelessMocs := statelessMocs }

/-- A two-tile device, as the multi-tile fixtures create it. -/
def fixtureDevice : Device :=
  { tileCount := 2 }

/-- A container with an indirect-object heap, a private surface-state heap and
a private dynamic-state heap. -/
def fixtureContainer : NEO.CommandContainer :=
  { indirectObjectHeap := fixtureHeap 0x50000
    surfaceStateHeap := fixtureHeap 0x40000
    dynamicStateHeap := some (fixtureHeap 0x60000) }

/-- A regular list under global-stateless addressing that has dispatched a
kernel needing no dynamic state from `fixtureContainer`. -/
def fixtureCommandListGlobalStatelessDispatched : CommandList :=
  { fixtureCommandList with
    cmdListHeapAddressModel := NEO.HeapAddressModel.globalStateless
    requiredStreamState :=
      requiredStateForDispatch NEO.HeapAddressModel.globalStateless fixtureContainer false 0 2
    containsAnyKernel := true }

/-- A regular list with private heaps that has dispatched a kernel from
`fixtureContainer`. -/
def fixtureCommandListPrivateDispatched : CommandList :=
  { fixtureCommandList with
    requiredStreamState :=
      requiredStateForDispatch NEO.HeapAddressModel.privateHeaps fixtureContainer false 0 2
    containsAnyKernel := true }

end L0

/-! ## Sysman power: shared collaborators -/

namespace L0

/-- The conversion `static_cast<uint32_t>` of an integer value. -/
def toUInt32 (value : Int) : Nat :=
  (value % 2 ^ 32).toNat

/-- The conversion `static_cast<uint64_t>` of an integer value. -/
def toUInt64 (value : Int) : Nat :=
  (value % 2 ^ 64).toNat

/-- The conversion `static_cast<int32_t>` of an integer value: the value
modulo `2^32` read as a two's-complement number. -/
def toInt32 (value : Int) : Int :=
  (value + 2 ^ 31) % 2 ^ 32 - 2 ^ 31

/-- Modelled from the spec: the constant `milliFactor` of `sysman_const.h`,
a header that is not under src/.  The sources use it to convert between
microwatts and milliwatts. -/
def milliFactor : Nat := 1000

/-- Modelled from the spec: the constant `convertJouleToMicroJoule` of
`sysman_const.h`, a header that is not under src/; the unit tests define it
as `1000000u`. -/
def convertJouleToMicroJoule : Nat := 1000000

/-- Modelled from the spec: the helper `getErrorCode`, whose definition is not
under src/: the single translation of a failed sysfs access into the result
reported to the caller.  The unit tests expect `ZE_RESULT_ERROR_NOT_AVAILABLE`
to be reported as `ZE_RESULT_ERROR_UNSUPPORTED_FEATURE` and
`ZE_RESULT_ERROR_INSUFFICIENT_PERMISSIONS` to be reported unchanged. -/
def getErrorCode (result : ze_result_t) : ze_result_t :=
  if result = ze_result_t.ZE_RESULT_ERROR_NOT_AVAILABLE then
    ze_result_t.ZE_RESULT_ERROR_UNSUPPORTED_FEATURE
  else
    result

/-- Modelled from the spec: the sysfs accessor behind `pSysfsAccess`, a class
that is not under src/.  Every node holds one integer (`nodes`) or a line of
text (`strings`), and a directory has its entries (`dirEntries`).  Every
access is counted, and the status of an access may differ from one access to
the next, as the queued results of the unit-test mock do: `readResult n file`
is the status of a read of `file` made when `n` accesses have gone before, and
likewise for writes and directory scans. -/
structure SysfsAccess where
  nodes : String → Int
  strings : String → String
  dirEntries : String → List String
  readResult : Nat → String → ze_result_t
  writeResult : Nat → String → ze_result_t
  scanDirEntriesResult : Nat → String → ze_result_t
  accessCount : Nat

/-- Modelled from the spec: `SysfsAccess::read(file, uint64_t &val)`.  A
successful read stores the content of the node in `val`; a failed read leaves
`val` as it was. -/
def SysfsAccess.readUInt64 (sysfs : SysfsAccess) (file : String) (val : Nat) :
    ze_result_t × Nat × SysfsAccess :=
  let accessed := { sysfs with accessCount := sysfs.accessCount + 1 }
  if sysfs.readResult sysfs.accessCount file = ze_result_t.ZE_RESULT_SUCCESS then
    (ze_result_t.ZE_RESULT_SUCCESS, toUInt64 (sysfs.nodes file), accessed)
  else
    (sysfs.readResult sysfs.accessCount file, val, accessed)

/-- Modelled from the spec: `SysfsAccess::read(file, uint32_t &val)`. -/
def SysfsAccess.readUInt32 (sysfs : SysfsAccess) (file : String) (val : Nat) :
    ze_result_t × Nat × SysfsAccess :=
  let accessed := { sysfs with accessCount := sysfs.accessCount + 1 }
  if sysfs.readResult sysfs.accessCount file = ze_result_t.ZE_RESULT_SUCCESS then
    (ze_result_t.ZE_RESULT_SUCCESS, toUInt32 (sysfs.nodes file), accessed)
  else
    (sysfs.readResult sysfs.accessCount file, val, accessed)

/-- Modelled from the spec: `SysfsAccess::read(file, int32_t &val)`. -/
def SysfsAccess.readInt32 (sysfs : SysfsAccess) (file : String) (val : Int) :
    ze_result_t × Int × SysfsAccess :=
  let accessed := { sysfs with accessCount := sysfs.accessCount + 1 }
  if sysfs.readResult sysfs.accessCount file = ze_result_t.ZE_RESULT_SUCCESS then
    (ze_result_t.ZE_RESULT_SUCCESS, toInt32 (sysfs.nodes file), accessed)
  else
    (sysfs.readResult sysfs.accessCount file, val, accessed)

/-- Modelled from the spec: `SysfsAccess::read(file, std::string &val)`. -/
def SysfsAccess.readString (sysfs : SysfsAccess) (file : String) (val : String) :
    ze_result_t × String × SysfsAccess :=
  let accessed := { sysfs with accessCount := sysfs.accessCount + 1 }
  if sysfs.readResult sysfs.accessCount file = ze_result_t.ZE_RESULT_SUCCESS then
    (ze_result_t.ZE_RESULT_SUCCESS, sysfs.strings file, accessed)
  else
    (sysfs.readResult sysfs.accessCount file, val, accessed)

/-- Modelled from the spec: `SysfsAccess::scanDirEntries(path, list)`.  The list
is cleared first; a successful scan fills it with the entries of the
directory. -/
def SysfsAccess.scanDirEntries (sysfs : SysfsAccess) (path : String) :
    ze_result_t × List String × SysfsAccess :=
  let accessed := { sysfs with accessCount := sysfs.accessCount + 1 }
  if sysfs.scanDirEntriesResult sysfs.accessCount path = ze_result_t.ZE_RESULT_SUCCESS then
    (ze_result_t.ZE_RESULT_SUCCESS, sysfs.dirEntries path, accessed)
  else
    (sysfs.scanDirEntriesResult sysfs.accessCount path, [], accessed)

/-- Modelled from the spec: `SysfsAccess::write(file, val)` for the integer
overloads.  A successful write leaves `val` in the node, which later reads
return; a failed write leaves the node as it was. -/
def SysfsAccess.write (sysfs : SysfsAccess) (file : String) (val : Int) :
    ze_result_t × SysfsAccess :=
  let accessed := { sysfs with accessCount := sysfs.accessCount + 1 }
  if sysfs.writeResult sysfs.accessCount file = ze_result_t.ZE_RESULT_SUCCESS then
    (ze_result_t.ZE_RESULT_SUCCESS,
      { accessed with nodes := Function.update sysfs.nodes file val })
  else
    (sysfs.writeResult sysfs.accessCount file, accessed)

/-- Modelled from the spec: the telemetry reader behind `pPmt`, a class that
is not under src/.  Every key has a raw counter and a read status, and every
read is counted. -/
structure PlatformMonitoringTech where
  counters : String → Nat
  readResult : String → ze_result_t
  readCount : Nat

/-- Modelled from the spec: `PlatformMonitoringTech::readValue(key, uint64_t
&value)`.  A successful read stores the 64-bit counter in `value`; a failed
read leaves `value` as it was. -/
def PlatformMonitoringTech.readValue (pmt : PlatformMonitoringTech) (key : String)
    (value : Nat) : ze_result_t × Nat × PlatformMonitoringTech :=
  let accessed := { pmt with readCount := pmt.readCount + 1 }
  if pmt.readResult key = ze_result_t.ZE_RESULT_SUCCESS then
    (ze_result_t.ZE_RESULT_SUCCESS, pmt.counters key % 2 ^ 64, accessed)
  else
    (pmt.readResult key, value, accessed)

/-- Modelled from the spec: the structure `zes_power_properties_t` of
`zes_api.h`, a header that is not under src/, with the fields `getProperties`
assigns. -/
structure zes_power_properties_t where
  onSubdevice : Bool
  subdeviceId : Nat
  canControl : Bool
  isEnergyThresholdSupported : Bool
  defaultLimit : Int
  minLimit : Int
  maxLimit : Int
  deriving DecidableEq, Repr

/-- Modelled from the spec: the structure `zes_power_energy_counter_t` of
`zes_api.h`: the energy in microjoules and the timestamp in microseconds, both
`uint64_t`. -/
structure zes_power_energy_counter_t where
  energy : Nat
  timestamp : Nat
  deriving DecidableEq, Repr

/-- Modelled from the spec: the structure `zes_energy_threshold_t` of
`zes_api.h`; the `double` threshold is kept as its 64-bit pattern. -/
structure zes_energy_threshold_t where
  enable : Bool
  threshold : Nat
  processId : Nat
  deriving DecidableEq, Repr

/-- Modelled from the spec: the structure `zes_power_sustained_limit_t` of
`zes_api.h`; `power` and `interval` are `int32_t`. -/
structure zes_power_sustained_limit_t where
  enabled : Bool
  power : Int
  interval : Int
  deriving DecidableEq, Repr

/-- Modelled from the spec: the structure `zes_power_burst_limit_t` of
`zes_api.h`. -/
structure zes_power_burst_limit_t where
  enabled : Bool
  power : Int
  deriving DecidableEq, Repr

/-- Modelled from the spec: the structure `zes_power_peak_limit_t` of
`zes_api.h`; both fields are `int32_t`. -/
structure zes_power_peak_limit_t where
  powerAC : Int
  powerDC : Int
  deriving DecidableEq, Repr

/-- Modelled from the spec: the enumeration `zes_power_level_t` of
`zes_api.h`. -/
inductive zes_power_level_t
  | ZES_POWER_LEVEL_UNKNOWN
  | ZES_POWER_LEVEL_SUSTAINED
  | ZES_POWER_LEVEL_BURST
  | ZES_POWER_LEVEL_PEAK
  | ZES_POWER_LEVEL_INSTANTANEOUS
  deriving DecidableEq, Repr

/-- Modelled from the spec: the enumeration `zes_power_source_t` of
`zes_api.h`. -/
inductive zes_power_source_t
  | ZES_POWER_SOURCE_ANY
  | ZES_POWER_SOURCE_MAINS
  | ZES_POWER_SOURCE_BATTERY
  deriving DecidableEq, Repr

/-- Modelled from the spec: the enumeration `zes_limit_unit_t` of
`zes_api.h`. -/
inductive zes_limit_unit_t
  | ZES_LIMIT_UNIT_UNKNOWN
  | ZES_LIMIT_UNIT_CURRENT
  | ZES_LIMIT_UNIT_POWER
  deriving DecidableEq, Repr

/-- Modelled from the spec: the structure `zes_power_limit_ext_desc_t` of
`zes_api.h`; `limit` and `interval` are `int32_t`. -/
structure zes_power_limit_ext_desc_t where
  level : zes_power_level_t
  source : zes_power_source_t
  limitUnit : zes_limit_unit_t
  enabledStateLocked : Bool
  enabled : Bool
  intervalValueLocked : Bool
  interval : Int
  limitValueLocked : Bool
  limit : Int
  deriving DecidableEq, Repr

/-- Modelled from the spec: the product families this development
distinguishes; `igfxfmid.h` is not under src/.  The power code only asks
whether the family is `IGFX_PVC`. -/
inductive PRODUCT_FAMILY
  | IGFX_UNKNOWN
  | IGFX_DG1
  | IGFX_XE_HP_SDV
  | IGFX_PVC
  | IGFX_METEORLAKE
  deriving DecidableEq, Repr

end L0

/-! ## Sysman power: `L0::Sysman::LinuxPowerImp` -/

namespace L0.Sysman

/-- The enumeration `SysfsName` of `sysman_kmd_interface.h`. -/
inductive SysfsName
  | sysfsNameMinFrequency
  | sysfsNameMaxFrequency
  | sysfsNameMinDefaultFrequency
  | sysfsNameMaxDefaultFrequency
  | sysfsNameBoostFrequency
  | sysfsNameCurrentFrequency
  | sysfsNameTdpFrequency
  | sysfsNameActualFrequency
  | sysfsNameEfficientFrequency
  | sysfsNameMaxValueFrequency
  | sysfsNameMinValueFrequency
  | sysfsNameThrottleReasonStatus
  | sysfsNameThrottleReasonPL1
  | sysfsNameThrottleReasonPL2
  | sysfsNameThrottleReasonPL4
  | sysfsNameThrottleReasonThermal
  | sysfsNameSustainedPowerLimit
  | sysfsNameSustainedPowerLimitInterval
  | sysfsNameEnergyCounterNode
  | sysfsNameDefaultPowerLimit
  | sysfsNameCriticalPowerLimit
  | sysfsNameStandbyModeControl
  | sysfsNameMemoryAddressRange
  | sysfsNameMaxMemoryFrequency
  | sysfsNameMinMemoryFrequency
  | sysfsNameSchedulerTimeout
  | sysfsNameSchedulerTimeslice
  | sysfsNameSchedulerWatchDogTimeout
  | sysfsNameSchedulerWatchDogTimeoutMaximum
  | sysfsNamePerformanceBaseFrequencyFactor
  | sysfsNamePerformanceMediaFrequencyFactor
  | sysfsNamePerformanceBaseFrequencyFactorScale
  | sysfsNamePerformanceMediaFrequencyFactorScale
  | sysfsNamePerformanceSystemPowerBalance
  deriving DecidableEq, Repr

/-- The interface `SysmanKmdInterface` of `sysman_kmd_interface.h`, reduced to
the pure virtuals `getSysfsFilePath` and `getHwmonName` the power code calls;
their implementations are not under src/, so the functions are fields. -/
structure SysmanKmdInterface where
  getSysfsFilePath : SysfsName → Nat → Bool → String
  getHwmonName : Nat → Bool → String

/-- The members of `L0::Sysman::LinuxPowerImp`.  The collaborators reached
through pointers are held by value; `pPmt` is `none` for a null pointer. -/
structure LinuxPowerImp where
  pSysfsAccess : SysfsAccess
  pSysmanKmdInterface : SysmanKmdInterface
  pPmt : Option PlatformMonitoringTech
  intelGraphicsHwmonDir : String
  canControl : Bool
  isSubdevice : Bool
  subdeviceId : Nat

/-- The constant `LinuxPowerImp::defaultPowerLimit`. -/
def LinuxPowerImp.defaultPowerLimit : String := "power_default_limit"

/-- The constant `LinuxPowerImp::minPowerLimit`. -/
def LinuxPowerImp.minPowerLimit : String := "power_min_limit"

/-- The constant `LinuxPowerImp::maxPowerLimit`. -/
def LinuxPowerImp.maxPowerLimit : String := "power_max_limit"

/-- The function `LinuxPowerImp::getProperties` of `sysman_os_power_imp.cpp`.
The three limits start at `-1`; each is replaced by the content of its node
divided by `milliFactor` when the read of the node succeeds (and, for the
minimum, the content is not `0`, for the maximum, not the largest `uint32_t`).
The local `val` is shared by the three reads.  The function returns
`ZE_RESULT_SUCCESS` on every path. -/
def LinuxPowerImp.getProperties (handle : LinuxPowerImp)
    (pProperties : zes_power_properties_t) :
    ze_result_t × zes_power_properties_t × LinuxPowerImp :=
  let initial : zes_power_properties_t :=
    { pProperties with
      onSubdevice := handle.isSubdevice
      subdeviceId := handle.subdeviceId
      canControl := handle.canControl
      isEnergyThresholdSupported := false
      defaultLimit := -1
      minLimit := -1
      maxLimit := -1 }
  let readDefault := handle.pSysfsAccess.readUInt32
    (handle.intelGraphicsHwmonDir ++ "/" ++ LinuxPowerImp.defaultPowerLimit) 0
  let withDefault : zes_power_properties_t :=
    if readDefault.1 = ze_result_t.ZE_RESULT_SUCCESS then
      { initial with defaultLimit := toInt32 (readDefault.2.1 / milliFactor : Nat) }
    else
      initial
  let readMin := readDefault.2.2.readUInt32
    (handle.intelGraphicsHwmonDir ++ "/" ++ LinuxPowerImp.minPowerLimit) readDefault.2.1
  let withMin : zes_power_properties_t :=
    if readMin.1 = ze_result_t.ZE_RESULT_SUCCESS ∧ readMin.2.1 ≠ 0 then
      { withDefault with minLimit := toInt32 (readMin.2.1 / milliFactor : Nat) }
    else
      withDefault
  let readMax := readMin.2.2.readUInt32
    (handle.intelGraphicsHwmonDir ++ "/" ++ LinuxPowerImp.maxPowerLimit) readMin.2.1
  let withMax : zes_power_properties_t :=
    if readMax.1 = ze_result_t.ZE_RESULT_SUCCESS ∧ readMax.2.1 ≠ 2 ^ 32 - 1 then
      { withMin with maxLimit := toInt32 (readMax.2.1 / milliFactor : Nat) }
    else
      withMin
  (ze_result_t.ZE_RESULT_SUCCESS, withMax, { handle with pSysfsAccess := readMax.2.2 })

/-- The function `LinuxPowerImp::getPmtEnergyCounter` of
`sysman_os_power_imp.cpp`.  It dereferences `pPmt`, so it takes the telemetry
reader `pPmt` points to.  The raw counter is in Q20 fixed point; the product is
taken in `uint64_t`. -/
def LinuxPowerImp.getPmtEnergyCounter (handle : LinuxPowerImp)
    (pmt : PlatformMonitoringTech) (pEnergy : zes_power_energy_counter_t) :
    ze_result_t × zes_power_energy_counter_t × LinuxPowerImp :=
  let fixedPointToJoule : Nat := 1048576
  let read := pmt.readValue "PACKAGE_ENERGY" 0
  (read.1,
    { pEnergy with
      energy := (read.2.1 / fixedPointToJoule) * convertJouleToMicroJoule % 2 ^ 64 },
    { handle with pPmt := some read.2.2 })

/-- The function `LinuxPowerImp::getEnergyCounter` of
`sysman_os_power_imp.cpp`; `sysmanTimestamp` is the value
`SysmanDevice::getSysmanTimestamp()` returns at the call. -/
def LinuxPowerImp.getEnergyCounter (handle : LinuxPowerImp) (sysmanTimestamp : Nat)
    (pEnergy : zes_power_energy_counter_t) :
    ze_result_t × zes_power_energy_counter_t × LinuxPowerImp :=
  let stamped := { pEnergy with timestamp := sysmanTimestamp }
  let energyCounterNode := handle.intelGraphicsHwmonDir ++ "/"
    ++ handle.pSysmanKmdInterface.getSysfsFilePath SysfsName.sysfsNameEnergyCounterNode
        handle.subdeviceId false
  let read := handle.pSysfsAccess.readUInt64 energyCounterNode stamped.energy
  let accessed := { handle with pSysfsAccess := read.2.2 }
  let counted := { stamped with energy := read.2.1 }
  if read.1 ≠ ze_result_t.ZE_RESULT_SUCCESS then
    match handle.pPmt with
    | some pmt => LinuxPowerImp.getPmtEnergyCounter accessed pmt counted
    | none => (getErrorCode read.1, counted, accessed)
  else
    (read.1, counted, accessed)

/-- The function `LinuxPowerImp::getEnergyThreshold` of
`sysman_os_power_imp.cpp`: a debug print and the return of
`ZE_RESULT_ERROR_UNSUPPORTED_FEATURE`. -/
def LinuxPowerImp.getEnergyThreshold (handle : LinuxPowerImp)
    (pThreshold : zes_energy_threshold_t) :
    ze_result_t × zes_energy_threshold_t × LinuxPowerImp :=
  (ze_result_t.ZE_RESULT_ERROR_UNSUPPORTED_FEATURE, pThreshold, handle)

/-- The function `LinuxPowerImp::setEnergyThreshold` of
`sysman_os_power_imp.cpp`; the `double` argument is its 64-bit pattern. -/
def LinuxPowerImp.setEnergyThreshold (handle : LinuxPowerImp) (_threshold : Nat) :
    ze_result_t × LinuxPowerImp :=
  (ze_result_t.ZE_RESULT_ERROR_UNSUPPORTED_FEATURE, handle)

end L0.Sysman

/-! ## Sysman power: `L0::LinuxPowerImp` of the tools layer -/

namespace L0

/-- The members of `L0::LinuxPowerImp` of `os_power_imp_prelim.cpp`.  The
collaborators reached through pointers are held by value; `pPmt` is `none`
for a null pointer. -/
structure LinuxPowerImp where
  pSysfsAccess : SysfsAccess
  pPmt : Option PlatformMonitoringTech
  i915HwmonDir : String
  canControl : Bool
  isSubdevice : Bool
  subdeviceId : Nat
  powerLimitCount : Nat
  productFamily : PRODUCT_FAMILY

/-- The constant `LinuxPowerImp::sustainedPowerLimit`. -/
def LinuxPowerImp.sustainedPowerLimit : String := "power1_max"

/-- The constant `LinuxPowerImp::sustainedPowerLimitInterval`. -/
def LinuxPowerImp.sustainedPowerLimitInterval : String := "power1_max_interval"

/-- The constant `LinuxPowerImp::energyCounterNode`. -/
def LinuxPowerImp.energyCounterNode : String := "energy1_input"

/-- The member `criticalPowerLimit`, which the constructor sets from the
product family and nothing changes afterwards. -/
def LinuxPowerImp.criticalPowerLimit (handle : LinuxPowerImp) : String :=
  if handle.productFamily = PRODUCT_FAMILY.IGFX_PVC then "curr1_crit" else "power1_crit"

/-- The function `LinuxPowerImp::getPmtEnergyCounter` of
`os_power_imp_prelim.cpp`.  It dereferences `pPmt`, so it takes the telemetry
reader `pPmt` points to. -/
def LinuxPowerImp.getPmtEnergyCounter (handle : LinuxPowerImp)
    (pmt : PlatformMonitoringTech) (pEnergy : zes_power_energy_counter_t) :
    ze_result_t × zes_power_energy_counter_t × LinuxPowerImp :=
  let fixedPointToJoule : Nat := 1048576
  let read := pmt.readValue "PACKAGE_ENERGY" 0
  (read.1,
    { pEnergy with
      energy := (read.2.1 / fixedPointToJoule) * convertJouleToMicroJoule % 2 ^ 64 },
    { handle with pPmt := some read.2.2 })

/-- The function `LinuxPowerImp::getEnergyCounter` of
`os_power_imp_prelim.cpp`; `sysmanTimestamp` is the value
`SysmanDevice::getSysmanTimestamp()` returns at the call. -/
def LinuxPowerImp.getEnergyCounter (handle : LinuxPowerImp) (sysmanTimestamp : Nat)
    (pEnergy : zes_power_energy_counter_t) :
    ze_result_t × zes_power_energy_counter_t × LinuxPowerImp :=
  let stamped := { pEnergy with timestamp := sysmanTimestamp }
  let read := handle.pSysfsAccess.readUInt64
    (handle.i915HwmonDir ++ "/" ++ LinuxPowerImp.energyCounterNode) stamped.energy
  let accessed := { handle with pSysfsAccess := read.2.2 }
  let counted := { stamped with energy := read.2.1 }
  if read.1 ≠ ze_result_t.ZE_RESULT_SUCCESS then
    match handle.pPmt with
    | some pmt => LinuxPowerImp.getPmtEnergyCounter accessed pmt counted
    | none => (getErrorCode read.1, counted, accessed)
  else
    (read.1, counted, accessed)

/-- The function `LinuxPowerImp::getEnergyThreshold` of
`os_power_imp_prelim.cpp`: a debug print and the return of
`ZE_RESULT_ERROR_UNSUPPORTED_FEATURE`. -/
def LinuxPowerImp.getEnergyThreshold (handle : LinuxPowerImp)
    (pThreshold : zes_energy_threshold_t) :
    ze_result_t × zes_energy_threshold_t × LinuxPowerImp :=
  (ze_result_t.ZE_RESULT_ERROR_UNSUPPORTED_FEATURE, pThreshold, handle)

/-- The function `LinuxPowerImp::setEnergyThreshold` of
`os_power_imp_prelim.cpp`; the `double` argument is its 64-bit pattern. -/
def LinuxPowerImp.setEnergyThreshold (handle : LinuxPowerImp) (_threshold : Nat) :
    ze_result_t × LinuxPowerImp :=
  (ze_result_t.ZE_RESULT_ERROR_UNSUPPORTED_FEATURE, handle)

/-- The peak part of `LinuxPowerImp::getLimits`, the rest of the body once
the sustained and the burst limit have been handled; `val` is the local the
sustained part left. -/
def LinuxPowerImp.getLimitsPeak (handle : LinuxPowerImp) (val : Nat)
    (pSustained : Option zes_power_sustained_limit_t)
    (pBurst : Option zes_power_burst_limit_t) (pPeak : Option zes_power_peak_limit_t) :
    ze_result_t × Option zes_power_sustained_limit_t × Option zes_power_burst_limit_t
      × Option zes_power_peak_limit_t × LinuxPowerImp :=
  match pPeak with
  | some peak =>
      let read := handle.pSysfsAccess.readUInt64
        (handle.i915HwmonDir ++ "/" ++ handle.criticalPowerLimit) val
      let accessed := { handle with pSysfsAccess := read.2.2 }
      if ze_result_t.ZE_RESULT_SUCCESS ≠ read.1 then
        (getErrorCode read.1, pSustained, pBurst, pPeak, accessed)
      else
        (ze_result_t.ZE_RESULT_SUCCESS, pSustained, pBurst,
          some { peak with powerAC := toInt32 (read.2.1 / milliFactor : Nat), powerDC := -1 },
          accessed)
  | none => (ze_result_t.ZE_RESULT_SUCCESS, pSustained, pBurst, pPeak, handle)

/-- The burst part of `LinuxPowerImp::getLimits`, followed by the peak part. -/
def LinuxPowerImp.getLimitsBurst (handle : LinuxPowerImp) (val : Nat)
    (pSustained : Option zes_power_sustained_limit_t)
    (pBurst : Option zes_power_burst_limit_t) (pPeak : Option zes_power_peak_limit_t) :
    ze_result_t × Option zes_power_sustained_limit_t × Option zes_power_burst_limit_t
      × Option zes_power_peak_limit_t × LinuxPowerImp :=
  match pBurst with
  | some burst =>
      handle.getLimitsPeak val pSustained (some { burst with power := -1, enabled := false })
        pPeak
  | none => handle.getLimitsPeak val pSustained pBurst pPeak

/-- The function `LinuxPowerImp::getLimits` of `os_power_imp_prelim.cpp`.  A
null argument is `none`; the limits that are passed come back filled. -/
def LinuxPowerImp.getLimits (handle : LinuxPowerImp)
    (pSustained : Option zes_power_sustained_limit_t)
    (pBurst : Option zes_power_burst_limit_t) (pPeak : Option zes_power_peak_limit_t) :
    ze_result_t × Option zes_power_sustained_limit_t × Option zes_power_burst_limit_t
      × Option zes_power_peak_limit_t × LinuxPowerImp :=
  if handle.isSubdevice then
    (ze_result_t.ZE_RESULT_ERROR_UNSUPPORTED_FEATURE, pSustained, pBurst, pPeak, handle)
  else
    match pSustained with
    | some sustained =>
        let read := handle.pSysfsAccess.readUInt64
          (handle.i915HwmonDir ++ "/" ++ LinuxPowerImp.sustainedPowerLimit) 0
        let accessed := { handle with pSysfsAccess := read.2.2 }
        if ze_result_t.ZE_RESULT_SUCCESS ≠ read.1 then
          (getErrorCode read.1, pSustained, pBurst, pPeak, accessed)
        else
          accessed.getLimitsBurst (read.2.1 / milliFactor)
            (some { sustained with
              power := toInt32 (read.2.1 / milliFactor : Nat)
              enabled := true
              interval := -1 })
            pBurst pPeak
    | none => handle.getLimitsBurst 0 pSustained pBurst pPeak

/-- The peak part of `LinuxPowerImp::setLimits`, the rest of the body once
the sustained limit has been written. -/
def LinuxPowerImp.setLimitsPeak (handle : LinuxPowerImp)
    (pPeak : Option zes_power_peak_limit_t) : ze_result_t × LinuxPowerImp :=
  match pPeak with
  | some peak =>
      let val : Int := toInt32 (toUInt32 peak.powerAC * milliFactor : Nat)
      let written := handle.pSysfsAccess.write
        (handle.i915HwmonDir ++ "/" ++ handle.criticalPowerLimit) val
      if ze_result_t.ZE_RESULT_SUCCESS ≠ written.1 then
        (getErrorCode written.1, { handle with pSysfsAccess := written.2 })
      else
        (ze_result_t.ZE_RESULT_SUCCESS, { handle with pSysfsAccess := written.2 })
  | none => (ze_result_t.ZE_RESULT_SUCCESS, handle)

/-- The function `LinuxPowerImp::setLimits` of `os_power_imp_prelim.cpp`.  The
local `val` is an `int32_t`: the product of the limit, converted to
`uint32_t`, and `milliFactor` is stored in 32 bits before it is written. -/
def LinuxPowerImp.setLimits (handle : LinuxPowerImp)
    (pSustained : Option zes_power_sustained_limit_t)
    (_pBurst : Option zes_power_burst_limit_t) (pPeak : Option zes_power_peak_limit_t) :
    ze_result_t × LinuxPowerImp :=
  if handle.isSubdevice then
    (ze_result_t.ZE_RESULT_ERROR_UNSUPPORTED_FEATURE, handle)
  else
    match pSustained with
    | some sustained =>
        let val : Int := toInt32 (toUInt32 sustained.power * milliFactor : Nat)
        let written := handle.pSysfsAccess.write
          (handle.i915HwmonDir ++ "/" ++ LinuxPowerImp.sustainedPowerLimit) val
        if ze_result_t.ZE_RESULT_SUCCESS ≠ written.1 then
          (getErrorCode written.1, { handle with pSysfsAccess := written.2 })
        else
          LinuxPowerImp.setLimitsPeak { handle with pSysfsAccess := written.2 } pPeak
    | none => handle.setLimitsPeak pPeak

end L0

namespace L0

/-- The assignments of `LinuxPowerImp::getLimitsExt` to the entry of the
sustained limit; `val` is the content of the sustained node already divided by
`milliFactor`. -/
def LinuxPowerImp.sustainedLimitDesc (val : Nat) (interval : Int)
    (desc : zes_power_limit_ext_desc_t) : zes_power_limit_ext_desc_t :=
  { desc with
    limit := toInt32 val
    enabledStateLocked := true
    intervalValueLocked := false
    limitValueLocked := false
    source := zes_power_source_t.ZES_POWER_SOURCE_ANY
    level := zes_power_level_t.ZES_POWER_LEVEL_SUSTAINED
    limitUnit := zes_limit_unit_t.ZES_LIMIT_UNIT_POWER
    interval := interval }

/-- The assignments of `LinuxPowerImp::getLimitsExt` to the entry of the peak
limit; `val` is the content of the critical node.  On `IGFX_PVC` the node
holds a current, which is reported as it is; otherwise it holds microwatts. -/
def LinuxPowerImp.peakLimitDesc (productFamily : PRODUCT_FAMILY) (val : Nat)
    (desc : zes_power_limit_ext_desc_t) : zes_power_limit_ext_desc_t :=
  { desc with
    enabledStateLocked := true
    intervalValueLocked := true
    limitValueLocked := false
    source := zes_power_source_t.ZES_POWER_SOURCE_ANY
    level := zes_power_level_t.ZES_POWER_LEVEL_PEAK
    interval := 0
    limit :=
      if productFamily = PRODUCT_FAMILY.IGFX_PVC then
        toInt32 val
      else
        toInt32 (val / milliFactor : Nat)
    limitUnit :=
      if productFamily = PRODUCT_FAMILY.IGFX_PVC then
        zes_limit_unit_t.ZES_LIMIT_UNIT_CURRENT
      else
        zes_limit_unit_t.ZES_LIMIT_UNIT_POWER }

/-- The second block of `LinuxPowerImp::getLimitsExt`, guarded by
`count < *pCount`: the peak limit is read from the critical node and written
into entry `count` of the array.  `val` and `result` are the locals the first
block left.  An array shorter than the index is not written (the caller has to
provide `*pCount` entries). -/
def LinuxPowerImp.getLimitsExtPeak (handle : LinuxPowerImp) (pCount count val : Nat)
    (result : ze_result_t) (pSustained : List zes_power_limit_ext_desc_t) :
    ze_result_t × Nat × Option (List zes_power_limit_ext_desc_t) × LinuxPowerImp :=
  if count < pCount then
    let read := handle.pSysfsAccess.readUInt64
      (handle.i915HwmonDir ++ "/" ++ handle.criticalPowerLimit) val
    let accessed := { handle with pSysfsAccess := read.2.2 }
    if read.1 ≠ ze_result_t.ZE_RESULT_SUCCESS then
      (getErrorCode read.1, pCount, some pSustained, accessed)
    else
      (read.1, pCount,
        some (pSustained.modify (LinuxPowerImp.peakLimitDesc handle.productFamily read.2.1) count),
        accessed)
  else
    (result, pCount, some pSustained, handle)

/-- The function `LinuxPowerImp::getLimitsExt` of `os_power_imp_prelim.cpp`.
`pCount` is the value `*pCount` holds at the call and the second component of
the result the value it holds on return; a null array is `none`. -/
def LinuxPowerImp.getLimitsExt (handle : LinuxPowerImp) (pCount : Nat)
    (pSustained : Option (List zes_power_limit_ext_desc_t)) :
    ze_result_t × Nat × Option (List zes_power_limit_ext_desc_t) × LinuxPowerImp :=
  let pCount :=
    if pCount = 0 ∨ handle.powerLimitCount < pCount then handle.powerLimitCount else pCount
  match pSustained with
  | none => (ze_result_t.ZE_RESULT_SUCCESS, pCount, none, handle)
  | some descs =>
      if 0 < pCount then
        let read := handle.pSysfsAccess.readUInt64
          (handle.i915HwmonDir ++ "/" ++ LinuxPowerImp.sustainedPowerLimit) 0
        if ze_result_t.ZE_RESULT_SUCCESS ≠ read.1 then
          (getErrorCode read.1, pCount, some descs, { handle with pSysfsAccess := read.2.2 })
        else
          let readInterval := read.2.2.readInt32
            (handle.i915HwmonDir ++ "/" ++ LinuxPowerImp.sustainedPowerLimitInterval) 0
          let accessed := { handle with pSysfsAccess := readInterval.2.2 }
          if ze_result_t.ZE_RESULT_SUCCESS ≠ readInterval.1 then
            (getErrorCode readInterval.1, pCount, some descs, accessed)
          else
            accessed.getLimitsExtPeak pCount 1 (read.2.1 / milliFactor) readInterval.1
              (descs.modify
                (LinuxPowerImp.sustainedLimitDesc (read.2.1 / milliFactor) readInterval.2.1) 0)
      else
        handle.getLimitsExtPeak pCount 0 0 ze_result_t.ZE_RESULT_SUCCESS descs

/-- The loop of `LinuxPowerImp::setLimitsExt` over the descriptors.  The first
component is the result of an early return, `none` when the loop runs to its
end.  The product of a limit and `milliFactor` is taken in `uint64_t`. -/
def LinuxPowerImp.setLimitsExtLoop (handle : LinuxPowerImp) :
    List zes_power_limit_ext_desc_t → Option ze_result_t × LinuxPowerImp
  | [] => (none, handle)
  | desc :: rest =>
      if desc.level = zes_power_level_t.ZES_POWER_LEVEL_SUSTAINED then
        let val : Nat := toUInt64 desc.limit * milliFactor % 2 ^ 64
        let written := handle.pSysfsAccess.write
          (handle.i915HwmonDir ++ "/" ++ LinuxPowerImp.sustainedPowerLimit) val
        if ze_result_t.ZE_RESULT_SUCCESS ≠ written.1 then
          (some (getErrorCode written.1), { handle with pSysfsAccess := written.2 })
        else
          let writtenInterval := written.2.write
            (handle.i915HwmonDir ++ "/" ++ LinuxPowerImp.sustainedPowerLimitInterval)
            desc.interval
          if ze_result_t.ZE_RESULT_SUCCESS ≠ writtenInterval.1 then
            (some (getErrorCode writtenInterval.1),
              { handle with pSysfsAccess := writtenInterval.2 })
          else
            LinuxPowerImp.setLimitsExtLoop { handle with pSysfsAccess := writtenInterval.2 }
              rest
      else if desc.level = zes_power_level_t.ZES_POWER_LEVEL_PEAK then
        let val : Nat :=
          if handle.productFamily = PRODUCT_FAMILY.IGFX_PVC then
            toUInt64 desc.limit
          else
            toUInt64 desc.limit * milliFactor % 2 ^ 64
        let written := handle.pSysfsAccess.write
          (handle.i915HwmonDir ++ "/" ++ handle.criticalPowerLimit) val
        if ze_result_t.ZE_RESULT_SUCCESS ≠ written.1 then
          (some (getErrorCode written.1), { handle with pSysfsAccess := written.2 })
        else
          LinuxPowerImp.setLimitsExtLoop { handle with pSysfsAccess := written.2 } rest
      else
        (some ze_result_t.ZE_RESULT_ERROR_UNSUPPORTED_FEATURE, handle)

/-- The function `LinuxPowerImp::setLimitsExt` of `os_power_imp_prelim.cpp`.
The loop visits the first `*pCount` entries of the array. -/
def LinuxPowerImp.setLimitsExt (handle : LinuxPowerImp) (pCount : Nat)
    (pSustained : List zes_power_limit_ext_desc_t) : ze_result_t × LinuxPowerImp :=
  if handle.isSubdevice then
    (ze_result_t.ZE_RESULT_ERROR_UNSUPPORTED_FEATURE, handle)
  else
    match handle.setLimitsExtLoop (pSustained.take pCount) with
    | (some result, after) => (result, after)
    | (none, after) => (ze_result_t.ZE_RESULT_SUCCESS, after)

/-! ### Concrete power handles -/

/-- A sysfs tree whose nodes all hold `0` and serve every read and write. -/
def fixtureSysfs : SysfsAccess :=
  { nodes := fun _ => 0
    strings := fun _ => ""
    dirEntries := fun _ => []
    readResult := fun _ _ => ze_result_t.ZE_RESULT_SUCCESS
    writeResult := fun _ _ => ze_result_t.ZE_RESULT_SUCCESS
    scanDirEntriesResult := fun _ _ => ze_result_t.ZE_RESULT_SUCCESS
    accessCount := 0 }

/-- A sysfs tree none of whose nodes is available for reading. -/
def fixtureSysfsNotAvailable : SysfsAccess :=
  { fixtureSysfs with readResult := fun _ _ => ze_result_t.ZE_RESULT_ERROR_NOT_AVAILABLE }

/-- A telemetry reader whose package-energy counter stands at three joules
and a half in Q20 fixed point. -/
def fixturePmt : PlatformMonitoringTech :=
  { counters := fun _ => 3 * 1048576 + 524288
    readResult := fun _ => ze_result_t.ZE_RESULT_SUCCESS
    readCount := 0 }

/-- A device-level power handle of the tools layer with both limits counted
as available. -/
def fixturePowerHandle (productFamily : PRODUCT_FAMILY) : LinuxPowerImp :=
  { pSysfsAccess := fixtureSysfs
    pPmt := some fixturePmt
    i915HwmonDir := "device/hwmon/hwmon1"
    canControl := true
    isSubdevice := false
    subdeviceId := 0
    powerLimitCount := 2
    productFamily := productFamily }

/-- A sustained descriptor as a caller fills it before `setLimitsExt`. -/
def fixtureSustainedDesc (limit interval : Int) : zes_power_limit_ext_desc_t :=
  { level := zes_power_level_t.ZES_POWER_LEVEL_SUSTAINED
    source := zes_power_source_t.ZES_POWER_SOURCE_ANY
    limitUnit := zes_limit_unit_t.ZES_LIMIT_UNIT_POWER
    enabledStateLocked := true
    enabled := true
    intervalValueLocked := false
    interval := interval
    limitValueLocked := false
    limit := limit }

/-- A peak descriptor as a caller fills it before `setLimitsExt`. -/
def fixturePeakDesc (limit : Int) : zes_power_limit_ext_desc_t :=
  { level := zes_power_level_t.ZES_POWER_LEVEL_PEAK
    source := zes_power_source_t.ZES_POWER_SOURCE_ANY
    limitUnit := zes_limit_unit_t.ZES_LIMIT_UNIT_UNKNOWN
    enabledStateLocked := true
    enabled := true
    intervalValueLocked := true
    interval := 0
    limitValueLocked := false
    limit := limit }

/-- The array of the two descriptors, the sustained one first. -/
def fixtureLimits (limit interval : Int) : List zes_power_limit_ext_desc_t :=
  [fixtureSustainedDesc limit interval, fixturePeakDesc limit]

end L0

namespace L0.Sysman

/-- A kernel-mode-driver interface with the hwmon node names of i915. -/
def fixtureKmdInterface : SysmanKmdInterface :=
  { getSysfsFilePath := fun sysfsName _ _ =>
      match sysfsName with
      | SysfsName.sysfsNameEnergyCounterNode => "energy1_input"
      | SysfsName.sysfsNameSustainedPowerLimit => "power1_max"
      | SysfsName.sysfsNameSustainedPowerLimitInterval => "power1_max_interval"
      | _ => ""
    getHwmonName := fun subDeviceId isSubdevice =>
      if isSubdevice then "i915_gt" ++ toString subDeviceId else "i915" }

/-- A device-level power handle over `sysfs` with the telemetry reader
`pPmt`. -/
def fixturePowerHandle (sysfs : SysfsAccess) (pPmt : Option PlatformMonitoringTech) :
    LinuxPowerImp :=
  { pSysfsAccess := sysfs
    pSysmanKmdInterface := fixtureKmdInterface
    pPmt := pPmt
    intelGraphicsHwmonDir := "device/hwmon/hwmon1"
    canControl := true
    isSubdevice := false
    subdeviceId := 0 }

end L0.Sysman

/-! ## Sysman power: limit probing and module support of the tools layer -/

namespace L0

/-- The constant `LinuxPowerImp::hwmonDir`. -/
def LinuxPowerImp.hwmonDir : String := "device/hwmon"

/-- The constant `LinuxPowerImp::i915`. -/
def LinuxPowerImp.i915 : String := "i915"

/-- The constant `LinuxPowerImp::defaultPowerLimit`. -/
def LinuxPowerImp.defaultPowerLimit : String := "power1_rated_max"

/-- The members of `LinuxPowerImp::PowerLimitRestorer` of
`os_power_imp_prelim.cpp`; the accessor it points to is passed to its
functions. -/
structure LinuxPowerImp.PowerLimitRestorer where
  result : ze_result_t
  powerLimit : String
  powerLimitValue : Nat

/-- The constructor of `PowerLimitRestorer`: it reads the node `powerLimit`
into `powerLimitValue`, which starts at `0`, and keeps the result. -/
def LinuxPowerImp.PowerLimitRestorer.create (pSysfsAccess : SysfsAccess)
    (powerLimit : String) : LinuxPowerImp.PowerLimitRestorer × SysfsAccess :=
  let read := pSysfsAccess.readUInt64 powerLimit 0
  ({ result := read.1, powerLimit := powerLimit, powerLimitValue := read.2.1 }, read.2.2)

/-- The destructor of `PowerLimitRestorer`: when the read of the constructor
succeeded it writes the value back; the result of that write goes to the
member of the dying object and reaches nobody. -/
def LinuxPowerImp.PowerLimitRestorer.destroy (restorer : LinuxPowerImp.PowerLimitRestorer)
    (pSysfsAccess : SysfsAccess) : SysfsAccess :=
  if restorer.result = ze_result_t.ZE_RESULT_SUCCESS then
    (pSysfsAccess.write restorer.powerLimit restorer.powerLimitValue).2
  else
    pSysfsAccess

/-- The function `LinuxPowerImp::getMinLimit` of `os_power_imp_prelim.cpp`. -/
def LinuxPowerImp.getMinLimit (handle : LinuxPowerImp) (minLimit : Int) :
    ze_result_t × Int × LinuxPowerImp :=
  let powerLimit : Nat := 100
  let sustainedLimit := handle.i915HwmonDir ++ "/" ++ LinuxPowerImp.sustainedPowerLimit
  let written := handle.pSysfsAccess.write sustainedLimit powerLimit
  if ze_result_t.ZE_RESULT_SUCCESS ≠ written.1 then
    (getErrorCode written.1, minLimit, { handle with pSysfsAccess := written.2 })
  else
    let read := written.2.readUInt64 sustainedLimit powerLimit
    if ze_result_t.ZE_RESULT_SUCCESS ≠ read.1 then
      (getErrorCode read.1, minLimit, { handle with pSysfsAccess := read.2.2 })
    else
      (read.1, toInt32 (read.2.1 / milliFactor), { handle with pSysfsAccess := read.2.2 })

/-- The function `LinuxPowerImp::getMaxLimit` of `os_power_imp_prelim.cpp`;
`2147483647` is `std::numeric_limits<int32_t>::max()`. -/
def LinuxPowerImp.getMaxLimit (handle : LinuxPowerImp) (maxLimit : Int) :
    ze_result_t × Int × LinuxPowerImp :=
  let powerLimit : Nat := 2147483647
  let sustainedLimit := handle.i915HwmonDir ++ "/" ++ LinuxPowerImp.sustainedPowerLimit
  let written := handle.pSysfsAccess.write sustainedLimit powerLimit
  if ze_result_t.ZE_RESULT_SUCCESS ≠ written.1 then
    (getErrorCode written.1, maxLimit, { handle with pSysfsAccess := written.2 })
  else
    let read := written.2.readUInt64 sustainedLimit powerLimit
    if ze_result_t.ZE_RESULT_SUCCESS ≠ read.1 then
      (getErrorCode read.1, maxLimit, { handle with pSysfsAccess := read.2.2 })
    else
      (read.1, toInt32 (read.2.1 / milliFactor), { handle with pSysfsAccess := read.2.2 })

/-- The function `LinuxPowerImp::getDefaultLimit` of `os_power_imp_prelim.cpp`. -/
def LinuxPowerImp.getDefaultLimit (handle : LinuxPowerImp) (defaultLimit : Int) :
    ze_result_t × Int × LinuxPowerImp :=
  let read := handle.pSysfsAccess.readUInt64
    (handle.i915HwmonDir ++ "/" ++ LinuxPowerImp.defaultPowerLimit) 0
  if read.1 ≠ ze_result_t.ZE_RESULT_SUCCESS then
    (getErrorCode read.1, defaultLimit, { handle with pSysfsAccess := read.2.2 })
  else
    (read.1, toInt32 (read.2.1 / milliFactor), { handle with pSysfsAccess := read.2.2 })

/-- The part of `LinuxPowerImp::getProperties` of `os_power_imp_prelim.cpp`
that runs while the restorer is alive: the test of the restorer, `getMinLimit`
and `getMaxLimit`, up to the value of the `return`. -/
def LinuxPowerImp.getPropertiesGuarded (handle : LinuxPowerImp)
    (powerLimitRestorer : LinuxPowerImp.PowerLimitRestorer)
    (pProperties : zes_power_properties_t) :
    ze_result_t × zes_power_properties_t × LinuxPowerImp :=
  if powerLimitRestorer.result ≠ ze_result_t.ZE_RESULT_SUCCESS then
    (getErrorCode powerLimitRestorer.result, pProperties, handle)
  else
    let min := handle.getMinLimit pProperties.minLimit
    if min.1 ≠ ze_result_t.ZE_RESULT_SUCCESS then
      (min.1, { pProperties with minLimit := min.2.1 }, min.2.2)
    else
      let max := min.2.2.getMaxLimit pProperties.maxLimit
      (max.1, { pProperties with minLimit := min.2.1, maxLimit := max.2.1 }, max.2.2)

/-- The function `LinuxPowerImp::getProperties` of `os_power_imp_prelim.cpp`.
The restorer lives from its construction to the return, so its destructor runs
on each of the three returns after it, once the returned value is computed.
The calls change nothing of the handle but the accessor it points to, so the
handle of each later step is `handle` with the accessor of that step. -/
def LinuxPowerImp.getProperties (handle : LinuxPowerImp)
    (pProperties : zes_power_properties_t) :
    ze_result_t × zes_power_properties_t × LinuxPowerImp :=
  let cleared : zes_power_properties_t :=
    { pProperties with
      onSubdevice := handle.isSubdevice
      subdeviceId := handle.subdeviceId
      canControl := handle.canControl
      isEnergyThresholdSupported := false
      defaultLimit := -1
      minLimit := -1
      maxLimit := -1 }
  if handle.isSubdevice then
    (ze_result_t.ZE_RESULT_SUCCESS, cleared, handle)
  else
    let default := handle.getDefaultLimit cleared.defaultLimit
    if default.1 ≠ ze_result_t.ZE_RESULT_SUCCESS then
      (default.1, { cleared with defaultLimit := default.2.1 }, default.2.2)
    else
      let sustainedLimit := handle.i915HwmonDir ++ "/" ++ LinuxPowerImp.sustainedPowerLimit
      let restorer := LinuxPowerImp.PowerLimitRestorer.create default.2.2.pSysfsAccess
        sustainedLimit
      let guarded := LinuxPowerImp.getPropertiesGuarded
        { handle with pSysfsAccess := restorer.2 } restorer.1
        { cleared with defaultLimit := default.2.1 }
      (guarded.1, guarded.2.1,
        { handle with pSysfsAccess := restorer.1.destroy guarded.2.2.pSysfsAccess })

/-- The function `LinuxPowerImp::isHwmonDir` of `os_power_imp_prelim.cpp`;
`toString` on a number is `std::to_string`. -/
def LinuxPowerImp.isHwmonDir (handle : LinuxPowerImp) (name : String) : Bool :=
  if handle.isSubdevice = true then
    if name = LinuxPowerImp.i915 ++ "_gt" ++ toString handle.subdeviceId then true else false
  else if name = LinuxPowerImp.i915 then
    true
  else
    false

/-- The loop over the scanned directories in
`LinuxPowerImp::isPowerModuleSupported` of `os_power_imp_prelim.cpp`, from the
entries still to visit; the boolean is the local `hwmonDirExists`. -/
def LinuxPowerImp.isPowerModuleSupportedLoop (handle : LinuxPowerImp)
    (hwmonDirExists : Bool) : List String → Bool × LinuxPowerImp
  | [] => (hwmonDirExists, handle)
  | tempHwmonDirEntry :: rest =>
    let i915NameFile :=
      LinuxPowerImp.hwmonDir ++ "/" ++ tempHwmonDirEntry ++ "/" ++ "name"
    let read := handle.pSysfsAccess.readString i915NameFile ""
    let accessed := { handle with pSysfsAccess := read.2.2 }
    if ze_result_t.ZE_RESULT_SUCCESS ≠ read.1 then
      LinuxPowerImp.isPowerModuleSupportedLoop accessed hwmonDirExists rest
    else if accessed.isHwmonDir read.2.1 = true then
      LinuxPowerImp.isPowerModuleSupportedLoop
        { accessed with
          i915HwmonDir := LinuxPowerImp.hwmonDir ++ "/" ++ tempHwmonDirEntry
          canControl := if accessed.isSubdevice = true then false else true }
        true rest
    else
      LinuxPowerImp.isPowerModuleSupportedLoop accessed hwmonDirExists rest

/-- The function `LinuxPowerImp::isPowerModuleSupported` of
`os_power_imp_prelim.cpp`.  `powerLimitCount` is a `uint32_t` member that the
function increments and never clears. -/
def LinuxPowerImp.isPowerModuleSupported (handle : LinuxPowerImp) : Bool × LinuxPowerImp :=
  let scan := handle.pSysfsAccess.scanDirEntries LinuxPowerImp.hwmonDir
  let scanned := { handle with pSysfsAccess := scan.2.2 }
  let looped := scanned.isPowerModuleSupportedLoop false scan.2.1
  let counted :=
    if looped.2.isSubdevice = false then
      let sustained := looped.2.pSysfsAccess.readUInt64
        (looped.2.i915HwmonDir ++ "/" ++ LinuxPowerImp.sustainedPowerLimit) 0
      let first :=
        { looped.2 with
          pSysfsAccess := sustained.2.2
          powerLimitCount :=
            if ze_result_t.ZE_RESULT_SUCCESS = sustained.1 then
              (looped.2.powerLimitCount + 1) % 2 ^ 32
            else looped.2.powerLimitCount }
      let critical := first.pSysfsAccess.readUInt64
        (first.i915HwmonDir ++ "/" ++ first.criticalPowerLimit) sustained.2.1
      { first with
        pSysfsAccess := critical.2.2
        powerLimitCount :=
          if ze_result_t.ZE_RESULT_SUCCESS = critical.1 then
            (first.powerLimitCount + 1) % 2 ^ 32
          else first.powerLimitCount }
    else
      looped.2
  if looped.1 = false then
    (handle.pPmt.isSome, counted)
  else
    (true, counted)

/-- Modelled from the spec: the state the constructor of `LinuxPowerImp`
(`os_power_imp_prelim.cpp`) leaves.  The constructor stores its arguments and
the collaborators of the Sysman object; the other members keep the default
initialisers of `os_power_imp_prelim.h`, which is not under src/: an empty
hwmon directory, no control and a limit count of `0`. -/
def OsPower.create (pSysfsAccess : SysfsAccess) (pPmt : Option PlatformMonitoringTech)
    (productFamily : PRODUCT_FAMILY) (onSubdevice : Bool) (subdeviceId : Nat) :
    LinuxPowerImp :=
  { pSysfsAccess := pSysfsAccess
    pPmt := pPmt
    i915HwmonDir := ""
    canControl := false
    isSubdevice := onSubdevice
    subdeviceId := subdeviceId
    powerLimitCount := 0
    productFamily := productFamily }

end L0

namespace L0.Sysman

/-- The function `LinuxPowerImp::isHwmonDir` of `sysman_os_power_imp.cpp`. -/
def LinuxPowerImp.isHwmonDir (handle : LinuxPowerImp) (name : String) : Bool :=
  let intelGraphicsHwmonName :=
    handle.pSysmanKmdInterface.getHwmonName handle.subdeviceId handle.isSubdevice
  if handle.isSubdevice = false ∧ name = intelGraphicsHwmonName then true else false

/-- The loop over the scanned directories in
`LinuxPowerImp::isPowerModuleSupported` of `sysman_os_power_imp.cpp`, from the
entries still to visit; the boolean is the local `hwmonDirExists`. -/
def LinuxPowerImp.isPowerModuleSupportedLoop (handle : LinuxPowerImp)
    (hwmonDirExists : Bool) : List String → Bool × LinuxPowerImp
  | [] => (hwmonDirExists, handle)
  | tempHwmonDirEntry :: rest =>
    let hwmonDir := "device/hwmon"
    let i915NameFile := hwmonDir ++ "/" ++ tempHwmonDirEntry ++ "/" ++ "name"
    let read := handle.pSysfsAccess.readString i915NameFile ""
    let accessed := { handle with pSysfsAccess := read.2.2 }
    if ze_result_t.ZE_RESULT_SUCCESS ≠ read.1 then
      LinuxPowerImp.isPowerModuleSupportedLoop accessed hwmonDirExists rest
    else if accessed.isHwmonDir read.2.1 = true then
      LinuxPowerImp.isPowerModuleSupportedLoop
        { accessed with
          intelGraphicsHwmonDir := hwmonDir ++ "/" ++ tempHwmonDirEntry
          canControl := true }
        true rest
    else
      LinuxPowerImp.isPowerModuleSupportedLoop accessed hwmonDirExists rest

/-- The function `LinuxPowerImp::isPowerModuleSupported` of
`sysman_os_power_imp.cpp`. -/
def LinuxPowerImp.isPowerModuleSupported (handle : LinuxPowerImp) : Bool × LinuxPowerImp :=
  let hwmonDir := "device/hwmon"
  let scan := handle.pSysfsAccess.scanDirEntries hwmonDir
  let scanned := { handle with pSysfsAccess := scan.2.2 }
  let looped := scanned.isPowerModuleSupportedLoop false scan.2.1
  if looped.1 = false then
    (handle.pPmt.isSome, looped.2)
  else
    (true, looped.2)

end L0.Sysman

namespace L0

/-- The results of the six accesses `LinuxPowerImp::getProperties` of
`os_power_imp_prelim.cpp` makes on a device-level handle while every one
before succeeds, in the order it makes them: the read of the default limit in
`getDefaultLimit`, the read of the sustained limit by the restorer, and the
write and the read of `getMinLimit` and then of `getMaxLimit`. -/
def LinuxPowerImp.propertiesAccesses (handle : LinuxPowerImp) : List ze_result_t :=
  let sustainedLimit := handle.i915HwmonDir ++ "/" ++ LinuxPowerImp.sustainedPowerLimit
  [ handle.pSysfsAccess.readResult handle.pSysfsAccess.accessCount
      (handle.i915HwmonDir ++ "/" ++ LinuxPowerImp.defaultPowerLimit),
    handle.pSysfsAccess.readResult (handle.pSysfsAccess.accessCount + 1) sustainedLimit,
    handle.pSysfsAccess.writeResult (handle.pSysfsAccess.accessCount + 2) sustainedLimit,
    handle.pSysfsAccess.readResult (handle.pSysfsAccess.accessCount + 3) sustainedLimit,
    handle.pSysfsAccess.writeResult (handle.pSysfsAccess.accessCount + 4) sustainedLimit,
    handle.pSysfsAccess.readResult (handle.pSysfsAccess.accessCount + 5) sustainedLimit ]


/-- A sysfs tree with the sustained limit at 150 W and the default limit at
300 W whose seventh access fails when it is a write: in `getProperties` of
the tools layer that access is the write restoring the sustained limit. -/
def fixtureSysfsRestoreFails : SysfsAccess :=
  { fixtureSysfs with
    nodes := fun file =>
      if file = "device/hwmon/hwmon1/power1_max" then 150000000
      else if file = "device/hwmon/hwmon1/power1_rated_max" then 300000000
      else 0
    writeResult := fun count _ =>
      if count = 6 then ze_result_t.ZE_RESULT_ERROR_NOT_AVAILABLE
      else ze_result_t.ZE_RESULT_SUCCESS }

/-- The device-level power handle of the tools layer over `sysfs`. -/
def fixturePowerHandleOver (sysfs : SysfsAccess) : LinuxPowerImp :=
  { fixturePowerHandle PRODUCT_FAMILY.IGFX_PVC with pSysfsAccess := sysfs }

/-- A properties structure as a caller passes it, with stale content. -/
def fixtureProperties : zes_power_properties_t :=
  { onSubdevice := true, subdeviceId := 7, canControl := false,
    isEnergyThresholdSupported := true, defaultLimit := 5, minLimit := 5, maxLimit := 5 }

end L0

namespace L0

/-- A sysfs tree with two hwmon directories as the comment above
`LinuxPowerImp::isHwmonDir` describes them: `hwmon1` named `i915` for the
device and `hwmon2` named `i915_gt0` for tile 0.  Every access succeeds. -/
def fixtureSysfsTiles : SysfsAccess :=
  { fixtureSysfs with
    dirEntries := fun path => if path = "device/hwmon" then ["hwmon1", "hwmon2"] else []
    strings := fun file =>
      if file = "device/hwmon/hwmon1/name" then "i915"
      else if file = "device/hwmon/hwmon2/name" then "i915_gt0"
      else "" }

/-- The power handle of the Sysman layer for tile 0 over the tree with two
hwmon directories, without a telemetry reader. -/
def Sysman.fixtureTilePowerHandle : Sysman.LinuxPowerImp :=
  { pSysfsAccess := fixtureSysfsTiles
    pSysmanKmdInterface := Sysman.fixtureKmdInterface
    pPmt := none
    intelGraphicsHwmonDir := ""
    canControl := false
    isSubdevice := true
    subdeviceId := 0 }

end L0

namespace L0

/-- A descriptor whose level `setLimitsExt` does not support. -/
def fixtureBurstDesc (limit : Int) : zes_power_limit_ext_desc_t :=
  { fixtureSustainedDesc limit 0 with level := zes_power_level_t.ZES_POWER_LEVEL_BURST }

/-- A sysfs tree whose nodes all hold `0` and whose second access fails when
it is a write: in `setLimitsExt` on a sustained descriptor that access is the
write of the interval. -/
def fixtureSysfsSecondWriteFails : SysfsAccess :=
  { fixtureSysfs with
    writeResult := fun count _ =>
      if count = 1 then ze_result_t.ZE_RESULT_ERROR_INSUFFICIENT_PERMISSIONS
      else ze_result_t.ZE_RESULT_SUCCESS }


/-- The power handle `OsPower::create` makes for the device over the tree
with two hwmon directories, for a PVC without a telemetry reader. -/
def fixtureCreatedPowerHandle : LinuxPowerImp :=
  OsPower.create fixtureSysfsTiles none PRODUCT_FAMILY.IGFX_PVC false 0

/-- The created power handle after two calls of `isPowerModuleSupported`. -/
def fixtureTwiceSupportedPowerHandle : LinuxPowerImp :=
  ((fixtureCreatedPowerHandle.isPowerModuleSupported).2.isPowerModuleSupported).2

end L0

/-! ## Kernel interface of the prelim kernel: `IoctlHelperPrelim20`

The functions of `ioctl_helper_prelim.cpp`.  The macro `UNRECOVERABLE_IF`,
whose header is not under src/, stops the program when its condition holds: a
function that reaches it with a true condition returns nothing, which the
model renders as `none`. -/

namespace NEO

/-- The members of `IoctlHelperPrelim20` the modelled functions use: the
`uint64_t` counter `uuid`. -/
structure IoctlHelperPrelim20 where
  uuid : Nat
  deriving DecidableEq, Repr

/-- The digits a conversion `%lx` of `snprintf` writes for `value`: lowercase
hexadecimal, most significant digit first, no leading zero.  `fuel` bounds the
number of digits; sixteen suffice for a `uint64_t`. -/
def hexDigits : Nat → Nat → List Char
  | 0, _ => []
  | fuel + 1, value =>
    if value < 16 then [Nat.digitChar value]
    else hexDigits fuel (value / 16) ++ [Nat.digitChar (value % 16)]

/-- The text a conversion `%0<width>lx` of `snprintf` writes for the
`uint64_t` `value`: its hexadecimal digits, padded on the left with zeros to at
least `width` characters. -/
def printfHex (width value : Nat) : List Char :=
  List.replicate (width - (hexDigits 16 value).length) '0' ++ hexDigits 16 value

/-- The function `IoctlHelperPrelim20::generateUUID` of
`ioctl_helper_prelim.cpp`.  `snprintf` writes at most 36 characters into the
buffer of 37, and the string returned is the first 36 characters of the
buffer; the formatted text never has fewer. -/
def IoctlHelperPrelim20.generateUUID (helper : IoctlHelperPrelim20) :
    Option (String × IoctlHelperPrelim20) :=
  let uuid := (helper.uuid + 1) % 2 ^ 64
  if uuid = 0xFFFFFFFFFFFFFFFF then
    none
  else
    let parts0 := uuid &&& 0xFFFFFFFFFFFF
    let parts1 := (uuid &&& 0xFFFF000000000000) >>> 48
    let buffer := "00000000-0000-0000-".toList ++ printfHex 4 parts1 ++ ['-']
      ++ printfHex 12 parts0
    some (String.mk (buffer.take 36), { helper with uuid := uuid })

/-- The strings of `count` successive calls of `generateUUID` on one helper,
in the order of the calls, with the helper after the last call; `none` when
one of the calls does not return. -/
def IoctlHelperPrelim20.generateUUIDs :
    Nat → IoctlHelperPrelim20 → Option (List String × IoctlHelperPrelim20)
  | 0, helper => some ([], helper)
  | count + 1, helper =>
    match helper.generateUUID with
    | none => none
    | some (first, next) =>
      match IoctlHelperPrelim20.generateUUIDs count next with
      | none => none
      | some (rest, last) => some (first :: rest, last)

/-- The `width` hexadecimal digits of `value` from position `width - 1` down
to position `0`, lowercase. -/
def fixedHex : Nat → Nat → List Char
  | 0, _ => []
  | width + 1, value => fixedHex width (value / 16) ++ [Nat.digitChar (value % 16)]

/-- The text `00000000-0000-0000-HHHH-LLLLLLLLLLLL` for the counter value
`uuid`: `HHHH` the four digits of its high 16 bits and `LLLLLLLLLLLL` the
twelve digits of its low 48 bits. -/
def uuidText (uuid : Nat) : String :=
  String.mk ("00000000-0000-0000-".toList ++ fixedHex 4 (uuid / 2 ^ 48) ++ ['-']
    ++ fixedHex 12 (uuid % 2 ^ 48))

/-- Modelled from the spec: the structure `prelim_drm_i915_query_fabric_info`
of the prelim uapi header, which is not under src/: a 32-bit `fabric_id` and
the 16-bit `bandwidth` and `latency` the kernel fills in. -/
structure prelim_drm_i915_query_fabric_info where
  fabric_id : Nat
  bandwidth : Nat
  latency : Nat
  deriving DecidableEq, Repr

/-- The function `IoctlHelperPrelim20::getFabricLatency` of
`ioctl_helper_prelim.cpp`.  `ioctl` is the query ioctl on the one item the
function builds: it takes the zeroed structure carrying `fabricId` and gives
the return value and the structure as the kernel leaves it.  The results are
the return value and the referenced `latency` and `bandwidth`.  The 16-bit
fields are promoted to `int` for the arithmetic and the difference is
converted to `uint32_t`. -/
def IoctlHelperPrelim20.getFabricLatency
    (ioctl : prelim_drm_i915_query_fabric_info → Int × prelim_drm_i915_query_fabric_info)
    (fabricId latency bandwidth : Nat) : Bool × Nat × Nat :=
  let queried := ioctl { fabric_id := fabricId, bandwidth := 0, latency := 0 }
  let info := queried.2
  if queried.1 ≠ 0 then
    (false, latency, bandwidth)
  else if info.latency < 10 ∨ info.bandwidth = 0 then
    (false, latency, bandwidth)
  else
    (true, L0.toUInt32 (((info.latency / 10 : Nat) : Int) - 1), info.bandwidth)

/-- The five extension structures that are locals of
`IoctlHelperPrelim20::createGemExt`; the address of a local is rendered by its
name. -/
inductive CreateGemExtLocal
  | setparamRegion
  | vmPrivate
  | pairSetparamRegion
  | chunkingParamRegion
  | memPolicy
  deriving DecidableEq, Repr

/-- Modelled from the spec: the names an extension of GEM_CREATE_EXT carries
in `base.name`.  Their numbers are in the prelim uapi header, which is not
under src/; `zero` is the name of a structure that is only zero-initialised. -/
inductive CreateExtName
  | zero
  | PRELIM_I915_GEM_CREATE_EXT_SETPARAM
  | PRELIM_I915_GEM_CREATE_EXT_VM_PRIVATE
  | PRELIM_I915_GEM_CREATE_EXT_MEMORY_POLICY
  deriving DecidableEq, Repr

/-- Modelled from the spec: the object parameters of a set-param extension,
each combined with `PRELIM_I915_OBJECT_PARAM`.  Their numbers are in the
prelim uapi header, which is not under src/; `zero` is the parameter of a
structure that is only zero-initialised. -/
inductive ObjectParam
  | zero
  | PRELIM_I915_PARAM_MEMORY_REGIONS
  | PRELIM_I915_PARAM_SET_PAIR
  | PRELIM_I915_PARAM_SET_CHUNK_SIZE
  deriving DecidableEq, Repr

/-- The structure `MemoryClassInstance`, an entry of `MemRegionsVec`, which
the function copies field by field into
`prelim_drm_i915_gem_memory_class_instance`. -/
structure MemoryClassInstance where
  memoryClass : Nat
  memoryInstance : Nat
  deriving DecidableEq, Repr

/-- The structure `i915_user_extension`: the address of the next extension,
`none` for a null address, and the name. -/
structure i915_user_extension where
  next_extension : Option CreateGemExtLocal
  name : CreateExtName
  deriving DecidableEq, Repr

/-- The structure `prelim_drm_i915_gem_object_param` as the function fills
it.  `data` holds a number, or for the memory regions the address of the
array `regions`, which is rendered by the array itself. -/
structure prelim_drm_i915_gem_object_param where
  size : Nat
  data : Nat
  regions : List MemoryClassInstance
  param : ObjectParam
  deriving DecidableEq, Repr

/-- The structure `prelim_drm_i915_gem_create_ext_setparam`. -/
structure prelim_drm_i915_gem_create_ext_setparam where
  base : i915_user_extension
  param : prelim_drm_i915_gem_object_param
  deriving DecidableEq, Repr

/-- The structure `prelim_drm_i915_gem_create_ext_vm_private`. -/
structure prelim_drm_i915_gem_create_ext_vm_private where
  base : i915_user_extension
  vm_id : Nat
  deriving DecidableEq, Repr

/-- The structure `prelim_drm_i915_gem_create_ext_memory_policy`; the node
mask `nodemask_ptr` points to is rendered by the mask itself. -/
structure prelim_drm_i915_gem_create_ext_memory_policy where
  base : i915_user_extension
  mode : Nat
  flags : Nat
  nodemask_max : Nat
  nodemask : List Nat
  deriving DecidableEq, Repr

/-- The structure `prelim_drm_i915_gem_create_ext` with the address of the
first extension. -/
structure prelim_drm_i915_gem_create_ext where
  size : Nat
  handle : Nat
  extensions : Option CreateGemExtLocal
  deriving DecidableEq, Repr

/-- The locals of `createGemExt` the ioctl can reach: the request `createExt`
and the five extension structures. -/
structure CreateGemExtLocals where
  setparamRegion : prelim_drm_i915_gem_create_ext_setparam
  vmPrivate : prelim_drm_i915_gem_create_ext_vm_private
  pairSetparamRegion : prelim_drm_i915_gem_create_ext_setparam
  chunkingParamRegion : prelim_drm_i915_gem_create_ext_setparam
  memPolicy : prelim_drm_i915_gem_create_ext_memory_policy
  createExt : prelim_drm_i915_gem_create_ext
  deriving DecidableEq, Repr

/-- A zero-initialised `i915_user_extension`. -/
def i915_user_extension.zero : i915_user_extension :=
  { next_extension := none, name := CreateExtName.zero }

/-- A zero-initialised `prelim_drm_i915_gem_create_ext_setparam`. -/
def prelim_drm_i915_gem_create_ext_setparam.zero : prelim_drm_i915_gem_create_ext_setparam :=
  { base := i915_user_extension.zero
    param := { size := 0, data := 0, regions := [], param := ObjectParam.zero } }

/-- The member `base` of the local `local`. -/
def CreateGemExtLocals.base (locals : CreateGemExtLocals) :
    CreateGemExtLocal → i915_user_extension
  | CreateGemExtLocal.setparamRegion => locals.setparamRegion.base
  | CreateGemExtLocal.vmPrivate => locals.vmPrivate.base
  | CreateGemExtLocal.pairSetparamRegion => locals.pairSetparamRegion.base
  | CreateGemExtLocal.chunkingParamRegion => locals.chunkingParamRegion.base
  | CreateGemExtLocal.memPolicy => locals.memPolicy.base

/-- The assignment `target->next_extension = &next` through a pointer to the
member `base` of one of the locals. -/
def CreateGemExtLocals.setNext (locals : CreateGemExtLocals)
    (target next : CreateGemExtLocal) : CreateGemExtLocals :=
  match target with
  | CreateGemExtLocal.setparamRegion =>
    { locals with
      setparamRegion :=
        { locals.setparamRegion with
          base := { locals.setparamRegion.base with next_extension := some next } } }
  | CreateGemExtLocal.vmPrivate =>
    { locals with
      vmPrivate :=
        { locals.vmPrivate with
          base := { locals.vmPrivate.base with next_extension := some next } } }
  | CreateGemExtLocal.pairSetparamRegion =>
    { locals with
      pairSetparamRegion :=
        { locals.pairSetparamRegion with
          base := { locals.pairSetparamRegion.base with next_extension := some next } } }
  | CreateGemExtLocal.chunkingParamRegion =>
    { locals with
      chunkingParamRegion :=
        { locals.chunkingParamRegion with
          base := { locals.chunkingParamRegion.base with next_extension := some next } } }
  | CreateGemExtLocal.memPolicy =>
    { locals with
      memPolicy :=
        { locals.memPolicy with
          base := { locals.memPolicy.base with next_extension := some next } } }

/-- Modelled from the spec: the constant `MemoryConstants::pageSize64k`, whose
header is not under src/: 64 KiB. -/
def MemoryConstants.pageSize64k : Nat := 65536

/-- The part of `IoctlHelperPrelim20::createGemExt` of
`ioctl_helper_prelim.cpp` before the ioctl: the locals as the ioctl finds
them.  `none` stands for a stop in `UNRECOVERABLE_IF`, and for the division
by `numOfChunks` when it is `0`, which is undefined.  The argument `patIndex`
is left out: the function does not use it. -/
def IoctlHelperPrelim20.createGemExtLocals (memClassInstances : List MemoryClassInstance)
    (allocSize : Nat) (vmId : Option Nat) (pairHandle : Int) (isChunked : Bool)
    (numOfChunks : Nat) (memPolicyMode : Option Nat)
    (memPolicyNodemask : Option (List Nat)) : Option CreateGemExtLocals :=
  let regionsSize := memClassInstances.length % 2 ^ 32
  let regions := memClassInstances.take regionsSize
  let regionParam : prelim_drm_i915_gem_object_param :=
    { size := regionsSize, data := 0, regions := regions
      param := ObjectParam.PRELIM_I915_PARAM_MEMORY_REGIONS }
  let setparamRegion : prelim_drm_i915_gem_create_ext_setparam :=
    { base :=
        { i915_user_extension.zero with
          name := CreateExtName.PRELIM_I915_GEM_CREATE_EXT_SETPARAM }
      param := regionParam }
  let vmPrivate : prelim_drm_i915_gem_create_ext_vm_private :=
    match vmId with
    | some id =>
      { base :=
          { i915_user_extension.zero with
            name := CreateExtName.PRELIM_I915_GEM_CREATE_EXT_VM_PRIVATE }
        vm_id := id }
    | none => { base := i915_user_extension.zero, vm_id := 0 }
  let zeroPolicy : prelim_drm_i915_gem_create_ext_memory_policy :=
    { base := i915_user_extension.zero, mode := 0, flags := 0, nodemask_max := 0,
      nodemask := [] }
  let memPolicy : Option prelim_drm_i915_gem_create_ext_memory_policy :=
    match memPolicyMode with
    | some mode =>
      match memPolicyNodemask with
      | none => none
      | some nodemask =>
        some
          { base :=
              { i915_user_extension.zero with
                name := CreateExtName.PRELIM_I915_GEM_CREATE_EXT_MEMORY_POLICY }
            mode := mode
            flags := 0
            nodemask_max := nodemask.length % 2 ^ 32
            nodemask := nodemask }
    | none => some zeroPolicy
  match memPolicy with
  | none => none
  | some memPolicy =>
    let pairSetparamRegion : prelim_drm_i915_gem_create_ext_setparam :=
      if pairHandle ≠ -1 then
        { base :=
            { i915_user_extension.zero with
              name := CreateExtName.PRELIM_I915_GEM_CREATE_EXT_SETPARAM }
          param :=
            { size := 0, data := L0.toUInt64 pairHandle, regions := []
              param := ObjectParam.PRELIM_I915_PARAM_SET_PAIR } }
      else prelim_drm_i915_gem_create_ext_setparam.zero
    let locals : CreateGemExtLocals :=
      { setparamRegion := setparamRegion
        vmPrivate := vmPrivate
        pairSetparamRegion := pairSetparamRegion
        chunkingParamRegion := prelim_drm_i915_gem_create_ext_setparam.zero
        memPolicy := memPolicy
        createExt := { size := 0, handle := 0, extensions := none } }
    let linked : Option CreateGemExtLocals :=
      if isChunked = true then
        if numOfChunks = 0 then
          none
        else
          let chunkingSize := allocSize / numOfChunks
          if chunkingSize &&& (MemoryConstants.pageSize64k - 1) ≠ 0 then
            none
          else
            let chunked :=
              { locals with
                chunkingParamRegion :=
                  { base :=
                      { i915_user_extension.zero with
                        name := CreateExtName.PRELIM_I915_GEM_CREATE_EXT_SETPARAM }
                    param :=
                      { size := 0, data := chunkingSize, regions := []
                        param := ObjectParam.PRELIM_I915_PARAM_SET_CHUNK_SIZE } } }
            let first := chunked.setNext CreateGemExtLocal.setparamRegion
              CreateGemExtLocal.chunkingParamRegion
            if memPolicyMode.isSome = true then
              some (first.setNext CreateGemExtLocal.chunkingParamRegion
                CreateGemExtLocal.memPolicy)
            else some first
      else
        let lastExtension := CreateGemExtLocal.setparamRegion
        let afterVm :=
          if vmId.isSome = true then
            (locals.setNext CreateGemExtLocal.setparamRegion CreateGemExtLocal.vmPrivate,
              CreateGemExtLocal.vmPrivate)
          else (locals, lastExtension)
        let afterPair :=
          if pairHandle ≠ -1 then
            (afterVm.1.setNext afterVm.2 CreateGemExtLocal.pairSetparamRegion,
              CreateGemExtLocal.pairSetparamRegion)
          else afterVm
        if memPolicyMode.isSome = true then
          some (afterPair.1.setNext afterPair.2 CreateGemExtLocal.memPolicy)
        else some afterPair.1
    match linked with
    | none => none
    | some linked =>
      some
        { linked with
          createExt :=
            { size := allocSize, handle := 0
              extensions := some CreateGemExtLocal.setparamRegion } }

/-- The function `IoctlHelperPrelim20::createGemExt` of
`ioctl_helper_prelim.cpp`.  `ioctl` is the GEM_CREATE_EXT ioctl: it takes the
locals it can reach and gives the return value and the handle the kernel
writes into `createExt.handle`.  The results are the return value and the
referenced `handle`. -/
def IoctlHelperPrelim20.createGemExt (ioctl : CreateGemExtLocals → Int × Nat)
    (memClassInstances : List MemoryClassInstance) (allocSize : Nat) (vmId : Option Nat)
    (pairHandle : Int) (isChunked : Bool) (numOfChunks : Nat) (memPolicyMode : Option Nat)
    (memPolicyNodemask : Option (List Nat)) : Option (Int × Nat) :=
  match IoctlHelperPrelim20.createGemExtLocals memClassInstances allocSize vmId pairHandle
      isChunked numOfChunks memPolicyMode memPolicyNodemask with
  | none => none
  | some locals => some (ioctl locals)

/-- The extensions the kernel finds when it follows `next_extension` from the
address `start`, in the order it finds them; `fuel` bounds the walk. -/
def CreateGemExtLocals.chain (locals : CreateGemExtLocals) :
    Nat → Option CreateGemExtLocal → List CreateGemExtLocal
  | 0, _ => []
  | _ + 1, none => []
  | fuel + 1, some extension =>
    extension :: CreateGemExtLocals.chain locals fuel (locals.base extension).next_extension

/-- What identifies the extension in the local `extension` to the kernel:
its name, and for a set-param its object parameter. -/
def CreateGemExtLocals.describe (locals : CreateGemExtLocals) :
    CreateGemExtLocal → CreateExtName × ObjectParam
  | CreateGemExtLocal.setparamRegion =>
    (locals.setparamRegion.base.name, locals.setparamRegion.param.param)
  | CreateGemExtLocal.vmPrivate => (locals.vmPrivate.base.name, ObjectParam.zero)
  | CreateGemExtLocal.pairSetparamRegion =>
    (locals.pairSetparamRegion.base.name, locals.pairSetparamRegion.param.param)
  | CreateGemExtLocal.chunkingParamRegion =>
    (locals.chunkingParamRegion.base.name, locals.chunkingParamRegion.param.param)
  | CreateGemExtLocal.memPolicy => (locals.memPolicy.base.name, ObjectParam.zero)

/-- The extensions the arguments of `createGemExt` ask for, by name and
object parameter, in the order memory regions, chunk size, vm-private,
set-pair, memory policy. -/
def requestedExtensions (vmId : Option Nat) (pairHandle : Int) (isChunked : Bool)
    (memPolicyMode : Option Nat) : List (CreateExtName × ObjectParam) :=
  [(CreateExtName.PRELIM_I915_GEM_CREATE_EXT_SETPARAM,
      ObjectParam.PRELIM_I915_PARAM_MEMORY_REGIONS)]
    ++ (if isChunked = true then
          [(CreateExtName.PRELIM_I915_GEM_CREATE_EXT_SETPARAM,
              ObjectParam.PRELIM_I915_PARAM_SET_CHUNK_SIZE)]
        else [])
    ++ (if vmId.isSome = true then
          [(CreateExtName.PRELIM_I915_GEM_CREATE_EXT_VM_PRIVATE, ObjectParam.zero)]
        else [])
    ++ (if pairHandle ≠ -1 then
          [(CreateExtName.PRELIM_I915_GEM_CREATE_EXT_SETPARAM,
              ObjectParam.PRELIM_I915_PARAM_SET_PAIR)]
        else [])
    ++ (if memPolicyMode.isSome = true then
          [(CreateExtName.PRELIM_I915_GEM_CREATE_EXT_MEMORY_POLICY, ObjectParam.zero)]
        else [])


/-- The structure `PLATFORM` reduced to the 16-bit revision id. -/
structure PLATFORM where
  usRevId : Nat
  deriving DecidableEq, Repr

/-- The structure `HardwareInfo` reduced to the member the stepping functions
read. -/
structure HardwareInfo where
  platform : PLATFORM
  deriving DecidableEq, Repr

/-- The constants the stepping functions of DG1 name.  Their values are in
headers that are not under src/, so the functions take them: the enumerators
`REVISION_A0` and `REVISION_B` and `CommonConstants::invalidStepping`. -/
structure SteppingConstants where
  REVISION_A0 : Nat
  REVISION_B : Nat
  invalidStepping : Nat
  deriving DecidableEq, Repr

/-- The function `ProductHelperHw<gfxProduct>::getHwRevIdFromStepping` of
`os_agnostic_hw_info_config_dg1.inl`. -/
def getHwRevIdFromStepping (constants : SteppingConstants) (stepping : Nat)
    (_hwInfo : HardwareInfo) : Nat :=
  if stepping = constants.REVISION_A0 then 0x0
  else if stepping = constants.REVISION_B then 0x1
  else constants.invalidStepping

/-- The function `ProductHelperHw<gfxProduct>::getSteppingFromHwRevId` of
`os_agnostic_hw_info_config_dg1.inl`. -/
def getSteppingFromHwRevId (constants : SteppingConstants) (hwInfo : HardwareInfo) : Nat :=
  if hwInfo.platform.usRevId = 0x0 then constants.REVISION_A0
  else if hwInfo.platform.usRevId = 0x1 then constants.REVISION_B
  else constants.invalidStepping

/-- The stepping constants with the enumerators numbered `0` and `3` and the
invalid stepping at the largest `uint32_t`. -/
def fixtureSteppingConstants : SteppingConstants :=
  { REVISION_A0 := 0, REVISION_B := 3, invalidStepping := 4294967295 }

end NEO

namespace NEO

end NEO

namespace L0

end L0

namespace L0

/-- The level of the descriptor is one `setLimitsExt` handles: SUSTAINED or
PEAK. -/
def LinuxPowerImp.isLimitLevel (desc : zes_power_limit_ext_desc_t) : Bool :=
  decide (desc.level = zes_power_level_t.ZES_POWER_LEVEL_SUSTAINED)
    || decide (desc.level = zes_power_level_t.ZES_POWER_LEVEL_PEAK)

/-- The writes `setLimitsExt` makes for the descriptor `desc`, each with its
node and its value, in the order it makes them: the limit and then the
interval for a SUSTAINED descriptor, the critical node for a PEAK descriptor,
none for another level. -/
def LinuxPowerImp.limitWrites (handle : LinuxPowerImp) (desc : zes_power_limit_ext_desc_t) :
    List (String × Int) :=
  if desc.level = zes_power_level_t.ZES_POWER_LEVEL_SUSTAINED then
    [(handle.i915HwmonDir ++ "/" ++ LinuxPowerImp.sustainedPowerLimit,
        ((toUInt64 desc.limit * milliFactor % 2 ^ 64 : Nat) : Int)),
      (handle.i915HwmonDir ++ "/" ++ LinuxPowerImp.sustainedPowerLimitInterval,
        desc.interval)]
  else if desc.level = zes_power_level_t.ZES_POWER_LEVEL_PEAK then
    [(handle.i915HwmonDir ++ "/" ++ handle.criticalPowerLimit,
        (((if handle.productFamily = PRODUCT_FAMILY.IGFX_PVC then toUInt64 desc.limit
          else toUInt64 desc.limit * milliFactor % 2 ^ 64) : Nat) : Int))]
  else
    []

/-- The writes of the descriptors `descs` in array order, up to the first
descriptor whose level is neither SUSTAINED nor PEAK. -/
def LinuxPowerImp.limitWritesOf (handle : LinuxPowerImp) :
    List zes_power_limit_ext_desc_t → List (String × Int)
  | [] => []
  | desc :: rest =>
    if LinuxPowerImp.isLimitLevel desc = true then
      handle.limitWrites desc ++ LinuxPowerImp.limitWritesOf handle rest
    else []

/-- The writes `writes` made one after the other on the accessor until one
fails: the result of the failing write, `none` when every write succeeds, and
the accessor after the last write made. -/
def SysfsAccess.writeAll (sysfs : SysfsAccess) :
    List (String × Int) → Option ze_result_t × SysfsAccess
  | [] => (none, sysfs)
  | write :: rest =>
    if (sysfs.write write.1 write.2).1 = ze_result_t.ZE_RESULT_SUCCESS then
      SysfsAccess.writeAll (sysfs.write write.1 write.2).2 rest
    else
      (some (sysfs.write write.1 write.2).1, (sysfs.write write.1 write.2).2)

/-- The nodes after the writes `writes` have stored their values, in order. -/
def storeWrites (nodes : String → Int) (writes : List (String × Int)) : String → Int :=
  writes.foldl (fun stored write => Function.update stored write.1 write.2) nodes

end L0

/-! ## State-base-address reconciliation -/

namespace NEO

theorem propertyDirty_self (value : Int) : propertyDirty value value = false := by
  simp [propertyDirty]

theorem propertyDirty_propertySet (current required : Int) :
    propertyDirty (propertySet current required) required = false := by
  unfold propertySet
  by_cases h : propertyDirty current required = true
  · simp [h, propertyDirty_self]
  · simp only [h]
    simpa using h

theorem isDirty_self (state : StateBaseAddressProperties) : state.isDirty state = false := by
  simp [StateBaseAddressProperties.isDirty, propertyDirty_self]

theorem isDirty_apply (current required : StateBaseAddressProperties) :
    (current.apply required).isDirty required = false := by
  simp [StateBaseAddressProperties.isDirty, StateBaseAddressProperties.apply,
    propertyDirty_propertySet]

theorem countSba_append (first second : List GenCmd) :
    countSba (first ++ second) = countSba first + countSba second := by
  induction first with
  | nil => simp [countSba]
  | cons cmd rest ih =>
      cases cmd <;> simp_arith [countSba, ih]

theorem reconcileStateBaseAddress_of_not_dirty (current required : StateBaseAddressProperties)
    (h : current.isDirty required = false) :
    reconcileStateBaseAddress current required = (current, []) := by
  simp [reconcileStateBaseAddress, h]

theorem reconcileStateBaseAddress_self (state : StateBaseAddressProperties) :
    reconcileStateBaseAddress state state = (state, []) :=
  reconcileStateBaseAddress_of_not_dirty state state (isDirty_self state)

/-- The reconciler emits at most one STATE_BASE_ADDRESS per list, and exactly
one when a tracked field is dirty. -/
theorem countSba_reconcileStateBaseAddress (current required : StateBaseAddressProperties) :
    countSba (reconcileStateBaseAddress current required).2
      = if current.isDirty required then 1 else 0 := by
  unfold reconcileStateBaseAddress
  split <;> simp [countSba]

end NEO

namespace L0

theorem programStateBaseAddress_of_same (commandList : CommandList)
    (csr : NEO.CommandStreamReceiver)
    (h : stateBaseAddressForSubmission commandList csr = csr.stateBaseAddress) :
    programStateBaseAddress commandList csr
      = (csr.stateBaseAddress, [NEO.GenCmd.batchBufferStart]) := by
  simp [programStateBaseAddress, h, NEO.reconcileStateBaseAddress_self]

theorem stateBaseAddressForSubmission_congr (commandList : CommandList)
    (first second : NEO.CommandStreamReceiver)
    (h : first.globalStatelessHeap = second.globalStatelessHeap) :
    stateBaseAddressForSubmission commandList first
      = stateBaseAddressForSubmission commandList second := by
  unfold stateBaseAddressForSubmission
  rw [h]

theorem executeCommandListsStep_of_same (csr : NEO.CommandStreamReceiver) (cmdQ : CommandQueue)
    (commandList : CommandList)
    (h : stateBaseAddressForSubmission commandList csr = csr.stateBaseAddress) :
    executeCommandListsStep (csr, cmdQ) commandList
      = (csr, { cmdQ with
                commandStream := cmdQ.commandStream ++ [NEO.GenCmd.batchBufferStart] }) := by
  simp [executeCommandListsStep, programStateBaseAddress_of_same commandList csr h]

theorem foldl_executeCommandListsStep_of_same (commandLists : List CommandList)
    (csr : NEO.CommandStreamReceiver) (cmdQ : CommandQueue)
    (h : ∀ commandList ∈ commandLists,
      stateBaseAddressForSubmission commandList csr = csr.stateBaseAddress) :
    (commandLists.foldl executeCommandListsStep (csr, cmdQ)).1 = csr
      ∧ NEO.countSba (commandLists.foldl executeCommandListsStep (csr, cmdQ)).2.commandStream
          = NEO.countSba cmdQ.commandStream := by
  induction commandLists generalizing cmdQ with
  | nil => simp
  | cons commandList rest ih =>
      have hHead := h commandList (List.mem_cons_self _ _)
      have hRest : ∀ other ∈ rest,
          stateBaseAddressForSubmission other csr = csr.stateBaseAddress :=
        fun other hMem => h other (List.mem_cons_of_mem _ hMem)
      rw [List.foldl_cons, executeCommandListsStep_of_same csr cmdQ commandList hHead]
      have hInd := ih { cmdQ with
        commandStream := cmdQ.commandStream ++ [NEO.GenCmd.batchBufferStart] } hRest
      refine ⟨hInd.1, ?_⟩
      rw [hInd.2]
      simp [NEO.countSba_append, NEO.countSba]

/-- A submission whose lists require exactly the programmed state leaves the
receiver state as it is and adds no STATE_BASE_ADDRESS to either stream. -/
theorem submit_of_requiresProgrammedState (state : EngineState) (submission : Submission)
    (h : submission.requiresProgrammedState state.csr) :
    (submit state submission).sbaCommands = state.sbaCommands
      ∧ (submit state submission).csr.stateBaseAddress = state.csr.stateBaseAddress := by
  cases submission with
  | regular commandLists =>
      have hFold := foldl_executeCommandListsStep_of_same commandLists state.csr
      simp only [Submission.requiresProgrammedState, Submission.commandLists] at h
      constructor
      · simp only [submit, executeCommandLists, EngineState.sbaCommands]
        split
        · rw [(hFold _ h).1, (hFold _ h).2]
          simp [CommandQueue.handleIndirectAllocationResidency]
        · rw [(hFold _ h).1, (hFold _ h).2]
      · simp only [submit, executeCommandLists]
        split <;> rw [(hFold _ h).1]
  | immediate flags commandList =>
      have hSame : stateBaseAddressForSubmission commandList state.csr
          = state.csr.stateBaseAddress := by
        apply h
        simp [Submission.commandLists]
      have hProgram := programStateBaseAddress_of_same commandList state.csr hSame
      constructor
      · simp only [submit, executeCommandListImmediateWithFlushTask, EngineState.sbaCommands,
          hProgram]
        split <;> split <;>
          simp [NEO.countSba_append, NEO.countSba,
            CommandQueue.handleIndirectAllocationResidency]
      · simp only [submit, executeCommandListImmediateWithFlushTask, hProgram]
        split <;> simp

/-- Submitting an immediate list a second time, right after it has been
submitted, emits no further STATE_BASE_ADDRESS: the first submission left
every field the list requires programmed. -/
theorem resubmission_emits_no_sba (state : EngineState) (flags : NEO.DebugFlags)
    (commandList : CommandList) :
    (submit (submit state (Submission.immediate flags commandList))
        (Submission.immediate flags commandList)).sbaCommands
      = (submit state (Submission.immediate flags commandList)).sbaCommands := by
  have hHeap : (submit state (Submission.immediate flags commandList)).csr.globalStatelessHeap
      = state.csr.globalStatelessHeap := by
    simp only [submit, executeCommandListImmediateWithFlushTask,
      prefetchKmdMigratedSharedAllocations]
    split <;> split <;> rfl
  have hState : (submit state (Submission.immediate flags commandList)).csr.stateBaseAddress
      = (programStateBaseAddress commandList state.csr).1 := by
    simp only [submit, executeCommandListImmediateWithFlushTask]
    split <;> rfl
  have hDirty : ((submit state (Submission.immediate flags commandList)).csr.stateBaseAddress).isDirty
      (stateBaseAddressForSubmission commandList
        (submit state (Submission.immediate flags commandList)).csr) = false := by
    rw [stateBaseAddressForSubmission_congr commandList _ state.csr hHeap, hState]
    simp only [programStateBaseAddress, NEO.reconcileStateBaseAddress]
    split
    · exact NEO.isDirty_apply _ _
    · rename_i hClean
      simpa using hClean
  generalize submit state (Submission.immediate flags commandList) = after at hDirty
  have hProgram : programStateBaseAddress commandList after.csr
      = (after.csr.stateBaseAddress, [NEO.GenCmd.batchBufferStart]) := by
    simp [programStateBaseAddress, NEO.reconcileStateBaseAddress_of_not_dirty _ _ hDirty]
  simp only [submit, executeCommandListImmediateWithFlushTask, EngineState.sbaCommands,
    hProgram]
  split <;> split <;>
    simp [NEO.countSba_append, NEO.countSba, CommandQueue.handleIndirectAllocationResidency]

/-- C1 (No-op SBA invariant): after any sequence of submissions to a receiver
(batches of regular lists through `executeCommandLists`, immediate lists
through the flush of an append), a further submission whose lists require the
same state-base-address fields as the receiver has programmed adds no
STATE_BASE_ADDRESS command to the stream of the receiver or of the queue; a
submission that does add one has a list whose required fields differ from the
programmed ones. -/
theorem noop_sba_invariant (state : EngineState) (submissions : List Submission)
    (submission : Submission) :
    (submission.requiresProgrammedState (submitAll state submissions).csr →
        (submit (submitAll state submissions) submission).sbaCommands
          = (submitAll state submissions).sbaCommands)
      ∧ ((submit (submitAll state submissions) submission).sbaCommands
            ≠ (submitAll state submissions).sbaCommands →
          ∃ commandList ∈ submission.commandLists,
            stateBaseAddressForSubmission commandList (submitAll state submissions).csr
              ≠ (submitAll state submissions).csr.stateBaseAddress) := by
  constructor
  · intro h
    exact (submit_of_requiresProgrammedState _ submission h).1
  · intro hEmitted
    by_contra hNone
    apply hEmitted
    apply (submit_of_requiresProgrammedState _ submission _).1
    intro commandList hMem
    by_contra hDiff
    exact hNone ⟨commandList, hMem, hDiff⟩

/-- Witness for C1: on the fresh fixture engine, after a regular list has been
executed, the immediate list with the same requirements requires exactly the
programmed state and emits no STATE_BASE_ADDRESS. -/
theorem noop_sba_invariant_witness :
    (Submission.immediate fixtureFlags fixtureCommandListImmediate).requiresProgrammedState
        (submitAll fixtureEngineState [Submission.regular [fixtureCommandList]]).csr
      ∧ (submit (submitAll fixtureEngineState [Submission.regular [fixtureCommandList]])
          (Submission.immediate fixtureFlags fixtureCommandListImmediate)).sbaCommands
        = (submitAll fixtureEngineState [Submission.regular [fixtureCommandList]]).sbaCommands :=
  have hSame : (Submission.immediate fixtureFlags fixtureCommandListImmediate).requiresProgrammedState
      (submitAll fixtureEngineState [Submission.regular [fixtureCommandList]]).csr := by
    intro commandList hMem
    simp only [Submission.commandLists, List.mem_singleton] at hMem
    subst hMem
    decide
  ⟨hSame,
    (noop_sba_invariant fixtureEngineState [Submission.regular [fixtureCommandList]]
      (Submission.immediate fixtureFlags fixtureCommandListImmediate)).1 hSame⟩

/-! ## Kernel launch under global-stateless addressing -/

theorem containsStatefulAccess_of_mem (kernelDescriptor : NEO.KernelDescriptor)
    (pointer : NEO.ArgDescPointer)
    (hMem : NEO.ArgDescriptor.argTPointer pointer ∈ kernelDescriptor.explicitArgs)
    (hDefined : pointer.bindless.isSome = true ∨ pointer.bindful.isSome = true) :
    NEO.containsStatefulAccess kernelDescriptor = true := by
  unfold NEO.containsStatefulAccess
  rw [List.any_eq_true]
  refine ⟨_, hMem, ?_⟩
  simpa [NEO.ArgDescriptor.isStatefulAccess] using hDefined

/-- A rejected kernel launch leaves the list, the receiver and the queue as
they were: nothing is encoded. -/
theorem appendLaunchKernel_rejected_unchanged (caps : NEO.HardwareCapabilities)
    (flags : NEO.DebugFlags) (ctx : CmdListContext) (kernel : Kernel)
    (launchParams : CmdListKernelLaunchParams)
    (hModel : ctx.commandList.cmdListHeapAddressModel = NEO.HeapAddressModel.globalStateless)
    (hStateful : NEO.containsStatefulAccess kernel.kernelDescriptor = true) :
    (appendLaunchKernel caps flags ctx kernel launchParams).2 = ctx := by
  simp [appendLaunchKernel, hModel, hStateful]

/-- C2 (Global-stateless rejection): for every kernel whose descriptor has an
explicit pointer argument with a defined bindless offset or a defined bindful
offset, `appendLaunchKernel` on a command list whose heap address model is
global stateless returns `ZE_RESULT_ERROR_INVALID_ARGUMENT`. -/
theorem appendLaunchKernel_globalStateless_rejects_stateful
    (caps : NEO.HardwareCapabilities) (flags : NEO.DebugFlags) (ctx : CmdListContext)
    (kernel : Kernel) (launchParams : CmdListKernelLaunchParams)
    (pointer : NEO.ArgDescPointer)
    (hModel : ctx.commandList.cmdListHeapAddressModel = NEO.HeapAddressModel.globalStateless)
    (hMem : NEO.ArgDescriptor.argTPointer pointer ∈ kernel.kernelDescriptor.explicitArgs)
    (hDefined : pointer.bindless.isSome = true ∨ pointer.bindful.isSome = true) :
    (appendLaunchKernel caps flags ctx kernel launchParams).1
      = ze_result_t.ZE_RESULT_ERROR_INVALID_ARGUMENT := by
  have hStateful := containsStatefulAccess_of_mem kernel.kernelDescriptor pointer hMem hDefined
  simp [appendLaunchKernel, hModel, hStateful]

/-- Witness for C2: the kernel with a pointer argument at bindless offset
`0x40` is rejected on the global-stateless fixture list. -/
theorem appendLaunchKernel_globalStateless_rejects_stateful_witness :
    fixtureCommandListGlobalStateless.cmdListHeapAddressModel
        = NEO.HeapAddressModel.globalStateless
      ∧ NEO.ArgDescriptor.argTPointer { bindful := none, bindless := some 0x40 }
          ∈ fixtureKernelBindless.kernelDescriptor.explicitArgs
      ∧ (appendLaunchKernel fixtureCaps fixtureFlags
          (fixtureContext fixtureCommandListGlobalStateless) fixtureKernelBindless
          CmdListKernelLaunchParams.default).1
        = ze_result_t.ZE_RESULT_ERROR_INVALID_ARGUMENT :=
  ⟨rfl, by decide,
    appendLaunchKernel_globalStateless_rejects_stateful fixtureCaps fixtureFlags
      (fixtureContext fixtureCommandListGlobalStateless) fixtureKernelBindless
      CmdListKernelLaunchParams.default { bindful := none, bindless := some 0x40 }
      rfl (by decide) (by decide)⟩

/-! ## Split launches -/

theorem launchSplitKernels_params (caps : NEO.HardwareCapabilities) (kernels : List Kernel)
    (ctx : CmdListContext) (launchParams : CmdListKernelLaunchParams) :
    (launchSplitKernels caps kernels ctx launchParams).2
      = { launchParams with
          numKernelsExecutedInSplitLaunch :=
            launchParams.numKernelsExecutedInSplitLaunch + kernels.length } := by
  induction kernels generalizing ctx launchParams with
  | nil => simp [launchSplitKernels]
  | cons kernel rest ih =>
      simp only [launchSplitKernels, ih, List.length_cons]
      congr 1
      omega

theorem launchSplitKernels_used (caps : NEO.HardwareCapabilities) (kernel : Kernel)
    (rest : List Kernel) (ctx : CmdListContext) (launchParams : CmdListKernelLaunchParams) :
    (launchSplitKernels caps (kernel :: rest) ctx launchParams).1.commandList.usedKernelLaunchParams
      = { launchParams with
          numKernelsExecutedInSplitLaunch :=
            launchParams.numKernelsExecutedInSplitLaunch + rest.length } := by
  induction rest generalizing kernel ctx launchParams with
  | nil => simp [launchSplitKernels, appendLaunchKernelWithParams]
  | cons next rest ih =>
      rw [launchSplitKernels, ih]
      simp only [List.length_cons]
      congr 1
      omega

/-- The flush that follows an append of an immediate list leaves the recorded
launch parameters, the shared heaps and the barrier count of the receiver as
they are. -/
theorem flushImmediate_frame (flags : NEO.DebugFlags) (inputRet : ze_result_t)
    (ctx : CmdListContext) :
    (flushImmediate flags inputRet ctx).2.commandList.usedKernelLaunchParams
        = ctx.commandList.usedKernelLaunchParams
      ∧ (flushImmediate flags inputRet ctx).2.csr.dynamicStateHeap = ctx.csr.dynamicStateHeap
      ∧ (flushImmediate flags inputRet ctx).2.csr.surfaceStateHeap = ctx.csr.surfaceStateHeap
      ∧ (flushImmediate flags inputRet ctx).2.csr.barrierCount = ctx.csr.barrierCount := by
  unfold flushImmediate
  split
  · split
    · simp only [executeCommandListImmediateWithFlushTask, prefetchKmdMigratedSharedAllocations]
      split <;> split <;> simp
    · simp [executeCommandListImmediate, executeCommandLists, executeCommandListsStep]
  · simp

/-- On a compute list the launch parameters recorded by a builtin operation
are the ones of its last dispatch: the parameters the operation started with,
the executed counter standing at the number of dispatches before the last. -/
theorem appendBuiltinOperation_used (caps : NEO.HardwareCapabilities) (flags : NEO.DebugFlags)
    (allocations : List NEO.SvmAllocationData) (ctx : CmdListContext)
    (dstptr numWaitEvents : Nat) (split : BuiltinSplit)
    (hCompute : ctx.commandList.isCopyOnly = false) :
    (appendBuiltinOperation caps flags allocations ctx dstptr numWaitEvents
        split).2.commandList.usedKernelLaunchParams
      = { builtinLaunchParams allocations dstptr split with
          numKernelsExecutedInSplitLaunch := split.remainingKernels.length } := by
  simp only [appendBuiltinOperation, hCompute, Bool.false_eq_true, if_false]
  rw [(flushImmediate_frame _ _ _).1, BuiltinSplit.kernels, launchSplitKernels_used]
  simp [builtinLaunchParams]

theorem BuiltinSplit.numKernels_eq (split : BuiltinSplit) :
    split.numKernels = split.remainingKernels.length + 1 := by
  simp [BuiltinSplit.numKernels, BuiltinSplit.kernels]

theorem appendBuiltinOperation_split_counters (caps : NEO.HardwareCapabilities)
    (flags : NEO.DebugFlags) (allocations : List NEO.SvmAllocationData) (ctx : CmdListContext)
    (dstptr numWaitEvents : Nat) (split : BuiltinSplit)
    (hCompute : ctx.commandList.isCopyOnly = false) (hSplit : 1 < split.numKernels) :
    (appendBuiltinOperation caps flags allocations ctx dstptr numWaitEvents
        split).2.commandList.usedKernelLaunchParams.isKernelSplitOperation = true
      ∧ (appendBuiltinOperation caps flags allocations ctx dstptr numWaitEvents
          split).2.commandList.usedKernelLaunchParams.numKernelsInSplitLaunch = split.numKernels
      ∧ (appendBuiltinOperation caps flags allocations ctx dstptr numWaitEvents
          split).2.commandList.usedKernelLaunchParams.numKernelsInSplitLaunch
        = (appendBuiltinOperation caps flags allocations ctx dstptr numWaitEvents
            split).2.commandList.usedKernelLaunchParams.numKernelsExecutedInSplitLaunch + 1 := by
  rw [appendBuiltinOperation_used caps flags allocations ctx dstptr numWaitEvents split hCompute]
  have hLen := split.numKernels_eq
  simp only [builtinLaunchParams, decide_eq_true_eq]
  exact ⟨hSplit, trivial, hLen⟩

/-- C3 (Split-launch counters): for every memory copy and every memory fill on
a compute list that is split into more than one kernel dispatch, the launch
parameters recorded in `usedKernelLaunchParams` after the append call have the
split flag set, carry the split count computed up front, and satisfy
`numKernelsInSplitLaunch = numKernelsExecutedInSplitLaunch + 1`; in the
dispatch loop the executed counter stands at `k` after `k` dispatches, so it
equals `numKernelsInSplitLaunch` only after the last dispatch. -/
theorem split_launch_counters (caps : NEO.HardwareCapabilities) (flags : NEO.DebugFlags)
    (lib : BuiltinFunctionsLib) (allocations : List NEO.SvmAllocationData)
    (ctx : CmdListContext) (dstptr srcptr patternSize size numWaitEvents : Nat)
    (hCompute : ctx.commandList.isCopyOnly = false) :
    (1 < (lib.memoryCopy dstptr srcptr size).numKernels →
        (appendMemoryCopy caps flags lib allocations ctx dstptr srcptr size
            numWaitEvents).2.commandList.usedKernelLaunchParams.isKernelSplitOperation = true
          ∧ (appendMemoryCopy caps flags lib allocations ctx dstptr srcptr size
              numWaitEvents).2.commandList.usedKernelLaunchParams.numKernelsInSplitLaunch
            = (lib.memoryCopy dstptr srcptr size).numKernels
          ∧ (appendMemoryCopy caps flags lib allocations ctx dstptr srcptr size
              numWaitEvents).2.commandList.usedKernelLaunchParams.numKernelsInSplitLaunch
            = (appendMemoryCopy caps flags lib allocations ctx dstptr srcptr size
                numWaitEvents).2.commandList.usedKernelLaunchParams.numKernelsExecutedInSplitLaunch
              + 1)
      ∧ (1 < (lib.memoryFill dstptr patternSize size).numKernels →
        (appendMemoryFill caps flags lib allocations ctx dstptr patternSize size
            numWaitEvents).2.commandList.usedKernelLaunchParams.isKernelSplitOperation = true
          ∧ (appendMemoryFill caps flags lib allocations ctx dstptr patternSize size
              numWaitEvents).2.commandList.usedKernelLaunchParams.numKernelsInSplitLaunch
            = (lib.memoryFill dstptr patternSize size).numKernels
          ∧ (appendMemoryFill caps flags lib allocations ctx dstptr patternSize size
              numWaitEvents).2.commandList.usedKernelLaunchParams.numKernelsInSplitLaunch
            = (appendMemoryFill caps flags lib allocations ctx dstptr patternSize size
                numWaitEvents).2.commandList.usedKernelLaunchParams.numKernelsExecutedInSplitLaunch
              + 1)
      ∧ (∀ (split : BuiltinSplit) (k : Nat), k ≤ split.numKernels →
        (launchSplitKernels caps (split.kernels.take k) ctx
            (builtinLaunchParams allocations dstptr split)).2.numKernelsExecutedInSplitLaunch = k
          ∧ ((launchSplitKernels caps (split.kernels.take k) ctx
                (builtinLaunchParams allocations dstptr split)).2.numKernelsExecutedInSplitLaunch
              = (launchSplitKernels caps (split.kernels.take k) ctx
                  (builtinLaunchParams allocations dstptr split)).2.numKernelsInSplitLaunch
            ↔ k = split.numKernels)) := by
  refine ⟨?_, ?_, ?_⟩
  · intro hSplit
    exact appendBuiltinOperation_split_counters caps flags allocations ctx dstptr numWaitEvents
      _ hCompute hSplit
  · intro hSplit
    exact appendBuiltinOperation_split_counters caps flags allocations ctx dstptr numWaitEvents
      _ hCompute hSplit
  · intro split k hk
    rw [launchSplitKernels_params]
    have hLen : (split.kernels.take k).length = k := by
      rw [List.length_take]
      exact Nat.min_eq_left hk
    simp [builtinLaunchParams, hLen]

/-- Witness for C3: the two-dispatch copy of the fixture library on the
shared-heaps fixture list records a split count of two and an executed counter
of one. -/
theorem split_launch_counters_witness :
    fixtureCommandListSharedHeaps.isCopyOnly = false
      ∧ 1 < (fixtureLib.memoryCopy 0x2000 0x1234 0x101).numKernels
      ∧ (appendMemoryCopy fixtureCaps fixtureFlags fixtureLib fixtureAllocations
          (fixtureContext fixtureCommandListSharedHeaps) 0x2000 0x1234 0x101
          0).2.commandList.usedKernelLaunchParams.numKernelsInSplitLaunch
        = (appendMemoryCopy fixtureCaps fixtureFlags fixtureLib fixtureAllocations
            (fixtureContext fixtureCommandListSharedHeaps) 0x2000 0x1234 0x101
            0).2.commandList.usedKernelLaunchParams.numKernelsExecutedInSplitLaunch + 1 :=
  ⟨rfl, by decide,
    ((split_launch_counters fixtureCaps fixtureFlags fixtureLib fixtureAllocations
      (fixtureContext fixtureCommandListSharedHeaps) 0x2000 0x1234 8 0x101 0 rfl).1
      (by decide)).2.2⟩

/-! ## Heap accounting of split launches -/

theorem alignUp_of_dvd (value alignment : Nat) (h : alignment ∣ value) :
    NEO.alignUp value alignment = value := by
  obtain ⟨quotient, rfl⟩ := h
  unfold NEO.alignUp
  rcases Nat.eq_zero_or_pos alignment with hZero | hPos
  · simp [hZero]
  · have hDiv : (alignment * quotient + alignment - 1) / alignment = quotient := by
      rw [Nat.add_sub_assoc hPos, Nat.mul_add_div hPos,
        Nat.div_eq_of_lt (Nat.sub_lt hPos Nat.one_pos)]
      simp
    rw [hDiv, Nat.mul_comm]

theorem reserve_used_of_aligned (heap : NEO.IndirectHeap) (size alignment : Nat)
    (h : alignment ∣ heap.used) : (heap.reserve size alignment).used = heap.used + size := by
  simp [NEO.IndirectHeap.reserve, NEO.IndirectHeap.getSpace, alignUp_of_dvd _ _ h]

theorem reserveSpaceForDispatch_later (caps : NEO.HardwareCapabilities)
    (commandList : CommandList) (csr : NEO.CommandStreamReceiver) (kernel : Kernel)
    (launchParams : CmdListKernelLaunchParams)
    (hSplit : launchParams.isKernelSplitOperation = true)
    (hLater : launchParams.numKernelsExecutedInSplitLaunch ≠ 0) :
    reserveSpaceForDispatch caps commandList csr kernel launchParams = csr := by
  simp [reserveSpaceForDispatch, hSplit, hLater]

theorem launchSplitKernels_later_csr (caps : NEO.HardwareCapabilities) (kernels : List Kernel)
    (ctx : CmdListContext) (launchParams : CmdListKernelLaunchParams)
    (hSplit : launchParams.isKernelSplitOperation = true)
    (hLater : launchParams.numKernelsExecutedInSplitLaunch ≠ 0) :
    (launchSplitKernels caps kernels ctx launchParams).1.csr = ctx.csr := by
  induction kernels generalizing ctx launchParams with
  | nil => simp [launchSplitKernels]
  | cons kernel rest ih =>
      rw [launchSplitKernels, ih _ _ (by exact hSplit) (by exact Nat.succ_ne_zero _)]
      simp [appendLaunchKernelWithParams,
        reserveSpaceForDispatch_later caps _ _ kernel launchParams hSplit hLater]

/-- On a list that shares the heaps of the receiver, the split-dispatch loop
takes one reservation from each shared heap, at its first dispatch. -/
theorem launchSplitKernels_first_csr (caps : NEO.HardwareCapabilities)
    (allocations : List NEO.SvmAllocationData) (dstptr : Nat) (split : BuiltinSplit)
    (ctx : CmdListContext)
    (hShared : ctx.commandList.immediateCmdListSharedHeap = true)
    (hPrivate : ctx.commandList.cmdListHeapAddressModel = NEO.HeapAddressModel.privateHeaps) :
    PaddedSplitHeapGrowth caps split ctx.csr
      (launchSplitKernels caps split.kernels ctx
        (builtinLaunchParams allocations dstptr split)).1.csr := by
  obtain ⟨first, rest⟩ := split
  cases rest with
  | nil =>
      simp [PaddedSplitHeapGrowth, BuiltinSplit.kernels, BuiltinSplit.numKernels,
        launchSplitKernels, appendLaunchKernelWithParams, reserveSpaceForDispatch,
        builtinLaunchParams, hShared, hPrivate]
  | cons next rest =>
      rw [BuiltinSplit.kernels, launchSplitKernels, launchSplitKernels_later_csr]
      · simp [PaddedSplitHeapGrowth, BuiltinSplit.kernels, BuiltinSplit.numKernels,
          appendLaunchKernelWithParams, reserveSpaceForDispatch,
          builtinLaunchParams, hShared, hPrivate]
      · simp [builtinLaunchParams, BuiltinSplit.kernels, BuiltinSplit.numKernels]
      · simp

theorem trackDependencies_heaps (numWaitEvents : Nat) (csr : NEO.CommandStreamReceiver) :
    (trackDependencies numWaitEvents csr).dynamicStateHeap = csr.dynamicStateHeap
      ∧ (trackDependencies numWaitEvents csr).surfaceStateHeap = csr.surfaceStateHeap := by
  unfold trackDependencies
  split <;> simp

theorem appendBuiltinOperation_heaps (caps : NEO.HardwareCapabilities) (flags : NEO.DebugFlags)
    (allocations : List NEO.SvmAllocationData) (ctx : CmdListContext)
    (dstptr numWaitEvents : Nat) (split : BuiltinSplit)
    (hCompute : ctx.commandList.isCopyOnly = false)
    (hShared : ctx.commandList.immediateCmdListSharedHeap = true)
    (hPrivate : ctx.commandList.cmdListHeapAddressModel = NEO.HeapAddressModel.privateHeaps) :
    PaddedSplitHeapGrowth caps split ctx.csr
      (appendBuiltinOperation caps flags allocations ctx dstptr numWaitEvents split).2.csr := by
  have hLoop := launchSplitKernels_first_csr caps allocations dstptr split
    { ctx with csr := trackDependencies numWaitEvents ctx.csr } hShared hPrivate
  have hTrack := trackDependencies_heaps numWaitEvents ctx.csr
  simp only [appendBuiltinOperation, hCompute, Bool.false_eq_true, if_false]
  unfold PaddedSplitHeapGrowth at hLoop ⊢
  rw [(flushImmediate_frame _ _ _).2.1, (flushImmediate_frame _ _ _).2.2.1]
  simpa [hTrack.1, hTrack.2] using hLoop

theorem exact_of_padded_of_aligned (caps : NEO.HardwareCapabilities) (split : BuiltinSplit)
    (before after : NEO.CommandStreamReceiver)
    (hPadded : PaddedSplitHeapGrowth caps split before after)
    (hDsh : caps.dshAlignment ∣ before.dynamicStateHeap.used)
    (hSsh : caps.sshAlignment ∣ before.surfaceStateHeap.used) :
    ExactSplitHeapGrowth caps split before after := by
  unfold PaddedSplitHeapGrowth at hPadded
  unfold ExactSplitHeapGrowth
  rw [hPadded.1, hPadded.2]
  exact ⟨reserve_used_of_aligned _ _ _ hDsh, reserve_used_of_aligned _ _ _ hSsh⟩

/-- C4 refuted as stated: with the shared heaps of the receiver at offset 32 and
64-byte alignments, the two-dispatch fill of the fixture library grows each
heap by 160 bytes, not by two times the 64-byte estimate. -/
theorem split_launch_heap_accounting_counterexample :
    (fixtureLib.memoryFill 0x2000 8 4095).numKernels = 2
      ∧ fixtureCaps.getSizeRequiredDsh
          (fixtureLib.memoryFill 0x2000 8 4095).firstKernelInSplitOperation.kernelDescriptor = 64
      ∧ (appendMemoryFill fixtureCaps fixtureFlags fixtureLib fixtureAllocations
          { commandList := fixtureCommandListSharedHeaps
            csr := fixtureCsrUnaligned
            cmdQ := fixtureCmdQ } 0x2000 8 4095 0).2.csr.dynamicStateHeap.used
        = fixtureCsrUnaligned.dynamicStateHeap.used + 160
      ∧ ¬ ExactSplitHeapGrowth fixtureCaps (fixtureLib.memoryFill 0x2000 8 4095)
          fixtureCsrUnaligned
          (appendMemoryFill fixtureCaps fixtureFlags fixtureLib fixtureAllocations
            { commandList := fixtureCommandListSharedHeaps
              csr := fixtureCsrUnaligned
              cmdQ := fixtureCmdQ } 0x2000 8 4095 0).2.csr := by
  refine ⟨by decide, by decide, by decide, ?_⟩
  unfold ExactSplitHeapGrowth
  decide

/-- C4 (Split-launch heap accounting), amended: for every memory copy and every
memory fill on a compute list that shares the heaps of the receiver, the
dynamic-state heap and the surface-state heap each take one reservation of
the per-dispatch estimate of the first split kernel times the number of
dispatches, placed at the next aligned offset; when the used offsets of both
heaps are aligned before the call, each heap grows by exactly that product. -/
theorem split_launch_heap_accounting (caps : NEO.HardwareCapabilities)
    (flags : NEO.DebugFlags) (lib : BuiltinFunctionsLib)
    (allocations : List NEO.SvmAllocationData) (ctx : CmdListContext)
    (dstptr srcptr patternSize size numWaitEvents : Nat)
    (hCompute : ctx.commandList.isCopyOnly = false)
    (hShared : ctx.commandList.immediateCmdListSharedHeap = true)
    (hPrivate : ctx.commandList.cmdListHeapAddressModel = NEO.HeapAddressModel.privateHeaps) :
    PaddedSplitHeapGrowth caps (lib.memoryCopy dstptr srcptr size) ctx.csr
        (appendMemoryCopy caps flags lib allocations ctx dstptr srcptr size numWaitEvents).2.csr
      ∧ PaddedSplitHeapGrowth caps (lib.memoryFill dstptr patternSize size) ctx.csr
        (appendMemoryFill caps flags lib allocations ctx dstptr patternSize size
          numWaitEvents).2.csr
      ∧ (caps.dshAlignment ∣ ctx.csr.dynamicStateHeap.used →
          caps.sshAlignment ∣ ctx.csr.surfaceStateHeap.used →
          ExactSplitHeapGrowth caps (lib.memoryCopy dstptr srcptr size) ctx.csr
              (appendMemoryCopy caps flags lib allocations ctx dstptr srcptr size
                numWaitEvents).2.csr
            ∧ ExactSplitHeapGrowth caps (lib.memoryFill dstptr patternSize size) ctx.csr
              (appendMemoryFill caps flags lib allocations ctx dstptr patternSize size
                numWaitEvents).2.csr) := by
  have hCopy := appendBuiltinOperation_heaps caps flags allocations ctx dstptr numWaitEvents
    (lib.memoryCopy dstptr srcptr size) hCompute hShared hPrivate
  have hFill := appendBuiltinOperation_heaps caps flags allocations ctx dstptr numWaitEvents
    (lib.memoryFill dstptr patternSize size) hCompute hShared hPrivate
  refine ⟨hCopy, hFill, ?_⟩
  intro hDsh hSsh
  exact ⟨exact_of_padded_of_aligned _ _ _ _ hCopy hDsh hSsh,
    exact_of_padded_of_aligned _ _ _ _ hFill hDsh hSsh⟩

/-- Witness for C4: on the fresh receiver, whose shared heaps start at offset
zero, the two-dispatch fill of the fixture library grows each heap by exactly
two estimates. -/
theorem split_launch_heap_accounting_witness :
    fixtureCommandListSharedHeaps.isCopyOnly = false
      ∧ fixtureCommandListSharedHeaps.immediateCmdListSharedHeap = true
      ∧ fixtureCaps.dshAlignment ∣ fixtureCsr.dynamicStateHeap.used
      ∧ fixtureCaps.sshAlignment ∣ fixtureCsr.surfaceStateHeap.used
      ∧ ExactSplitHeapGrowth fixtureCaps (fixtureLib.memoryFill 0x2000 8 4095) fixtureCsr
          (appendMemoryFill fixtureCaps fixtureFlags fixtureLib fixtureAllocations
            (fixtureContext fixtureCommandListSharedHeaps) 0x2000 8 4095 0).2.csr :=
  ⟨rfl, rfl, by decide, by decide,
    ((split_launch_heap_accounting fixtureCaps fixtureFlags fixtureLib fixtureAllocations
      (fixtureContext fixtureCommandListSharedHeaps) 0x2000 0x1234 8 4095 0 rfl rfl rfl).2.2
      (by decide) (by decide)).2⟩

/-! ## Builtin and destination-locality flags -/

theorem appendBuiltinOperation_flags (caps : NEO.HardwareCapabilities) (flags : NEO.DebugFlags)
    (allocations : List NEO.SvmAllocationData) (ctx : CmdListContext)
    (dstptr numWaitEvents : Nat) (split : BuiltinSplit)
    (hCompute : ctx.commandList.isCopyOnly = false) :
    (appendBuiltinOperation caps flags allocations ctx dstptr numWaitEvents
        split).2.commandList.usedKernelLaunchParams.isBuiltInKernel = true
      ∧ (appendBuiltinOperation caps flags allocations ctx dstptr numWaitEvents
          split).2.commandList.usedKernelLaunchParams.isDestinationAllocationInSystemMemory
        = isDestinationAllocationInSystemMemory allocations dstptr := by
  rw [appendBuiltinOperation_used caps flags allocations ctx dstptr numWaitEvents split hCompute]
  simp [builtinLaunchParams]

/-- The destination resolves to system memory for an external host pointer and
for a USM host allocation, and to device memory for a USM device allocation. -/
theorem isDestinationAllocationInSystemMemory_cases (allocations : List NEO.SvmAllocationData)
    (dstptr : Nat) :
    (findAllocationDataForRange allocations dstptr = none →
        isDestinationAllocationInSystemMemory allocations dstptr = true)
      ∧ (∀ allocation, findAllocationDataForRange allocations dstptr = some allocation →
          allocation.memoryType = NEO.InternalMemoryType.hostUnifiedMemory →
          isDestinationAllocationInSystemMemory allocations dstptr = true)
      ∧ (∀ allocation, findAllocationDataForRange allocations dstptr = some allocation →
          allocation.memoryType = NEO.InternalMemoryType.deviceUnifiedMemory →
          isDestinationAllocationInSystemMemory allocations dstptr = false) := by
  refine ⟨?_, ?_, ?_⟩
  · intro hNone
    simp [isDestinationAllocationInSystemMemory, hNone]
  · intro allocation hSome hHost
    simp [isDestinationAllocationInSystemMemory, hSome, hHost]
  · intro allocation hSome hDevice
    simp [isDestinationAllocationInSystemMemory, hSome, hDevice]

/-- C5 (Destination-locality flag): for every `appendMemoryCopy`,
`appendMemoryCopyRegion` (whatever the regions, 2D or 3D), `appendMemoryFill`
and `appendImageCopyToMemory` on a compute command list, the recorded launch
parameters have `isBuiltInKernel` set, and
`isDestinationAllocationInSystemMemory` is true when the destination is an
external host pointer (no USM allocation contains it) or lies in a USM host
allocation, and false when it lies in a USM device allocation. -/
theorem destination_locality_flag (caps : NEO.HardwareCapabilities) (flags : NEO.DebugFlags)
    (lib : BuiltinFunctionsLib) (allocations : List NEO.SvmAllocationData)
    (ctx : CmdListContext) (dstptr srcptr patternSize size numWaitEvents : Nat)
    (dstRegion srcRegion : ze_copy_region_t)
    (hCompute : ctx.commandList.isCopyOnly = false) :
    ∀ used ∈
        [(appendMemoryCopy caps flags lib allocations ctx dstptr srcptr size
            numWaitEvents).2.commandList.usedKernelLaunchParams,
          (appendMemoryCopyRegion caps flags lib allocations ctx dstptr dstRegion srcptr
            srcRegion numWaitEvents).2.commandList.usedKernelLaunchParams,
          (appendMemoryFill caps flags lib allocations ctx dstptr patternSize size
            numWaitEvents).2.commandList.usedKernelLaunchParams,
          (appendImageCopyToMemory caps flags lib allocations ctx dstptr
            numWaitEvents).2.commandList.usedKernelLaunchParams],
      used.isBuiltInKernel = true
        ∧ (findAllocationDataForRange allocations dstptr = none →
            used.isDestinationAllocationInSystemMemory = true)
        ∧ (∀ allocation, findAllocationDataForRange allocations dstptr = some allocation →
            allocation.memoryType = NEO.InternalMemoryType.hostUnifiedMemory →
            used.isDestinationAllocationInSystemMemory = true)
        ∧ (∀ allocation, findAllocationDataForRange allocations dstptr = some allocation →
            allocation.memoryType = NEO.InternalMemoryType.deviceUnifiedMemory →
            used.isDestinationAllocationInSystemMemory = false) := by
  have hCases := isDestinationAllocationInSystemMemory_cases allocations dstptr
  have hOp : ∀ split : BuiltinSplit,
      (appendBuiltinOperation caps flags allocations ctx dstptr numWaitEvents
          split).2.commandList.usedKernelLaunchParams.isBuiltInKernel = true
        ∧ (findAllocationDataForRange allocations dstptr = none →
            (appendBuiltinOperation caps flags allocations ctx dstptr numWaitEvents
              split).2.commandList.usedKernelLaunchParams.isDestinationAllocationInSystemMemory
              = true)
        ∧ (∀ allocation, findAllocationDataForRange allocations dstptr = some allocation →
            allocation.memoryType = NEO.InternalMemoryType.hostUnifiedMemory →
            (appendBuiltinOperation caps flags allocations ctx dstptr numWaitEvents
              split).2.commandList.usedKernelLaunchParams.isDestinationAllocationInSystemMemory
              = true)
        ∧ (∀ allocation, findAllocationDataForRange allocations dstptr = some allocation →
            allocation.memoryType = NEO.InternalMemoryType.deviceUnifiedMemory →
            (appendBuiltinOperation caps flags allocations ctx dstptr numWaitEvents
              split).2.commandList.usedKernelLaunchParams.isDestinationAllocationInSystemMemory
              = false) := by
    intro split
    have hFlags := appendBuiltinOperation_flags caps flags allocations ctx dstptr
      numWaitEvents split hCompute
    rw [hFlags.2]
    exact ⟨hFlags.1, hCases⟩
  intro used hMem
  simp only [List.mem_cons, List.mem_singleton, List.not_mem_nil, or_false] at hMem
  rcases hMem with rfl | rfl | rfl | rfl
  · exact hOp _
  · exact hOp _
  · exact hOp _
  · exact hOp _

/-- Witness for C5: on the compute fixture list a copy to the USM device
allocation at `0x2000` records the builtin flag and a cleared
destination-locality flag. -/
theorem destination_locality_flag_witness :
    fixtureCommandList.isCopyOnly = false
      ∧ (appendMemoryCopy fixtureCaps fixtureFlags fixtureLib fixtureAllocations
          (fixtureContext fixtureCommandList) 0x2000 0x1234 8
          0).2.commandList.usedKernelLaunchParams.isBuiltInKernel = true
      ∧ (appendMemoryCopy fixtureCaps fixtureFlags fixtureLib fixtureAllocations
          (fixtureContext fixtureCommandList) 0x2000 0x1234 8
          0).2.commandList.usedKernelLaunchParams.isDestinationAllocationInSystemMemory
        = false :=
  have hAll := destination_locality_flag fixtureCaps fixtureFlags fixtureLib fixtureAllocations
    (fixtureContext fixtureCommandList) 0x2000 0x1234 8 8 0
    { originX := 4, originY := 4, originZ := 0, width := 2, height := 2, depth := 1 }
    { originX := 4, originY := 4, originZ := 0, width := 2, height := 2, depth := 1 } rfl
    _ (List.mem_cons_self _ _)
  ⟨rfl, hAll.1,
    hAll.2.2.2 { gpuAddress := 0x2000, size := 4096,
                 memoryType := NEO.InternalMemoryType.deviceUnifiedMemory }
      (by decide) rfl⟩

/-! ## Dependency tracking on copy-only lists -/

theorem appendBuiltinOperation_copyOnly_barrierCount (caps : NEO.HardwareCapabilities)
    (flags : NEO.DebugFlags) (allocations : List NEO.SvmAllocationData) (ctx : CmdListContext)
    (dstptr numWaitEvents : Nat) (split : BuiltinSplit)
    (hCopy : ctx.commandList.isCopyOnly = true) :
    (appendBuiltinOperation caps flags allocations ctx dstptr numWaitEvents
        split).2.csr.barrierCount = ctx.csr.barrierCount := by
  simp only [appendBuiltinOperation, hCopy, if_true]
  rw [(flushImmediate_frame _ _ _).2.2.2]

theorem reserveSpaceForDispatch_barrierCount (caps : NEO.HardwareCapabilities)
    (commandList : CommandList) (csr : NEO.CommandStreamReceiver) (kernel : Kernel)
    (launchParams : CmdListKernelLaunchParams) :
    (reserveSpaceForDispatch caps commandList csr kernel launchParams).barrierCount
      = csr.barrierCount := by
  unfold reserveSpaceForDispatch
  split
  · simp only []
    split
    · split <;> rfl
    · rfl
  · rfl

theorem launchSplitKernels_barrierCount (caps : NEO.HardwareCapabilities)
    (kernels : List Kernel) (ctx : CmdListContext) (launchParams : CmdListKernelLaunchParams) :
    (launchSplitKernels caps kernels ctx launchParams).1.csr.barrierCount
      = ctx.csr.barrierCount := by
  induction kernels generalizing ctx launchParams with
  | nil => simp [launchSplitKernels]
  | cons kernel rest ih =>
      rw [launchSplitKernels, ih]
      simp [appendLaunchKernelWithParams, reserveSpaceForDispatch_barrierCount]

/-- The contrast to the copy-only case: on a compute list an append that waits
on events takes the next barrier count of the receiver. -/
theorem appendBuiltinOperation_compute_barrierCount (caps : NEO.HardwareCapabilities)
    (flags : NEO.DebugFlags) (allocations : List NEO.SvmAllocationData) (ctx : CmdListContext)
    (dstptr numWaitEvents : Nat) (split : BuiltinSplit)
    (hCompute : ctx.commandList.isCopyOnly = false) (hEvents : 0 < numWaitEvents) :
    (appendBuiltinOperation caps flags allocations ctx dstptr numWaitEvents
        split).2.csr.barrierCount = ctx.csr.barrierCount + 1 := by
  simp only [appendBuiltinOperation, hCompute, Bool.false_eq_true, if_false]
  rw [(flushImmediate_frame _ _ _).2.2.2, launchSplitKernels_barrierCount]
  simp [trackDependencies, Nat.ne_of_gt hEvents]

/-- C6 (Copy-engine dependency elision): for every command list whose engine
group is copy, `appendMemoryCopy`, `appendMemoryCopyRegion` and
`appendMemoryFill` called with one or more wait events leave the barrier count
of the receiver unchanged, at zero when it was zero. -/
theorem copy_engine_dependency_elision (caps : NEO.HardwareCapabilities)
    (flags : NEO.DebugFlags) (lib : BuiltinFunctionsLib)
    (allocations : List NEO.SvmAllocationData) (ctx : CmdListContext)
    (dstptr srcptr patternSize size numWaitEvents : Nat)
    (dstRegion srcRegion : ze_copy_region_t)
    (hCopy : ctx.commandList.engineGroupType = NEO.EngineGroupType.copy)
    (_hEvents : 1 ≤ numWaitEvents) (hZero : ctx.csr.barrierCount = 0) :
    (appendMemoryCopy caps flags lib allocations ctx dstptr srcptr size
        numWaitEvents).2.csr.barrierCount = 0
      ∧ (appendMemoryCopyRegion caps flags lib allocations ctx dstptr dstRegion srcptr
          srcRegion numWaitEvents).2.csr.barrierCount = 0
      ∧ (appendMemoryFill caps flags lib allocations ctx dstptr patternSize size
          numWaitEvents).2.csr.barrierCount = 0 := by
  have hCopyOnly : ctx.commandList.isCopyOnly = true := by
    simp [CommandList.isCopyOnly, hCopy]
  have hOp := fun split => appendBuiltinOperation_copyOnly_barrierCount caps flags allocations
    ctx dstptr numWaitEvents split hCopyOnly
  refine ⟨?_, ?_, ?_⟩
  · rw [appendMemoryCopy, hOp, hZero]
  · rw [appendMemoryCopyRegion, hOp, hZero]
  · rw [appendMemoryFill, hOp, hZero]

/-- Witness for C6: a copy with one wait event on the immediate copy-only
fixture list leaves the barrier count of the fresh receiver at zero. -/
theorem copy_engine_dependency_elision_witness :
    fixtureCommandListCopy.engineGroupType = NEO.EngineGroupType.copy
      ∧ 1 ≤ 1
      ∧ fixtureCsr.barrierCount = 0
      ∧ (appendMemoryCopy fixtureCaps fixtureFlags fixtureLib fixtureAllocations
          (fixtureContext fixtureCommandListCopy) 0x5678 0x1234 4 1).2.csr.barrierCount = 0 :=
  ⟨rfl, Nat.le_refl 1, rfl,
    (copy_engine_dependency_elision fixtureCaps fixtureFlags fixtureLib fixtureAllocations
      (fixtureContext fixtureCommandListCopy) 0x5678 0x1234 1 4 1
      { originX := 0, originY := 0, originZ := 0, width := 0, height := 0, depth := 0 }
      { originX := 0, originY := 0, originZ := 0, width := 0, height := 0, depth := 0 }
      rfl (Nat.le_refl 1) rfl).1⟩

/-! ## Flush-required elision -/

/-- C7 refuted as stated: on hardware with DC flush, a required flush without
an event on the copy-only fixture list appends nothing, where the claim asks
for one PIPE_CONTROL with DC flush. -/
theorem addFlushRequiredCommand_counterexample :
    fixtureCaps.dcFlushSupported = true
      ∧ (addFlushRequiredCommand fixtureCaps fixtureCommandListCopy true none).commandStream
        = fixtureCommandListCopy.commandStream
      ∧ (addFlushRequiredCommand fixtureCaps fixtureCommandListCopy true none).commandStream
        ≠ fixtureCommandListCopy.commandStream ++ [NEO.GenCmd.pipeControl true] := by
  decide

/-- C7 (DC-flush elision), amended: on hardware that supports DC flush, for
every command list that is not copy-only and every event argument,
`addFlushRequiredCommand(required, event)` appends exactly one PIPE_CONTROL
with DC flush enabled when `required` is true and the event is null or has no
host signal scope, and appends nothing when the event has host signal scope or
when `required` is false; on a copy-only list it appends nothing at all. -/
theorem addFlushRequiredCommand_elision (caps : NEO.HardwareCapabilities)
    (commandList : CommandList) (flushOperationRequired : Bool) (signalEvent : Option Event)
    (hDcFlush : caps.dcFlushSupported = true) :
    (commandList.isCopyOnly = false → flushOperationRequired = true →
        (∀ event, signalEvent = some event → event.isHostSignalScope = false) →
        addFlushRequiredCommand caps commandList flushOperationRequired signalEvent
          = { commandList with
              commandStream := commandList.commandStream ++ [NEO.GenCmd.pipeControl true] })
      ∧ (commandList.isCopyOnly = false →
          (flushOperationRequired = false
            ∨ ∃ event, signalEvent = some event ∧ event.isHostSignalScope = true) →
          addFlushRequiredCommand caps commandList flushOperationRequired signalEvent
            = commandList)
      ∧ (commandList.isCopyOnly = true →
          addFlushRequiredCommand caps commandList flushOperationRequired signalEvent
            = commandList) := by
  refine ⟨?_, ?_, ?_⟩
  · intro hCompute hRequired hScope
    cases signalEvent with
    | none => simp [addFlushRequiredCommand, hCompute, hDcFlush, hRequired]
    | some event =>
        simp [addFlushRequiredCommand, hCompute, hDcFlush, hRequired, hScope event rfl]
  · intro hCompute hElided
    rcases hElided with hNotRequired | ⟨event, hSome, hHost⟩
    · cases signalEvent <;> simp [addFlushRequiredCommand, hCompute, hNotRequired]
    · simp [addFlushRequiredCommand, hCompute, hSome, hHost]
  · intro hCopy
    simp [addFlushRequiredCommand, hCopy]

/-- Witness for C7 as amended: on the compute fixture list a required flush
with an event without signal scope appends one PIPE_CONTROL with DC flush. -/
theorem addFlushRequiredCommand_elision_witness :
    fixtureCaps.dcFlushSupported = true
      ∧ fixtureCommandList.isCopyOnly = false
      ∧ (addFlushRequiredCommand fixtureCaps fixtureCommandList true
          (some { signalScope := 0 })).commandStream
        = fixtureCommandList.commandStream ++ [NEO.GenCmd.pipeControl true] :=
  ⟨rfl, rfl,
    congrArg CommandList.commandStream
      ((addFlushRequiredCommand_elision fixtureCaps fixtureCommandList true
        (some { signalScope := 0 }) rfl).1 rfl rfl
        (by
          intro event hEvent
          cases hEvent
          decide))⟩

/-! ## Immediate execution with flush task -/

/-- C8 (Flush status mapping): `executeCommandListImmediateWithFlushTask`
returns `ZE_RESULT_SUCCESS` when the flush of the receiver reports success,
`ZE_RESULT_ERROR_OUT_OF_HOST_MEMORY` when it reports
`SubmissionStatus::outOfHostMemory` and `ZE_RESULT_ERROR_OUT_OF_DEVICE_MEMORY`
when it reports `SubmissionStatus::outOfMemory`. -/
theorem flush_status_mapping (flags : NEO.DebugFlags) (ctx : CmdListContext) :
    (ctx.csr.flushReturnValue = NEO.SubmissionStatus.success →
        (executeCommandListImmediateWithFlushTask flags ctx).1 = ze_result_t.ZE_RESULT_SUCCESS)
      ∧ (ctx.csr.flushReturnValue = NEO.SubmissionStatus.outOfHostMemory →
          (executeCommandListImmediateWithFlushTask flags ctx).1
            = ze_result_t.ZE_RESULT_ERROR_OUT_OF_HOST_MEMORY)
      ∧ (ctx.csr.flushReturnValue = NEO.SubmissionStatus.outOfMemory →
          (executeCommandListImmediateWithFlushTask flags ctx).1
            = ze_result_t.ZE_RESULT_ERROR_OUT_OF_DEVICE_MEMORY) := by
  refine ⟨?_, ?_, ?_⟩ <;> intro hStatus <;>
    simp [executeCommandListImmediateWithFlushTask, hStatus, flushStatusToResult]

/-- Witness for C8: with the flush of the receiver reporting
`outOfHostMemory`, the immediate fixture list gets
`ZE_RESULT_ERROR_OUT_OF_HOST_MEMORY`. -/
theorem flush_status_mapping_witness :
    (executeCommandListImmediateWithFlushTask fixtureFlags
        { commandList := fixtureCommandListImmediate
          csr := { fixtureCsr with flushReturnValue := NEO.SubmissionStatus.outOfHostMemory }
          cmdQ := fixtureCmdQ }).1
      = ze_result_t.ZE_RESULT_ERROR_OUT_OF_HOST_MEMORY :=
  (flush_status_mapping fixtureFlags
    { commandList := fixtureCommandListImmediate
      csr := { fixtureCsr with flushReturnValue := NEO.SubmissionStatus.outOfHostMemory }
      cmdQ := fixtureCmdQ }).2.1 rfl

/-- The result of the execute is success exactly when the flush of the
receiver reports success. -/
theorem executeCommandListImmediateWithFlushTask_success_iff (flags : NEO.DebugFlags)
    (ctx : CmdListContext) :
    (executeCommandListImmediateWithFlushTask flags ctx).1 = ze_result_t.ZE_RESULT_SUCCESS
      ↔ ctx.csr.flushReturnValue = NEO.SubmissionStatus.success := by
  cases hStatus : ctx.csr.flushReturnValue <;>
    simp [executeCommandListImmediateWithFlushTask, hStatus, flushStatusToResult]

/-- C9 (containsAnyKernel reset): for every combination of the two debug
toggles `ForceMemoryPrefetchForKmdMigratedSharedAllocations` and
`EnableBOChunkingPrefetch`, after `executeCommandListImmediateWithFlushTask`
succeeds on an immediate command list whose `containsAnyKernel` flag was true,
`containsAnyKernel` is false. -/
theorem containsAnyKernel_reset (forceMemoryPrefetch enableChunkingPrefetch : Bool)
    (ctx : CmdListContext)
    (_hImmediate : ctx.commandList.cmdListType = CommandListType.typeImmediate)
    (_hContains : ctx.commandList.containsAnyKernel = true)
    (hSuccess : (executeCommandListImmediateWithFlushTask
        { ForceMemoryPrefetchForKmdMigratedSharedAllocations := forceMemoryPrefetch
          EnableBOChunkingPrefetch := enableChunkingPrefetch } ctx).1
      = ze_result_t.ZE_RESULT_SUCCESS) :
    (executeCommandListImmediateWithFlushTask
        { ForceMemoryPrefetchForKmdMigratedSharedAllocations := forceMemoryPrefetch
          EnableBOChunkingPrefetch := enableChunkingPrefetch }
        ctx).2.commandList.containsAnyKernel = false := by
  have hStatus := (executeCommandListImmediateWithFlushTask_success_iff _ ctx).1 hSuccess
  simp [executeCommandListImmediateWithFlushTask, hStatus]

/-- Witness for C9: with both toggles on, the immediate fixture list that
contains a kernel has the flag reset by a successful execute. -/
theorem containsAnyKernel_reset_witness :
    (executeCommandListImmediateWithFlushTask
        { ForceMemoryPrefetchForKmdMigratedSharedAllocations := true
          EnableBOChunkingPrefetch := true }
        (fixtureContext { fixtureCommandListImmediate with containsAnyKernel := true })).1
        = ze_result_t.ZE_RESULT_SUCCESS
      ∧ (executeCommandListImmediateWithFlushTask
          { ForceMemoryPrefetchForKmdMigratedSharedAllocations := true
            EnableBOChunkingPrefetch := true }
          (fixtureContext
            { fixtureCommandListImmediate with
              containsAnyKernel := true })).2.commandList.containsAnyKernel = false :=
  ⟨by decide,
    containsAnyKernel_reset true true
      (fixtureContext { fixtureCommandListImmediate with containsAnyKernel := true })
      rfl rfl (by decide)⟩

/-- C10 (Indirect-access residency): one call of
`executeCommandListImmediateWithFlushTask` invokes
`handleIndirectAllocationResidency` of the queue exactly once when the command
list has `indirectAllocationsAllowed` set, and not at all when it is clear,
whatever the flush reports. -/
theorem indirect_access_residency (flags : NEO.DebugFlags) (ctx : CmdListContext) :
    (ctx.commandList.indirectAllocationsAllowed = true →
        (executeCommandListImmediateWithFlushTask flags
            ctx).2.cmdQ.handleIndirectAllocationResidencyCalledTimes
          = ctx.cmdQ.handleIndirectAllocationResidencyCalledTimes + 1)
      ∧ (ctx.commandList.indirectAllocationsAllowed = false →
          (executeCommandListImmediateWithFlushTask flags
              ctx).2.cmdQ.handleIndirectAllocationResidencyCalledTimes
            = ctx.cmdQ.handleIndirectAllocationResidencyCalledTimes) := by
  constructor <;> intro hAllowed <;>
    cases hStatus : ctx.csr.flushReturnValue <;>
    simp [executeCommandListImmediateWithFlushTask, hStatus, hAllowed,
      CommandQueue.handleIndirectAllocationResidency]

/-- Witness for C10: on the fresh queue, whose counter stands at zero, the
execute of an immediate list with indirect allocations allowed leaves the
counter at one. -/
theorem indirect_access_residency_witness :
    (executeCommandListImmediateWithFlushTask fixtureFlags
        (fixtureContext
          { fixtureCommandListImmediate with
            indirectAllocationsAllowed := true })).2.cmdQ.handleIndirectAllocationResidencyCalledTimes
      = fixtureCmdQ.handleIndirectAllocationResidencyCalledTimes + 1 :=
  (indirect_access_residency fixtureFlags
    (fixtureContext { fixtureCommandListImmediate with indirectAllocationsAllowed := true })).1
    rfl

end L0

/-! ## Partition count across reset -/

namespace L0

/-- C11: on a device with any number of tiles, a non-internal immediate list
on a compute engine group is created with `partitionCount` equal to the tile
count, an internal immediate list and a copy-engine list with `partitionCount`
1, and `reset` of a created list returns `ZE_RESULT_SUCCESS` and leaves
`partitionCount` at the value the list was created with. -/
theorem partitionCount_across_reset (device : Device) :
    (CommandListImp.create device CommandListType.typeImmediate false
        NEO.EngineGroupType.compute).partitionCount = device.tileCount
    ∧ (CommandListImp.create device CommandListType.typeImmediate false
        NEO.EngineGroupType.renderCompute).partitionCount = device.tileCount
    ∧ (∀ engineGroupType,
      (CommandListImp.create device CommandListType.typeImmediate true
        engineGroupType).partitionCount = 1)
    ∧ (∀ cmdListType internalUsage,
      (CommandListImp.create device cmdListType internalUsage
        NEO.EngineGroupType.copy).partitionCount = 1)
    ∧ (∀ cmdListType internalUsage engineGroupType,
      (CommandListImp.reset device
        (CommandListImp.create device cmdListType internalUsage engineGroupType)).1
          = ze_result_t.ZE_RESULT_SUCCESS
        ∧ (CommandListImp.reset device
            (CommandListImp.create device cmdListType internalUsage
              engineGroupType)).2.partitionCount
          = (CommandListImp.create device cmdListType internalUsage
              engineGroupType).partitionCount) := by
  refine ⟨?_, ?_, ?_, ?_, ?_⟩
  · simp [CommandListImp.create, tileReplicationFactor]
  · simp [CommandListImp.create, tileReplicationFactor]
  · intro engineGroupType
    simp [CommandListImp.create, tileReplicationFactor]
  · intro cmdListType internalUsage
    simp [CommandListImp.create, tileReplicationFactor]
  · intro cmdListType internalUsage engineGroupType
    exact ⟨rfl, rfl⟩

end L0

/-! ## Encoding of unset fields -/

namespace NEO

theorem isProgrammed_initValue : isProgrammed initValue = false := by
  simp [isProgrammed]

theorem programmedValue_initValue (value : Int) : programmedValue initValue value = 0 := by
  simp [programmedValue, isProgrammed_initValue]

theorem mem_reconcileStateBaseAddress (current required : StateBaseAddressProperties)
    (cmd : GenCmd) (h : cmd ∈ (reconcileStateBaseAddress current required).2) :
    cmd = GenCmd.stateBaseAddress (reconcileStateBaseAddress current required).1 := by
  unfold reconcileStateBaseAddress at h ⊢
  split at h
  · rename_i hDirty
    simp only [List.mem_singleton] at h
    simp [hDirty, h]
  · simp at h

end NEO

namespace L0

theorem mem_programStateBaseAddress (commandList : CommandList)
    (csr : NEO.CommandStreamReceiver) (cmd : NEO.GenCmd) (sbaCmd : NEO.STATE_BASE_ADDRESS)
    (hMem : cmd ∈ (programStateBaseAddress commandList csr).2)
    (hCast : NEO.genCmdCast cmd = some sbaCmd) :
    sbaCmd = NEO.encodeStateBaseAddress (programStateBaseAddress commandList csr).1 := by
  simp only [programStateBaseAddress, List.mem_append, List.mem_singleton] at hMem ⊢
  rcases hMem with hDelta | hStart
  · have hCmd := NEO.mem_reconcileStateBaseAddress _ _ cmd hDelta
    rw [hCmd] at hCast
    simp only [NEO.genCmdCast, Option.some.injEq] at hCast
    exact hCast.symm
  · rw [hStart] at hCast
    simp [NEO.genCmdCast] at hCast

/-- C12: every `STATE_BASE_ADDRESS` command in the delta a submission writes
for a list leaves the heaps unprogrammed whose tracked base address is the
unset sentinel `-1` at that point: for the dynamic state, the surface state
and the indirect-object heap (carried by the general-state fields) the
modify-enable bits are false and the address and size fields are 0. -/
theorem unset_fields_not_emitted (commandList : CommandList)
    (csr : NEO.CommandStreamReceiver) (cmd : NEO.GenCmd) (sbaCmd : NEO.STATE_BASE_ADDRESS)
    (hMem : cmd ∈ (programStateBaseAddress commandList csr).2)
    (hCast : NEO.genCmdCast cmd = some sbaCmd) :
    ((programStateBaseAddress commandList csr).1.dynamicStateBaseAddress = NEO.initValue →
        sbaCmd.dynamicStateBaseAddressModifyEnable = false
          ∧ sbaCmd.dynamicStateBufferSizeModifyEnable = false
          ∧ sbaCmd.dynamicStateBaseAddress = 0
          ∧ sbaCmd.dynamicStateBufferSize = 0)
    ∧ ((programStateBaseAddress commandList csr).1.surfaceStateBaseAddress = NEO.initValue →
        sbaCmd.surfaceStateBaseAddressModifyEnable = false
          ∧ sbaCmd.surfaceStateBaseAddress = 0)
    ∧ ((programStateBaseAddress commandList csr).1.indirectObjectBaseAddress = NEO.initValue →
        sbaCmd.generalStateBaseAddressModifyEnable = false
          ∧ sbaCmd.generalStateBufferSizeModifyEnable = false
          ∧ sbaCmd.generalStateBaseAddress = 0
          ∧ sbaCmd.generalStateBufferSize = 0) := by
  rw [mem_programStateBaseAddress commandList csr cmd sbaCmd hMem hCast]
  refine ⟨?_, ?_, ?_⟩ <;> intro hUnset <;>
    simp [NEO.encodeStateBaseAddress, hUnset, NEO.isProgrammed_initValue,
      NEO.programmedValue_initValue]

/-- The delta of the dispatched global-stateless list on the fresh receiver
holds a `STATE_BASE_ADDRESS` whose dynamic-state fields are cleared while the
surface state and the general state are programmed. -/
theorem unset_fields_not_emitted_witness :
    NEO.GenCmd.stateBaseAddress
        (programStateBaseAddress fixtureCommandListGlobalStatelessDispatched fixtureCsr).1
      ∈ (programStateBaseAddress fixtureCommandListGlobalStatelessDispatched fixtureCsr).2
    ∧ NEO.genCmdCast (NEO.GenCmd.stateBaseAddress
        (programStateBaseAddress fixtureCommandListGlobalStatelessDispatched fixtureCsr).1)
      = some (NEO.encodeStateBaseAddress
        (programStateBaseAddress fixtureCommandListGlobalStatelessDispatched fixtureCsr).1)
    ∧ (programStateBaseAddress fixtureCommandListGlobalStatelessDispatched
        fixtureCsr).1.dynamicStateBaseAddress = NEO.initValue
    ∧ (NEO.encodeStateBaseAddress
        (programStateBaseAddress fixtureCommandListGlobalStatelessDispatched
          fixtureCsr).1).dynamicStateBaseAddressModifyEnable = false
    ∧ (NEO.encodeStateBaseAddress
        (programStateBaseAddress fixtureCommandListGlobalStatelessDispatched
          fixtureCsr).1).surfaceStateBaseAddressModifyEnable = true :=
  ⟨by decide, rfl, by decide,
    ((unset_fields_not_emitted fixtureCommandListGlobalStatelessDispatched fixtureCsr
      (NEO.GenCmd.stateBaseAddress
        (programStateBaseAddress fixtureCommandListGlobalStatelessDispatched fixtureCsr).1)
      (NEO.encodeStateBaseAddress
        (programStateBaseAddress fixtureCommandListGlobalStatelessDispatched fixtureCsr).1)
      (by decide) rfl).1 (by decide)).1,
    by decide⟩

end L0

/-! ## Receiver state after a global-stateless submission -/

namespace NEO

theorem propertySet_of_unset (current : Int) : propertySet current initValue = current := by
  simp [propertySet, propertyDirty]

theorem propertySet_of_set (current required : Int) (h : required ≠ initValue) :
    propertySet current required = required := by
  unfold propertySet propertyDirty
  by_cases hSame : required = current
  · simp [hSame]
  · simp [h, hSame]

theorem reconcileStateBaseAddress_fst (current required : StateBaseAddressProperties) :
    (reconcileStateBaseAddress current required).1 = current.apply required := by
  unfold reconcileStateBaseAddress
  split
  · rfl
  · rename_i hClean
    have hFields : current.isDirty required = false := by simpa using hClean
    simp only [StateBaseAddressProperties.isDirty, Bool.or_eq_false_iff] at hFields
    obtain ⟨⟨⟨⟨⟨⟨⟨⟨⟨h1, h2⟩, h3⟩, h4⟩, h5⟩, h6⟩, h7⟩, h8⟩, h9⟩, h10⟩ := hFields
    cases current
    simp_all [StateBaseAddressProperties.apply, propertySet]

end NEO

namespace L0

/-- The receiver state after a submission that carries one list is the state
the delta of that list leaves behind. -/
theorem submit_single_stateBaseAddress (state : EngineState) (submission : Submission)
    (commandList : CommandList) (h : submission.commandLists = [commandList]) :
    (submit state submission).csr.stateBaseAddress
      = state.csr.stateBaseAddress.apply
          (stateBaseAddressForSubmission commandList state.csr) := by
  cases submission with
  | regular commandLists =>
      simp only [Submission.commandLists] at h
      subst h
      simp only [submit, executeCommandLists, List.foldl_cons, List.foldl_nil,
        executeCommandListsStep, programStateBaseAddress,
        NEO.reconcileStateBaseAddress_fst]
  | immediate flags other =>
      simp only [Submission.commandLists, List.cons.injEq, and_true] at h
      subst h
      simp only [submit, executeCommandListImmediateWithFlushTask, programStateBaseAddress,
        NEO.reconcileStateBaseAddress_fst]
      split <;> rfl

/-- The global-stateless list that dispatched a kernel needing no dynamic
state leaves the binding-table pool of a fresh receiver unset, not at the
global-stateless heap; and submitted after a list with private heaps it leaves
the dynamic state of that list tracked, not unset (C13 as stated fails on
both counts). -/
theorem global_stateless_pinning_counterexample :
    fixtureCommandListGlobalStatelessDispatched.cmdListHeapAddressModel
        = NEO.HeapAddressModel.globalStateless
    ∧ fixtureCommandListGlobalStatelessDispatched.requiredStreamState
        = requiredStateForDispatch NEO.HeapAddressModel.globalStateless fixtureContainer
            false 0 2
    ∧ fixtureEngineState.csr.globalStatelessHeap.heapGpuBase = 0x10000
    ∧ (submit fixtureEngineState
        (Submission.regular
          [fixtureCommandListGlobalStatelessDispatched])).csr.stateBaseAddress.bindingTablePoolBaseAddress
        = -1
    ∧ (submit fixtureEngineState
        (Submission.regular
          [fixtureCommandListGlobalStatelessDispatched])).csr.stateBaseAddress.bindingTablePoolBaseAddress
        ≠ fixtureEngineState.csr.globalStatelessHeap.heapGpuBase
    ∧ (submit (submit fixtureEngineState (Submission.regular [fixtureCommandListPrivateDispatched]))
        (Submission.regular
          [fixtureCommandListGlobalStatelessDispatched])).csr.stateBaseAddress.dynamicStateBaseAddress
        = 0x60000
    ∧ (submit (submit fixtureEngineState (Submission.regular [fixtureCommandListPrivateDispatched]))
        (Submission.regular
          [fixtureCommandListGlobalStatelessDispatched])).csr.stateBaseAddress.dynamicStateBaseAddress
        ≠ NEO.initValue := by
  decide

/-- C13, amended: after a submission that carries one global-stateless list
whose recorded requirement is that of a dispatch needing no dynamic state, the
receiver tracks the surface state at its global-stateless heap and the
indirect-object heap of the container of the list, while the dynamic state and
the binding-table pool keep the values tracked before the submission (unset on
a fresh receiver). -/
theorem global_stateless_submission_state (state : EngineState) (submission : Submission)
    (commandList : CommandList) (container : NEO.CommandContainer)
    (globalAtomics statelessMocs : Int)
    (hSingle : submission.commandLists = [commandList])
    (hModel : commandList.cmdListHeapAddressModel = NEO.HeapAddressModel.globalStateless)
    (hRequired : commandList.requiredStreamState
      = requiredStateForDispatch NEO.HeapAddressModel.globalStateless container false
          globalAtomics statelessMocs)
    (hGlobalBase : 0 ≤ state.csr.globalStatelessHeap.heapGpuBase)
    (hGlobalSize : 0 ≤ state.csr.globalStatelessHeap.heapSizeInPages)
    (hIndirectBase : 0 ≤ container.indirectObjectHeap.heapGpuBase)
    (hIndirectSize : 0 ≤ container.indirectObjectHeap.heapSizeInPages) :
    (submit state submission).csr.stateBaseAddress.surfaceStateBaseAddress
        = state.csr.globalStatelessHeap.heapGpuBase
    ∧ (submit state submission).csr.stateBaseAddress.surfaceStateSize
        = state.csr.globalStatelessHeap.heapSizeInPages
    ∧ (submit state submission).csr.stateBaseAddress.indirectObjectBaseAddress
        = container.indirectObjectHeap.heapGpuBase
    ∧ (submit state submission).csr.stateBaseAddress.indirectObjectSize
        = container.indirectObjectHeap.heapSizeInPages
    ∧ (submit state submission).csr.stateBaseAddress.dynamicStateBaseAddress
        = state.csr.stateBaseAddress.dynamicStateBaseAddress
    ∧ (submit state submission).csr.stateBaseAddress.dynamicStateSize
        = state.csr.stateBaseAddress.dynamicStateSize
    ∧ (submit state submission).csr.stateBaseAddress.bindingTablePoolBaseAddress
        = state.csr.stateBaseAddress.bindingTablePoolBaseAddress
    ∧ (submit state submission).csr.stateBaseAddress.bindingTablePoolSize
        = state.csr.stateBaseAddress.bindingTablePoolSize := by
  have hSet : ∀ value : Int, 0 ≤ value → value ≠ NEO.initValue := by
    intro value hValue
    unfold NEO.initValue
    omega
  rw [submit_single_stateBaseAddress state submission commandList hSingle]
  simp only [stateBaseAddressForSubmission, hModel, hRequired, requiredStateForDispatch,
    NEO.StateBaseAddressProperties.apply]
  refine ⟨?_, ?_, ?_, ?_, ?_, ?_, ?_, ?_⟩
  · exact NEO.propertySet_of_set _ _ (hSet _ hGlobalBase)
  · exact NEO.propertySet_of_set _ _ (hSet _ hGlobalSize)
  · exact NEO.propertySet_of_set _ _ (hSet _ hIndirectBase)
  · exact NEO.propertySet_of_set _ _ (hSet _ hIndirectSize)
  · simp [NEO.propertySet_of_unset]
  · simp [NEO.propertySet_of_unset]
  · simp [NEO.propertySet_of_unset]
  · simp [NEO.propertySet_of_unset]

/-- On the fresh receiver the dispatched global-stateless list leaves the
surface state at the global-stateless heap and the binding-table pool
unset. -/
theorem global_stateless_submission_state_witness :
    (Submission.regular [fixtureCommandListGlobalStatelessDispatched]).commandLists
        = [fixtureCommandListGlobalStatelessDispatched]
    ∧ (submit fixtureEngineState
        (Submission.regular
          [fixtureCommandListGlobalStatelessDispatched])).csr.stateBaseAddress.surfaceStateBaseAddress
        = 0x10000
    ∧ (submit fixtureEngineState
        (Submission.regular
          [fixtureCommandListGlobalStatelessDispatched])).csr.stateBaseAddress.bindingTablePoolBaseAddress
        = -1 :=
  ⟨rfl,
    (global_stateless_submission_state fixtureEngineState
      (Submission.regular [fixtureCommandListGlobalStatelessDispatched])
      fixtureCommandListGlobalStatelessDispatched fixtureContainer 0 2 rfl rfl rfl
      (by decide) (by decide) (by decide) (by decide)).1,
    (global_stateless_submission_state fixtureEngineState
      (Submission.regular [fixtureCommandListGlobalStatelessDispatched])
      fixtureCommandListGlobalStatelessDispatched fixtureContainer 0 2 rfl rfl rfl
      (by decide) (by decide) (by decide) (by decide)).2.2.2.2.2.2.1⟩

end L0

/-! ## Sysman power: the sysfs accessor -/

namespace L0

theorem SysfsAccess.readUInt64_fst (sysfs : SysfsAccess) (file : String) (val : Nat) :
    (sysfs.readUInt64 file val).1 = sysfs.readResult sysfs.accessCount file := by
  unfold SysfsAccess.readUInt64
  split
  · rename_i h
    exact h.symm
  · rfl

theorem SysfsAccess.readUInt64_val (sysfs : SysfsAccess) (file : String) (val : Nat) :
    (sysfs.readUInt64 file val).2.1
      = if sysfs.readResult sysfs.accessCount file = ze_result_t.ZE_RESULT_SUCCESS then
          toUInt64 (sysfs.nodes file)
        else val := by
  unfold SysfsAccess.readUInt64
  split <;> rfl

theorem SysfsAccess.readUInt64_snd (sysfs : SysfsAccess) (file : String) (val : Nat) :
    (sysfs.readUInt64 file val).2.2
      = { sysfs with accessCount := sysfs.accessCount + 1 } := by
  unfold SysfsAccess.readUInt64
  split <;> rfl

theorem SysfsAccess.readUInt32_fst (sysfs : SysfsAccess) (file : String) (val : Nat) :
    (sysfs.readUInt32 file val).1 = sysfs.readResult sysfs.accessCount file := by
  unfold SysfsAccess.readUInt32
  split
  · rename_i h
    exact h.symm
  · rfl

theorem SysfsAccess.readUInt32_val (sysfs : SysfsAccess) (file : String) (val : Nat) :
    (sysfs.readUInt32 file val).2.1
      = if sysfs.readResult sysfs.accessCount file = ze_result_t.ZE_RESULT_SUCCESS then
          toUInt32 (sysfs.nodes file)
        else val := by
  unfold SysfsAccess.readUInt32
  split <;> rfl

theorem SysfsAccess.readUInt32_snd (sysfs : SysfsAccess) (file : String) (val : Nat) :
    (sysfs.readUInt32 file val).2.2
      = { sysfs with accessCount := sysfs.accessCount + 1 } := by
  unfold SysfsAccess.readUInt32
  split <;> rfl

theorem SysfsAccess.readInt32_fst (sysfs : SysfsAccess) (file : String) (val : Int) :
    (sysfs.readInt32 file val).1 = sysfs.readResult sysfs.accessCount file := by
  unfold SysfsAccess.readInt32
  split
  · rename_i h
    exact h.symm
  · rfl

theorem SysfsAccess.readInt32_val (sysfs : SysfsAccess) (file : String) (val : Int) :
    (sysfs.readInt32 file val).2.1
      = if sysfs.readResult sysfs.accessCount file = ze_result_t.ZE_RESULT_SUCCESS then
          toInt32 (sysfs.nodes file)
        else val := by
  unfold SysfsAccess.readInt32
  split <;> rfl

theorem SysfsAccess.readInt32_snd (sysfs : SysfsAccess) (file : String) (val : Int) :
    (sysfs.readInt32 file val).2.2
      = { sysfs with accessCount := sysfs.accessCount + 1 } := by
  unfold SysfsAccess.readInt32
  split <;> rfl

theorem SysfsAccess.write_fst (sysfs : SysfsAccess) (file : String) (val : Int) :
    (sysfs.write file val).1 = sysfs.writeResult sysfs.accessCount file := by
  unfold SysfsAccess.write
  split
  · rename_i h
    exact h.symm
  · rfl

theorem SysfsAccess.write_snd (sysfs : SysfsAccess) (file : String) (val : Int) :
    (sysfs.write file val).2
      = { sysfs with
          nodes :=
            if sysfs.writeResult sysfs.accessCount file = ze_result_t.ZE_RESULT_SUCCESS then
              Function.update sysfs.nodes file val
            else sysfs.nodes
          accessCount := sysfs.accessCount + 1 } := by
  unfold SysfsAccess.write
  split <;> rfl

theorem SysfsAccess.readString_fst (sysfs : SysfsAccess) (file : String) (val : String) :
    (sysfs.readString file val).1 = sysfs.readResult sysfs.accessCount file := by
  unfold SysfsAccess.readString
  split
  · rename_i h
    exact h.symm
  · rfl

theorem SysfsAccess.readString_val (sysfs : SysfsAccess) (file : String) (val : String) :
    (sysfs.readString file val).2.1
      = if sysfs.readResult sysfs.accessCount file = ze_result_t.ZE_RESULT_SUCCESS then
          sysfs.strings file
        else val := by
  unfold SysfsAccess.readString
  split <;> rfl

theorem SysfsAccess.readString_snd (sysfs : SysfsAccess) (file : String) (val : String) :
    (sysfs.readString file val).2.2
      = { sysfs with accessCount := sysfs.accessCount + 1 } := by
  unfold SysfsAccess.readString
  split <;> rfl

theorem SysfsAccess.scanDirEntries_fst (sysfs : SysfsAccess) (path : String) :
    (sysfs.scanDirEntries path).1 = sysfs.scanDirEntriesResult sysfs.accessCount path := by
  unfold SysfsAccess.scanDirEntries
  split
  · rename_i h
    exact h.symm
  · rfl

theorem SysfsAccess.scanDirEntries_val (sysfs : SysfsAccess) (path : String) :
    (sysfs.scanDirEntries path).2.1
      = if sysfs.scanDirEntriesResult sysfs.accessCount path = ze_result_t.ZE_RESULT_SUCCESS
        then sysfs.dirEntries path
        else [] := by
  unfold SysfsAccess.scanDirEntries
  split <;> rfl

theorem SysfsAccess.scanDirEntries_snd (sysfs : SysfsAccess) (path : String) :
    (sysfs.scanDirEntries path).2.2
      = { sysfs with accessCount := sysfs.accessCount + 1 } := by
  unfold SysfsAccess.scanDirEntries
  split <;> rfl

/-- Two nodes of one directory are the same node only when their names are
the same. -/
theorem node_path_injective (dir first second : String)
    (h : dir ++ "/" ++ first = dir ++ "/" ++ second) : first = second := by
  have hData := congrArg String.data h
  simp only [String.data_append] at hData
  exact String.ext (List.append_cancel_left hData)

end L0

/-! ## Sysman power: energy threshold and energy counter -/

namespace L0

/-- C14: in both Linux power implementations `getEnergyThreshold` and
`setEnergyThreshold` return `ZE_RESULT_ERROR_UNSUPPORTED_FEATURE` for every
argument and every state of the handle; the handle comes back as it was, so
no sysfs access and no telemetry read has been counted, and the output
threshold is left as the caller passed it. -/
theorem energy_threshold_unsupported (sysman : Sysman.LinuxPowerImp) (tools : LinuxPowerImp)
    (pThreshold : zes_energy_threshold_t) (threshold : Nat) :
    (sysman.getEnergyThreshold pThreshold).1 = ze_result_t.ZE_RESULT_ERROR_UNSUPPORTED_FEATURE
    ∧ (sysman.getEnergyThreshold pThreshold).2.1 = pThreshold
    ∧ (sysman.getEnergyThreshold pThreshold).2.2.pSysfsAccess.accessCount
        = sysman.pSysfsAccess.accessCount
    ∧ (sysman.getEnergyThreshold pThreshold).2.2.pPmt.map PlatformMonitoringTech.readCount
        = sysman.pPmt.map PlatformMonitoringTech.readCount
    ∧ (sysman.setEnergyThreshold threshold).1 = ze_result_t.ZE_RESULT_ERROR_UNSUPPORTED_FEATURE
    ∧ (sysman.setEnergyThreshold threshold).2.pSysfsAccess.accessCount
        = sysman.pSysfsAccess.accessCount
    ∧ (sysman.setEnergyThreshold threshold).2.pPmt.map PlatformMonitoringTech.readCount
        = sysman.pPmt.map PlatformMonitoringTech.readCount
    ∧ (tools.getEnergyThreshold pThreshold).1 = ze_result_t.ZE_RESULT_ERROR_UNSUPPORTED_FEATURE
    ∧ (tools.getEnergyThreshold pThreshold).2.1 = pThreshold
    ∧ (tools.getEnergyThreshold pThreshold).2.2.pSysfsAccess.accessCount
        = tools.pSysfsAccess.accessCount
    ∧ (tools.getEnergyThreshold pThreshold).2.2.pPmt.map PlatformMonitoringTech.readCount
        = tools.pPmt.map PlatformMonitoringTech.readCount
    ∧ (tools.setEnergyThreshold threshold).1 = ze_result_t.ZE_RESULT_ERROR_UNSUPPORTED_FEATURE
    ∧ (tools.setEnergyThreshold threshold).2.pSysfsAccess.accessCount
        = tools.pSysfsAccess.accessCount
    ∧ (tools.setEnergyThreshold threshold).2.pPmt.map PlatformMonitoringTech.readCount
        = tools.pPmt.map PlatformMonitoringTech.readCount :=
  ⟨rfl, rfl, rfl, rfl, rfl, rfl, rfl, rfl, rfl, rfl, rfl, rfl, rfl, rfl⟩

/-- The raw counter a telemetry read leaves in a local that started at `0`
fits 64 bits. -/
theorem readValue_lt (pmt : PlatformMonitoringTech) (key : String) :
    (pmt.readValue key 0).2.1 < 2 ^ 64 := by
  unfold PlatformMonitoringTech.readValue
  split
  · exact Nat.mod_lt _ (by norm_num)
  · norm_num

/-- The microjoule value of a 64-bit Q20 counter fits 64 bits. -/
theorem microJoule_lt (energy : Nat) (h : energy < 2 ^ 64) :
    energy / 1048576 * convertJouleToMicroJoule < 2 ^ 64 := by
  unfold convertJouleToMicroJoule
  omega

theorem getErrorCode_ne_success (result : ze_result_t)
    (h : result ≠ ze_result_t.ZE_RESULT_SUCCESS) :
    getErrorCode result ≠ ze_result_t.ZE_RESULT_SUCCESS := by
  unfold getErrorCode
  split
  · decide
  · exact h

theorem sysman_getEnergyCounter_cases (handle : Sysman.LinuxPowerImp) (sysmanTimestamp : Nat)
    (pEnergy : zes_power_energy_counter_t) (node : String)
    (hNode : node = handle.intelGraphicsHwmonDir ++ "/"
      ++ handle.pSysmanKmdInterface.getSysfsFilePath
          Sysman.SysfsName.sysfsNameEnergyCounterNode handle.subdeviceId false) :
    (handle.pSysfsAccess.readResult handle.pSysfsAccess.accessCount node = ze_result_t.ZE_RESULT_SUCCESS →
      (handle.getEnergyCounter sysmanTimestamp pEnergy).1 = ze_result_t.ZE_RESULT_SUCCESS
        ∧ (handle.getEnergyCounter sysmanTimestamp pEnergy).2.1.energy
            = toUInt64 (handle.pSysfsAccess.nodes node))
    ∧ (handle.pSysfsAccess.readResult handle.pSysfsAccess.accessCount node ≠ ze_result_t.ZE_RESULT_SUCCESS →
      ∀ pmt, handle.pPmt = some pmt →
        (handle.getEnergyCounter sysmanTimestamp pEnergy).1
            = (pmt.readValue "PACKAGE_ENERGY" 0).1
          ∧ (handle.getEnergyCounter sysmanTimestamp pEnergy).2.1.energy
            = (pmt.readValue "PACKAGE_ENERGY" 0).2.1 / 1048576 * convertJouleToMicroJoule)
    ∧ (handle.pSysfsAccess.readResult handle.pSysfsAccess.accessCount node ≠ ze_result_t.ZE_RESULT_SUCCESS →
      handle.pPmt = none →
        (handle.getEnergyCounter sysmanTimestamp pEnergy).1
          = getErrorCode (handle.pSysfsAccess.readResult handle.pSysfsAccess.accessCount node)) := by
  subst hNode
  refine ⟨?_, ?_, ?_⟩
  · intro hRead
    simp [Sysman.LinuxPowerImp.getEnergyCounter, SysfsAccess.readUInt64, hRead]
  · intro hRead pmt hPmt
    simp only [Sysman.LinuxPowerImp.getEnergyCounter, SysfsAccess.readUInt64, hRead, hPmt,
      Sysman.LinuxPowerImp.getPmtEnergyCounter, if_false, ne_eq, not_false_eq_true, if_true]
    exact ⟨trivial, Nat.mod_eq_of_lt (microJoule_lt _ (readValue_lt pmt _))⟩
  · intro hRead hPmt
    simp [Sysman.LinuxPowerImp.getEnergyCounter, SysfsAccess.readUInt64, hRead, hPmt]

theorem tools_getEnergyCounter_cases (handle : LinuxPowerImp) (sysmanTimestamp : Nat)
    (pEnergy : zes_power_energy_counter_t) (node : String)
    (hNode : node = handle.i915HwmonDir ++ "/" ++ LinuxPowerImp.energyCounterNode) :
    (handle.pSysfsAccess.readResult handle.pSysfsAccess.accessCount node = ze_result_t.ZE_RESULT_SUCCESS →
      (handle.getEnergyCounter sysmanTimestamp pEnergy).1 = ze_result_t.ZE_RESULT_SUCCESS
        ∧ (handle.getEnergyCounter sysmanTimestamp pEnergy).2.1.energy
            = toUInt64 (handle.pSysfsAccess.nodes node))
    ∧ (handle.pSysfsAccess.readResult handle.pSysfsAccess.accessCount node ≠ ze_result_t.ZE_RESULT_SUCCESS →
      ∀ pmt, handle.pPmt = some pmt →
        (handle.getEnergyCounter sysmanTimestamp pEnergy).1
            = (pmt.readValue "PACKAGE_ENERGY" 0).1
          ∧ (handle.getEnergyCounter sysmanTimestamp pEnergy).2.1.energy
            = (pmt.readValue "PACKAGE_ENERGY" 0).2.1 / 1048576 * convertJouleToMicroJoule)
    ∧ (handle.pSysfsAccess.readResult handle.pSysfsAccess.accessCount node ≠ ze_result_t.ZE_RESULT_SUCCESS →
      handle.pPmt = none →
        (handle.getEnergyCounter sysmanTimestamp pEnergy).1
          = getErrorCode (handle.pSysfsAccess.readResult handle.pSysfsAccess.accessCount node)) := by
  subst hNode
  refine ⟨?_, ?_, ?_⟩
  · intro hRead
    simp [LinuxPowerImp.getEnergyCounter, SysfsAccess.readUInt64, hRead]
  · intro hRead pmt hPmt
    simp only [LinuxPowerImp.getEnergyCounter, SysfsAccess.readUInt64, hRead, hPmt,
      LinuxPowerImp.getPmtEnergyCounter, if_false, ne_eq, not_false_eq_true, if_true]
    exact ⟨trivial, Nat.mod_eq_of_lt (microJoule_lt _ (readValue_lt pmt _))⟩
  · intro hRead hPmt
    simp [LinuxPowerImp.getEnergyCounter, SysfsAccess.readUInt64, hRead, hPmt]

end L0

namespace L0

/-- C15: `getEnergyCounter` of both Linux power implementations.  When the
sysfs read of the energy node succeeds it returns `ZE_RESULT_SUCCESS` with the
content of the node.  When that read fails and a telemetry reader exists it
returns the result of the telemetry read, with the energy derived from the
raw counter.  When that read fails and there is no telemetry reader it
returns `getErrorCode` of the failure of the sysfs read. -/
theorem energy_counter_fallback (sysman : Sysman.LinuxPowerImp) (tools : LinuxPowerImp)
    (sysmanTimestamp : Nat) (pEnergy : zes_power_energy_counter_t)
    (sysmanNode toolsNode : String)
    (hSysmanNode : sysmanNode = sysman.intelGraphicsHwmonDir ++ "/"
      ++ sysman.pSysmanKmdInterface.getSysfsFilePath
          Sysman.SysfsName.sysfsNameEnergyCounterNode sysman.subdeviceId false)
    (hToolsNode : toolsNode = tools.i915HwmonDir ++ "/" ++ LinuxPowerImp.energyCounterNode) :
    ((sysman.pSysfsAccess.readResult sysman.pSysfsAccess.accessCount sysmanNode = ze_result_t.ZE_RESULT_SUCCESS →
        (sysman.getEnergyCounter sysmanTimestamp pEnergy).1 = ze_result_t.ZE_RESULT_SUCCESS
          ∧ (sysman.getEnergyCounter sysmanTimestamp pEnergy).2.1.energy
              = toUInt64 (sysman.pSysfsAccess.nodes sysmanNode))
      ∧ (sysman.pSysfsAccess.readResult sysman.pSysfsAccess.accessCount sysmanNode ≠ ze_result_t.ZE_RESULT_SUCCESS →
        ∀ pmt, sysman.pPmt = some pmt →
          (sysman.getEnergyCounter sysmanTimestamp pEnergy).1
              = (pmt.readValue "PACKAGE_ENERGY" 0).1
            ∧ (sysman.getEnergyCounter sysmanTimestamp pEnergy).2.1.energy
              = (pmt.readValue "PACKAGE_ENERGY" 0).2.1 / 1048576 * convertJouleToMicroJoule)
      ∧ (sysman.pSysfsAccess.readResult sysman.pSysfsAccess.accessCount sysmanNode ≠ ze_result_t.ZE_RESULT_SUCCESS →
        sysman.pPmt = none →
          (sysman.getEnergyCounter sysmanTimestamp pEnergy).1
            = getErrorCode (sysman.pSysfsAccess.readResult sysman.pSysfsAccess.accessCount sysmanNode)))
    ∧ ((tools.pSysfsAccess.readResult tools.pSysfsAccess.accessCount toolsNode = ze_result_t.ZE_RESULT_SUCCESS →
        (tools.getEnergyCounter sysmanTimestamp pEnergy).1 = ze_result_t.ZE_RESULT_SUCCESS
          ∧ (tools.getEnergyCounter sysmanTimestamp pEnergy).2.1.energy
              = toUInt64 (tools.pSysfsAccess.nodes toolsNode))
      ∧ (tools.pSysfsAccess.readResult tools.pSysfsAccess.accessCount toolsNode ≠ ze_result_t.ZE_RESULT_SUCCESS →
        ∀ pmt, tools.pPmt = some pmt →
          (tools.getEnergyCounter sysmanTimestamp pEnergy).1
              = (pmt.readValue "PACKAGE_ENERGY" 0).1
            ∧ (tools.getEnergyCounter sysmanTimestamp pEnergy).2.1.energy
              = (pmt.readValue "PACKAGE_ENERGY" 0).2.1 / 1048576 * convertJouleToMicroJoule)
      ∧ (tools.pSysfsAccess.readResult tools.pSysfsAccess.accessCount toolsNode ≠ ze_result_t.ZE_RESULT_SUCCESS →
        tools.pPmt = none →
          (tools.getEnergyCounter sysmanTimestamp pEnergy).1
            = getErrorCode (tools.pSysfsAccess.readResult tools.pSysfsAccess.accessCount toolsNode))) :=
  ⟨sysman_getEnergyCounter_cases sysman sysmanTimestamp pEnergy sysmanNode hSysmanNode,
    tools_getEnergyCounter_cases tools sysmanTimestamp pEnergy toolsNode hToolsNode⟩

/-- With the energy node unreadable and a telemetry reader at hand the Sysman
handle reports the telemetry result; the tools handle, whose node is readable,
reports success. -/
theorem energy_counter_fallback_witness :
    fixtureSysfsNotAvailable.readResult 0 "device/hwmon/hwmon1/energy1_input"
        ≠ ze_result_t.ZE_RESULT_SUCCESS
    ∧ fixtureSysfs.readResult 0 "device/hwmon/hwmon1/energy1_input"
        = ze_result_t.ZE_RESULT_SUCCESS
    ∧ ((Sysman.fixturePowerHandle fixtureSysfsNotAvailable (some fixturePmt)).getEnergyCounter
        77 { energy := 5, timestamp := 0 }).1
        = (fixturePmt.readValue "PACKAGE_ENERGY" 0).1
    ∧ ((fixturePowerHandle PRODUCT_FAMILY.IGFX_DG1).getEnergyCounter
        77 { energy := 5, timestamp := 0 }).1 = ze_result_t.ZE_RESULT_SUCCESS :=
  ⟨by decide, by decide,
    ((energy_counter_fallback
      (Sysman.fixturePowerHandle fixtureSysfsNotAvailable (some fixturePmt))
      (fixturePowerHandle PRODUCT_FAMILY.IGFX_DG1) 77 { energy := 5, timestamp := 0 }
      "device/hwmon/hwmon1/energy1_input" "device/hwmon/hwmon1/energy1_input"
      (by decide) (by decide)).1.2.1 (by decide) fixturePmt rfl).1,
    ((energy_counter_fallback
      (Sysman.fixturePowerHandle fixtureSysfsNotAvailable (some fixturePmt))
      (fixturePowerHandle PRODUCT_FAMILY.IGFX_DG1) 77 { energy := 5, timestamp := 0 }
      "device/hwmon/hwmon1/energy1_input" "device/hwmon/hwmon1/energy1_input"
      (by decide) (by decide)).2.1 (by decide)).1⟩

/-! ## Sysman power: properties -/

/-- With the limit nodes not available `getProperties` of the Sysman layer
still returns `ZE_RESULT_SUCCESS` and reports the default limit as `-1`, where
propagation would return `getErrorCode` of the failure,
`ZE_RESULT_ERROR_UNSUPPORTED_FEATURE` (C16 as stated fails). -/
theorem getProperties_failure_counterexample :
    (Sysman.fixturePowerHandle fixtureSysfsNotAvailable none).pSysfsAccess.readResult 0
        ((Sysman.fixturePowerHandle fixtureSysfsNotAvailable none).intelGraphicsHwmonDir
          ++ "/" ++ Sysman.LinuxPowerImp.defaultPowerLimit)
        = ze_result_t.ZE_RESULT_ERROR_NOT_AVAILABLE
    ∧ getErrorCode ze_result_t.ZE_RESULT_ERROR_NOT_AVAILABLE
        = ze_result_t.ZE_RESULT_ERROR_UNSUPPORTED_FEATURE
    ∧ ((Sysman.fixturePowerHandle fixtureSysfsNotAvailable none).getProperties
        { onSubdevice := false, subdeviceId := 0, canControl := false,
          isEnergyThresholdSupported := false, defaultLimit := 0, minLimit := 0,
          maxLimit := 0 }).1 = ze_result_t.ZE_RESULT_SUCCESS
    ∧ ((Sysman.fixturePowerHandle fixtureSysfsNotAvailable none).getProperties
        { onSubdevice := false, subdeviceId := 0, canControl := false,
          isEnergyThresholdSupported := false, defaultLimit := 0, minLimit := 0,
          maxLimit := 0 }).1
        ≠ getErrorCode
          ((Sysman.fixturePowerHandle fixtureSysfsNotAvailable none).pSysfsAccess.readResult 0
            ((Sysman.fixturePowerHandle fixtureSysfsNotAvailable none).intelGraphicsHwmonDir
              ++ "/" ++ Sysman.LinuxPowerImp.defaultPowerLimit))
    ∧ ((Sysman.fixturePowerHandle fixtureSysfsNotAvailable none).getProperties
        { onSubdevice := false, subdeviceId := 0, canControl := false,
          isEnergyThresholdSupported := false, defaultLimit := 0, minLimit := 0,
          maxLimit := 0 }).2.1.defaultLimit = -1 := by
  decide

/-- C16, amended: `getProperties` of the Sysman layer returns
`ZE_RESULT_SUCCESS` whatever the reads of the limit nodes report; a limit
whose node cannot be read is reported as `-1`, and the default limit whose
node can be read is the content of the node divided by `milliFactor`.  The
three reads are the first, second and third access of the call. -/
theorem getProperties_unreadable_limit_unknown (handle : Sysman.LinuxPowerImp)
    (pProperties : zes_power_properties_t) :
    (handle.getProperties pProperties).1 = ze_result_t.ZE_RESULT_SUCCESS
    ∧ (handle.pSysfsAccess.readResult handle.pSysfsAccess.accessCount
          (handle.intelGraphicsHwmonDir ++ "/" ++ Sysman.LinuxPowerImp.defaultPowerLimit)
        ≠ ze_result_t.ZE_RESULT_SUCCESS →
      (handle.getProperties pProperties).2.1.defaultLimit = -1)
    ∧ (handle.pSysfsAccess.readResult (handle.pSysfsAccess.accessCount + 1)
          (handle.intelGraphicsHwmonDir ++ "/" ++ Sysman.LinuxPowerImp.minPowerLimit)
        ≠ ze_result_t.ZE_RESULT_SUCCESS →
      (handle.getProperties pProperties).2.1.minLimit = -1)
    ∧ (handle.pSysfsAccess.readResult (handle.pSysfsAccess.accessCount + 1 + 1)
          (handle.intelGraphicsHwmonDir ++ "/" ++ Sysman.LinuxPowerImp.maxPowerLimit)
        ≠ ze_result_t.ZE_RESULT_SUCCESS →
      (handle.getProperties pProperties).2.1.maxLimit = -1)
    ∧ (handle.pSysfsAccess.readResult handle.pSysfsAccess.accessCount
          (handle.intelGraphicsHwmonDir ++ "/" ++ Sysman.LinuxPowerImp.defaultPowerLimit)
        = ze_result_t.ZE_RESULT_SUCCESS →
      (handle.getProperties pProperties).2.1.defaultLimit
        = toInt32 (toUInt32 (handle.pSysfsAccess.nodes
            (handle.intelGraphicsHwmonDir ++ "/" ++ Sysman.LinuxPowerImp.defaultPowerLimit))
          / milliFactor : Nat)) := by
  simp only [Sysman.LinuxPowerImp.getProperties, SysfsAccess.readUInt32_fst,
    SysfsAccess.readUInt32_val, SysfsAccess.readUInt32_snd]
  refine ⟨trivial, ?_, ?_, ?_, ?_⟩
  · intro hRead
    simp only [hRead, if_false]
    split_ifs <;> rfl
  · intro hRead
    simp only [hRead, if_false, false_and]
    split_ifs <;> rfl
  · intro hRead
    simp only [hRead, if_false, false_and]
    split_ifs <;> rfl
  · intro hRead
    simp only [hRead, if_true]
    split_ifs <;> rfl

/-- On the handle whose limit nodes are not available the three limits are
reported as `-1` with a success return. -/
theorem getProperties_unreadable_limit_unknown_witness :
    (Sysman.fixturePowerHandle fixtureSysfsNotAvailable none).pSysfsAccess.readResult 0
        ((Sysman.fixturePowerHandle fixtureSysfsNotAvailable none).intelGraphicsHwmonDir
          ++ "/" ++ Sysman.LinuxPowerImp.defaultPowerLimit)
        ≠ ze_result_t.ZE_RESULT_SUCCESS
    ∧ ((Sysman.fixturePowerHandle fixtureSysfsNotAvailable none).getProperties
        { onSubdevice := false, subdeviceId := 0, canControl := false,
          isEnergyThresholdSupported := false, defaultLimit := 0, minLimit := 0,
          maxLimit := 0 }).2.1.defaultLimit = -1 :=
  ⟨by decide,
    (getProperties_unreadable_limit_unknown
      (Sysman.fixturePowerHandle fixtureSysfsNotAvailable none)
      { onSubdevice := false, subdeviceId := 0, canControl := false,
        isEnergyThresholdSupported := false, defaultLimit := 0, minLimit := 0,
        maxLimit := 0 }).2.1 (by decide)⟩

/-! ## Sysman power: telemetry energy conversion -/

/-- C17: `getPmtEnergyCounter` of both Linux power implementations.  The raw
counter `e` the telemetry read leaves (the 64-bit counter on success, `0`
otherwise) is below `2^64`, the reported energy is
`e / 1048576 * 1000000`, the quotient rounded down, and this product is below
`2^64`, so the 64-bit multiplication does not wrap. -/
theorem pmt_energy_conversion (sysman : Sysman.LinuxPowerImp) (tools : LinuxPowerImp)
    (pmt : PlatformMonitoringTech) (pEnergy : zes_power_energy_counter_t) :
    (pmt.readValue "PACKAGE_ENERGY" 0).2.1
        = (if pmt.readResult "PACKAGE_ENERGY" = ze_result_t.ZE_RESULT_SUCCESS then
            pmt.counters "PACKAGE_ENERGY" % 2 ^ 64
          else 0)
    ∧ (pmt.readValue "PACKAGE_ENERGY" 0).2.1 < 2 ^ 64
    ∧ (sysman.getPmtEnergyCounter pmt pEnergy).2.1.energy
        = (pmt.readValue "PACKAGE_ENERGY" 0).2.1 / 1048576 * 1000000
    ∧ (tools.getPmtEnergyCounter pmt pEnergy).2.1.energy
        = (pmt.readValue "PACKAGE_ENERGY" 0).2.1 / 1048576 * 1000000
    ∧ (pmt.readValue "PACKAGE_ENERGY" 0).2.1 / 1048576 * 1000000 < 2 ^ 64 := by
  have hLt := readValue_lt pmt "PACKAGE_ENERGY"
  have hProduct := microJoule_lt _ hLt
  refine ⟨?_, hLt, ?_, ?_, hProduct⟩
  · unfold PlatformMonitoringTech.readValue
    split <;> rfl
  · exact Nat.mod_eq_of_lt hProduct
  · exact Nat.mod_eq_of_lt hProduct

end L0

/-! ## Sysman power: limits -/

namespace L0

theorem toInt32_of_range (value : Int) (h0 : -2 ^ 31 ≤ value) (h1 : value < 2 ^ 31) :
    toInt32 value = value := by
  unfold toInt32
  omega

theorem toUInt32_of_range (value : Int) (h0 : 0 ≤ value) (h1 : value < 2 ^ 32) :
    (toUInt32 value : Int) = value := by
  unfold toUInt32
  omega

theorem toUInt64_of_range (value : Int) (h0 : 0 ≤ value) (h1 : value < 2 ^ 64) :
    (toUInt64 value : Int) = value := by
  unfold toUInt64
  omega

theorem milliFactor_cast : ((milliFactor : Nat) : Int) = 1000 := rfl

/-- A limit of at most 2147483 milliwatts survives the 32-bit conversion to
microwatts and the way back. -/
theorem milliwatt_round_trip_int32 (power : Int) (h0 : 0 ≤ power) (h1 : power ≤ 2147483) :
    toInt32 ((toUInt64 (toInt32 (toUInt32 power * milliFactor : Nat)) / milliFactor : Nat))
      = power := by
  have hU : (toUInt32 power : Int) = power := toUInt32_of_range power h0 (by omega)
  have hProd : ((toUInt32 power * milliFactor : Nat) : Int) = power * 1000 := by
    rw [Nat.cast_mul, hU, milliFactor_cast]
  rw [hProd, toInt32_of_range (power * 1000) (by omega) (by omega)]
  have hV : (toUInt64 (power * 1000) : Int) = power * 1000 :=
    toUInt64_of_range _ (by omega) (by omega)
  have hDiv : ((toUInt64 (power * 1000) / milliFactor : Nat) : Int) = power := by
    rw [Int.natCast_div, hV, milliFactor_cast]
    omega
  rw [hDiv]
  exact toInt32_of_range _ (by omega) (by omega)

theorem milliwatt_round_trip_uint64 (limit : Int) (h0 : 0 ≤ limit) (h1 : limit < 2 ^ 31) :
    toInt32 ((toUInt64 ((toUInt64 limit * milliFactor % 2 ^ 64 : Nat) : Int) / milliFactor : Nat))
      = limit := by
  have hU : (toUInt64 limit : Int) = limit := toUInt64_of_range limit h0 (by omega)
  have hProd : ((toUInt64 limit * milliFactor % 2 ^ 64 : Nat) : Int) = limit * 1000 := by
    rw [Int.natCast_mod, Nat.cast_mul, hU, milliFactor_cast]
    norm_num
    omega
  rw [hProd]
  have hV : (toUInt64 (limit * 1000) : Int) = limit * 1000 :=
    toUInt64_of_range _ (by omega) (by omega)
  have hDiv : ((toUInt64 (limit * 1000) / milliFactor : Nat) : Int) = limit := by
    rw [Int.natCast_div, hV, milliFactor_cast]
    omega
  rw [hDiv]
  exact toInt32_of_range _ (by omega) (by omega)

theorem current_round_trip_uint64 (limit : Int) (h0 : 0 ≤ limit) (h1 : limit < 2 ^ 31) :
    toInt32 (toUInt64 ((toUInt64 limit : Nat) : Int) : Nat) = limit := by
  have hU : (toUInt64 limit : Int) = limit := toUInt64_of_range limit h0 (by omega)
  rw [hU, hU]
  exact toInt32_of_range _ (by omega) (by omega)


theorem sustained_ne_critical (handle : LinuxPowerImp) :
    handle.i915HwmonDir ++ "/" ++ LinuxPowerImp.sustainedPowerLimit
      ≠ handle.i915HwmonDir ++ "/" ++ handle.criticalPowerLimit := by
  intro h
  have hName := node_path_injective _ _ _ h
  unfold LinuxPowerImp.criticalPowerLimit at hName
  split at hName <;> revert hName <;> decide

theorem interval_ne_critical (handle : LinuxPowerImp) :
    handle.i915HwmonDir ++ "/" ++ LinuxPowerImp.sustainedPowerLimitInterval
      ≠ handle.i915HwmonDir ++ "/" ++ handle.criticalPowerLimit := by
  intro h
  have hName := node_path_injective _ _ _ h
  unfold LinuxPowerImp.criticalPowerLimit at hName
  split at hName <;> revert hName <;> decide

theorem sustained_ne_interval (dir : String) :
    dir ++ "/" ++ LinuxPowerImp.sustainedPowerLimit
      ≠ dir ++ "/" ++ LinuxPowerImp.sustainedPowerLimitInterval := by
  intro h
  have hName := node_path_injective _ _ _ h
  revert hName
  decide

theorem criticalPowerLimit_congr (first second : LinuxPowerImp)
    (h : first.productFamily = second.productFamily) :
    first.criticalPowerLimit = second.criticalPowerLimit := by
  unfold LinuxPowerImp.criticalPowerLimit
  rw [h]

/-- A successful `setLimits` with a sustained and a peak limit has written both
nodes and left the rest of the handle as it was. -/
theorem setLimits_of_success (handle : LinuxPowerImp) (sustained : zes_power_sustained_limit_t)
    (pBurst : Option zes_power_burst_limit_t) (peak : zes_power_peak_limit_t)
    (hDevice : handle.isSubdevice = false)
    (hSet : (handle.setLimits (some sustained) pBurst (some peak)).1
      = ze_result_t.ZE_RESULT_SUCCESS) :
    (handle.setLimits (some sustained) pBurst (some peak)).2.isSubdevice = false
    ∧ (handle.setLimits (some sustained) pBurst (some peak)).2.i915HwmonDir
        = handle.i915HwmonDir
    ∧ (handle.setLimits (some sustained) pBurst (some peak)).2.productFamily
        = handle.productFamily
    ∧ (handle.setLimits (some sustained) pBurst (some peak)).2.pSysfsAccess.readResult
        = handle.pSysfsAccess.readResult
    ∧ (handle.setLimits (some sustained) pBurst (some peak)).2.pSysfsAccess.nodes
        (handle.i915HwmonDir ++ "/" ++ LinuxPowerImp.sustainedPowerLimit)
        = toInt32 (toUInt32 sustained.power * milliFactor : Nat)
    ∧ (handle.setLimits (some sustained) pBurst (some peak)).2.pSysfsAccess.nodes
        (handle.i915HwmonDir ++ "/" ++ handle.criticalPowerLimit)
        = toInt32 (toUInt32 peak.powerAC * milliFactor : Nat) := by
  have hNe := sustained_ne_critical handle
  simp only [LinuxPowerImp.setLimits, hDevice, LinuxPowerImp.setLimitsPeak,
    SysfsAccess.write_fst, SysfsAccess.write_snd, LinuxPowerImp.criticalPowerLimit]
    at hSet hNe ⊢
  by_cases hFirst : handle.pSysfsAccess.writeResult handle.pSysfsAccess.accessCount
      (handle.i915HwmonDir ++ "/" ++ LinuxPowerImp.sustainedPowerLimit)
      = ze_result_t.ZE_RESULT_SUCCESS
  · by_cases hSecond : handle.pSysfsAccess.writeResult (handle.pSysfsAccess.accessCount + 1)
        (handle.i915HwmonDir ++ "/"
          ++ (if handle.productFamily = PRODUCT_FAMILY.IGFX_PVC then "curr1_crit"
              else "power1_crit"))
        = ze_result_t.ZE_RESULT_SUCCESS
    · simp [hFirst, hSecond, Function.update_noteq hNe]
    · exfalso
      simp [hFirst, hSecond, Ne.symm hSecond] at hSet
      exact getErrorCode_ne_success _ hSecond hSet
  · exfalso
    simp [hFirst, Ne.symm hFirst] at hSet
    exact getErrorCode_ne_success _ hFirst hSet

/-- With both limit nodes readable at every access `getLimits` reports what the
nodes hold. -/
theorem getLimits_of_readable (handle : LinuxPowerImp) (sustained : zes_power_sustained_limit_t)
    (burst : zes_power_burst_limit_t) (peak : zes_power_peak_limit_t)
    (hDevice : handle.isSubdevice = false)
    (hSustained : ∀ n, handle.pSysfsAccess.readResult n
      (handle.i915HwmonDir ++ "/" ++ LinuxPowerImp.sustainedPowerLimit)
      = ze_result_t.ZE_RESULT_SUCCESS)
    (hCritical : ∀ n, handle.pSysfsAccess.readResult n
      (handle.i915HwmonDir ++ "/" ++ handle.criticalPowerLimit)
      = ze_result_t.ZE_RESULT_SUCCESS) :
    (handle.getLimits (some sustained) (some burst) (some peak)).1
        = ze_result_t.ZE_RESULT_SUCCESS
    ∧ (handle.getLimits (some sustained) (some burst) (some peak)).2.1
        = some { sustained with
            power := toInt32 (toUInt64 (handle.pSysfsAccess.nodes
              (handle.i915HwmonDir ++ "/" ++ LinuxPowerImp.sustainedPowerLimit))
              / milliFactor : Nat)
            enabled := true
            interval := -1 }
    ∧ (handle.getLimits (some sustained) (some burst) (some peak)).2.2.1
        = some { burst with power := -1, enabled := false }
    ∧ (handle.getLimits (some sustained) (some burst) (some peak)).2.2.2.1
        = some { peak with
            powerAC := toInt32 (toUInt64 (handle.pSysfsAccess.nodes
              (handle.i915HwmonDir ++ "/" ++ handle.criticalPowerLimit))
              / milliFactor : Nat)
            powerDC := -1 } := by
  simp only [LinuxPowerImp.criticalPowerLimit] at hCritical
  simp [LinuxPowerImp.getLimits, hDevice, LinuxPowerImp.getLimitsBurst,
    LinuxPowerImp.getLimitsPeak, SysfsAccess.readUInt64_fst, SysfsAccess.readUInt64_val,
    SysfsAccess.readUInt64_snd, LinuxPowerImp.criticalPowerLimit, hSustained, hCritical]


/-- Within the range the 32-bit local of `setLimits` can hold, at most 2147483
milliwatts, and with both nodes readable at every access, the limits read back
by `getLimits` are the limits set. -/
theorem setLimits_getLimits_round_trip_in_range (handle : LinuxPowerImp)
    (sustainedSet : zes_power_sustained_limit_t) (pBurst : Option zes_power_burst_limit_t)
    (peakSet : zes_power_peak_limit_t) (sustainedGet : zes_power_sustained_limit_t)
    (burstGet : zes_power_burst_limit_t) (peakGet : zes_power_peak_limit_t)
    (hDevice : handle.isSubdevice = false)
    (hPower : 0 ≤ sustainedSet.power ∧ sustainedSet.power ≤ 2147483)
    (hPowerAC : 0 ≤ peakSet.powerAC ∧ peakSet.powerAC ≤ 2147483)
    (hSet : (handle.setLimits (some sustainedSet) pBurst (some peakSet)).1
      = ze_result_t.ZE_RESULT_SUCCESS)
    (hSustained : ∀ n, handle.pSysfsAccess.readResult n
      (handle.i915HwmonDir ++ "/" ++ LinuxPowerImp.sustainedPowerLimit)
      = ze_result_t.ZE_RESULT_SUCCESS)
    (hCritical : ∀ n, handle.pSysfsAccess.readResult n
      (handle.i915HwmonDir ++ "/" ++ handle.criticalPowerLimit)
      = ze_result_t.ZE_RESULT_SUCCESS) :
    ((handle.setLimits (some sustainedSet) pBurst (some peakSet)).2.getLimits
        (some sustainedGet) (some burstGet) (some peakGet)).1 = ze_result_t.ZE_RESULT_SUCCESS
    ∧ ((handle.setLimits (some sustainedSet) pBurst (some peakSet)).2.getLimits
        (some sustainedGet) (some burstGet) (some peakGet)).2.1
        = some { sustainedGet with power := sustainedSet.power, enabled := true, interval := -1 }
    ∧ ((handle.setLimits (some sustainedSet) pBurst (some peakSet)).2.getLimits
        (some sustainedGet) (some burstGet) (some peakGet)).2.2.1
        = some { burstGet with power := -1, enabled := false }
    ∧ ((handle.setLimits (some sustainedSet) pBurst (some peakSet)).2.getLimits
        (some sustainedGet) (some burstGet) (some peakGet)).2.2.2.1
        = some { peakGet with powerAC := peakSet.powerAC, powerDC := -1 } := by
  obtain ⟨hAfterDevice, hAfterDir, hAfterFamily, hAfterRead, hAfterSustained, hAfterCritical⟩ :=
    setLimits_of_success handle sustainedSet pBurst peakSet hDevice hSet
  have hName := criticalPowerLimit_congr _ _ hAfterFamily
  have hGet := getLimits_of_readable
    (handle.setLimits (some sustainedSet) pBurst (some peakSet)).2
    sustainedGet burstGet peakGet hAfterDevice
    (by rw [hAfterRead, hAfterDir]; exact hSustained)
    (by rw [hAfterRead, hAfterDir, hName]; exact hCritical)
  rw [hAfterDir, hName, hAfterSustained, hAfterCritical,
    milliwatt_round_trip_int32 _ hPower.1 hPower.2,
    milliwatt_round_trip_int32 _ hPowerAC.1 hPowerAC.2] at hGet
  exact hGet

/-- The limits of the test, 300000 milliwatts, come back as they were set. -/
theorem setLimits_getLimits_round_trip_in_range_witness :
    ((fixturePowerHandle PRODUCT_FAMILY.IGFX_DG1).setLimits
        (some { enabled := true, power := 300000, interval := 10 }) none
        (some { powerAC := 300000, powerDC := 0 })).1 = ze_result_t.ZE_RESULT_SUCCESS
    ∧ (((fixturePowerHandle PRODUCT_FAMILY.IGFX_DG1).setLimits
        (some { enabled := true, power := 300000, interval := 10 }) none
        (some { powerAC := 300000, powerDC := 0 })).2.getLimits
        (some { enabled := false, power := 0, interval := 0 })
        (some { enabled := true, power := 0 })
        (some { powerAC := 0, powerDC := 0 })).2.1
        = some { enabled := true, power := 300000, interval := -1 } :=
  ⟨by decide,
    (setLimits_getLimits_round_trip_in_range (fixturePowerHandle PRODUCT_FAMILY.IGFX_DG1)
      { enabled := true, power := 300000, interval := 10 } none
      { powerAC := 300000, powerDC := 0 } { enabled := false, power := 0, interval := 0 }
      { enabled := true, power := 0 } { powerAC := 0, powerDC := 0 } rfl
      (by decide) (by decide) (by decide) (fun _ => rfl) (fun _ => rfl)).2.1⟩

/-- C18 fails above 2147483 milliwatts: `setLimits` with a sustained limit of
4294968 milliwatts returns `ZE_RESULT_SUCCESS` after writing 704 microwatts,
the low 32 bits of the product, and `getLimits` then reports a sustained limit
of 0 milliwatts. -/
theorem setLimits_getLimits_wraps :
    ((fixturePowerHandle PRODUCT_FAMILY.IGFX_DG1).setLimits
        (some { enabled := true, power := 4294968, interval := 10 }) none
        (some { powerAC := 300000, powerDC := 0 })).1 = ze_result_t.ZE_RESULT_SUCCESS
    ∧ ((fixturePowerHandle PRODUCT_FAMILY.IGFX_DG1).setLimits
        (some { enabled := true, power := 4294968, interval := 10 }) none
        (some { powerAC := 300000, powerDC := 0 })).2.pSysfsAccess.nodes
        "device/hwmon/hwmon1/power1_max" = 704
    ∧ (((fixturePowerHandle PRODUCT_FAMILY.IGFX_DG1).setLimits
        (some { enabled := true, power := 4294968, interval := 10 }) none
        (some { powerAC := 300000, powerDC := 0 })).2.getLimits
        (some { enabled := false, power := 0, interval := 0 })
        (some { enabled := true, power := 0 })
        (some { powerAC := 0, powerDC := 0 })).1 = ze_result_t.ZE_RESULT_SUCCESS
    ∧ (((fixturePowerHandle PRODUCT_FAMILY.IGFX_DG1).setLimits
        (some { enabled := true, power := 4294968, interval := 10 }) none
        (some { powerAC := 300000, powerDC := 0 })).2.getLimits
        (some { enabled := false, power := 0, interval := 0 })
        (some { enabled := true, power := 0 })
        (some { powerAC := 0, powerDC := 0 })).2.1
        = some { enabled := true, power := 0, interval := -1 } := by
  decide

/-- The sibling `setLimitsExt`, which takes the product in 64 bits, writes the
full 4294968000 microwatts for the same limit. -/
theorem setLimitsExt_keeps_large_limit :
    ((fixturePowerHandle PRODUCT_FAMILY.IGFX_DG1).setLimitsExt 2
        (fixtureLimits 4294968 10)).2.pSysfsAccess.nodes
        "device/hwmon/hwmon1/power1_max" = 4294968000 := by
  decide

end L0

/-! ## Sysman power: extended limits -/

namespace L0

theorem getErrorCode_eq_success_iff (result : ze_result_t) :
    getErrorCode result = ze_result_t.ZE_RESULT_SUCCESS
      ↔ result = ze_result_t.ZE_RESULT_SUCCESS := by
  constructor
  · intro h
    by_contra hResult
    exact getErrorCode_ne_success result hResult h
  · intro h
    rw [h]
    rfl

theorem success_eq_iff (result : ze_result_t) :
    ze_result_t.ZE_RESULT_SUCCESS = result ↔ result = ze_result_t.ZE_RESULT_SUCCESS :=
  eq_comm

/-- A successful `setLimitsExt` with a sustained and a peak descriptor, in
either order, has written the three nodes and left the rest of the handle as
it was. -/
theorem setLimitsExt_of_success (handle : LinuxPowerImp)
    (sustainedDesc peakDesc : zes_power_limit_ext_desc_t)
    (descs : List zes_power_limit_ext_desc_t)
    (hOrder : descs = [sustainedDesc, peakDesc] ∨ descs = [peakDesc, sustainedDesc])
    (hDevice : handle.isSubdevice = false)
    (hSustainedLevel : sustainedDesc.level = zes_power_level_t.ZES_POWER_LEVEL_SUSTAINED)
    (hPeakLevel : peakDesc.level = zes_power_level_t.ZES_POWER_LEVEL_PEAK)
    (hSet : (handle.setLimitsExt 2 descs).1 = ze_result_t.ZE_RESULT_SUCCESS) :
    (handle.setLimitsExt 2 descs).2.isSubdevice = false
    ∧ (handle.setLimitsExt 2 descs).2.i915HwmonDir = handle.i915HwmonDir
    ∧ (handle.setLimitsExt 2 descs).2.productFamily = handle.productFamily
    ∧ (handle.setLimitsExt 2 descs).2.powerLimitCount = handle.powerLimitCount
    ∧ (handle.setLimitsExt 2 descs).2.pSysfsAccess.readResult
        = handle.pSysfsAccess.readResult
    ∧ (handle.setLimitsExt 2 descs).2.pSysfsAccess.nodes
        (handle.i915HwmonDir ++ "/" ++ LinuxPowerImp.sustainedPowerLimit)
        = (toUInt64 sustainedDesc.limit * milliFactor % 2 ^ 64 : Nat)
    ∧ (handle.setLimitsExt 2 descs).2.pSysfsAccess.nodes
        (handle.i915HwmonDir ++ "/" ++ LinuxPowerImp.sustainedPowerLimitInterval)
        = sustainedDesc.interval
    ∧ (handle.setLimitsExt 2 descs).2.pSysfsAccess.nodes
        (handle.i915HwmonDir ++ "/" ++ handle.criticalPowerLimit)
        = ((if handle.productFamily = PRODUCT_FAMILY.IGFX_PVC then toUInt64 peakDesc.limit
            else toUInt64 peakDesc.limit * milliFactor % 2 ^ 64 : Nat) : Int) := by
  have hNe1 := sustained_ne_critical handle
  have hNe2 := interval_ne_critical handle
  have hNe3 := sustained_ne_interval handle.i915HwmonDir
  have hLevels : zes_power_level_t.ZES_POWER_LEVEL_PEAK
      ≠ zes_power_level_t.ZES_POWER_LEVEL_SUSTAINED := by decide
  simp only [LinuxPowerImp.criticalPowerLimit] at hNe1 hNe2 ⊢
  rcases hOrder with hOrder | hOrder
  · subst hOrder
    by_cases hFirst : handle.pSysfsAccess.writeResult handle.pSysfsAccess.accessCount
        (handle.i915HwmonDir ++ "/" ++ LinuxPowerImp.sustainedPowerLimit)
        = ze_result_t.ZE_RESULT_SUCCESS <;>
      by_cases hSecond : handle.pSysfsAccess.writeResult
        (handle.pSysfsAccess.accessCount + 1)
        (handle.i915HwmonDir ++ "/" ++ LinuxPowerImp.sustainedPowerLimitInterval)
        = ze_result_t.ZE_RESULT_SUCCESS <;>
      by_cases hThird : handle.pSysfsAccess.writeResult
        (handle.pSysfsAccess.accessCount + 1 + 1)
        (handle.i915HwmonDir ++ "/"
          ++ (if handle.productFamily = PRODUCT_FAMILY.IGFX_PVC then "curr1_crit"
              else "power1_crit"))
        = ze_result_t.ZE_RESULT_SUCCESS <;>
      simp [LinuxPowerImp.setLimitsExt, hDevice, LinuxPowerImp.setLimitsExtLoop,
        hSustainedLevel, hPeakLevel, hLevels, SysfsAccess.write_fst, SysfsAccess.write_snd,
        LinuxPowerImp.criticalPowerLimit, hFirst, hSecond, hThird, success_eq_iff,
        getErrorCode_eq_success_iff,
        Function.update_noteq hNe1, Function.update_noteq hNe2,
        Function.update_noteq hNe3, Function.update_noteq hNe1.symm,
        Function.update_noteq hNe2.symm, Function.update_noteq hNe3.symm] at hSet ⊢
  · subst hOrder
    by_cases hFirst : handle.pSysfsAccess.writeResult handle.pSysfsAccess.accessCount
        (handle.i915HwmonDir ++ "/"
          ++ (if handle.productFamily = PRODUCT_FAMILY.IGFX_PVC then "curr1_crit"
              else "power1_crit"))
        = ze_result_t.ZE_RESULT_SUCCESS <;>
      by_cases hSecond : handle.pSysfsAccess.writeResult
        (handle.pSysfsAccess.accessCount + 1)
        (handle.i915HwmonDir ++ "/" ++ LinuxPowerImp.sustainedPowerLimit)
        = ze_result_t.ZE_RESULT_SUCCESS <;>
      by_cases hThird : handle.pSysfsAccess.writeResult
        (handle.pSysfsAccess.accessCount + 1 + 1)
        (handle.i915HwmonDir ++ "/" ++ LinuxPowerImp.sustainedPowerLimitInterval)
        = ze_result_t.ZE_RESULT_SUCCESS <;>
      simp [LinuxPowerImp.setLimitsExt, hDevice, LinuxPowerImp.setLimitsExtLoop,
        hSustainedLevel, hPeakLevel, hLevels, SysfsAccess.write_fst, SysfsAccess.write_snd,
        LinuxPowerImp.criticalPowerLimit, hFirst, hSecond, hThird, success_eq_iff,
        getErrorCode_eq_success_iff,
        Function.update_noteq hNe1, Function.update_noteq hNe2,
        Function.update_noteq hNe3, Function.update_noteq hNe1.symm,
        Function.update_noteq hNe2.symm, Function.update_noteq hNe3.symm] at hSet ⊢

/-- With two limits counted and the three nodes readable at every access
`getLimitsExt` fills
the first two entries of the array from the nodes. -/
theorem getLimitsExt_of_readable (handle : LinuxPowerImp)
    (first second : zes_power_limit_ext_desc_t) (rest : List zes_power_limit_ext_desc_t)
    (hCount : 2 ≤ handle.powerLimitCount)
    (hSustained : ∀ n, handle.pSysfsAccess.readResult n
      (handle.i915HwmonDir ++ "/" ++ LinuxPowerImp.sustainedPowerLimit)
      = ze_result_t.ZE_RESULT_SUCCESS)
    (hInterval : ∀ n, handle.pSysfsAccess.readResult n
      (handle.i915HwmonDir ++ "/" ++ LinuxPowerImp.sustainedPowerLimitInterval)
      = ze_result_t.ZE_RESULT_SUCCESS)
    (hCritical : ∀ n, handle.pSysfsAccess.readResult n
      (handle.i915HwmonDir ++ "/" ++ handle.criticalPowerLimit)
      = ze_result_t.ZE_RESULT_SUCCESS) :
    (handle.getLimitsExt 2 (some (first :: second :: rest))).1
        = ze_result_t.ZE_RESULT_SUCCESS
    ∧ (handle.getLimitsExt 2 (some (first :: second :: rest))).2.1 = 2
    ∧ (handle.getLimitsExt 2 (some (first :: second :: rest))).2.2.1
        = some
          (LinuxPowerImp.sustainedLimitDesc
              (toUInt64 (handle.pSysfsAccess.nodes
                (handle.i915HwmonDir ++ "/" ++ LinuxPowerImp.sustainedPowerLimit))
                / milliFactor)
              (toInt32 (handle.pSysfsAccess.nodes
                (handle.i915HwmonDir ++ "/" ++ LinuxPowerImp.sustainedPowerLimitInterval)))
              first
            :: LinuxPowerImp.peakLimitDesc handle.productFamily
                (toUInt64 (handle.pSysfsAccess.nodes
                  (handle.i915HwmonDir ++ "/" ++ handle.criticalPowerLimit)))
                second
            :: rest) := by
  have hKeep : ¬ handle.powerLimitCount < 2 := by omega
  simp only [LinuxPowerImp.criticalPowerLimit] at hCritical
  simp [LinuxPowerImp.getLimitsExt, LinuxPowerImp.getLimitsExtPeak,
    SysfsAccess.readUInt64_fst, SysfsAccess.readUInt64_val, SysfsAccess.readUInt64_snd,
    SysfsAccess.readInt32_fst, SysfsAccess.readInt32_val, SysfsAccess.readInt32_snd,
    LinuxPowerImp.criticalPowerLimit, hKeep, hSustained, hInterval, hCritical]

/-- C19, amended: on a device-level handle with both limits counted, that is
with `powerLimitCount` at least 2, after a successful `setLimitsExt` with a
SUSTAINED descriptor (limit `limit`, interval `interval`) and a PEAK
descriptor (limit `limit`), in either order, and with the three nodes readable
at every access, `getLimitsExt` succeeds with count 2 and returns the
SUSTAINED entry with limit `limit` and interval `interval` and the PEAK entry
with limit `limit` and interval 0, whose unit is CURRENT on `IGFX_PVC` and
POWER otherwise.  The limit and the interval are non-negative `int32_t`
values. -/
theorem limits_ext_round_trip (handle : LinuxPowerImp) (limit interval : Int)
    (sustainedDesc peakDesc : zes_power_limit_ext_desc_t)
    (descs : List zes_power_limit_ext_desc_t)
    (first second : zes_power_limit_ext_desc_t) (rest : List zes_power_limit_ext_desc_t)
    (hDevice : handle.isSubdevice = false)
    (hCount : 2 ≤ handle.powerLimitCount)
    (hLimit : 0 ≤ limit ∧ limit < 2 ^ 31)
    (hInterval : 0 ≤ interval ∧ interval < 2 ^ 31)
    (hSustainedDesc : sustainedDesc.level = zes_power_level_t.ZES_POWER_LEVEL_SUSTAINED
      ∧ sustainedDesc.limit = limit ∧ sustainedDesc.interval = interval)
    (hPeakDesc : peakDesc.level = zes_power_level_t.ZES_POWER_LEVEL_PEAK
      ∧ peakDesc.limit = limit)
    (hOrder : descs = [sustainedDesc, peakDesc] ∨ descs = [peakDesc, sustainedDesc])
    (hSet : (handle.setLimitsExt 2 descs).1 = ze_result_t.ZE_RESULT_SUCCESS)
    (hReadSustained : ∀ n, handle.pSysfsAccess.readResult n
      (handle.i915HwmonDir ++ "/" ++ LinuxPowerImp.sustainedPowerLimit)
      = ze_result_t.ZE_RESULT_SUCCESS)
    (hReadInterval : ∀ n, handle.pSysfsAccess.readResult n
      (handle.i915HwmonDir ++ "/" ++ LinuxPowerImp.sustainedPowerLimitInterval)
      = ze_result_t.ZE_RESULT_SUCCESS)
    (hReadCritical : ∀ n, handle.pSysfsAccess.readResult n
      (handle.i915HwmonDir ++ "/" ++ handle.criticalPowerLimit)
      = ze_result_t.ZE_RESULT_SUCCESS) :
    ((handle.setLimitsExt 2 descs).2.getLimitsExt 2 (some (first :: second :: rest))).1
        = ze_result_t.ZE_RESULT_SUCCESS
    ∧ ((handle.setLimitsExt 2 descs).2.getLimitsExt 2 (some (first :: second :: rest))).2.1
        = 2
    ∧ ∃ sustainedGot peakGot,
        ((handle.setLimitsExt 2 descs).2.getLimitsExt 2
            (some (first :: second :: rest))).2.2.1
          = some (sustainedGot :: peakGot :: rest)
        ∧ sustainedGot.level = zes_power_level_t.ZES_POWER_LEVEL_SUSTAINED
        ∧ sustainedGot.limit = limit
        ∧ sustainedGot.interval = interval
        ∧ peakGot.level = zes_power_level_t.ZES_POWER_LEVEL_PEAK
        ∧ peakGot.limit = limit
        ∧ peakGot.interval = 0
        ∧ peakGot.limitUnit
          = (if handle.productFamily = PRODUCT_FAMILY.IGFX_PVC then
              zes_limit_unit_t.ZES_LIMIT_UNIT_CURRENT
            else
              zes_limit_unit_t.ZES_LIMIT_UNIT_POWER) := by
  obtain ⟨hAfterDevice, hAfterDir, hAfterFamily, hAfterCount, hAfterRead, hAfterSustained,
    hAfterInterval, hAfterCritical⟩ :=
    setLimitsExt_of_success handle sustainedDesc peakDesc descs hOrder hDevice
      hSustainedDesc.1 hPeakDesc.1 hSet
  have hName := criticalPowerLimit_congr _ _ hAfterFamily
  obtain ⟨hResult, hGotCount, hArray⟩ := getLimitsExt_of_readable
    (handle.setLimitsExt 2 descs).2 first second rest
    (by rw [hAfterCount]; exact hCount)
    (by rw [hAfterRead, hAfterDir]; exact hReadSustained)
    (by rw [hAfterRead, hAfterDir]; exact hReadInterval)
    (by rw [hAfterRead, hAfterDir, hName]; exact hReadCritical)
  rw [hAfterDir, hName, hAfterSustained, hAfterInterval, hAfterCritical, hAfterFamily,
    hSustainedDesc.2.1, hSustainedDesc.2.2, hPeakDesc.2] at hArray
  refine ⟨hResult, hGotCount, _, _, hArray, rfl, ?_, ?_, rfl, ?_, rfl, ?_⟩
  · exact milliwatt_round_trip_uint64 limit hLimit.1 hLimit.2
  · exact toInt32_of_range interval (by omega) hInterval.2
  · simp only [LinuxPowerImp.peakLimitDesc]
    split_ifs with hFamily
    · exact current_round_trip_uint64 limit hLimit.1 hLimit.2
    · exact milliwatt_round_trip_uint64 limit hLimit.1 hLimit.2
  · simp only [LinuxPowerImp.peakLimitDesc]

end L0

namespace L0

/-- The limits of the test, 300000 with interval 10, come back on `IGFX_PVC`
with the peak limit reported as a current. -/
theorem limits_ext_round_trip_witness :
    ((fixturePowerHandle PRODUCT_FAMILY.IGFX_PVC).setLimitsExt 2
        (fixtureLimits 300000 10)).1 = ze_result_t.ZE_RESULT_SUCCESS
    ∧ (((fixturePowerHandle PRODUCT_FAMILY.IGFX_PVC).setLimitsExt 2
        (fixtureLimits 300000 10)).2.getLimitsExt 2 (some (fixtureLimits 0 0))).1
        = ze_result_t.ZE_RESULT_SUCCESS
    ∧ (((fixturePowerHandle PRODUCT_FAMILY.IGFX_PVC).setLimitsExt 2
        (fixtureLimits 300000 10)).2.getLimitsExt 2 (some (fixtureLimits 0 0))).2.1 = 2 :=
  ⟨by decide,
    (limits_ext_round_trip (fixturePowerHandle PRODUCT_FAMILY.IGFX_PVC) 300000 10
      (fixtureSustainedDesc 300000 10) (fixturePeakDesc 300000) (fixtureLimits 300000 10)
      (fixtureSustainedDesc 0 0) (fixturePeakDesc 0) [] rfl (by decide) (by decide)
      (by decide) ⟨rfl, rfl, rfl⟩ ⟨rfl, rfl⟩ (Or.inl rfl) (by decide) (fun _ => rfl)
      (fun _ => rfl) (fun _ => rfl)).1,
    (limits_ext_round_trip (fixturePowerHandle PRODUCT_FAMILY.IGFX_PVC) 300000 10
      (fixtureSustainedDesc 300000 10) (fixturePeakDesc 300000) (fixtureLimits 300000 10)
      (fixtureSustainedDesc 0 0) (fixturePeakDesc 0) [] rfl (by decide) (by decide)
      (by decide) ⟨rfl, rfl, rfl⟩ ⟨rfl, rfl⟩ (Or.inl rfl) (by decide) (fun _ => rfl)
      (fun _ => rfl) (fun _ => rfl)).2.1⟩

end L0

/-! ## Sysman power: limit probing of the tools layer -/

namespace L0

theorem getErrorCode_success :
    getErrorCode ze_result_t.ZE_RESULT_SUCCESS = ze_result_t.ZE_RESULT_SUCCESS := rfl

theorem LinuxPowerImp.getDefaultLimit_fst (handle : LinuxPowerImp) (defaultLimit : Int) :
    (handle.getDefaultLimit defaultLimit).1
      = getErrorCode (handle.pSysfsAccess.readResult handle.pSysfsAccess.accessCount
          (handle.i915HwmonDir ++ "/" ++ LinuxPowerImp.defaultPowerLimit)) := by
  unfold LinuxPowerImp.getDefaultLimit
  simp only [SysfsAccess.readUInt64_fst]
  split
  · rfl
  · rename_i h
    rw [not_not.mp h]
    rfl

theorem LinuxPowerImp.getDefaultLimit_val (handle : LinuxPowerImp) (defaultLimit : Int) :
    (handle.getDefaultLimit defaultLimit).2.1
      = if handle.pSysfsAccess.readResult handle.pSysfsAccess.accessCount
            (handle.i915HwmonDir ++ "/" ++ LinuxPowerImp.defaultPowerLimit)
            = ze_result_t.ZE_RESULT_SUCCESS then
          toInt32 (toUInt64 (handle.pSysfsAccess.nodes
            (handle.i915HwmonDir ++ "/" ++ LinuxPowerImp.defaultPowerLimit)) / milliFactor)
        else defaultLimit := by
  unfold LinuxPowerImp.getDefaultLimit
  simp only [SysfsAccess.readUInt64_fst, SysfsAccess.readUInt64_val]
  by_cases h : handle.pSysfsAccess.readResult handle.pSysfsAccess.accessCount
            (handle.i915HwmonDir ++ "/" ++ LinuxPowerImp.defaultPowerLimit)
            = ze_result_t.ZE_RESULT_SUCCESS
  · simp [h]
  · simp [h]

theorem LinuxPowerImp.getDefaultLimit_snd (handle : LinuxPowerImp) (defaultLimit : Int) :
    (handle.getDefaultLimit defaultLimit).2.2
      = { handle with
          pSysfsAccess :=
            { handle.pSysfsAccess with accessCount := handle.pSysfsAccess.accessCount + 1 } } := by
  unfold LinuxPowerImp.getDefaultLimit
  simp only [SysfsAccess.readUInt64_snd]
  split <;> rfl
theorem LinuxPowerImp.getMinLimit_fst (handle : LinuxPowerImp) (minLimit : Int) :
    (handle.getMinLimit minLimit).1
      = if handle.pSysfsAccess.writeResult handle.pSysfsAccess.accessCount
            (handle.i915HwmonDir ++ "/" ++ LinuxPowerImp.sustainedPowerLimit)
            = ze_result_t.ZE_RESULT_SUCCESS then
          getErrorCode (handle.pSysfsAccess.readResult (handle.pSysfsAccess.accessCount + 1)
            (handle.i915HwmonDir ++ "/" ++ LinuxPowerImp.sustainedPowerLimit))
        else
          getErrorCode (handle.pSysfsAccess.writeResult handle.pSysfsAccess.accessCount
            (handle.i915HwmonDir ++ "/" ++ LinuxPowerImp.sustainedPowerLimit)) := by
  unfold LinuxPowerImp.getMinLimit
  simp only [SysfsAccess.readUInt64_fst, SysfsAccess.write_fst, SysfsAccess.write_snd]
  by_cases hWrite : handle.pSysfsAccess.writeResult handle.pSysfsAccess.accessCount
      (handle.i915HwmonDir ++ "/" ++ LinuxPowerImp.sustainedPowerLimit)
      = ze_result_t.ZE_RESULT_SUCCESS
  · by_cases hRead : handle.pSysfsAccess.readResult (handle.pSysfsAccess.accessCount + 1)
        (handle.i915HwmonDir ++ "/" ++ LinuxPowerImp.sustainedPowerLimit)
        = ze_result_t.ZE_RESULT_SUCCESS
    · simp [hWrite, hRead, getErrorCode_success]
    · simp [hWrite, hRead, success_eq_iff]
  · simp [hWrite, success_eq_iff]

theorem LinuxPowerImp.getMinLimit_val (handle : LinuxPowerImp) (minLimit : Int) :
    (handle.getMinLimit minLimit).2.1
      = if handle.pSysfsAccess.writeResult handle.pSysfsAccess.accessCount
            (handle.i915HwmonDir ++ "/" ++ LinuxPowerImp.sustainedPowerLimit)
            = ze_result_t.ZE_RESULT_SUCCESS
          ∧ handle.pSysfsAccess.readResult (handle.pSysfsAccess.accessCount + 1)
            (handle.i915HwmonDir ++ "/" ++ LinuxPowerImp.sustainedPowerLimit)
            = ze_result_t.ZE_RESULT_SUCCESS then
          toInt32 (toUInt64 100 / milliFactor)
        else minLimit := by
  unfold LinuxPowerImp.getMinLimit
  simp only [SysfsAccess.readUInt64_fst, SysfsAccess.readUInt64_val, SysfsAccess.write_fst,
    SysfsAccess.write_snd]
  by_cases hWrite : handle.pSysfsAccess.writeResult handle.pSysfsAccess.accessCount
      (handle.i915HwmonDir ++ "/" ++ LinuxPowerImp.sustainedPowerLimit)
      = ze_result_t.ZE_RESULT_SUCCESS
  · by_cases hRead : handle.pSysfsAccess.readResult (handle.pSysfsAccess.accessCount + 1)
        (handle.i915HwmonDir ++ "/" ++ LinuxPowerImp.sustainedPowerLimit)
        = ze_result_t.ZE_RESULT_SUCCESS
    · simp [hWrite, hRead]
    · simp [hWrite, hRead, success_eq_iff]
  · simp [hWrite, success_eq_iff]

theorem LinuxPowerImp.getMinLimit_snd (handle : LinuxPowerImp) (minLimit : Int) :
    (handle.getMinLimit minLimit).2.2
      = { handle with
          pSysfsAccess :=
            { handle.pSysfsAccess with
              nodes :=
                if handle.pSysfsAccess.writeResult handle.pSysfsAccess.accessCount
                    (handle.i915HwmonDir ++ "/" ++ LinuxPowerImp.sustainedPowerLimit)
                    = ze_result_t.ZE_RESULT_SUCCESS then
                  Function.update handle.pSysfsAccess.nodes
                    (handle.i915HwmonDir ++ "/" ++ LinuxPowerImp.sustainedPowerLimit) 100
                else handle.pSysfsAccess.nodes
              accessCount :=
                if handle.pSysfsAccess.writeResult handle.pSysfsAccess.accessCount
                    (handle.i915HwmonDir ++ "/" ++ LinuxPowerImp.sustainedPowerLimit)
                    = ze_result_t.ZE_RESULT_SUCCESS then
                  handle.pSysfsAccess.accessCount + 2
                else handle.pSysfsAccess.accessCount + 1 } } := by
  unfold LinuxPowerImp.getMinLimit
  simp only [SysfsAccess.readUInt64_fst, SysfsAccess.readUInt64_snd, SysfsAccess.write_fst,
    SysfsAccess.write_snd]
  by_cases hWrite : handle.pSysfsAccess.writeResult handle.pSysfsAccess.accessCount
      (handle.i915HwmonDir ++ "/" ++ LinuxPowerImp.sustainedPowerLimit)
      = ze_result_t.ZE_RESULT_SUCCESS
  · by_cases hRead : handle.pSysfsAccess.readResult (handle.pSysfsAccess.accessCount + 1)
        (handle.i915HwmonDir ++ "/" ++ LinuxPowerImp.sustainedPowerLimit)
        = ze_result_t.ZE_RESULT_SUCCESS
    · simp [hWrite, hRead]
    · simp [hWrite, hRead, success_eq_iff]
  · simp [hWrite, success_eq_iff]
theorem LinuxPowerImp.getMaxLimit_fst (handle : LinuxPowerImp) (maxLimit : Int) :
    (handle.getMaxLimit maxLimit).1
      = if handle.pSysfsAccess.writeResult handle.pSysfsAccess.accessCount
            (handle.i915HwmonDir ++ "/" ++ LinuxPowerImp.sustainedPowerLimit)
            = ze_result_t.ZE_RESULT_SUCCESS then
          getErrorCode (handle.pSysfsAccess.readResult (handle.pSysfsAccess.accessCount + 1)
            (handle.i915HwmonDir ++ "/" ++ LinuxPowerImp.sustainedPowerLimit))
        else
          getErrorCode (handle.pSysfsAccess.writeResult handle.pSysfsAccess.accessCount
            (handle.i915HwmonDir ++ "/" ++ LinuxPowerImp.sustainedPowerLimit)) := by
  unfold LinuxPowerImp.getMaxLimit
  simp only [SysfsAccess.readUInt64_fst, SysfsAccess.write_fst, SysfsAccess.write_snd]
  by_cases hWrite : handle.pSysfsAccess.writeResult handle.pSysfsAccess.accessCount
      (handle.i915HwmonDir ++ "/" ++ LinuxPowerImp.sustainedPowerLimit)
      = ze_result_t.ZE_RESULT_SUCCESS
  · by_cases hRead : handle.pSysfsAccess.readResult (handle.pSysfsAccess.accessCount + 1)
        (handle.i915HwmonDir ++ "/" ++ LinuxPowerImp.sustainedPowerLimit)
        = ze_result_t.ZE_RESULT_SUCCESS
    · simp [hWrite, hRead, getErrorCode_success]
    · simp [hWrite, hRead, success_eq_iff]
  · simp [hWrite, success_eq_iff]

theorem LinuxPowerImp.getMaxLimit_val (handle : LinuxPowerImp) (maxLimit : Int) :
    (handle.getMaxLimit maxLimit).2.1
      = if handle.pSysfsAccess.writeResult handle.pSysfsAccess.accessCount
            (handle.i915HwmonDir ++ "/" ++ LinuxPowerImp.sustainedPowerLimit)
            = ze_result_t.ZE_RESULT_SUCCESS
          ∧ handle.pSysfsAccess.readResult (handle.pSysfsAccess.accessCount + 1)
            (handle.i915HwmonDir ++ "/" ++ LinuxPowerImp.sustainedPowerLimit)
            = ze_result_t.ZE_RESULT_SUCCESS then
          toInt32 (toUInt64 2147483647 / milliFactor)
        else maxLimit := by
  unfold LinuxPowerImp.getMaxLimit
  simp only [SysfsAccess.readUInt64_fst, SysfsAccess.readUInt64_val, SysfsAccess.write_fst,
    SysfsAccess.write_snd]
  by_cases hWrite : handle.pSysfsAccess.writeResult handle.pSysfsAccess.accessCount
      (handle.i915HwmonDir ++ "/" ++ LinuxPowerImp.sustainedPowerLimit)
      = ze_result_t.ZE_RESULT_SUCCESS
  · by_cases hRead : handle.pSysfsAccess.readResult (handle.pSysfsAccess.accessCount + 1)
        (handle.i915HwmonDir ++ "/" ++ LinuxPowerImp.sustainedPowerLimit)
        = ze_result_t.ZE_RESULT_SUCCESS
    · simp [hWrite, hRead]
    · simp [hWrite, hRead, success_eq_iff]
  · simp [hWrite, success_eq_iff]

theorem LinuxPowerImp.getMaxLimit_snd (handle : LinuxPowerImp) (maxLimit : Int) :
    (handle.getMaxLimit maxLimit).2.2
      = { handle with
          pSysfsAccess :=
            { handle.pSysfsAccess with
              nodes :=
                if handle.pSysfsAccess.writeResult handle.pSysfsAccess.accessCount
                    (handle.i915HwmonDir ++ "/" ++ LinuxPowerImp.sustainedPowerLimit)
                    = ze_result_t.ZE_RESULT_SUCCESS then
                  Function.update handle.pSysfsAccess.nodes
                    (handle.i915HwmonDir ++ "/" ++ LinuxPowerImp.sustainedPowerLimit) 2147483647
                else handle.pSysfsAccess.nodes
              accessCount :=
                if handle.pSysfsAccess.writeResult handle.pSysfsAccess.accessCount
                    (handle.i915HwmonDir ++ "/" ++ LinuxPowerImp.sustainedPowerLimit)
                    = ze_result_t.ZE_RESULT_SUCCESS then
                  handle.pSysfsAccess.accessCount + 2
                else handle.pSysfsAccess.accessCount + 1 } } := by
  unfold LinuxPowerImp.getMaxLimit
  simp only [SysfsAccess.readUInt64_fst, SysfsAccess.readUInt64_snd, SysfsAccess.write_fst,
    SysfsAccess.write_snd]
  by_cases hWrite : handle.pSysfsAccess.writeResult handle.pSysfsAccess.accessCount
      (handle.i915HwmonDir ++ "/" ++ LinuxPowerImp.sustainedPowerLimit)
      = ze_result_t.ZE_RESULT_SUCCESS
  · by_cases hRead : handle.pSysfsAccess.readResult (handle.pSysfsAccess.accessCount + 1)
        (handle.i915HwmonDir ++ "/" ++ LinuxPowerImp.sustainedPowerLimit)
        = ze_result_t.ZE_RESULT_SUCCESS
    · simp [hWrite, hRead]
    · simp [hWrite, hRead, success_eq_iff]
  · simp [hWrite, success_eq_iff]

/-- The outcome of `getProperties` when access 1 of its six is the first to fail. -/
theorem getProperties_of_failed_default_read (handle : LinuxPowerImp)
    (pProperties : zes_power_properties_t) (hDevice : handle.isSubdevice = false)
    (h0 : handle.pSysfsAccess.readResult handle.pSysfsAccess.accessCount
        (handle.i915HwmonDir ++ "/" ++ LinuxPowerImp.defaultPowerLimit)
        ≠ ze_result_t.ZE_RESULT_SUCCESS) :
    (handle.getProperties pProperties).1 = getErrorCode
        (handle.pSysfsAccess.readResult handle.pSysfsAccess.accessCount
        (handle.i915HwmonDir ++ "/" ++ LinuxPowerImp.defaultPowerLimit))
    ∧ (handle.getProperties pProperties).2.1.defaultLimit = -1
    ∧ (handle.getProperties pProperties).2.1.minLimit = -1
    ∧ (handle.getProperties pProperties).2.1.maxLimit = -1
    ∧ (handle.getProperties pProperties).2.2.pSysfsAccess.nodes
      = handle.pSysfsAccess.nodes
    ∧ (handle.getProperties pProperties).2.2.pSysfsAccess.accessCount
      = handle.pSysfsAccess.accessCount + 1 := by
  unfold LinuxPowerImp.getProperties
  simp only [hDevice, Bool.false_eq_true, LinuxPowerImp.getDefaultLimit_fst,
    LinuxPowerImp.getDefaultLimit_val, LinuxPowerImp.getDefaultLimit_snd, h0,
    getErrorCode_eq_success_iff, getErrorCode_success, success_eq_iff, ne_eq,
    not_true_eq_false, not_false_eq_true, if_true, if_false, and_self, and_true, true_and,
    and_false, false_and, Nat.add_assoc, Nat.reduceAdd]

/-- The outcome of `getProperties` when access 2 of its six is the first to fail. -/
theorem getProperties_of_failed_sustained_read (handle : LinuxPowerImp)
    (pProperties : zes_power_properties_t) (hDevice : handle.isSubdevice = false)
    (h0 : handle.pSysfsAccess.readResult handle.pSysfsAccess.accessCount
        (handle.i915HwmonDir ++ "/" ++ LinuxPowerImp.defaultPowerLimit)
        = ze_result_t.ZE_RESULT_SUCCESS)
    (h1 : handle.pSysfsAccess.readResult (handle.pSysfsAccess.accessCount + 1)
        (handle.i915HwmonDir ++ "/" ++ LinuxPowerImp.sustainedPowerLimit)
        ≠ ze_result_t.ZE_RESULT_SUCCESS) :
    (handle.getProperties pProperties).1 = getErrorCode
        (handle.pSysfsAccess.readResult (handle.pSysfsAccess.accessCount + 1)
        (handle.i915HwmonDir ++ "/" ++ LinuxPowerImp.sustainedPowerLimit))
    ∧ (handle.getProperties pProperties).2.1.defaultLimit
      = toInt32 (toUInt64 (handle.pSysfsAccess.nodes
        (handle.i915HwmonDir ++ "/" ++ LinuxPowerImp.defaultPowerLimit)) / milliFactor)
    ∧ (handle.getProperties pProperties).2.1.minLimit = -1
    ∧ (handle.getProperties pProperties).2.1.maxLimit = -1
    ∧ (handle.getProperties pProperties).2.2.pSysfsAccess.nodes
      = handle.pSysfsAccess.nodes
    ∧ (handle.getProperties pProperties).2.2.pSysfsAccess.accessCount
      = handle.pSysfsAccess.accessCount + 2 := by
  unfold LinuxPowerImp.getProperties
  simp only [hDevice, Bool.false_eq_true, LinuxPowerImp.getDefaultLimit_fst,
    LinuxPowerImp.getDefaultLimit_val, LinuxPowerImp.getDefaultLimit_snd, h0, h1,
    getErrorCode_eq_success_iff, getErrorCode_success, success_eq_iff, ne_eq,
    not_true_eq_false, not_false_eq_true, if_true, if_false, and_self, and_true, true_and,
    and_false, false_and, Nat.add_assoc, Nat.reduceAdd]
  unfold LinuxPowerImp.PowerLimitRestorer.create
  simp only [SysfsAccess.readUInt64_fst, SysfsAccess.readUInt64_val,
    SysfsAccess.readUInt64_snd, h0, h1,
    getErrorCode_eq_success_iff, getErrorCode_success, success_eq_iff, ne_eq,
    not_true_eq_false, not_false_eq_true, if_true, if_false, and_self, and_true, true_and,
    and_false, false_and, Nat.add_assoc, Nat.reduceAdd]
  unfold LinuxPowerImp.getPropertiesGuarded
  simp only [LinuxPowerImp.getMinLimit_fst, LinuxPowerImp.getMinLimit_val,
    LinuxPowerImp.getMinLimit_snd, h0, h1, 
    getErrorCode_eq_success_iff, getErrorCode_success, success_eq_iff, ne_eq,
    not_true_eq_false, not_false_eq_true, if_true, if_false, and_self, and_true, true_and,
    and_false, false_and, Nat.add_assoc, Nat.reduceAdd]
  unfold LinuxPowerImp.PowerLimitRestorer.destroy
  simp only [SysfsAccess.write_snd, h0, h1,
    getErrorCode_eq_success_iff, getErrorCode_success, success_eq_iff, ne_eq,
    not_true_eq_false, not_false_eq_true, if_true, if_false, and_self, and_true, true_and,
    and_false, false_and, Nat.add_assoc, Nat.reduceAdd]

/-- The outcome of `getProperties` when access 3 of its six is the first to fail. -/
theorem getProperties_of_failed_min_write (handle : LinuxPowerImp)
    (pProperties : zes_power_properties_t) (hDevice : handle.isSubdevice = false)
    (h0 : handle.pSysfsAccess.readResult handle.pSysfsAccess.accessCount
        (handle.i915HwmonDir ++ "/" ++ LinuxPowerImp.defaultPowerLimit)
        = ze_result_t.ZE_RESULT_SUCCESS)
    (h1 : handle.pSysfsAccess.readResult (handle.pSysfsAccess.accessCount + 1)
        (handle.i915HwmonDir ++ "/" ++ LinuxPowerImp.sustainedPowerLimit)
        = ze_result_t.ZE_RESULT_SUCCESS)
    (h2 : handle.pSysfsAccess.writeResult (handle.pSysfsAccess.accessCount + 2)
        (handle.i915HwmonDir ++ "/" ++ LinuxPowerImp.sustainedPowerLimit)
        ≠ ze_result_t.ZE_RESULT_SUCCESS) :
    (handle.getProperties pProperties).1 = getErrorCode
        (handle.pSysfsAccess.writeResult (handle.pSysfsAccess.accessCount + 2)
        (handle.i915HwmonDir ++ "/" ++ LinuxPowerImp.sustainedPowerLimit))
    ∧ (handle.getProperties pProperties).2.1.defaultLimit
      = toInt32 (toUInt64 (handle.pSysfsAccess.nodes
        (handle.i915HwmonDir ++ "/" ++ LinuxPowerImp.defaultPowerLimit)) / milliFactor)
    ∧ (handle.getProperties pProperties).2.1.minLimit = -1
    ∧ (handle.getProperties pProperties).2.1.maxLimit = -1
    ∧ (handle.getProperties pProperties).2.2.pSysfsAccess.nodes
      = (if handle.pSysfsAccess.writeResult (handle.pSysfsAccess.accessCount + 3)
        (handle.i915HwmonDir ++ "/" ++ LinuxPowerImp.sustainedPowerLimit)
        = ze_result_t.ZE_RESULT_SUCCESS then
        Function.update handle.pSysfsAccess.nodes
          (handle.i915HwmonDir ++ "/" ++ LinuxPowerImp.sustainedPowerLimit)
          (toUInt64 (handle.pSysfsAccess.nodes
          (handle.i915HwmonDir ++ "/" ++ LinuxPowerImp.sustainedPowerLimit)) : Int)
      else handle.pSysfsAccess.nodes)
    ∧ (handle.getProperties pProperties).2.2.pSysfsAccess.accessCount
      = handle.pSysfsAccess.accessCount + 4 := by
  unfold LinuxPowerImp.getProperties
  simp only [hDevice, Bool.false_eq_true, LinuxPowerImp.getDefaultLimit_fst,
    LinuxPowerImp.getDefaultLimit_val, LinuxPowerImp.getDefaultLimit_snd, h0, h1, h2,
    getErrorCode_eq_success_iff, getErrorCode_success, success_eq_iff, ne_eq,
    not_true_eq_false, not_false_eq_true, if_true, if_false, and_self, and_true, true_and,
    and_false, false_and, Nat.add_assoc, Nat.reduceAdd]
  unfold LinuxPowerImp.PowerLimitRestorer.create
  simp only [SysfsAccess.readUInt64_fst, SysfsAccess.readUInt64_val,
    SysfsAccess.readUInt64_snd, h0, h1, h2,
    getErrorCode_eq_success_iff, getErrorCode_success, success_eq_iff, ne_eq,
    not_true_eq_false, not_false_eq_true, if_true, if_false, and_self, and_true, true_and,
    and_false, false_and, Nat.add_assoc, Nat.reduceAdd]
  unfold LinuxPowerImp.getPropertiesGuarded
  simp only [LinuxPowerImp.getMinLimit_fst, LinuxPowerImp.getMinLimit_val,
    LinuxPowerImp.getMinLimit_snd, h0, h1, h2, 
    getErrorCode_eq_success_iff, getErrorCode_success, success_eq_iff, ne_eq,
    not_true_eq_false, not_false_eq_true, if_true, if_false, and_self, and_true, true_and,
    and_false, false_and, Nat.add_assoc, Nat.reduceAdd]
  unfold LinuxPowerImp.PowerLimitRestorer.destroy
  simp only [SysfsAccess.write_snd, h0, h1, h2,
    getErrorCode_eq_success_iff, getErrorCode_success, success_eq_iff, ne_eq,
    not_true_eq_false, not_false_eq_true, if_true, if_false, and_self, and_true, true_and,
    and_false, false_and, Nat.add_assoc, Nat.reduceAdd]

/-- The outcome of `getProperties` when access 4 of its six is the first to fail. -/
theorem getProperties_of_failed_min_read (handle : LinuxPowerImp)
    (pProperties : zes_power_properties_t) (hDevice : handle.isSubdevice = false)
    (h0 : handle.pSysfsAccess.readResult handle.pSysfsAccess.accessCount
        (handle.i915HwmonDir ++ "/" ++ LinuxPowerImp.defaultPowerLimit)
        = ze_result_t.ZE_RESULT_SUCCESS)
    (h1 : handle.pSysfsAccess.readResult (handle.pSysfsAccess.accessCount + 1)
        (handle.i915HwmonDir ++ "/" ++ LinuxPowerImp.sustainedPowerLimit)
        = ze_result_t.ZE_RESULT_SUCCESS)
    (h2 : handle.pSysfsAccess.writeResult (handle.pSysfsAccess.accessCount + 2)
        (handle.i915HwmonDir ++ "/" ++ LinuxPowerImp.sustainedPowerLimit)
        = ze_result_t.ZE_RESULT_SUCCESS)
    (h3 : handle.pSysfsAccess.readResult (handle.pSysfsAccess.accessCount + 3)
        (handle.i915HwmonDir ++ "/" ++ LinuxPowerImp.sustainedPowerLimit)
        ≠ ze_result_t.ZE_RESULT_SUCCESS) :
    (handle.getProperties pProperties).1 = getErrorCode
        (handle.pSysfsAccess.readResult (handle.pSysfsAccess.accessCount + 3)
        (handle.i915HwmonDir ++ "/" ++ LinuxPowerImp.sustainedPowerLimit))
    ∧ (handle.getProperties pProperties).2.1.defaultLimit
      = toInt32 (toUInt64 (handle.pSysfsAccess.nodes
        (handle.i915HwmonDir ++ "/" ++ LinuxPowerImp.defaultPowerLimit)) / milliFactor)
    ∧ (handle.getProperties pProperties).2.1.minLimit = -1
    ∧ (handle.getProperties pProperties).2.1.maxLimit = -1
    ∧ (handle.getProperties pProperties).2.2.pSysfsAccess.nodes
      = (if handle.pSysfsAccess.writeResult (handle.pSysfsAccess.accessCount + 4)
        (handle.i915HwmonDir ++ "/" ++ LinuxPowerImp.sustainedPowerLimit)
        = ze_result_t.ZE_RESULT_SUCCESS then
        Function.update (Function.update handle.pSysfsAccess.nodes
          (handle.i915HwmonDir ++ "/" ++ LinuxPowerImp.sustainedPowerLimit) 100)
          (handle.i915HwmonDir ++ "/" ++ LinuxPowerImp.sustainedPowerLimit)
          (toUInt64 (handle.pSysfsAccess.nodes
          (handle.i915HwmonDir ++ "/" ++ LinuxPowerImp.sustainedPowerLimit)) : Int)
      else (Function.update handle.pSysfsAccess.nodes
          (handle.i915HwmonDir ++ "/" ++ LinuxPowerImp.sustainedPowerLimit) 100))
    ∧ (handle.getProperties pProperties).2.2.pSysfsAccess.accessCount
      = handle.pSysfsAccess.accessCount + 5 := by
  unfold LinuxPowerImp.getProperties
  simp only [hDevice, Bool.false_eq_true, LinuxPowerImp.getDefaultLimit_fst,
    LinuxPowerImp.getDefaultLimit_val, LinuxPowerImp.getDefaultLimit_snd, h0, h1, h2, h3,
    getErrorCode_eq_success_iff, getErrorCode_success, success_eq_iff, ne_eq,
    not_true_eq_false, not_false_eq_true, if_true, if_false, and_self, and_true, true_and,
    and_false, false_and, Nat.add_assoc, Nat.reduceAdd]
  unfold LinuxPowerImp.PowerLimitRestorer.create
  simp only [SysfsAccess.readUInt64_fst, SysfsAccess.readUInt64_val,
    SysfsAccess.readUInt64_snd, h0, h1, h2, h3,
    getErrorCode_eq_success_iff, getErrorCode_success, success_eq_iff, ne_eq,
    not_true_eq_false, not_false_eq_true, if_true, if_false, and_self, and_true, true_and,
    and_false, false_and, Nat.add_assoc, Nat.reduceAdd]
  unfold LinuxPowerImp.getPropertiesGuarded
  simp only [LinuxPowerImp.getMinLimit_fst, LinuxPowerImp.getMinLimit_val,
    LinuxPowerImp.getMinLimit_snd, h0, h1, h2, h3, 
    getErrorCode_eq_success_iff, getErrorCode_success, success_eq_iff, ne_eq,
    not_true_eq_false, not_false_eq_true, if_true, if_false, and_self, and_true, true_and,
    and_false, false_and, Nat.add_assoc, Nat.reduceAdd]
  unfold LinuxPowerImp.PowerLimitRestorer.destroy
  simp only [SysfsAccess.write_snd, h0, h1, h2, h3,
    getErrorCode_eq_success_iff, getErrorCode_success, success_eq_iff, ne_eq,
    not_true_eq_false, not_false_eq_true, if_true, if_false, and_self, and_true, true_and,
    and_false, false_and, Nat.add_assoc, Nat.reduceAdd]

/-- The outcome of `getProperties` when access 5 of its six is the first to fail. -/
theorem getProperties_of_failed_max_write (handle : LinuxPowerImp)
    (pProperties : zes_power_properties_t) (hDevice : handle.isSubdevice = false)
    (h0 : handle.pSysfsAccess.readResult handle.pSysfsAccess.accessCount
        (handle.i915HwmonDir ++ "/" ++ LinuxPowerImp.defaultPowerLimit)
        = ze_result_t.ZE_RESULT_SUCCESS)
    (h1 : handle.pSysfsAccess.readResult (handle.pSysfsAccess.accessCount + 1)
        (handle.i915HwmonDir ++ "/" ++ LinuxPowerImp.sustainedPowerLimit)
        = ze_result_t.ZE_RESULT_SUCCESS)
    (h2 : handle.pSysfsAccess.writeResult (handle.pSysfsAccess.accessCount + 2)
        (handle.i915HwmonDir ++ "/" ++ LinuxPowerImp.sustainedPowerLimit)
        = ze_result_t.ZE_RESULT_SUCCESS)
    (h3 : handle.pSysfsAccess.readResult (handle.pSysfsAccess.accessCount + 3)
        (handle.i915HwmonDir ++ "/" ++ LinuxPowerImp.sustainedPowerLimit)
        = ze_result_t.ZE_RESULT_SUCCESS)
    (h4 : handle.pSysfsAccess.writeResult (handle.pSysfsAccess.accessCount + 4)
        (handle.i915HwmonDir ++ "/" ++ LinuxPowerImp.sustainedPowerLimit)
        ≠ ze_result_t.ZE_RESULT_SUCCESS) :
    (handle.getProperties pProperties).1 = getErrorCode
        (handle.pSysfsAccess.writeResult (handle.pSysfsAccess.accessCount + 4)
        (handle.i915HwmonDir ++ "/" ++ LinuxPowerImp.sustainedPowerLimit))
    ∧ (handle.getProperties pProperties).2.1.defaultLimit
      = toInt32 (toUInt64 (handle.pSysfsAccess.nodes
        (handle.i915HwmonDir ++ "/" ++ LinuxPowerImp.defaultPowerLimit)) / milliFactor)
    ∧ (handle.getProperties pProperties).2.1.minLimit = toInt32 (toUInt64 100 / milliFactor)
    ∧ (handle.getProperties pProperties).2.1.maxLimit = -1
    ∧ (handle.getProperties pProperties).2.2.pSysfsAccess.nodes
      = (if handle.pSysfsAccess.writeResult (handle.pSysfsAccess.accessCount + 5)
        (handle.i915HwmonDir ++ "/" ++ LinuxPowerImp.sustainedPowerLimit)
        = ze_result_t.ZE_RESULT_SUCCESS then
        Function.update (Function.update handle.pSysfsAccess.nodes
          (handle.i915HwmonDir ++ "/" ++ LinuxPowerImp.sustainedPowerLimit) 100)
          (handle.i915HwmonDir ++ "/" ++ LinuxPowerImp.sustainedPowerLimit)
          (toUInt64 (handle.pSysfsAccess.nodes
          (handle.i915HwmonDir ++ "/" ++ LinuxPowerImp.sustainedPowerLimit)) : Int)
      else (Function.update handle.pSysfsAccess.nodes
          (handle.i915HwmonDir ++ "/" ++ LinuxPowerImp.sustainedPowerLimit) 100))
    ∧ (handle.getProperties pProperties).2.2.pSysfsAccess.accessCount
      = handle.pSysfsAccess.accessCount + 6 := by
  unfold LinuxPowerImp.getProperties
  simp only [hDevice, Bool.false_eq_true, LinuxPowerImp.getDefaultLimit_fst,
    LinuxPowerImp.getDefaultLimit_val, LinuxPowerImp.getDefaultLimit_snd, h0, h1, h2, h3, h4,
    getErrorCode_eq_success_iff, getErrorCode_success, success_eq_iff, ne_eq,
    not_true_eq_false, not_false_eq_true, if_true, if_false, and_self, and_true, true_and,
    and_false, false_and, Nat.add_assoc, Nat.reduceAdd]
  unfold LinuxPowerImp.PowerLimitRestorer.create
  simp only [SysfsAccess.readUInt64_fst, SysfsAccess.readUInt64_val,
    SysfsAccess.readUInt64_snd, h0, h1, h2, h3, h4,
    getErrorCode_eq_success_iff, getErrorCode_success, success_eq_iff, ne_eq,
    not_true_eq_false, not_false_eq_true, if_true, if_false, and_self, and_true, true_and,
    and_false, false_and, Nat.add_assoc, Nat.reduceAdd]
  unfold LinuxPowerImp.getPropertiesGuarded
  simp only [LinuxPowerImp.getMinLimit_fst, LinuxPowerImp.getMinLimit_val,
    LinuxPowerImp.getMinLimit_snd, h0, h1, h2, h3, h4, 
    getErrorCode_eq_success_iff, getErrorCode_success, success_eq_iff, ne_eq,
    not_true_eq_false, not_false_eq_true, if_true, if_false, and_self, and_true, true_and,
    and_false, false_and, Nat.add_assoc, Nat.reduceAdd]
  simp only [LinuxPowerImp.getMaxLimit_fst, LinuxPowerImp.getMaxLimit_val,
    LinuxPowerImp.getMaxLimit_snd, h0, h1, h2, h3, h4, 
    getErrorCode_eq_success_iff, getErrorCode_success, success_eq_iff, ne_eq,
    not_true_eq_false, not_false_eq_true, if_true, if_false, and_self, and_true, true_and,
    and_false, false_and, Nat.add_assoc, Nat.reduceAdd]
  unfold LinuxPowerImp.PowerLimitRestorer.destroy
  simp only [SysfsAccess.write_snd, h0, h1, h2, h3, h4,
    getErrorCode_eq_success_iff, getErrorCode_success, success_eq_iff, ne_eq,
    not_true_eq_false, not_false_eq_true, if_true, if_false, and_self, and_true, true_and,
    and_false, false_and, Nat.add_assoc, Nat.reduceAdd]

/-- The outcome of `getProperties` when access 6 of its six is the first to fail. -/
theorem getProperties_of_failed_max_read (handle : LinuxPowerImp)
    (pProperties : zes_power_properties_t) (hDevice : handle.isSubdevice = false)
    (h0 : handle.pSysfsAccess.readResult handle.pSysfsAccess.accessCount
        (handle.i915HwmonDir ++ "/" ++ LinuxPowerImp.defaultPowerLimit)
        = ze_result_t.ZE_RESULT_SUCCESS)
    (h1 : handle.pSysfsAccess.readResult (handle.pSysfsAccess.accessCount + 1)
        (handle.i915HwmonDir ++ "/" ++ LinuxPowerImp.sustainedPowerLimit)
        = ze_result_t.ZE_RESULT_SUCCESS)
    (h2 : handle.pSysfsAccess.writeResult (handle.pSysfsAccess.accessCount + 2)
        (handle.i915HwmonDir ++ "/" ++ LinuxPowerImp.sustainedPowerLimit)
        = ze_result_t.ZE_RESULT_SUCCESS)
    (h3 : handle.pSysfsAccess.readResult (handle.pSysfsAccess.accessCount + 3)
        (handle.i915HwmonDir ++ "/" ++ LinuxPowerImp.sustainedPowerLimit)
        = ze_result_t.ZE_RESULT_SUCCESS)
    (h4 : handle.pSysfsAccess.writeResult (handle.pSysfsAccess.accessCount + 4)
        (handle.i915HwmonDir ++ "/" ++ LinuxPowerImp.sustainedPowerLimit)
        = ze_result_t.ZE_RESULT_SUCCESS)
    (h5 : handle.pSysfsAccess.readResult (handle.pSysfsAccess.accessCount + 5)
        (handle.i915HwmonDir ++ "/" ++ LinuxPowerImp.sustainedPowerLimit)
        ≠ ze_result_t.ZE_RESULT_SUCCESS) :
    (handle.getProperties pProperties).1 = getErrorCode
        (handle.pSysfsAccess.readResult (handle.pSysfsAccess.accessCount + 5)
        (handle.i915HwmonDir ++ "/" ++ LinuxPowerImp.sustainedPowerLimit))
    ∧ (handle.getProperties pProperties).2.1.defaultLimit
      = toInt32 (toUInt64 (handle.pSysfsAccess.nodes
        (handle.i915HwmonDir ++ "/" ++ LinuxPowerImp.defaultPowerLimit)) / milliFactor)
    ∧ (handle.getProperties pProperties).2.1.minLimit = toInt32 (toUInt64 100 / milliFactor)
    ∧ (handle.getProperties pProperties).2.1.maxLimit = -1
    ∧ (handle.getProperties pProperties).2.2.pSysfsAccess.nodes
      = (if handle.pSysfsAccess.writeResult (handle.pSysfsAccess.accessCount + 6)
        (handle.i915HwmonDir ++ "/" ++ LinuxPowerImp.sustainedPowerLimit)
        = ze_result_t.ZE_RESULT_SUCCESS then
        Function.update (Function.update (Function.update handle.pSysfsAccess.nodes
          (handle.i915HwmonDir ++ "/" ++ LinuxPowerImp.sustainedPowerLimit) 100)
          (handle.i915HwmonDir ++ "/" ++ LinuxPowerImp.sustainedPowerLimit) 2147483647)
          (handle.i915HwmonDir ++ "/" ++ LinuxPowerImp.sustainedPowerLimit)
          (toUInt64 (handle.pSysfsAccess.nodes
          (handle.i915HwmonDir ++ "/" ++ LinuxPowerImp.sustainedPowerLimit)) : Int)
      else (Function.update (Function.update handle.pSysfsAccess.nodes
          (handle.i915HwmonDir ++ "/" ++ LinuxPowerImp.sustainedPowerLimit) 100)
          (handle.i915HwmonDir ++ "/" ++ LinuxPowerImp.sustainedPowerLimit) 2147483647))
    ∧ (handle.getProperties pProperties).2.2.pSysfsAccess.accessCount
      = handle.pSysfsAccess.accessCount + 7 := by
  unfold LinuxPowerImp.getProperties
  simp only [hDevice, Bool.false_eq_true, LinuxPowerImp.getDefaultLimit_fst,
    LinuxPowerImp.getDefaultLimit_val, LinuxPowerImp.getDefaultLimit_snd, h0, h1, h2, h3, h4, h5,
    getErrorCode_eq_success_iff, getErrorCode_success, success_eq_iff, ne_eq,
    not_true_eq_false, not_false_eq_true, if_true, if_false, and_self, and_true, true_and,
    and_false, false_and, Nat.add_assoc, Nat.reduceAdd]
  unfold LinuxPowerImp.PowerLimitRestorer.create
  simp only [SysfsAccess.readUInt64_fst, SysfsAccess.readUInt64_val,
    SysfsAccess.readUInt64_snd, h0, h1, h2, h3, h4, h5,
    getErrorCode_eq_success_iff, getErrorCode_success, success_eq_iff, ne_eq,
    not_true_eq_false, not_false_eq_true, if_true, if_false, and_self, and_true, true_and,
    and_false, false_and, Nat.add_assoc, Nat.reduceAdd]
  unfold LinuxPowerImp.getPropertiesGuarded
  simp only [LinuxPowerImp.getMinLimit_fst, LinuxPowerImp.getMinLimit_val,
    LinuxPowerImp.getMinLimit_snd, h0, h1, h2, h3, h4, h5, 
    getErrorCode_eq_success_iff, getErrorCode_success, success_eq_iff, ne_eq,
    not_true_eq_false, not_false_eq_true, if_true, if_false, and_self, and_true, true_and,
    and_false, false_and, Nat.add_assoc, Nat.reduceAdd]
  simp only [LinuxPowerImp.getMaxLimit_fst, LinuxPowerImp.getMaxLimit_val,
    LinuxPowerImp.getMaxLimit_snd, h0, h1, h2, h3, h4, h5, 
    getErrorCode_eq_success_iff, getErrorCode_success, success_eq_iff, ne_eq,
    not_true_eq_false, not_false_eq_true, if_true, if_false, and_self, and_true, true_and,
    and_false, false_and, Nat.add_assoc, Nat.reduceAdd]
  unfold LinuxPowerImp.PowerLimitRestorer.destroy
  simp only [SysfsAccess.write_snd, h0, h1, h2, h3, h4, h5,
    getErrorCode_eq_success_iff, getErrorCode_success, success_eq_iff, ne_eq,
    not_true_eq_false, not_false_eq_true, if_true, if_false, and_self, and_true, true_and,
    and_false, false_and, Nat.add_assoc, Nat.reduceAdd]

/-- The outcome of `getProperties` when its six accesses succeed. -/
theorem getProperties_of_all_accesses (handle : LinuxPowerImp)
    (pProperties : zes_power_properties_t) (hDevice : handle.isSubdevice = false)
    (h0 : handle.pSysfsAccess.readResult handle.pSysfsAccess.accessCount
        (handle.i915HwmonDir ++ "/" ++ LinuxPowerImp.defaultPowerLimit)
        = ze_result_t.ZE_RESULT_SUCCESS)
    (h1 : handle.pSysfsAccess.readResult (handle.pSysfsAccess.accessCount + 1)
        (handle.i915HwmonDir ++ "/" ++ LinuxPowerImp.sustainedPowerLimit)
        = ze_result_t.ZE_RESULT_SUCCESS)
    (h2 : handle.pSysfsAccess.writeResult (handle.pSysfsAccess.accessCount + 2)
        (handle.i915HwmonDir ++ "/" ++ LinuxPowerImp.sustainedPowerLimit)
        = ze_result_t.ZE_RESULT_SUCCESS)
    (h3 : handle.pSysfsAccess.readResult (handle.pSysfsAccess.accessCount + 3)
        (handle.i915HwmonDir ++ "/" ++ LinuxPowerImp.sustainedPowerLimit)
        = ze_result_t.ZE_RESULT_SUCCESS)
    (h4 : handle.pSysfsAccess.writeResult (handle.pSysfsAccess.accessCount + 4)
        (handle.i915HwmonDir ++ "/" ++ LinuxPowerImp.sustainedPowerLimit)
        = ze_result_t.ZE_RESULT_SUCCESS)
    (h5 : handle.pSysfsAccess.readResult (handle.pSysfsAccess.accessCount + 5)
        (handle.i915HwmonDir ++ "/" ++ LinuxPowerImp.sustainedPowerLimit)
        = ze_result_t.ZE_RESULT_SUCCESS) :
    (handle.getProperties pProperties).1 = ze_result_t.ZE_RESULT_SUCCESS
    ∧ (handle.getProperties pProperties).2.1.defaultLimit
      = toInt32 (toUInt64 (handle.pSysfsAccess.nodes
        (handle.i915HwmonDir ++ "/" ++ LinuxPowerImp.defaultPowerLimit)) / milliFactor)
    ∧ (handle.getProperties pProperties).2.1.minLimit = toInt32 (toUInt64 100 / milliFactor)
    ∧ (handle.getProperties pProperties).2.1.maxLimit
      = toInt32 (toUInt64 2147483647 / milliFactor)
    ∧ (handle.getProperties pProperties).2.2.pSysfsAccess.nodes
      = (if handle.pSysfsAccess.writeResult (handle.pSysfsAccess.accessCount + 6)
        (handle.i915HwmonDir ++ "/" ++ LinuxPowerImp.sustainedPowerLimit)
        = ze_result_t.ZE_RESULT_SUCCESS then
        Function.update (Function.update (Function.update handle.pSysfsAccess.nodes
          (handle.i915HwmonDir ++ "/" ++ LinuxPowerImp.sustainedPowerLimit) 100)
          (handle.i915HwmonDir ++ "/" ++ LinuxPowerImp.sustainedPowerLimit) 2147483647)
          (handle.i915HwmonDir ++ "/" ++ LinuxPowerImp.sustainedPowerLimit)
          (toUInt64 (handle.pSysfsAccess.nodes
          (handle.i915HwmonDir ++ "/" ++ LinuxPowerImp.sustainedPowerLimit)) : Int)
      else (Function.update (Function.update handle.pSysfsAccess.nodes
          (handle.i915HwmonDir ++ "/" ++ LinuxPowerImp.sustainedPowerLimit) 100)
          (handle.i915HwmonDir ++ "/" ++ LinuxPowerImp.sustainedPowerLimit) 2147483647))
    ∧ (handle.getProperties pProperties).2.2.pSysfsAccess.accessCount
      = handle.pSysfsAccess.accessCount + 7 := by
  unfold LinuxPowerImp.getProperties
  simp only [hDevice, Bool.false_eq_true, LinuxPowerImp.getDefaultLimit_fst,
    LinuxPowerImp.getDefaultLimit_val, LinuxPowerImp.getDefaultLimit_snd, h0, h1, h2, h3, h4, h5,
    getErrorCode_eq_success_iff, getErrorCode_success, success_eq_iff, ne_eq,
    not_true_eq_false, not_false_eq_true, if_true, if_false, and_self, and_true, true_and,
    and_false, false_and, Nat.add_assoc, Nat.reduceAdd]
  unfold LinuxPowerImp.PowerLimitRestorer.create
  simp only [SysfsAccess.readUInt64_fst, SysfsAccess.readUInt64_val,
    SysfsAccess.readUInt64_snd, h0, h1, h2, h3, h4, h5,
    getErrorCode_eq_success_iff, getErrorCode_success, success_eq_iff, ne_eq,
    not_true_eq_false, not_false_eq_true, if_true, if_false, and_self, and_true, true_and,
    and_false, false_and, Nat.add_assoc, Nat.reduceAdd]
  unfold LinuxPowerImp.getPropertiesGuarded
  simp only [LinuxPowerImp.getMinLimit_fst, LinuxPowerImp.getMinLimit_val,
    LinuxPowerImp.getMinLimit_snd, h0, h1, h2, h3, h4, h5, 
    getErrorCode_eq_success_iff, getErrorCode_success, success_eq_iff, ne_eq,
    not_true_eq_false, not_false_eq_true, if_true, if_false, and_self, and_true, true_and,
    and_false, false_and, Nat.add_assoc, Nat.reduceAdd]
  simp only [LinuxPowerImp.getMaxLimit_fst, LinuxPowerImp.getMaxLimit_val,
    LinuxPowerImp.getMaxLimit_snd, h0, h1, h2, h3, h4, h5, 
    getErrorCode_eq_success_iff, getErrorCode_success, success_eq_iff, ne_eq,
    not_true_eq_false, not_false_eq_true, if_true, if_false, and_self, and_true, true_and,
    and_false, false_and, Nat.add_assoc, Nat.reduceAdd]
  unfold LinuxPowerImp.PowerLimitRestorer.destroy
  simp only [SysfsAccess.write_snd, h0, h1, h2, h3, h4, h5,
    getErrorCode_eq_success_iff, getErrorCode_success, success_eq_iff, ne_eq,
    not_true_eq_false, not_false_eq_true, if_true, if_false, and_self, and_true, true_and,
    and_false, false_and, Nat.add_assoc, Nat.reduceAdd]
/-- C21: on a device-level handle `getProperties` of the tools layer returns
`ZE_RESULT_SUCCESS` exactly when its six accesses succeed: the read of the
default limit, the read of the sustained limit by the restorer, and the write
and the read of the minimum probe and of the maximum probe.  Otherwise it
returns `getErrorCode` of the first access that fails, and a limit not read
before that access is reported as `-1`.  The write that restores the
sustained limit is none of the six, so its result has no influence. -/
theorem getProperties_error_propagation (handle : LinuxPowerImp)
    (pProperties : zes_power_properties_t) (hDevice : handle.isSubdevice = false) :
    ((handle.getProperties pProperties).1 = ze_result_t.ZE_RESULT_SUCCESS
        ↔ ∀ result ∈ handle.propertiesAccesses, result = ze_result_t.ZE_RESULT_SUCCESS)
    ∧ (∀ failed,
        handle.propertiesAccesses.find?
            (fun result => decide (result ≠ ze_result_t.ZE_RESULT_SUCCESS)) = some failed →
          (handle.getProperties pProperties).1 = getErrorCode failed)
    ∧ ((handle.propertiesAccesses.take 1).any
          (fun result => decide (result ≠ ze_result_t.ZE_RESULT_SUCCESS)) = true →
        (handle.getProperties pProperties).2.1.defaultLimit = -1)
    ∧ ((handle.propertiesAccesses.take 4).any
          (fun result => decide (result ≠ ze_result_t.ZE_RESULT_SUCCESS)) = true →
        (handle.getProperties pProperties).2.1.minLimit = -1)
    ∧ (handle.propertiesAccesses.any
          (fun result => decide (result ≠ ze_result_t.ZE_RESULT_SUCCESS)) = true →
        (handle.getProperties pProperties).2.1.maxLimit = -1) := by
  unfold LinuxPowerImp.propertiesAccesses
  by_cases h0 : handle.pSysfsAccess.readResult handle.pSysfsAccess.accessCount
        (handle.i915HwmonDir ++ "/" ++ LinuxPowerImp.defaultPowerLimit)
        = ze_result_t.ZE_RESULT_SUCCESS
  swap
  · have h := getProperties_of_failed_default_read handle pProperties hDevice h0
    simp [h.1, h.2.1, h.2.2.1, h.2.2.2.1, h0,
      getErrorCode_eq_success_iff]
  by_cases h1 : handle.pSysfsAccess.readResult (handle.pSysfsAccess.accessCount + 1)
        (handle.i915HwmonDir ++ "/" ++ LinuxPowerImp.sustainedPowerLimit)
        = ze_result_t.ZE_RESULT_SUCCESS
  swap
  · have h := getProperties_of_failed_sustained_read handle pProperties hDevice h0 h1
    simp [h.1, h.2.1, h.2.2.1, h.2.2.2.1, h0, h1,
      getErrorCode_eq_success_iff]
  by_cases h2 : handle.pSysfsAccess.writeResult (handle.pSysfsAccess.accessCount + 2)
        (handle.i915HwmonDir ++ "/" ++ LinuxPowerImp.sustainedPowerLimit)
        = ze_result_t.ZE_RESULT_SUCCESS
  swap
  · have h := getProperties_of_failed_min_write handle pProperties hDevice h0 h1 h2
    simp [h.1, h.2.1, h.2.2.1, h.2.2.2.1, h0, h1, h2,
      getErrorCode_eq_success_iff]
  by_cases h3 : handle.pSysfsAccess.readResult (handle.pSysfsAccess.accessCount + 3)
        (handle.i915HwmonDir ++ "/" ++ LinuxPowerImp.sustainedPowerLimit)
        = ze_result_t.ZE_RESULT_SUCCESS
  swap
  · have h := getProperties_of_failed_min_read handle pProperties hDevice h0 h1 h2 h3
    simp [h.1, h.2.1, h.2.2.1, h.2.2.2.1, h0, h1, h2, h3,
      getErrorCode_eq_success_iff]
  by_cases h4 : handle.pSysfsAccess.writeResult (handle.pSysfsAccess.accessCount + 4)
        (handle.i915HwmonDir ++ "/" ++ LinuxPowerImp.sustainedPowerLimit)
        = ze_result_t.ZE_RESULT_SUCCESS
  swap
  · have h := getProperties_of_failed_max_write handle pProperties hDevice h0 h1 h2 h3 h4
    simp [h.1, h.2.1, h.2.2.1, h.2.2.2.1, h0, h1, h2, h3, h4,
      getErrorCode_eq_success_iff]
  by_cases h5 : handle.pSysfsAccess.readResult (handle.pSysfsAccess.accessCount + 5)
        (handle.i915HwmonDir ++ "/" ++ LinuxPowerImp.sustainedPowerLimit)
        = ze_result_t.ZE_RESULT_SUCCESS
  swap
  · have h := getProperties_of_failed_max_read handle pProperties hDevice h0 h1 h2 h3 h4 h5
    simp [h.1, h.2.1, h.2.2.1, h.2.2.2.1, h0, h1, h2, h3, h4, h5,
      getErrorCode_eq_success_iff]
  have h := getProperties_of_all_accesses handle pProperties hDevice h0 h1 h2 h3 h4 h5
  simp [h.1, h0, h1, h2, h3, h4, h5]
/-- On the handle whose nodes cannot be read the default-limit read fails, and
`getProperties` reports the default limit as `-1`. -/
theorem getProperties_error_propagation_witness :
    (fixturePowerHandleOver fixtureSysfsNotAvailable).isSubdevice = false
    ∧ ((fixturePowerHandleOver fixtureSysfsNotAvailable).getProperties
        fixtureProperties).1 = getErrorCode ze_result_t.ZE_RESULT_ERROR_NOT_AVAILABLE
    ∧ ((fixturePowerHandleOver fixtureSysfsNotAvailable).getProperties
        fixtureProperties).2.1.defaultLimit = -1 :=
  ⟨rfl,
    (getProperties_error_propagation (fixturePowerHandleOver fixtureSysfsNotAvailable)
      fixtureProperties rfl).2.1 ze_result_t.ZE_RESULT_ERROR_NOT_AVAILABLE (by decide),
    (getProperties_error_propagation (fixturePowerHandleOver fixtureSysfsNotAvailable)
      fixtureProperties rfl).2.2.1 (by decide)⟩

/-- C23: once `getProperties` of the tools layer, on a device-level handle,
has read the value `v` of the sustained-limit node (the read of the default
limit and the read by the restorer succeed, and `v` is a `uint64_t`), the last
access of the call is the write that restores `v`.  When that write succeeds
the node holds `v` again, however the probing went; when it fails the node
keeps what the probing left: `2147483647` once the maximum probe is written,
`100` when only the minimum probe is written, and `v` when not even that write
succeeded.  No other node is modified. -/
theorem getProperties_restores_sustained_limit (handle : LinuxPowerImp)
    (pProperties : zes_power_properties_t) (hDevice : handle.isSubdevice = false)
    (hDefault : handle.pSysfsAccess.readResult handle.pSysfsAccess.accessCount
        (handle.i915HwmonDir ++ "/" ++ LinuxPowerImp.defaultPowerLimit)
        = ze_result_t.ZE_RESULT_SUCCESS)
    (hRead : handle.pSysfsAccess.readResult (handle.pSysfsAccess.accessCount + 1)
        (handle.i915HwmonDir ++ "/" ++ LinuxPowerImp.sustainedPowerLimit)
        = ze_result_t.ZE_RESULT_SUCCESS)
    (hValue : 0 ≤ handle.pSysfsAccess.nodes
          (handle.i915HwmonDir ++ "/" ++ LinuxPowerImp.sustainedPowerLimit)
      ∧ handle.pSysfsAccess.nodes
          (handle.i915HwmonDir ++ "/" ++ LinuxPowerImp.sustainedPowerLimit) < 2 ^ 64) :
    (handle.pSysfsAccess.writeResult
          ((handle.getProperties pProperties).2.2.pSysfsAccess.accessCount - 1)
          (handle.i915HwmonDir ++ "/" ++ LinuxPowerImp.sustainedPowerLimit)
          = ze_result_t.ZE_RESULT_SUCCESS →
        (handle.getProperties pProperties).2.2.pSysfsAccess.nodes
          (handle.i915HwmonDir ++ "/" ++ LinuxPowerImp.sustainedPowerLimit)
          = handle.pSysfsAccess.nodes
          (handle.i915HwmonDir ++ "/" ++ LinuxPowerImp.sustainedPowerLimit))
    ∧ (handle.pSysfsAccess.writeResult
          ((handle.getProperties pProperties).2.2.pSysfsAccess.accessCount - 1)
          (handle.i915HwmonDir ++ "/" ++ LinuxPowerImp.sustainedPowerLimit)
          ≠ ze_result_t.ZE_RESULT_SUCCESS →
        (handle.getProperties pProperties).2.2.pSysfsAccess.nodes
          (handle.i915HwmonDir ++ "/" ++ LinuxPowerImp.sustainedPowerLimit)
          = if handle.pSysfsAccess.writeResult (handle.pSysfsAccess.accessCount + 2)
        (handle.i915HwmonDir ++ "/" ++ LinuxPowerImp.sustainedPowerLimit)
                ≠ ze_result_t.ZE_RESULT_SUCCESS then
              handle.pSysfsAccess.nodes
          (handle.i915HwmonDir ++ "/" ++ LinuxPowerImp.sustainedPowerLimit)
            else if handle.pSysfsAccess.readResult (handle.pSysfsAccess.accessCount + 3)
        (handle.i915HwmonDir ++ "/" ++ LinuxPowerImp.sustainedPowerLimit)
                = ze_result_t.ZE_RESULT_SUCCESS
              ∧ handle.pSysfsAccess.writeResult (handle.pSysfsAccess.accessCount + 4)
        (handle.i915HwmonDir ++ "/" ++ LinuxPowerImp.sustainedPowerLimit)
                = ze_result_t.ZE_RESULT_SUCCESS then
              2147483647
            else 100)
    ∧ (∀ file, file ≠ (handle.i915HwmonDir ++ "/" ++ LinuxPowerImp.sustainedPowerLimit) →
        (handle.getProperties pProperties).2.2.pSysfsAccess.nodes file
          = handle.pSysfsAccess.nodes file) := by
  have hNode := toUInt64_of_range _ hValue.1 hValue.2
  by_cases h2 : handle.pSysfsAccess.writeResult (handle.pSysfsAccess.accessCount + 2)
        (handle.i915HwmonDir ++ "/" ++ LinuxPowerImp.sustainedPowerLimit)
        = ze_result_t.ZE_RESULT_SUCCESS
  swap
  · have h := getProperties_of_failed_min_write handle pProperties hDevice hDefault hRead h2
    have hCount : handle.pSysfsAccess.accessCount + 4 - 1
        = handle.pSysfsAccess.accessCount + 3 := by
      omega
    rw [h.2.2.2.2.1, h.2.2.2.2.2, hCount]
    by_cases hRestore : handle.pSysfsAccess.writeResult (handle.pSysfsAccess.accessCount + 3)
        (handle.i915HwmonDir ++ "/" ++ LinuxPowerImp.sustainedPowerLimit)
        = ze_result_t.ZE_RESULT_SUCCESS
    · simp only [hRestore, h2, hNode, if_true, Function.update_same, ne_eq,
        not_true_eq_false, not_false_eq_true, false_imp_iff, true_imp_iff, true_and, and_true]
      intro file hFile
      simp [Function.update, hFile]
    · simp only [hRestore, h2, if_true, if_false, Function.update_same, ne_eq,
        not_true_eq_false, not_false_eq_true, false_imp_iff, true_imp_iff, true_and, and_true,
        and_false, false_and, and_self]
      intro file hFile
      simp [Function.update, hFile]
  by_cases h3 : handle.pSysfsAccess.readResult (handle.pSysfsAccess.accessCount + 3)
        (handle.i915HwmonDir ++ "/" ++ LinuxPowerImp.sustainedPowerLimit)
        = ze_result_t.ZE_RESULT_SUCCESS
  swap
  · have h := getProperties_of_failed_min_read handle pProperties hDevice hDefault hRead h2 h3
    have hCount : handle.pSysfsAccess.accessCount + 5 - 1
        = handle.pSysfsAccess.accessCount + 4 := by
      omega
    rw [h.2.2.2.2.1, h.2.2.2.2.2, hCount]
    by_cases hRestore : handle.pSysfsAccess.writeResult (handle.pSysfsAccess.accessCount + 4)
        (handle.i915HwmonDir ++ "/" ++ LinuxPowerImp.sustainedPowerLimit)
        = ze_result_t.ZE_RESULT_SUCCESS
    · simp only [hRestore, h2, h3, hNode, if_true, Function.update_same, ne_eq,
        not_true_eq_false, not_false_eq_true, false_imp_iff, true_imp_iff, true_and, and_true]
      intro file hFile
      simp [Function.update, hFile]
    · simp only [hRestore, h2, h3, if_true, if_false, Function.update_same, ne_eq,
        not_true_eq_false, not_false_eq_true, false_imp_iff, true_imp_iff, true_and, and_true,
        and_false, false_and, and_self]
      intro file hFile
      simp [Function.update, hFile]
  by_cases h4 : handle.pSysfsAccess.writeResult (handle.pSysfsAccess.accessCount + 4)
        (handle.i915HwmonDir ++ "/" ++ LinuxPowerImp.sustainedPowerLimit)
        = ze_result_t.ZE_RESULT_SUCCESS
  swap
  · have h := getProperties_of_failed_max_write handle pProperties hDevice hDefault hRead h2 h3 h4
    have hCount : handle.pSysfsAccess.accessCount + 6 - 1
        = handle.pSysfsAccess.accessCount + 5 := by
      omega
    rw [h.2.2.2.2.1, h.2.2.2.2.2, hCount]
    by_cases hRestore : handle.pSysfsAccess.writeResult (handle.pSysfsAccess.accessCount + 5)
        (handle.i915HwmonDir ++ "/" ++ LinuxPowerImp.sustainedPowerLimit)
        = ze_result_t.ZE_RESULT_SUCCESS
    · simp only [hRestore, h2, h3, h4, hNode, if_true, Function.update_same, ne_eq,
        not_true_eq_false, not_false_eq_true, false_imp_iff, true_imp_iff, true_and, and_true]
      intro file hFile
      simp [Function.update, hFile]
    · simp only [hRestore, h2, h3, h4, if_true, if_false, Function.update_same, ne_eq,
        not_true_eq_false, not_false_eq_true, false_imp_iff, true_imp_iff, true_and, and_true,
        and_false, false_and, and_self]
      intro file hFile
      simp [Function.update, hFile]
  by_cases h5 : handle.pSysfsAccess.readResult (handle.pSysfsAccess.accessCount + 5)
        (handle.i915HwmonDir ++ "/" ++ LinuxPowerImp.sustainedPowerLimit)
        = ze_result_t.ZE_RESULT_SUCCESS
  swap
  · have h := getProperties_of_failed_max_read handle pProperties hDevice hDefault hRead h2 h3
      h4 h5
    have hCount : handle.pSysfsAccess.accessCount + 7 - 1
        = handle.pSysfsAccess.accessCount + 6 := by
      omega
    rw [h.2.2.2.2.1, h.2.2.2.2.2, hCount]
    by_cases hRestore : handle.pSysfsAccess.writeResult (handle.pSysfsAccess.accessCount + 6)
        (handle.i915HwmonDir ++ "/" ++ LinuxPowerImp.sustainedPowerLimit)
        = ze_result_t.ZE_RESULT_SUCCESS
    · simp only [hRestore, h2, h3, h4, h5, hNode, if_true, Function.update_same, ne_eq,
        not_true_eq_false, not_false_eq_true, false_imp_iff, true_imp_iff, true_and, and_true]
      intro file hFile
      simp [Function.update, hFile]
    · simp only [hRestore, h2, h3, h4, h5, if_true, if_false, Function.update_same, ne_eq,
        not_true_eq_false, not_false_eq_true, false_imp_iff, true_imp_iff, true_and, and_true,
        and_false, false_and, and_self]
      intro file hFile
      simp [Function.update, hFile]
  have h := getProperties_of_all_accesses handle pProperties hDevice hDefault hRead h2 h3 h4 h5
  have hCount : handle.pSysfsAccess.accessCount + 7 - 1
      = handle.pSysfsAccess.accessCount + 6 := by
    omega
  rw [h.2.2.2.2.1, h.2.2.2.2.2, hCount]
  by_cases hRestore : handle.pSysfsAccess.writeResult (handle.pSysfsAccess.accessCount + 6)
        (handle.i915HwmonDir ++ "/" ++ LinuxPowerImp.sustainedPowerLimit)
      = ze_result_t.ZE_RESULT_SUCCESS
  · simp only [hRestore, h2, h3, h4, h5, hNode, if_true, Function.update_same, ne_eq,
      not_true_eq_false, not_false_eq_true, false_imp_iff, true_imp_iff, true_and, and_true]
    intro file hFile
    simp [Function.update, hFile]
  · simp only [hRestore, h2, h3, h4, h5, if_true, if_false, Function.update_same, ne_eq,
      not_true_eq_false, not_false_eq_true, false_imp_iff, true_imp_iff, true_and, and_true,
      and_false, false_and, and_self]
    intro file hFile
    simp [Function.update, hFile]
/-- On the handle whose restoring write fails after a complete probing the
sustained-limit node is left at the maximum probe. -/
theorem getProperties_restores_sustained_limit_witness :
    (fixturePowerHandleOver fixtureSysfsRestoreFails).isSubdevice = false
    ∧ ((fixturePowerHandleOver fixtureSysfsRestoreFails).getProperties
        fixtureProperties).2.2.pSysfsAccess.nodes "device/hwmon/hwmon1/power1_max"
      = 2147483647 :=
  ⟨rfl,
    (getProperties_restores_sustained_limit (fixturePowerHandleOver fixtureSysfsRestoreFails)
      fixtureProperties rfl rfl rfl (by decide)).2.1 (by decide)⟩

end L0

/-! ## Sysman power: module support -/

namespace L0

theorem LinuxPowerImp.isHwmonDir_congr (first second : LinuxPowerImp)
    (hSubdevice : first.isSubdevice = second.isSubdevice)
    (hId : first.subdeviceId = second.subdeviceId) (name : String) :
    first.isHwmonDir name = second.isHwmonDir name := by
  unfold LinuxPowerImp.isHwmonDir
  rw [hSubdevice, hId]

theorem LinuxPowerImp.isPowerModuleSupportedLoop_fst (entries : List String) :
    ∀ (handle : LinuxPowerImp) (hwmonDirExists : Bool),
      (handle.isPowerModuleSupportedLoop hwmonDirExists entries).1 = true
        ↔ hwmonDirExists = true
          ∨ ∃ index entry, entries[index]? = some entry
            ∧ handle.pSysfsAccess.readResult (handle.pSysfsAccess.accessCount + index)
                (LinuxPowerImp.hwmonDir ++ "/" ++ entry ++ "/" ++ "name")
              = ze_result_t.ZE_RESULT_SUCCESS
            ∧ handle.isHwmonDir (handle.pSysfsAccess.strings
                (LinuxPowerImp.hwmonDir ++ "/" ++ entry ++ "/" ++ "name")) = true := by
  induction entries with
  | nil =>
    intro handle hwmonDirExists
    simp [LinuxPowerImp.isPowerModuleSupportedLoop]
  | cons first rest ih =>
    intro handle hwmonDirExists
    have hStep : ∀ (next : LinuxPowerImp) (found : Bool),
        next.pSysfsAccess.readResult = handle.pSysfsAccess.readResult →
        next.pSysfsAccess.strings = handle.pSysfsAccess.strings →
        next.pSysfsAccess.accessCount = handle.pSysfsAccess.accessCount + 1 →
        next.isSubdevice = handle.isSubdevice →
        next.subdeviceId = handle.subdeviceId →
        ((next.isPowerModuleSupportedLoop found rest).1 = true
          ↔ found = true
            ∨ ∃ index entry, rest[index]? = some entry
              ∧ handle.pSysfsAccess.readResult (handle.pSysfsAccess.accessCount + (index + 1))
                  (LinuxPowerImp.hwmonDir ++ "/" ++ entry ++ "/" ++ "name")
                = ze_result_t.ZE_RESULT_SUCCESS
              ∧ handle.isHwmonDir (handle.pSysfsAccess.strings
                  (LinuxPowerImp.hwmonDir ++ "/" ++ entry ++ "/" ++ "name")) = true) := by
      intro next found hResult hStrings hCount hSubdevice hId
      rw [ih next found, hResult, hStrings, hCount]
      simp only [LinuxPowerImp.isHwmonDir_congr next handle hSubdevice hId, Nat.add_assoc,
        Nat.add_comm 1]
    have hSplit : ∀ (found : Bool),
        (found = true
          ∨ ∃ index entry, (first :: rest)[index]? = some entry
            ∧ handle.pSysfsAccess.readResult (handle.pSysfsAccess.accessCount + index)
                (LinuxPowerImp.hwmonDir ++ "/" ++ entry ++ "/" ++ "name")
              = ze_result_t.ZE_RESULT_SUCCESS
            ∧ handle.isHwmonDir (handle.pSysfsAccess.strings
                (LinuxPowerImp.hwmonDir ++ "/" ++ entry ++ "/" ++ "name")) = true)
        ↔ (found = true
          ∨ (handle.pSysfsAccess.readResult handle.pSysfsAccess.accessCount
                (LinuxPowerImp.hwmonDir ++ "/" ++ first ++ "/" ++ "name")
              = ze_result_t.ZE_RESULT_SUCCESS
            ∧ handle.isHwmonDir (handle.pSysfsAccess.strings
                (LinuxPowerImp.hwmonDir ++ "/" ++ first ++ "/" ++ "name")) = true)
          ∨ ∃ index entry, rest[index]? = some entry
            ∧ handle.pSysfsAccess.readResult (handle.pSysfsAccess.accessCount + (index + 1))
                (LinuxPowerImp.hwmonDir ++ "/" ++ entry ++ "/" ++ "name")
              = ze_result_t.ZE_RESULT_SUCCESS
            ∧ handle.isHwmonDir (handle.pSysfsAccess.strings
                (LinuxPowerImp.hwmonDir ++ "/" ++ entry ++ "/" ++ "name")) = true) := by
      intro found
      constructor
      · rintro (hFound | ⟨index, entry, hEntry, hRead, hDir⟩)
        · exact Or.inl hFound
        · cases index with
          | zero =>
            simp only [List.getElem?_cons_zero, Option.some.injEq] at hEntry
            subst hEntry
            exact Or.inr (Or.inl ⟨hRead, hDir⟩)
          | succ index =>
            simp only [List.getElem?_cons_succ] at hEntry
            exact Or.inr (Or.inr ⟨index, entry, hEntry, hRead, hDir⟩)
      · rintro (hFound | ⟨hRead, hDir⟩ | ⟨index, entry, hEntry, hRead, hDir⟩)
        · exact Or.inl hFound
        · exact Or.inr ⟨0, first, by simp, hRead, hDir⟩
        · exact Or.inr ⟨index + 1, entry, by simpa using hEntry, hRead, hDir⟩
    rw [hSplit]
    unfold LinuxPowerImp.isPowerModuleSupportedLoop
    simp only [SysfsAccess.readString_fst, SysfsAccess.readString_val,
      SysfsAccess.readString_snd, success_eq_iff]
    by_cases hRead : handle.pSysfsAccess.readResult handle.pSysfsAccess.accessCount
        (LinuxPowerImp.hwmonDir ++ "/" ++ first ++ "/" ++ "name")
        = ze_result_t.ZE_RESULT_SUCCESS
    · by_cases hDir : handle.isHwmonDir (handle.pSysfsAccess.strings
          (LinuxPowerImp.hwmonDir ++ "/" ++ first ++ "/" ++ "name")) = true
      · have hSame := LinuxPowerImp.isHwmonDir_congr
          { handle with
            pSysfsAccess :=
              { handle.pSysfsAccess with accessCount := handle.pSysfsAccess.accessCount + 1 } }
          handle rfl rfl
        simp only [hRead, hSame, hDir, ne_eq, success_eq_iff, not_true_eq_false, if_true,
          if_false]
        refine Iff.trans (hStep _ _ rfl rfl rfl rfl rfl) ?_
        simp
      · have hSame := LinuxPowerImp.isHwmonDir_congr
          { handle with
            pSysfsAccess :=
              { handle.pSysfsAccess with accessCount := handle.pSysfsAccess.accessCount + 1 } }
          handle rfl rfl
        simp only [hRead, hSame, hDir, ne_eq, success_eq_iff, not_true_eq_false, if_true,
          if_false]
        refine Iff.trans (hStep _ _ rfl rfl rfl rfl rfl) ?_
        simp [hDir]
    · simp only [hRead, ne_eq, success_eq_iff, not_false_eq_true, if_true]
      refine Iff.trans (hStep _ _ ?_ ?_ ?_ ?_ ?_) ?_
      · rfl
      · rfl
      · rfl
      · rfl
      · rfl
      · simp [hRead]

end L0

namespace L0

theorem LinuxPowerImp.isHwmonDir_iff (handle : LinuxPowerImp) (name : String) :
    handle.isHwmonDir name = true
      ↔ name = if handle.isSubdevice = true then
            LinuxPowerImp.i915 ++ "_gt" ++ toString handle.subdeviceId
          else LinuxPowerImp.i915 := by
  unfold LinuxPowerImp.isHwmonDir
  by_cases hSubdevice : handle.isSubdevice = true
  · simp only [hSubdevice, if_true]
    split <;> simp_all
  · simp only [hSubdevice, if_false]
    split <;> simp_all

theorem sysman_isHwmonDir_iff (handle : Sysman.LinuxPowerImp) (name : String) :
    handle.isHwmonDir name = true
      ↔ handle.isSubdevice = false
        ∧ name = handle.pSysmanKmdInterface.getHwmonName handle.subdeviceId
            handle.isSubdevice := by
  unfold Sysman.LinuxPowerImp.isHwmonDir
  simp

theorem sysman_isHwmonDir_congr (first second : Sysman.LinuxPowerImp)
    (hSubdevice : first.isSubdevice = second.isSubdevice)
    (hId : first.subdeviceId = second.subdeviceId)
    (hInterface : first.pSysmanKmdInterface = second.pSysmanKmdInterface) (name : String) :
    first.isHwmonDir name = second.isHwmonDir name := by
  unfold Sysman.LinuxPowerImp.isHwmonDir
  rw [hSubdevice, hId, hInterface]

theorem sysman_isPowerModuleSupportedLoop_fst (entries : List String) :
    ∀ (handle : Sysman.LinuxPowerImp) (hwmonDirExists : Bool),
      (handle.isPowerModuleSupportedLoop hwmonDirExists entries).1 = true
        ↔ hwmonDirExists = true
          ∨ ∃ index entry, entries[index]? = some entry
            ∧ handle.pSysfsAccess.readResult (handle.pSysfsAccess.accessCount + index)
                ("device/hwmon" ++ "/" ++ entry ++ "/" ++ "name")
              = ze_result_t.ZE_RESULT_SUCCESS
            ∧ handle.isHwmonDir (handle.pSysfsAccess.strings
                ("device/hwmon" ++ "/" ++ entry ++ "/" ++ "name")) = true := by
  induction entries with
  | nil =>
    intro handle hwmonDirExists
    simp [Sysman.LinuxPowerImp.isPowerModuleSupportedLoop]
  | cons first rest ih =>
    intro handle hwmonDirExists
    have hStep : ∀ (next : Sysman.LinuxPowerImp) (found : Bool),
        next.pSysfsAccess.readResult = handle.pSysfsAccess.readResult →
        next.pSysfsAccess.strings = handle.pSysfsAccess.strings →
        next.pSysfsAccess.accessCount = handle.pSysfsAccess.accessCount + 1 →
        next.isSubdevice = handle.isSubdevice →
        next.subdeviceId = handle.subdeviceId →
        next.pSysmanKmdInterface = handle.pSysmanKmdInterface →
        ((next.isPowerModuleSupportedLoop found rest).1 = true
          ↔ found = true
            ∨ ∃ index entry, rest[index]? = some entry
              ∧ handle.pSysfsAccess.readResult (handle.pSysfsAccess.accessCount + (index + 1))
                  ("device/hwmon" ++ "/" ++ entry ++ "/" ++ "name")
                = ze_result_t.ZE_RESULT_SUCCESS
              ∧ handle.isHwmonDir (handle.pSysfsAccess.strings
                  ("device/hwmon" ++ "/" ++ entry ++ "/" ++ "name")) = true) := by
      intro next found hResult hStrings hCount hSubdevice hId hInterface
      rw [ih next found, hResult, hStrings, hCount]
      simp only [sysman_isHwmonDir_congr next handle hSubdevice hId hInterface, Nat.add_assoc,
        Nat.add_comm 1]
    have hSplit : ∀ (found : Bool),
        (found = true
          ∨ ∃ index entry, (first :: rest)[index]? = some entry
            ∧ handle.pSysfsAccess.readResult (handle.pSysfsAccess.accessCount + index)
                ("device/hwmon" ++ "/" ++ entry ++ "/" ++ "name")
              = ze_result_t.ZE_RESULT_SUCCESS
            ∧ handle.isHwmonDir (handle.pSysfsAccess.strings
                ("device/hwmon" ++ "/" ++ entry ++ "/" ++ "name")) = true)
        ↔ (found = true
          ∨ (handle.pSysfsAccess.readResult handle.pSysfsAccess.accessCount
                ("device/hwmon" ++ "/" ++ first ++ "/" ++ "name")
              = ze_result_t.ZE_RESULT_SUCCESS
            ∧ handle.isHwmonDir (handle.pSysfsAccess.strings
                ("device/hwmon" ++ "/" ++ first ++ "/" ++ "name")) = true)
          ∨ ∃ index entry, rest[index]? = some entry
            ∧ handle.pSysfsAccess.readResult (handle.pSysfsAccess.accessCount + (index + 1))
                ("device/hwmon" ++ "/" ++ entry ++ "/" ++ "name")
              = ze_result_t.ZE_RESULT_SUCCESS
            ∧ handle.isHwmonDir (handle.pSysfsAccess.strings
                ("device/hwmon" ++ "/" ++ entry ++ "/" ++ "name")) = true) := by
      intro found
      constructor
      · rintro (hFound | ⟨index, entry, hEntry, hRead, hDir⟩)
        · exact Or.inl hFound
        · cases index with
          | zero =>
            simp only [List.getElem?_cons_zero, Option.some.injEq] at hEntry
            subst hEntry
            exact Or.inr (Or.inl ⟨hRead, hDir⟩)
          | succ index =>
            simp only [List.getElem?_cons_succ] at hEntry
            exact Or.inr (Or.inr ⟨index, entry, hEntry, hRead, hDir⟩)
      · rintro (hFound | ⟨hRead, hDir⟩ | ⟨index, entry, hEntry, hRead, hDir⟩)
        · exact Or.inl hFound
        · exact Or.inr ⟨0, first, by simp, hRead, hDir⟩
        · exact Or.inr ⟨index + 1, entry, by simpa using hEntry, hRead, hDir⟩
    rw [hSplit]
    unfold Sysman.LinuxPowerImp.isPowerModuleSupportedLoop
    simp only [SysfsAccess.readString_fst, SysfsAccess.readString_val,
      SysfsAccess.readString_snd, success_eq_iff]
    by_cases hRead : handle.pSysfsAccess.readResult handle.pSysfsAccess.accessCount
        ("device/hwmon" ++ "/" ++ first ++ "/" ++ "name")
        = ze_result_t.ZE_RESULT_SUCCESS
    · by_cases hDir : handle.isHwmonDir (handle.pSysfsAccess.strings
          ("device/hwmon" ++ "/" ++ first ++ "/" ++ "name")) = true
      · have hSame := sysman_isHwmonDir_congr
          { handle with
            pSysfsAccess :=
              { handle.pSysfsAccess with accessCount := handle.pSysfsAccess.accessCount + 1 } }
          handle rfl rfl rfl
        simp only [hRead, hSame, hDir, ne_eq, success_eq_iff, not_true_eq_false, if_true,
          if_false]
        refine Iff.trans (hStep _ _ rfl rfl rfl rfl rfl rfl) ?_
        simp
      · have hSame := sysman_isHwmonDir_congr
          { handle with
            pSysfsAccess :=
              { handle.pSysfsAccess with accessCount := handle.pSysfsAccess.accessCount + 1 } }
          handle rfl rfl rfl
        simp only [hRead, hSame, hDir, ne_eq, success_eq_iff, not_true_eq_false, if_true,
          if_false]
        refine Iff.trans (hStep _ _ rfl rfl rfl rfl rfl rfl) ?_
        simp [hDir]
    · simp only [hRead, ne_eq, success_eq_iff, not_false_eq_true, if_true]
      refine Iff.trans (hStep _ _ ?_ ?_ ?_ ?_ ?_ ?_) ?_
      · rfl
      · rfl
      · rfl
      · rfl
      · rfl
      · rfl
      · simp [hRead]


end L0

namespace L0

theorem fst_ite_or {State : Type} (found pmt : Bool) (first second : State) :
    (if found = false then (pmt, first) else (true, second)).1 = (found || pmt) := by
  cases found <;> rfl

theorem LinuxPowerImp.isPowerModuleSupported_fst (handle : LinuxPowerImp) :
    (handle.isPowerModuleSupported).1
      = ((LinuxPowerImp.isPowerModuleSupportedLoop
            { handle with
              pSysfsAccess :=
                { handle.pSysfsAccess with
                  accessCount := handle.pSysfsAccess.accessCount + 1 } }
            false
            (if handle.pSysfsAccess.scanDirEntriesResult handle.pSysfsAccess.accessCount
                LinuxPowerImp.hwmonDir = ze_result_t.ZE_RESULT_SUCCESS then
              handle.pSysfsAccess.dirEntries LinuxPowerImp.hwmonDir
            else [])).1
          || handle.pPmt.isSome) := by
  unfold LinuxPowerImp.isPowerModuleSupported
  simp only [SysfsAccess.scanDirEntries_val, SysfsAccess.scanDirEntries_snd]
  exact fst_ite_or _ _ _ _

theorem sysman_isPowerModuleSupported_fst (handle : Sysman.LinuxPowerImp) :
    (handle.isPowerModuleSupported).1
      = ((Sysman.LinuxPowerImp.isPowerModuleSupportedLoop
            { handle with
              pSysfsAccess :=
                { handle.pSysfsAccess with
                  accessCount := handle.pSysfsAccess.accessCount + 1 } }
            false
            (if handle.pSysfsAccess.scanDirEntriesResult handle.pSysfsAccess.accessCount
                "device/hwmon" = ze_result_t.ZE_RESULT_SUCCESS then
              handle.pSysfsAccess.dirEntries "device/hwmon"
            else [])).1
          || handle.pPmt.isSome) := by
  unfold Sysman.LinuxPowerImp.isPowerModuleSupported
  simp only [SysfsAccess.scanDirEntries_val, SysfsAccess.scanDirEntries_snd]
  exact fst_ite_or _ _ _ _

/-- A tile-level handle of the Sysman layer finds the hwmon directory whose
name file is readable and holds the name `getHwmonName` gives for the handle,
yet without a telemetry reader `isPowerModuleSupported` returns `false`
(C22 as stated fails for the Sysman layer). -/
theorem isPowerModuleSupported_subdevice_counterexample :
    Sysman.fixtureTilePowerHandle.pSysfsAccess.scanDirEntriesResult 0 "device/hwmon"
        = ze_result_t.ZE_RESULT_SUCCESS
    ∧ (Sysman.fixtureTilePowerHandle.pSysfsAccess.dirEntries "device/hwmon")[1]?
        = some "hwmon2"
    ∧ Sysman.fixtureTilePowerHandle.pSysfsAccess.readResult 2 "device/hwmon/hwmon2/name"
        = ze_result_t.ZE_RESULT_SUCCESS
    ∧ Sysman.fixtureTilePowerHandle.pSysfsAccess.strings "device/hwmon/hwmon2/name"
        = Sysman.fixtureTilePowerHandle.pSysmanKmdInterface.getHwmonName
            Sysman.fixtureTilePowerHandle.subdeviceId
            Sysman.fixtureTilePowerHandle.isSubdevice
    ∧ Sysman.fixtureTilePowerHandle.pPmt.isSome = false
    ∧ (Sysman.fixtureTilePowerHandle.isPowerModuleSupported).1 = false := by
  decide

/-- C22, amended: `isPowerModuleSupported` returns `true` exactly when the
scan of `device/hwmon` succeeds and one of the scanned directories has a name
file that is readable at its turn and holds the expected name, or a telemetry
reader exists.  In the tools layer the expected name is `i915` for a
device-level handle and `i915_gt<subdeviceId>` for a tile; in the Sysman layer
it is the name `getHwmonName` gives, and only a device-level handle matches.
When the scan fails the result is `pPmt != nullptr` in both layers. -/
theorem isPowerModuleSupported_iff (tools : LinuxPowerImp)
    (sysman : Sysman.LinuxPowerImp) :
    ((tools.isPowerModuleSupported).1 = true
      ↔ (tools.pSysfsAccess.scanDirEntriesResult tools.pSysfsAccess.accessCount
            LinuxPowerImp.hwmonDir = ze_result_t.ZE_RESULT_SUCCESS
          ∧ ∃ index entry,
            (tools.pSysfsAccess.dirEntries LinuxPowerImp.hwmonDir)[index]? = some entry
            ∧ tools.pSysfsAccess.readResult (tools.pSysfsAccess.accessCount + 1 + index)
                (LinuxPowerImp.hwmonDir ++ "/" ++ entry ++ "/" ++ "name")
              = ze_result_t.ZE_RESULT_SUCCESS
            ∧ tools.pSysfsAccess.strings
                (LinuxPowerImp.hwmonDir ++ "/" ++ entry ++ "/" ++ "name")
              = if tools.isSubdevice = true then
                  LinuxPowerImp.i915 ++ "_gt" ++ toString tools.subdeviceId
                else LinuxPowerImp.i915)
        ∨ tools.pPmt.isSome = true)
    ∧ (tools.pSysfsAccess.scanDirEntriesResult tools.pSysfsAccess.accessCount
          LinuxPowerImp.hwmonDir ≠ ze_result_t.ZE_RESULT_SUCCESS →
        (tools.isPowerModuleSupported).1 = tools.pPmt.isSome)
    ∧ ((sysman.isPowerModuleSupported).1 = true
      ↔ (sysman.pSysfsAccess.scanDirEntriesResult sysman.pSysfsAccess.accessCount
            "device/hwmon" = ze_result_t.ZE_RESULT_SUCCESS
          ∧ sysman.isSubdevice = false
          ∧ ∃ index entry,
            (sysman.pSysfsAccess.dirEntries "device/hwmon")[index]? = some entry
            ∧ sysman.pSysfsAccess.readResult (sysman.pSysfsAccess.accessCount + 1 + index)
                ("device/hwmon" ++ "/" ++ entry ++ "/" ++ "name")
              = ze_result_t.ZE_RESULT_SUCCESS
            ∧ sysman.pSysfsAccess.strings ("device/hwmon" ++ "/" ++ entry ++ "/" ++ "name")
              = sysman.pSysmanKmdInterface.getHwmonName sysman.subdeviceId
                  sysman.isSubdevice)
        ∨ sysman.pPmt.isSome = true)
    ∧ (sysman.pSysfsAccess.scanDirEntriesResult sysman.pSysfsAccess.accessCount
          "device/hwmon" ≠ ze_result_t.ZE_RESULT_SUCCESS →
        (sysman.isPowerModuleSupported).1 = sysman.pPmt.isSome) := by
  rw [LinuxPowerImp.isPowerModuleSupported_fst, sysman_isPowerModuleSupported_fst]
  simp only [Bool.or_eq_true, LinuxPowerImp.isPowerModuleSupportedLoop_fst,
    sysman_isPowerModuleSupportedLoop_fst, Bool.false_eq_true, false_or]
  refine ⟨?_, ?_, ?_, ?_⟩
  · by_cases hScan : tools.pSysfsAccess.scanDirEntriesResult tools.pSysfsAccess.accessCount
        LinuxPowerImp.hwmonDir = ze_result_t.ZE_RESULT_SUCCESS
    · simp only [hScan, if_true, true_and]
      have hSame := LinuxPowerImp.isHwmonDir_congr
        { tools with
          pSysfsAccess :=
            { tools.pSysfsAccess with accessCount := tools.pSysfsAccess.accessCount + 1 } }
        tools rfl rfl
      simp only [hSame, LinuxPowerImp.isHwmonDir_iff]
    · simp [hScan]
  · intro hScan
    simp [hScan, LinuxPowerImp.isPowerModuleSupportedLoop_fst]
  · by_cases hScan : sysman.pSysfsAccess.scanDirEntriesResult sysman.pSysfsAccess.accessCount
        "device/hwmon" = ze_result_t.ZE_RESULT_SUCCESS
    · simp only [hScan, if_true, true_and]
      have hSame := sysman_isHwmonDir_congr
        { sysman with
          pSysfsAccess :=
            { sysman.pSysfsAccess with accessCount := sysman.pSysfsAccess.accessCount + 1 } }
        sysman rfl rfl rfl
      simp only [hSame, sysman_isHwmonDir_iff]
      constructor
      · rintro (⟨index, entry, hEntry, hRead, hDevice, hName⟩ | hPmt)
        · exact Or.inl ⟨hDevice, index, entry, hEntry, hRead, hName⟩
        · exact Or.inr hPmt
      · rintro (⟨hDevice, index, entry, hEntry, hRead, hName⟩ | hPmt)
        · exact Or.inl ⟨index, entry, hEntry, hRead, hDevice, hName⟩
        · exact Or.inr hPmt
    · simp [hScan]
  · intro hScan
    simp [hScan, sysman_isPowerModuleSupportedLoop_fst]

end L0

/-! ## Sysman power: partial effect of `setLimitsExt` -/

namespace L0

theorem LinuxPowerImp.setLimitsExtLoop_frame (descs : List zes_power_limit_ext_desc_t) :
    ∀ (handle : LinuxPowerImp),
      (handle.setLimitsExtLoop descs).2.i915HwmonDir = handle.i915HwmonDir
      ∧ (handle.setLimitsExtLoop descs).2.productFamily = handle.productFamily
      ∧ ∀ file,
          file ≠ handle.i915HwmonDir ++ "/" ++ LinuxPowerImp.sustainedPowerLimit →
          file ≠ handle.i915HwmonDir ++ "/" ++ LinuxPowerImp.sustainedPowerLimitInterval →
          file ≠ handle.i915HwmonDir ++ "/" ++ handle.criticalPowerLimit →
          (handle.setLimitsExtLoop descs).2.pSysfsAccess.nodes file
            = handle.pSysfsAccess.nodes file := by
  induction descs with
  | nil =>
    intro handle
    exact ⟨rfl, rfl, fun _ _ _ _ => rfl⟩
  | cons desc rest ih =>
    intro handle
    unfold LinuxPowerImp.setLimitsExtLoop
    simp only [SysfsAccess.write_fst, SysfsAccess.write_snd]
    split_ifs
    all_goals first
      | exact ⟨rfl, rfl, fun _ _ _ _ => rfl⟩
      | (refine ⟨rfl, rfl, ?_⟩
         intro file hSustained hInterval hCritical
         simp [Function.update, hSustained, hInterval, hCritical])
      | (refine ⟨(ih _).1, (ih _).2.1, ?_⟩
         intro file hSustained hInterval hCritical
         refine ((ih _).2.2 file ?_ ?_ ?_).trans ?_
         · exact hSustained
         · exact hInterval
         · exact hCritical
         · simp [Function.update, hSustained, hInterval, hCritical])

/-- After a sustained descriptor is written, a descriptor of an unsupported
level makes `setLimitsExt` return `ZE_RESULT_ERROR_UNSUPPORTED_FEATURE` with
the sustained-limit node already changed from `0`; and when the write of the
interval fails the error is returned with the limit already written (C24 as
stated fails). -/
theorem setLimitsExt_error_after_write_counterexample :
    ((fixturePowerHandle PRODUCT_FAMILY.IGFX_PVC).setLimitsExt 2
        [fixtureSustainedDesc 300000 10, fixtureBurstDesc 1]).1
      = ze_result_t.ZE_RESULT_ERROR_UNSUPPORTED_FEATURE
    ∧ (fixturePowerHandle PRODUCT_FAMILY.IGFX_PVC).pSysfsAccess.nodes
        "device/hwmon/hwmon1/power1_max" = 0
    ∧ ((fixturePowerHandle PRODUCT_FAMILY.IGFX_PVC).setLimitsExt 2
        [fixtureSustainedDesc 300000 10, fixtureBurstDesc 1]).2.pSysfsAccess.nodes
        "device/hwmon/hwmon1/power1_max" = 300000000
    ∧ ((fixturePowerHandleOver fixtureSysfsSecondWriteFails).setLimitsExt 1
        [fixtureSustainedDesc 300000 10]).1
      = ze_result_t.ZE_RESULT_ERROR_INSUFFICIENT_PERMISSIONS
    ∧ (fixturePowerHandleOver fixtureSysfsSecondWriteFails).pSysfsAccess.nodes
        "device/hwmon/hwmon1/power1_max" = 0
    ∧ ((fixturePowerHandleOver fixtureSysfsSecondWriteFails).setLimitsExt 1
        [fixtureSustainedDesc 300000 10]).2.pSysfsAccess.nodes
        "device/hwmon/hwmon1/power1_max" = 300000000 := by
  decide

/-- The frame of `setLimitsExt`: no node other than the sustained-limit, the
sustained-interval and the critical-limit node of the handle is modified; a
call on a tile-level handle returns `ZE_RESULT_ERROR_UNSUPPORTED_FEATURE` and
modifies nothing; and a call whose first descriptor has a level that is
neither SUSTAINED nor PEAK returns `ZE_RESULT_ERROR_UNSUPPORTED_FEATURE` and
modifies nothing. -/
theorem setLimitsExt_partial_effect (handle : LinuxPowerImp) (pCount : Nat)
    (pSustained : List zes_power_limit_ext_desc_t) :
    (∀ file,
        file ≠ handle.i915HwmonDir ++ "/" ++ LinuxPowerImp.sustainedPowerLimit →
        file ≠ handle.i915HwmonDir ++ "/" ++ LinuxPowerImp.sustainedPowerLimitInterval →
        file ≠ handle.i915HwmonDir ++ "/" ++ handle.criticalPowerLimit →
        (handle.setLimitsExt pCount pSustained).2.pSysfsAccess.nodes file
          = handle.pSysfsAccess.nodes file)
    ∧ (handle.isSubdevice = true →
        handle.setLimitsExt pCount pSustained
          = (ze_result_t.ZE_RESULT_ERROR_UNSUPPORTED_FEATURE, handle))
    ∧ (∀ desc rest, pSustained.take pCount = desc :: rest →
        desc.level ≠ zes_power_level_t.ZES_POWER_LEVEL_SUSTAINED →
        desc.level ≠ zes_power_level_t.ZES_POWER_LEVEL_PEAK →
        handle.setLimitsExt pCount pSustained
          = (ze_result_t.ZE_RESULT_ERROR_UNSUPPORTED_FEATURE, handle)) := by
  refine ⟨?_, ?_, ?_⟩
  · intro file hSustained hInterval hCritical
    have hFrame := (LinuxPowerImp.setLimitsExtLoop_frame (pSustained.take pCount)
      handle).2.2 file hSustained hInterval hCritical
    unfold LinuxPowerImp.setLimitsExt
    split
    · rfl
    · split
      · rename_i hLoop
        rw [hLoop] at hFrame
        exact hFrame
      · rename_i hLoop
        rw [hLoop] at hFrame
        exact hFrame
  · intro hSubdevice
    unfold LinuxPowerImp.setLimitsExt
    simp [hSubdevice]
  · intro desc rest hTake hSustained hPeak
    unfold LinuxPowerImp.setLimitsExt
    rw [hTake]
    unfold LinuxPowerImp.setLimitsExtLoop
    simp only [hSustained, hPeak, if_false]
    split <;> rfl

end L0

/-! ## Sysman power: the count of limits -/

namespace L0

theorem LinuxPowerImp.isPowerModuleSupportedLoop_powerLimitCount (entries : List String) :
    ∀ (handle : LinuxPowerImp) (hwmonDirExists : Bool),
      (handle.isPowerModuleSupportedLoop hwmonDirExists entries).2.powerLimitCount
          = handle.powerLimitCount
        ∧ (handle.isPowerModuleSupportedLoop hwmonDirExists entries).2.isSubdevice
          = handle.isSubdevice := by
  induction entries with
  | nil =>
    intro handle hwmonDirExists
    exact ⟨rfl, rfl⟩
  | cons first rest ih =>
    intro handle hwmonDirExists
    unfold LinuxPowerImp.isPowerModuleSupportedLoop
    simp only
    split
    · exact ih _ _
    · split
      · exact ih _ _
      · exact ih _ _

theorem snd_ite_same {State : Type} (found pmt : Bool) (state : State) :
    (if found = false then (pmt, state) else (true, state)).2 = state := by
  cases found <;> rfl

/-- One call of `isPowerModuleSupported` raises the count of limits by at most
two, and a tile-level handle keeps its count. -/
theorem isPowerModuleSupported_powerLimitCount_le (handle : LinuxPowerImp)
    (hCount : handle.powerLimitCount + 2 < 2 ^ 32) :
    handle.powerLimitCount ≤ (handle.isPowerModuleSupported).2.powerLimitCount
    ∧ (handle.isPowerModuleSupported).2.powerLimitCount ≤ handle.powerLimitCount + 2 := by
  have hLoop := LinuxPowerImp.isPowerModuleSupportedLoop_powerLimitCount
    (handle.pSysfsAccess.scanDirEntries LinuxPowerImp.hwmonDir).2.1
    { handle with
      pSysfsAccess := (handle.pSysfsAccess.scanDirEntries LinuxPowerImp.hwmonDir).2.2 }
    false
  simp only [] at hLoop
  unfold LinuxPowerImp.isPowerModuleSupported
  simp only [snd_ite_same, hLoop.1, hLoop.2]
  split_ifs <;> first | omega | (simp only []; omega)

/-- C25: the count of limits is not bounded by two.  On the handle
`OsPower::create` makes, whose count starts at `0`, a first call of
`isPowerModuleSupported` over readable limit nodes brings the count to `2` and
a second call to `4`: the function increments `powerLimitCount` and never
clears it.  `getLimitsExt` then reports `4` limits, and asked for four it
fills the first two descriptors only and leaves the other two as they were. -/
theorem isPowerModuleSupported_twice_counts_four :
    fixtureCreatedPowerHandle.isSubdevice = false
    ∧ fixtureCreatedPowerHandle.powerLimitCount = 0
    ∧ (fixtureCreatedPowerHandle.isPowerModuleSupported).2.powerLimitCount = 2
    ∧ fixtureTwiceSupportedPowerHandle.powerLimitCount = 4
    ∧ (fixtureTwiceSupportedPowerHandle.getLimitsExt 0 none).2.1 = 4
    ∧ (fixtureTwiceSupportedPowerHandle.getLimitsExt 4
        (some (List.replicate 4 (fixtureSustainedDesc 7 7)))).2.1 = 4
    ∧ ((fixtureTwiceSupportedPowerHandle.getLimitsExt 4
        (some (List.replicate 4 (fixtureSustainedDesc 7 7)))).2.2.1.map (List.drop 2))
      = some [fixtureSustainedDesc 7 7, fixtureSustainedDesc 7 7] := by
  decide

end L0

/-! ## DG1 steppings -/

namespace NEO

/-- C30: for DG1 the stepping of the revision id `getHwRevIdFromStepping`
gives for `REVISION_A0` or `REVISION_B` is that stepping again, and the
revision id of the stepping `getSteppingFromHwRevId` gives for the revision id
`0` or `1` is that revision id again; every other stepping and every other
revision id gives `CommonConstants::invalidStepping`.  The enumerators are
case labels of one `switch`, so they differ. -/
theorem dg1_stepping_round_trip (constants : SteppingConstants) (hwInfo : HardwareInfo)
    (hLabels : constants.REVISION_A0 ≠ constants.REVISION_B) :
    (∀ stepping, stepping = constants.REVISION_A0 ∨ stepping = constants.REVISION_B →
        getSteppingFromHwRevId constants
          { hwInfo with
            platform :=
              { hwInfo.platform with
                usRevId := getHwRevIdFromStepping constants stepping hwInfo % 2 ^ 16 } }
          = stepping)
    ∧ (∀ revision, revision = 0 ∨ revision = 1 →
        getHwRevIdFromStepping constants
          (getSteppingFromHwRevId constants
            { hwInfo with platform := { hwInfo.platform with usRevId := revision } })
          hwInfo = revision)
    ∧ (∀ stepping, stepping ≠ constants.REVISION_A0 → stepping ≠ constants.REVISION_B →
        getHwRevIdFromStepping constants stepping hwInfo = constants.invalidStepping)
    ∧ (hwInfo.platform.usRevId ≠ 0 → hwInfo.platform.usRevId ≠ 1 →
        getSteppingFromHwRevId constants hwInfo = constants.invalidStepping) := by
  refine ⟨?_, ?_, ?_, ?_⟩
  · rintro stepping (hStepping | hStepping)
    · subst hStepping
      simp [getSteppingFromHwRevId, getHwRevIdFromStepping]
    · subst hStepping
      simp [getSteppingFromHwRevId, getHwRevIdFromStepping, Ne.symm hLabels]
  · rintro revision (hRevision | hRevision)
    · subst hRevision
      simp [getSteppingFromHwRevId, getHwRevIdFromStepping]
    · subst hRevision
      simp [getSteppingFromHwRevId, getHwRevIdFromStepping, Ne.symm hLabels]
  · intro stepping hFirst hSecond
    simp [getHwRevIdFromStepping, hFirst, hSecond]
  · intro hFirst hSecond
    simp [getSteppingFromHwRevId, hFirst, hSecond]

/-- With the enumerators numbered `0` and `3`: the revision id of
`REVISION_B` is `1` and its stepping is `3` again, and stepping `1` is
invalid. -/
theorem dg1_stepping_round_trip_witness :
    fixtureSteppingConstants.REVISION_A0 ≠ fixtureSteppingConstants.REVISION_B
    ∧ getSteppingFromHwRevId fixtureSteppingConstants
        { platform :=
            { usRevId :=
                getHwRevIdFromStepping fixtureSteppingConstants 3
                  { platform := { usRevId := 7 } } % 2 ^ 16 } } = 3
    ∧ getHwRevIdFromStepping fixtureSteppingConstants 1 { platform := { usRevId := 7 } }
        = fixtureSteppingConstants.invalidStepping :=
  ⟨by decide,
    (dg1_stepping_round_trip fixtureSteppingConstants { platform := { usRevId := 7 } }
      (by decide)).1 3 (Or.inr rfl),
    (dg1_stepping_round_trip fixtureSteppingConstants { platform := { usRevId := 7 } }
      (by decide)).2.2.1 1 (by decide) (by decide)⟩

end NEO

/-! ## Fabric latency -/

namespace NEO

/-- C27: `getFabricLatency` returns `true` exactly when the query ioctl
returns `0`, the latency it reports is at least `10` and the bandwidth it
reports is not `0`.  Then the latency put out is the reported latency divided
by ten, rounded down, minus one, a difference that is not negative, and the
bandwidth put out is the reported bandwidth.  When it returns `false` the two
outputs keep the values they had.  The reported latency is a value of its
field, which is not wider than 32 bits. -/
theorem getFabricLatency_contract
    (ioctl : prelim_drm_i915_query_fabric_info → Int × prelim_drm_i915_query_fabric_info)
    (fabricId latency bandwidth : Nat)
    (hLatency :
      (ioctl { fabric_id := fabricId, bandwidth := 0, latency := 0 }).2.latency < 2 ^ 32) :
    ((IoctlHelperPrelim20.getFabricLatency ioctl fabricId latency bandwidth).1 = true
      ↔ (ioctl { fabric_id := fabricId, bandwidth := 0, latency := 0 }).1 = 0
        ∧ 10 ≤ (ioctl { fabric_id := fabricId, bandwidth := 0, latency := 0 }).2.latency
        ∧ (ioctl { fabric_id := fabricId, bandwidth := 0, latency := 0 }).2.bandwidth ≠ 0)
    ∧ ((IoctlHelperPrelim20.getFabricLatency ioctl fabricId latency bandwidth).1 = true →
        1 ≤ (ioctl { fabric_id := fabricId, bandwidth := 0, latency := 0 }).2.latency / 10
        ∧ (IoctlHelperPrelim20.getFabricLatency ioctl fabricId latency bandwidth).2.1
          = (ioctl { fabric_id := fabricId, bandwidth := 0, latency := 0 }).2.latency / 10 - 1
        ∧ (IoctlHelperPrelim20.getFabricLatency ioctl fabricId latency bandwidth).2.2
          = (ioctl { fabric_id := fabricId, bandwidth := 0, latency := 0 }).2.bandwidth)
    ∧ ((IoctlHelperPrelim20.getFabricLatency ioctl fabricId latency bandwidth).1 = false →
        (IoctlHelperPrelim20.getFabricLatency ioctl fabricId latency bandwidth).2.1 = latency
        ∧ (IoctlHelperPrelim20.getFabricLatency ioctl fabricId latency bandwidth).2.2
          = bandwidth) := by
  unfold IoctlHelperPrelim20.getFabricLatency
  simp only
  generalize ioctl { fabric_id := fabricId, bandwidth := 0, latency := 0 } = queried at *
  by_cases hRet : queried.1 = 0
  · by_cases hInfo : queried.2.latency < 10 ∨ queried.2.bandwidth = 0
    · simp only [hRet, hInfo, ne_eq, not_true_eq_false, if_false, if_true]
      rcases hInfo with hInfo | hInfo
      · simp [hInfo, Nat.not_le.mpr hInfo]
      · simp [hInfo]
    · simp only [hRet, hInfo, ne_eq, not_true_eq_false, if_false]
      have hTen : 10 ≤ queried.2.latency := by omega
      have hBand : queried.2.bandwidth ≠ 0 := fun h => hInfo (Or.inr h)
      have hOne : 1 ≤ queried.2.latency / 10 := by omega
      refine ⟨by simp [hTen, hBand], fun _ => ⟨hOne, ?_, trivial⟩, by simp⟩
      show L0.toUInt32 (((queried.2.latency / 10 : Nat) : Int) - 1)
        = queried.2.latency / 10 - 1
      unfold L0.toUInt32
      omega
  · simp [hRet]

/-- A query that reports latency `25` and bandwidth `7` gives latency `1`. -/
theorem getFabricLatency_contract_witness :
    (25 : Nat) < 2 ^ 32
    ∧ (IoctlHelperPrelim20.getFabricLatency
        (fun info => (0, { info with latency := 25, bandwidth := 7 })) 3 99 98).2.1
      = 25 / 10 - 1 :=
  ⟨by decide,
    ((getFabricLatency_contract
      (fun info => (0, { info with latency := 25, bandwidth := 7 })) 3 99 98
      (by decide)).2.1 (by decide)).2.1⟩

end NEO

/-! ## Extension chain of `createGemExt` -/

namespace NEO

theorem CreateGemExtLocals.chain_none (locals : CreateGemExtLocals) (fuel : Nat) :
    locals.chain fuel none = [] := by
  cases fuel <;> rfl

/-- A chunked allocation for a private address space: the chain handed to the
ioctl is the memory regions and the chunk size, without the vm-private
extension the arguments ask for (C28 as stated fails). -/
theorem createGemExt_chunked_drops_vm_private_counterexample :
    (IoctlHelperPrelim20.createGemExtLocals [{ memoryClass := 1, memoryInstance := 0 }]
        131072 (some 4) (-1) true 2 none none).map
      (fun locals => (locals.chain 6 locals.createExt.extensions).map locals.describe)
      = some
        [(CreateExtName.PRELIM_I915_GEM_CREATE_EXT_SETPARAM,
            ObjectParam.PRELIM_I915_PARAM_MEMORY_REGIONS),
          (CreateExtName.PRELIM_I915_GEM_CREATE_EXT_SETPARAM,
            ObjectParam.PRELIM_I915_PARAM_SET_CHUNK_SIZE)]
    ∧ requestedExtensions (some 4) (-1) true none
      = [(CreateExtName.PRELIM_I915_GEM_CREATE_EXT_SETPARAM,
            ObjectParam.PRELIM_I915_PARAM_MEMORY_REGIONS),
          (CreateExtName.PRELIM_I915_GEM_CREATE_EXT_SETPARAM,
            ObjectParam.PRELIM_I915_PARAM_SET_CHUNK_SIZE),
          (CreateExtName.PRELIM_I915_GEM_CREATE_EXT_VM_PRIVATE, ObjectParam.zero)] := by
  decide

/-- C28, amended: `createGemExt` reaches the ioctl exactly when a memory
policy comes with its node mask and a chunked allocation has a chunk count
that is not `0` and a chunk size that is a multiple of 64 KiB.  The chain it
then hands to the ioctl starts at the memory-regions set-param and ends at a
null address.  For an allocation that is not chunked it holds the extensions
the arguments ask for, once each and no other, in the order memory regions,
vm-private, set-pair, memory policy.  For a chunked allocation it holds the
memory regions, the chunk size and, when asked for, the memory policy: the
vm-private extension and the set-pair are left out. -/
theorem createGemExt_extension_chain (memClassInstances : List MemoryClassInstance)
    (allocSize : Nat) (vmId : Option Nat) (pairHandle : Int) (isChunked : Bool)
    (numOfChunks : Nat) (memPolicyMode : Option Nat)
    (memPolicyNodemask : Option (List Nat)) :
    ((IoctlHelperPrelim20.createGemExtLocals memClassInstances allocSize vmId pairHandle
        isChunked numOfChunks memPolicyMode memPolicyNodemask).isSome = true
      ↔ (memPolicyMode.isSome = true → memPolicyNodemask.isSome = true)
        ∧ (isChunked = true →
          numOfChunks ≠ 0
          ∧ (allocSize / numOfChunks) &&& (MemoryConstants.pageSize64k - 1) = 0))
    ∧ ∀ locals,
        IoctlHelperPrelim20.createGemExtLocals memClassInstances allocSize vmId pairHandle
          isChunked numOfChunks memPolicyMode memPolicyNodemask = some locals →
        locals.createExt.extensions = some CreateGemExtLocal.setparamRegion
        ∧ ∀ fuel, 4 ≤ fuel →
          (locals.chain fuel locals.createExt.extensions).map locals.describe
            = requestedExtensions (if isChunked = true then none else vmId)
                (if isChunked = true then -1 else pairHandle) isChunked memPolicyMode := by
  constructor
  · unfold IoctlHelperPrelim20.createGemExtLocals
    cases memPolicyMode <;> cases memPolicyNodemask <;> cases isChunked <;>
      by_cases hChunks : numOfChunks = 0 <;>
      by_cases hAligned :
        (allocSize / numOfChunks) &&& (MemoryConstants.pageSize64k - 1) = 0 <;>
      simp [hChunks, hAligned]
  · intro locals hLocals
    have hFuel : ∀ fuel, 4 ≤ fuel → ∃ more, fuel = more + 4 := fun fuel h =>
      ⟨fuel - 4, by omega⟩
    unfold IoctlHelperPrelim20.createGemExtLocals at hLocals
    cases memPolicyMode <;> cases memPolicyNodemask <;> cases isChunked <;> cases vmId <;>
      by_cases hPair : pairHandle = -1 <;>
      by_cases hChunks : numOfChunks = 0 <;>
      by_cases hAligned :
        (allocSize / numOfChunks) &&& (MemoryConstants.pageSize64k - 1) = 0 <;>
      simp [hPair, hChunks, hAligned, CreateGemExtLocals.setNext] at hLocals <;>
      subst hLocals <;>
      refine ⟨rfl, fun fuel h => ?_⟩ <;>
      obtain ⟨more, rfl⟩ := hFuel fuel h <;>
      simp [CreateGemExtLocals.chain, CreateGemExtLocals.chain_none, CreateGemExtLocals.base,
        CreateGemExtLocals.describe, requestedExtensions, i915_user_extension.zero,
        prelim_drm_i915_gem_create_ext_setparam.zero, hPair]

end NEO

/-! ## Unique identifiers -/

namespace NEO

theorem digitChar_injective :
    ∀ first, first < 16 → ∀ second, second < 16 →
      Nat.digitChar first = Nat.digitChar second → first = second := by
  decide

theorem fixedHex_length (width : Nat) : ∀ value, (fixedHex width value).length = width := by
  induction width with
  | zero => intro value; rfl
  | succ width ih =>
    intro value
    simp [fixedHex, ih]

theorem fixedHex_zero (width : Nat) : fixedHex width 0 = List.replicate width '0' := by
  induction width with
  | zero => rfl
  | succ width ih =>
    simp only [fixedHex, Nat.zero_div, Nat.zero_mod, ih]
    rw [List.replicate_succ']
    rfl

theorem fixedHex_injective (width : Nat) :
    ∀ first second, first < 16 ^ width → second < 16 ^ width →
      fixedHex width first = fixedHex width second → first = second := by
  induction width with
  | zero =>
    intro first second hFirst hSecond _
    simp at hFirst hSecond
    omega
  | succ width ih =>
    intro first second hFirst hSecond hEq
    simp only [fixedHex] at hEq
    have hParts := List.append_inj' hEq rfl
    have hHigh := ih (first / 16) (second / 16)
      (by rw [Nat.div_lt_iff_lt_mul (by decide)]; rw [Nat.pow_succ] at hFirst; exact hFirst)
      (by rw [Nat.div_lt_iff_lt_mul (by decide)]; rw [Nat.pow_succ] at hSecond; exact hSecond)
      hParts.1
    have hLow := digitChar_injective (first % 16) (Nat.mod_lt _ (by decide)) (second % 16)
      (Nat.mod_lt _ (by decide)) (by simpa using hParts.2)
    omega

theorem hexDigits_padded (width : Nat) :
    ∀ fuel value, value < 16 ^ width → value < 16 ^ fuel → 0 < width →
      List.replicate (width - (hexDigits fuel value).length) '0' ++ hexDigits fuel value
        = fixedHex width value
      ∧ (hexDigits fuel value).length ≤ width := by
  induction width with
  | zero =>
    intro fuel value _ _ hWidth
    omega
  | succ width ih =>
    intro fuel value hValue hFuel _
    cases fuel with
    | zero =>
      simp at hFuel
      subst hFuel
      simp only [hexDigits, List.length_nil, Nat.sub_zero, List.append_nil]
      exact ⟨(fixedHex_zero (width + 1)).symm, Nat.zero_le _⟩
    | succ fuel =>
      by_cases hSmall : value < 16
      · simp only [hexDigits, hSmall, if_true, List.length_singleton, Nat.add_sub_cancel,
          fixedHex]
        rw [Nat.div_eq_of_lt hSmall, Nat.mod_eq_of_lt hSmall, fixedHex_zero]
        exact ⟨rfl, by omega⟩
      · have hWidth : 0 < width := by
          rcases Nat.eq_zero_or_pos width with hZero | hPos
          · subst hZero
            simp at hValue
            omega
          · exact hPos
        have hHigh := ih fuel (value / 16)
          (by rw [Nat.div_lt_iff_lt_mul (by decide)]; rw [Nat.pow_succ] at hValue; exact hValue)
          (by rw [Nat.div_lt_iff_lt_mul (by decide)]; rw [Nat.pow_succ] at hFuel; exact hFuel)
          hWidth
        simp only [hexDigits, hSmall, if_false, List.length_append, List.length_singleton,
          fixedHex]
        refine ⟨?_, by omega⟩
        rw [← hHigh.1, Nat.add_sub_add_right, List.append_assoc]

theorem printfHex_eq_fixedHex (width value : Nat) (hWidth : 0 < width)
    (hWide : width ≤ 16) (hValue : value < 16 ^ width) :
    printfHex width value = fixedHex width value := by
  unfold printfHex
  exact (hexDigits_padded width 16 value hValue
    (Nat.lt_of_lt_of_le hValue (Nat.pow_le_pow_right (by decide) hWide)) hWidth).1

theorem uuid_parts (uuid : Nat) (hUuid : uuid < 2 ^ 64) :
    uuid &&& 0xFFFFFFFFFFFF = uuid % 2 ^ 48
    ∧ (uuid &&& 0xFFFF000000000000) >>> 48 = uuid / 2 ^ 48 := by
  constructor
  · exact Nat.and_pow_two_sub_one_eq_mod uuid 48
  · have hMask : (0xFFFF000000000000 : Nat) = 2 ^ 48 * (2 ^ 16 - 1) := by decide
    rw [← Nat.shiftRight_eq_div_pow]
    apply Nat.eq_of_testBit_eq
    intro i
    simp only [Nat.testBit_shiftRight, Nat.testBit_and, hMask, Nat.testBit_mul_pow_two,
      Nat.testBit_two_pow_sub_one]
    by_cases hBit : i < 16
    · simp [hBit]
    · have hHigh : uuid.testBit (48 + i) = false :=
        Nat.testBit_lt_two_pow
          (Nat.lt_of_lt_of_le hUuid (Nat.pow_le_pow_right (by decide) (by omega)))
      simp [hHigh]

end NEO

namespace NEO

theorem fixedHex_lowercase (width : Nat) :
    ∀ value, ∀ digit ∈ fixedHex width value, digit ∈ "0123456789abcdef".toList := by
  have hDigit : ∀ value, value < 16 → Nat.digitChar value ∈ "0123456789abcdef".toList := by
    decide
  induction width with
  | zero =>
    intro value digit hMem
    simp [fixedHex] at hMem
  | succ width ih =>
    intro value digit hMem
    simp only [fixedHex, List.mem_append, List.mem_singleton] at hMem
    rcases hMem with hMem | hMem
    · exact ih _ _ hMem
    · rw [hMem]
      exact hDigit _ (Nat.mod_lt _ (by decide))

theorem uuidText_length (uuid : Nat) : (uuidText uuid).length = 36 := by
  unfold uuidText
  simp [String.length, fixedHex_length]

theorem uuidText_injective (first second : Nat) (hFirst : first < 2 ^ 64)
    (hSecond : second < 2 ^ 64) (hText : uuidText first = uuidText second) :
    first = second := by
  unfold uuidText at hText
  have hData := congrArg String.data hText
  simp only [List.append_assoc] at hData
  have hTail := List.append_cancel_left hData
  have hParts := List.append_inj hTail (by simp [fixedHex_length])
  have hLowText := List.append_cancel_left hParts.2
  have hHigh := fixedHex_injective 4 (first / 2 ^ 48) (second / 2 ^ 48)
    (by rw [Nat.div_lt_iff_lt_mul (by decide)]; omega)
    (by rw [Nat.div_lt_iff_lt_mul (by decide)]; omega) hParts.1
  have hLow := fixedHex_injective 12 (first % 2 ^ 48) (second % 2 ^ 48)
    (Nat.mod_lt _ (by decide)) (Nat.mod_lt _ (by decide)) hLowText
  omega

theorem IoctlHelperPrelim20.generateUUID_of_lt (helper : IoctlHelperPrelim20)
    (hCounter : helper.uuid + 1 < 2 ^ 64 - 1) :
    helper.generateUUID
      = some (uuidText (helper.uuid + 1), { uuid := helper.uuid + 1 }) := by
  have hMod : (helper.uuid + 1) % 2 ^ 64 = helper.uuid + 1 := Nat.mod_eq_of_lt (by omega)
  have hParts := uuid_parts (helper.uuid + 1) (by omega)
  have hHigh := printfHex_eq_fixedHex 4 ((helper.uuid + 1) / 2 ^ 48) (by decide) (by decide)
    (by rw [Nat.div_lt_iff_lt_mul (by decide)]; omega)
  have hLow := printfHex_eq_fixedHex 12 ((helper.uuid + 1) % 2 ^ 48) (by decide) (by decide)
    (Nat.mod_lt _ (by decide))
  unfold IoctlHelperPrelim20.generateUUID
  simp only [hMod, hParts.1, hParts.2, hHigh, hLow]
  rw [if_neg (by omega)]
  rw [List.take_of_length_le (by simp [fixedHex_length])]
  rfl

theorem IoctlHelperPrelim20.generateUUIDs_of_lt (count : Nat) :
    ∀ (helper : IoctlHelperPrelim20), helper.uuid + count < 2 ^ 64 - 1 →
      IoctlHelperPrelim20.generateUUIDs count helper
        = some ((List.range count).map (fun index => uuidText (helper.uuid + 1 + index)),
            { uuid := helper.uuid + count }) := by
  induction count with
  | zero =>
    intro helper _
    rfl
  | succ count ih =>
    intro helper hCounter
    unfold IoctlHelperPrelim20.generateUUIDs
    rw [IoctlHelperPrelim20.generateUUID_of_lt helper (by omega)]
    simp only
    rw [ih { uuid := helper.uuid + 1 } (by simp only; omega)]
    simp only [List.range_succ_eq_map, List.map_cons, List.map_map, Nat.add_zero]
    refine congrArg some (Prod.ext ?_ ?_)
    · simp only [List.cons.injEq, true_and]
      apply List.map_congr_left
      intro index _
      simp only [Function.comp]
      congr 1
      omega
    · simp only [IoctlHelperPrelim20.mk.injEq]
      omega

/-- The call that brings the counter to `0xFFFFFFFFFFFFFFFF` stops in
`UNRECOVERABLE_IF` and returns no string (C26 as stated fails for that
call). -/
theorem generateUUID_saturated_counterexample :
    (0xFFFFFFFFFFFFFFFE : Nat) < 2 ^ 64
    ∧ IoctlHelperPrelim20.generateUUID { uuid := 0xFFFFFFFFFFFFFFFE } = none := by
  decide

/-- C26, amended: while the counter stays below `0xFFFFFFFFFFFFFFFF` every
call of `generateUUID` returns, and the call that brings the counter to `uuid`
returns the 36 characters `00000000-0000-0000-HHHH-LLLLLLLLLLLL` with `HHHH`
and `LLLLLLLLLLLL` the lowercase hexadecimal digits of the high 16 and the low
48 bits of `uuid`.  So the strings of `count` successive calls on one helper
are pairwise different. -/
theorem generateUUID_unique_below_saturation (helper : IoctlHelperPrelim20) (count : Nat)
    (hCounter : helper.uuid + count < 2 ^ 64 - 1) :
    ∃ strings last,
      IoctlHelperPrelim20.generateUUIDs count helper = some (strings, last)
      ∧ last.uuid = helper.uuid + count
      ∧ strings.length = count
      ∧ (∀ index, index < count →
          strings[index]? = some (uuidText (helper.uuid + 1 + index)))
      ∧ (∀ text ∈ strings, text.length = 36)
      ∧ strings.Nodup := by
  refine ⟨_, _, IoctlHelperPrelim20.generateUUIDs_of_lt count helper hCounter, rfl, ?_, ?_,
    ?_, ?_⟩
  · simp
  · intro index hIndex
    simp [hIndex]
  · intro text hText
    simp only [List.mem_map] at hText
    obtain ⟨index, _, rfl⟩ := hText
    exact uuidText_length _
  · apply List.Nodup.map_on _ (List.nodup_range count)
    intro first hFirst second hSecond hText
    simp only [List.mem_range] at hFirst hSecond
    have hSame := uuidText_injective _ _ (by omega) (by omega) hText
    omega

/-- Three calls on a helper whose counter stands at `9` return three
different strings, the first for the counter value `10`. -/
theorem generateUUID_unique_below_saturation_witness :
    (9 : Nat) + 3 < 2 ^ 64 - 1
    ∧ ∃ strings last,
      IoctlHelperPrelim20.generateUUIDs 3 { uuid := 9 } = some (strings, last)
      ∧ last.uuid = 9 + 3
      ∧ strings.length = 3
      ∧ (∀ index, index < 3 → strings[index]? = some (uuidText (9 + 1 + index)))
      ∧ (∀ text ∈ strings, text.length = 36)
      ∧ strings.Nodup :=
  ⟨by decide, generateUUID_unique_below_saturation { uuid := 9 } 3 (by decide)⟩

end NEO

/-! ## Topology of several tiles -/

namespace NEO

end NEO

/-! ## Sysman power: extended limits and the count of limits -/

namespace L0

/-- On the handle `OsPower::create` makes, whose count of limits is `0`,
`setLimitsExt` with a sustained and a peak descriptor succeeds and writes the
nodes, and `getLimitsExt` asked for two descriptors then returns
`ZE_RESULT_SUCCESS` with a count of `0` and the array as the caller passed it:
the limit `300000` does not come back (C19 as stated fails). -/
theorem limits_ext_round_trip_uncounted_counterexample :
    fixtureCreatedPowerHandle.isSubdevice = false
    ∧ fixtureCreatedPowerHandle.powerLimitCount = 0
    ∧ (fixtureCreatedPowerHandle.setLimitsExt 2 (fixtureLimits 300000 10)).1
      = ze_result_t.ZE_RESULT_SUCCESS
    ∧ (fixtureCreatedPowerHandle.setLimitsExt 2
        (fixtureLimits 300000 10)).2.pSysfsAccess.nodes "/power1_max" = 300000000
    ∧ ((fixtureCreatedPowerHandle.setLimitsExt 2 (fixtureLimits 300000 10)).2.getLimitsExt 2
        (some (fixtureLimits 0 0))).1 = ze_result_t.ZE_RESULT_SUCCESS
    ∧ ((fixtureCreatedPowerHandle.setLimitsExt 2 (fixtureLimits 300000 10)).2.getLimitsExt 2
        (some (fixtureLimits 0 0))).2.1 = 0
    ∧ ((fixtureCreatedPowerHandle.setLimitsExt 2 (fixtureLimits 300000 10)).2.getLimitsExt 2
        (some (fixtureLimits 0 0))).2.2.1 = some (fixtureLimits 0 0) := by
  decide

end L0

namespace L0

end L0

/-! ## Sysman power: the writes of `setLimitsExt` in order -/

namespace L0

theorem SysfsAccess.writeAll_spec (writes : List (String × Int)) :
    ∀ (sysfs : SysfsAccess) (done : Nat),
      (∀ index file val, index < done → writes[index]? = some (file, val) →
        sysfs.writeResult (sysfs.accessCount + index) file = ze_result_t.ZE_RESULT_SUCCESS) →
      (∀ file val, writes[done]? = some (file, val) →
        sysfs.writeResult (sysfs.accessCount + done) file ≠ ze_result_t.ZE_RESULT_SUCCESS →
        (sysfs.writeAll writes).1 = some (sysfs.writeResult (sysfs.accessCount + done) file)
        ∧ (sysfs.writeAll writes).2.nodes = storeWrites sysfs.nodes (writes.take done))
      ∧ (writes.length ≤ done →
        (sysfs.writeAll writes).1 = none
        ∧ (sysfs.writeAll writes).2.nodes = storeWrites sysfs.nodes writes) := by
  induction writes with
  | nil =>
    intro sysfs done _
    refine ⟨?_, fun _ => ⟨rfl, rfl⟩⟩
    intro file val hAt
    simp at hAt
  | cons write rest ih =>
    intro sysfs done hDone
    cases done with
    | zero =>
      refine ⟨?_, ?_⟩
      · intro file val hAt hFails
        simp only [List.getElem?_cons_zero, Option.some.injEq] at hAt
        subst hAt
        simp only [Nat.add_zero] at hFails ⊢
        unfold SysfsAccess.writeAll
        simp only [SysfsAccess.write_fst, SysfsAccess.write_snd, hFails, if_false]
        exact ⟨trivial, rfl⟩
      · intro hLength
        simp at hLength
    | succ done =>
      have hFirst := hDone 0 write.1 write.2 (Nat.succ_pos _) (by simp)
      simp only [Nat.add_zero] at hFirst
      have hRest := ih (sysfs.write write.1 write.2).2 done (by
        intro index file val hLt hAt
        have hShift := hDone (index + 1) file val (by omega)
          (by simpa [List.getElem?_cons_succ] using hAt)
        simp only [SysfsAccess.write_snd]
        rw [← hShift]
        congr 1
        omega)
      unfold SysfsAccess.writeAll
      simp only [SysfsAccess.write_fst, hFirst, if_true]
      have hCount : (sysfs.write write.1 write.2).2.accessCount + done
          = sysfs.accessCount + (done + 1) := by
        simp only [SysfsAccess.write_snd]
        omega
      have hResult : (sysfs.write write.1 write.2).2.writeResult = sysfs.writeResult := by
        simp only [SysfsAccess.write_snd]
      have hNodes : (sysfs.write write.1 write.2).2.nodes
          = Function.update sysfs.nodes write.1 write.2 := by
        simp only [SysfsAccess.write_snd, hFirst, if_true]
      rw [hCount, hResult, hNodes] at hRest
      refine ⟨?_, ?_⟩
      · intro file val hAt hFails
        exact hRest.1 file val (by simpa [List.getElem?_cons_succ] using hAt) hFails
      · intro hLength
        exact hRest.2 (by simpa using hLength)

theorem LinuxPowerImp.limitWritesOf_congr (first second : LinuxPowerImp)
    (hDir : first.i915HwmonDir = second.i915HwmonDir)
    (hFamily : first.productFamily = second.productFamily)
    (descs : List zes_power_limit_ext_desc_t) :
    first.limitWritesOf descs = second.limitWritesOf descs := by
  induction descs with
  | nil => rfl
  | cons desc rest ih =>
    simp only [LinuxPowerImp.limitWritesOf, LinuxPowerImp.limitWrites,
      LinuxPowerImp.criticalPowerLimit, hDir, hFamily, ih]

theorem LinuxPowerImp.limitWritesOf_sysfs (handle : LinuxPowerImp) (sysfs : SysfsAccess)
    (descs : List zes_power_limit_ext_desc_t) :
    LinuxPowerImp.limitWritesOf { handle with pSysfsAccess := sysfs } descs
      = handle.limitWritesOf descs :=
  LinuxPowerImp.limitWritesOf_congr { handle with pSysfsAccess := sysfs } handle rfl rfl descs

theorem LinuxPowerImp.setLimitsExtLoop_eq_writeAll (descs : List zes_power_limit_ext_desc_t) :
    ∀ (handle : LinuxPowerImp),
      (handle.setLimitsExtLoop descs).1
          = (match (handle.pSysfsAccess.writeAll (handle.limitWritesOf descs)).1 with
            | some result => some (getErrorCode result)
            | none =>
              if descs.all LinuxPowerImp.isLimitLevel = true then none
              else some ze_result_t.ZE_RESULT_ERROR_UNSUPPORTED_FEATURE)
      ∧ (handle.setLimitsExtLoop descs).2.pSysfsAccess
          = (handle.pSysfsAccess.writeAll (handle.limitWritesOf descs)).2 := by
  induction descs with
  | nil =>
    intro handle
    exact ⟨rfl, rfl⟩
  | cons desc rest ih =>
    intro handle
    by_cases hSustained : desc.level = zes_power_level_t.ZES_POWER_LEVEL_SUSTAINED
    · unfold LinuxPowerImp.setLimitsExtLoop
      simp only [LinuxPowerImp.limitWritesOf, LinuxPowerImp.limitWrites,
        LinuxPowerImp.isLimitLevel, hSustained, decide_True, Bool.true_or, if_true,
        List.cons_append, List.nil_append, SysfsAccess.writeAll, List.all_cons, Bool.true_and]
      by_cases hFirst : (handle.pSysfsAccess.write
          (handle.i915HwmonDir ++ "/" ++ LinuxPowerImp.sustainedPowerLimit)
          ((toUInt64 desc.limit * milliFactor % 2 ^ 64 : Nat) : Int)).1
          = ze_result_t.ZE_RESULT_SUCCESS
      · by_cases hSecond : ((handle.pSysfsAccess.write
            (handle.i915HwmonDir ++ "/" ++ LinuxPowerImp.sustainedPowerLimit)
            ((toUInt64 desc.limit * milliFactor % 2 ^ 64 : Nat) : Int)).2.write
            (handle.i915HwmonDir ++ "/" ++ LinuxPowerImp.sustainedPowerLimitInterval)
            desc.interval).1 = ze_result_t.ZE_RESULT_SUCCESS
        · simp only [hFirst, hSecond, ne_eq, not_true_eq_false, if_false, if_true]
          have hNext := ih
            { handle with
              pSysfsAccess :=
                ((handle.pSysfsAccess.write
                  (handle.i915HwmonDir ++ "/" ++ LinuxPowerImp.sustainedPowerLimit)
                  ((toUInt64 desc.limit * milliFactor % 2 ^ 64 : Nat) : Int)).2.write
                  (handle.i915HwmonDir ++ "/" ++ LinuxPowerImp.sustainedPowerLimitInterval)
                  desc.interval).2 }
          rw [LinuxPowerImp.limitWritesOf_sysfs] at hNext
          exact hNext
        · simp only [hFirst, hSecond, ne_eq, not_true_eq_false, if_false, if_true,
            success_eq_iff, not_false_eq_true]
          exact ⟨trivial, trivial⟩
      · simp only [hFirst, ne_eq, if_false, if_true, success_eq_iff, not_false_eq_true]
        exact ⟨trivial, trivial⟩
    · by_cases hPeak : desc.level = zes_power_level_t.ZES_POWER_LEVEL_PEAK
      · unfold LinuxPowerImp.setLimitsExtLoop
        simp only [LinuxPowerImp.limitWritesOf, LinuxPowerImp.limitWrites,
          LinuxPowerImp.isLimitLevel, hPeak, reduceCtorEq, decide_True, decide_False,
          Bool.false_or, Bool.or_true, if_true, if_false, List.cons_append, List.nil_append,
          SysfsAccess.writeAll, List.all_cons, Bool.true_and]
        by_cases hFirst : (handle.pSysfsAccess.write
            (handle.i915HwmonDir ++ "/" ++ handle.criticalPowerLimit)
            (((if handle.productFamily = PRODUCT_FAMILY.IGFX_PVC then toUInt64 desc.limit
              else toUInt64 desc.limit * milliFactor % 2 ^ 64) : Nat) : Int)).1
            = ze_result_t.ZE_RESULT_SUCCESS
        · simp only [hFirst, ne_eq, not_true_eq_false, if_false, if_true]
          have hNext := ih
            { handle with
              pSysfsAccess :=
                (handle.pSysfsAccess.write
                  (handle.i915HwmonDir ++ "/" ++ handle.criticalPowerLimit)
                  (((if handle.productFamily = PRODUCT_FAMILY.IGFX_PVC then
                      toUInt64 desc.limit
                    else toUInt64 desc.limit * milliFactor % 2 ^ 64) : Nat) : Int)).2 }
          rw [LinuxPowerImp.limitWritesOf_sysfs] at hNext
          exact hNext
        · simp only [hFirst, ne_eq, if_false, if_true, success_eq_iff, not_false_eq_true]
          exact ⟨trivial, trivial⟩
      · unfold LinuxPowerImp.setLimitsExtLoop
        simp [LinuxPowerImp.limitWritesOf, LinuxPowerImp.isLimitLevel, hSustained, hPeak,
          SysfsAccess.writeAll]

end L0

namespace L0

theorem LinuxPowerImp.setLimitsExt_of_device (handle : LinuxPowerImp) (pCount : Nat)
    (pSustained : List zes_power_limit_ext_desc_t) (hDevice : handle.isSubdevice = false) :
    (handle.setLimitsExt pCount pSustained).1
        = ((handle.setLimitsExtLoop (pSustained.take pCount)).1).getD
            ze_result_t.ZE_RESULT_SUCCESS
    ∧ (handle.setLimitsExt pCount pSustained).2
        = (handle.setLimitsExtLoop (pSustained.take pCount)).2 := by
  unfold LinuxPowerImp.setLimitsExt
  simp only [hDevice, Bool.false_eq_true, if_false]
  split <;> rename_i hLoop <;> rw [hLoop] <;> exact ⟨rfl, rfl⟩

/-- C24, amended: `setLimitsExt` is not rolled back; it makes the writes of
the first `pCount` descriptors in array order and stops at the first step
that fails.  A tile-level handle returns
`ZE_RESULT_ERROR_UNSUPPORTED_FEATURE` and modifies nothing.  On a device-level
handle the writes are, per descriptor, the limit in milliwatts to the
sustained-limit node and then the interval to the sustained-interval node for
SUSTAINED, and the limit to the critical-limit node for PEAK (unscaled on
PVC), up to the first descriptor of another level.  When the first `done` of
these writes succeed and the next one fails, the call returns the error code
of that write and the nodes hold exactly the values of the first `done`
writes, stored in order over the nodes before the call; when all of them
succeed, the nodes hold the values of all the writes, and the call returns
`ZE_RESULT_SUCCESS` if every descriptor is SUSTAINED or PEAK and
`ZE_RESULT_ERROR_UNSUPPORTED_FEATURE` otherwise. -/
theorem setLimitsExt_applies_in_order (handle : LinuxPowerImp) (pCount : Nat)
    (pSustained : List zes_power_limit_ext_desc_t) (done : Nat)
    (hDone : ∀ index file val, index < done →
      (handle.limitWritesOf (pSustained.take pCount))[index]? = some (file, val) →
      handle.pSysfsAccess.writeResult (handle.pSysfsAccess.accessCount + index) file
        = ze_result_t.ZE_RESULT_SUCCESS) :
    (handle.isSubdevice = true →
      handle.setLimitsExt pCount pSustained
        = (ze_result_t.ZE_RESULT_ERROR_UNSUPPORTED_FEATURE, handle))
    ∧ (handle.isSubdevice = false →
      (∀ file val,
        (handle.limitWritesOf (pSustained.take pCount))[done]? = some (file, val) →
        handle.pSysfsAccess.writeResult (handle.pSysfsAccess.accessCount + done) file
          ≠ ze_result_t.ZE_RESULT_SUCCESS →
        (handle.setLimitsExt pCount pSustained).1
            = getErrorCode
                (handle.pSysfsAccess.writeResult (handle.pSysfsAccess.accessCount + done) file)
        ∧ (handle.setLimitsExt pCount pSustained).2.pSysfsAccess.nodes
            = storeWrites handle.pSysfsAccess.nodes
                ((handle.limitWritesOf (pSustained.take pCount)).take done))
      ∧ ((handle.limitWritesOf (pSustained.take pCount)).length ≤ done →
        (handle.setLimitsExt pCount pSustained).1
            = (if (pSustained.take pCount).all LinuxPowerImp.isLimitLevel = true then
                ze_result_t.ZE_RESULT_SUCCESS
              else ze_result_t.ZE_RESULT_ERROR_UNSUPPORTED_FEATURE)
        ∧ (handle.setLimitsExt pCount pSustained).2.pSysfsAccess.nodes
            = storeWrites handle.pSysfsAccess.nodes
                (handle.limitWritesOf (pSustained.take pCount)))) := by
  refine ⟨?_, ?_⟩
  · intro hSubdevice
    unfold LinuxPowerImp.setLimitsExt
    simp only [hSubdevice, if_true]
  · intro hDevice
    obtain ⟨hResult, hAfter⟩ := LinuxPowerImp.setLimitsExt_of_device handle pCount pSustained
      hDevice
    obtain ⟨hLoopResult, hLoopAfter⟩ :=
      LinuxPowerImp.setLimitsExtLoop_eq_writeAll (pSustained.take pCount) handle
    obtain ⟨hFails, hAll⟩ := SysfsAccess.writeAll_spec
      (handle.limitWritesOf (pSustained.take pCount)) handle.pSysfsAccess done hDone
    rw [hResult, hAfter, hLoopResult, hLoopAfter]
    refine ⟨?_, ?_⟩
    · intro file val hAt hWrite
      obtain ⟨hFirst, hNodes⟩ := hFails file val hAt hWrite
      rw [hFirst, hNodes]
      exact ⟨rfl, rfl⟩
    · intro hLength
      obtain ⟨hFirst, hNodes⟩ := hAll hLength
      rw [hFirst, hNodes]
      refine ⟨?_, rfl⟩
      split_ifs <;> rfl

/-- The theorem `setLimitsExt_applies_in_order` on two calls.  The interval
write of a sustained descriptor fails after the limit write: the error is
returned and the limit node keeps the new value `300000000`.  A sustained
descriptor followed by a BURST descriptor: both sustained writes are kept and
the call returns `ZE_RESULT_ERROR_UNSUPPORTED_FEATURE`. -/
theorem setLimitsExt_applies_in_order_witness :
    (((fixturePowerHandleOver fixtureSysfsSecondWriteFails).setLimitsExt 1
          [fixtureSustainedDesc 300000 10]).1
        = ze_result_t.ZE_RESULT_ERROR_INSUFFICIENT_PERMISSIONS
      ∧ ((fixturePowerHandleOver fixtureSysfsSecondWriteFails).setLimitsExt 1
          [fixtureSustainedDesc 300000 10]).2.pSysfsAccess.nodes
        = storeWrites (fun _ => 0) [("device/hwmon/hwmon1/power1_max", 300000000)])
    ∧ (((fixturePowerHandle PRODUCT_FAMILY.IGFX_PVC).setLimitsExt 2
          [fixtureSustainedDesc 300000 10, fixtureBurstDesc 1]).1
        = ze_result_t.ZE_RESULT_ERROR_UNSUPPORTED_FEATURE
      ∧ ((fixturePowerHandle PRODUCT_FAMILY.IGFX_PVC).setLimitsExt 2
          [fixtureSustainedDesc 300000 10, fixtureBurstDesc 1]).2.pSysfsAccess.nodes
        = storeWrites (fun _ => 0)
            [("device/hwmon/hwmon1/power1_max", 300000000),
              ("device/hwmon/hwmon1/power1_max_interval", 10)]) :=
  ⟨((setLimitsExt_applies_in_order (fixturePowerHandleOver fixtureSysfsSecondWriteFails) 1
      [fixtureSustainedDesc 300000 10] 1
      (fun index _ _ hLt _ => by
        have hZero : index = 0 := by omega
        subst hZero
        rfl)).2 rfl).1
      "device/hwmon/hwmon1/power1_max_interval" 10 (by decide) (by decide),
    ((setLimitsExt_applies_in_order (fixturePowerHandle PRODUCT_FAMILY.IGFX_PVC) 2
      [fixtureSustainedDesc 300000 10, fixtureBurstDesc 1] 2
      (fun _ _ _ _ _ => rfl)).2 rfl).2 (by decide)⟩

end L0
